import Mathlib

/-!
Verification of the Dancing Links (Algorithm X) core of `sudoku.py`.

The Python program represents the sparse 0/1 matrix as a web of `Node`
objects, each holding `up`, `down`, `left`, `right`, `column`, `row`
references (plus `size` on column headers and `name` on row headers).
We embed this heap shallowly: every node gets a numeric id (in the order
Python would allocate the objects: root = 0, then the column headers,
then per input row a row header followed by its value nodes), and the
heap is a finite map from ids to node records.  The map is a binary trie
so that closed runs of the solver reduce inside the kernel.

All loops of the source are embedded fuel-indexed; a fuel-exhausted run
returns `none`, so a theorem asserting `... = some r` certifies both
termination of the loop and its result.
-/

set_option maxRecDepth 4000000
set_option maxHeartbeats 16000000
set_option exponentiation.threshold 70000
set_option synthInstance.maxHeartbeats 4000000

namespace Sudoku

/-- Binary trie over positive positions (position `k+1` stores key `k`). -/
inductive NTree (α : Type) where
  | nil : NTree α
  | node (val : Option α) (l r : NTree α) : NTree α
  deriving Repr, DecidableEq

namespace NTree

/-- Lookup at heap position `p ≥ 1`; `f` is fuel bounding the path length. -/
def getP {α : Type} : Nat → NTree α → Nat → Option α
  | 0, _, _ => none
  | _ + 1, .nil, _ => none
  | f + 1, .node v l r, p =>
    if p ≤ 1 then v
    else if p % 2 = 0 then getP f l (p / 2) else getP f r (p / 2)

/-- Update at heap position `p ≥ 1`; `f` is fuel bounding the path length. -/
def setP {α : Type} : Nat → NTree α → Nat → α → NTree α
  | 0, t, _, _ => t
  | f + 1, .nil, p, x =>
    if p ≤ 1 then .node (some x) .nil .nil
    else if p % 2 = 0 then .node none (setP f .nil (p / 2) x) .nil
    else .node none .nil (setP f .nil (p / 2) x)
  | f + 1, .node v l r, p, x =>
    if p ≤ 1 then .node (some x) l r
    else if p % 2 = 0 then .node v (setP f l (p / 2) x) r
    else .node v l (setP f r (p / 2) x)

def get {α : Type} (t : NTree α) (k : Nat) : Option α := getP (k + 2) t (k + 1)

def set {α : Type} (t : NTree α) (k : Nat) (x : α) : NTree α :=
  setP (k + 2) t (k + 1) x

/-- Constantly `true` (see `probe_eq_true`); forcing it evaluates the
whole tree, spine and stored values. -/
def probe {α : Type} (f : α → Bool) : NTree α → Bool
  | .nil => true
  | .node v l r =>
    (match v with
     | none => true
     | some x => f x) && probe f l && probe f r

/-- Structural identity (`normalize_eq`).  Rebuilding the tree collapses
accumulated update layers, so closed kernel runs that interleave a
rebuild keep both the reduction depth and the re-evaluation cost of long
update sequences bounded.  Semantically inert. -/
def normalize {α : Type} : NTree α → NTree α
  | .nil => .nil
  | .node v l r => .node v (normalize l) (normalize r)

end NTree

/-- One heap object of the Python program (`Node.__init__`): all six links
start as `self`; `size` is only ever given a meaning on column headers;
`name` is set only when the constructor argument is truthy (`if name:`),
so it is an `Option`, `none` standing for the absent attribute. -/
structure Node (α : Type) where
  up : Nat
  down : Nat
  left : Nat
  right : Nat
  column : Nat
  row : Nat
  size : Nat := 0
  name : Option α := none
  deriving Repr, DecidableEq

/-- `Node(name)` at address `i`: every reference field points to itself. -/
def Node.fresh (α : Type) (i : Nat) (nm : Option α) : Node α :=
  { up := i, down := i, left := i, right := i, column := i, row := i,
    size := 0, name := nm }

/-- Base of the packed field maps: every node address and every `size`
value in a run fits below it. -/
def SLOT : Nat := 65536

/-- Digit `i` of `N` in base `SLOT`: the value of a per-node field map at
address `i`.  Packing each field map into one numeral keeps closed kernel
runs in the fast arithmetic fragment. -/
def fget (N i : Nat) : Nat := (N >>> (16 * i)) % SLOT

/-- Overwrite digit `i` of `N` with `v` (for `v < SLOT`). -/
def fset (N i v : Nat) : Nat :=
  N % Nat.pow SLOT i + v * Nat.pow SLOT i
    + N / (Nat.pow SLOT i * SLOT) * (Nat.pow SLOT i * SLOT)

/-- The mutable state of a `DLX` object: one packed map per node field
(`root` lives at address 0), the immutable name attributes, the
`self.rows` / `self.cols` counters, and the next fresh address (Python's
object allocator). -/
structure DLX (α : Type) where
  up : Nat
  down : Nat
  left : Nat
  right : Nat
  column : Nat
  row : Nat
  size : Nat
  names : NTree α
  rows : Int
  cols : Int
  nextId : Nat
  deriving Repr, DecidableEq

namespace DLX

variable {α : Type}

/-- Dereference address `i`: the node record assembled from the field
maps.  Addresses that were never allocated read as zero links with no
name; the runs we study only dereference live addresses. -/
def node (s : DLX α) (i : Nat) : Node α :=
  { up := fget s.up i, down := fget s.down i, left := fget s.left i,
    right := fget s.right i, column := fget s.column i, row := fget s.row i,
    size := fget s.size i, name := s.names.get i }

def setUp (s : DLX α) (i v : Nat) : DLX α := { s with up := fset s.up i v }
def setDown (s : DLX α) (i v : Nat) : DLX α := { s with down := fset s.down i v }
def setLeft (s : DLX α) (i v : Nat) : DLX α := { s with left := fset s.left i v }
def setRight (s : DLX α) (i v : Nat) : DLX α := { s with right := fset s.right i v }
def setColumn (s : DLX α) (i v : Nat) : DLX α := { s with column := fset s.column i v }
def setRowF (s : DLX α) (i v : Nat) : DLX α := { s with row := fset s.row i v }
def setSize (s : DLX α) (i v : Nat) : DLX α := { s with size := fset s.size i v }

/-- `Node.__init__` at a fresh address: `self.up = self.down = self.right
= self.left = self.column = self.row = self`; the `name` attribute is set
only when the constructor argument is truthy (`if name:`). -/
def alloc (s : DLX α) (nm : Option α) : Nat × DLX α :=
  let i := s.nextId
  let s := s.setUp i i
  let s := s.setDown i i
  let s := s.setLeft i i
  let s := s.setRight i i
  let s := s.setColumn i i
  let s := s.setRowF i i
  let s := s.setSize i 0
  let s := match nm with
    | none => s
    | some x => { s with names := s.names.set i x }
  (i, { s with nextId := i + 1 })

/-- `DLX.__init__`, column-header phase, one iteration of
`for j in range(self.cols)`. -/
def addCol (s : DLX α) : DLX α :=
  let (cid, s) := s.alloc none
  -- col_node.left = self.root.left ; col_node.right = self.root ; col_node.size = 0
  let rl := fget s.left 0
  let s := s.setLeft cid rl
  let s := s.setRight cid 0
  let s := s.setSize cid 0
  -- self.root.left.right = col_node ; self.root.left = col_node
  let s := s.setRight rl cid
  s.setLeft 0 cid

def addCols (s : DLX α) : Nat → DLX α
  | 0 => s
  | j + 1 =>
    let s1 := s.addCol
    if 0 < s1.up + s1.down + s1.left + s1.right + s1.column + s1.row + s1.size + s1.nextId + 1
    then addCols s1 j else addCols s1 j

/-- One `1`-cell of the inner loop of `DLX.__init__`: allocate the value
node and splice it into its row ring and column ring (`col_node.size += 1`
included), statement for statement. -/
def spliceCell (s : DLX α) (rid colNode : Nat) : DLX α :=
  let (vid, s) := s.alloc none
  -- value_node.left = row_node.left ; value_node.right = row_node
  -- value_node.up = col_node.up ; value_node.down = value_node.column = col_node
  -- value_node.row = row_node
  let rl := fget s.left rid
  let cu := fget s.up colNode
  let s := s.setLeft vid rl
  let s := s.setRight vid rid
  let s := s.setUp vid cu
  let s := s.setDown vid colNode
  let s := s.setColumn vid colNode
  let s := s.setRowF vid rid
  -- row_node.left.right = value_node ; row_node.left = value_node
  let s := s.setRight rl vid
  let s := s.setLeft rid vid
  -- col_node.size += 1
  let s := s.setSize colNode (fget s.size colNode + 1)
  -- col_node.up.down = value_node ; col_node.up = value_node
  let s := s.setDown cu vid
  s.setUp colNode vid

/-- `DLX.__init__`, inner loop `for j in range(self.cols)` of the row
phase: walk `col_node = col_node.right` and splice a value node wherever
the input row has a `1`.  `rowBits` is the remaining slice of the input
row; field reads are `fget` on the packed maps, definitionally
`(s.node _).right` etc. -/
def addRowCells : DLX α → Nat → Nat → List Bool → DLX α
  | s, _, _, [] => s
  | s, rid, colNode, b :: rest =>
    -- col_node = col_node.right
    let colNode := fget s.right colNode
    if b then addRowCells (spliceCell s rid colNode) rid colNode rest
    else addRowCells s rid colNode rest

/-- `DLX.__init__`, one iteration of `for i in range(self.rows)`:
create the row header, splice it into the root's vertical ring, then run
the inner loop.  `truthy` models Python's `if name:` in `Node.__init__`. -/
def addRow (truthy : α → Bool) (s : DLX α) (nm : α) (rowBits : List Bool) : DLX α :=
  let (rid, s) := s.alloc (if truthy nm then some nm else none)
  -- row_node.down = self.root ; row_node.up = self.root.up ; row_node.column = col_node (= root)
  let ru := fget s.up 0
  let s := s.setDown rid 0
  let s := s.setUp rid ru
  let s := s.setColumn rid 0
  -- self.root.up.down = row_node ; self.root.up = row_node
  let s := s.setDown ru rid
  let s := s.setUp 0 rid
  addRowCells s rid 0 rowBits

def addRows (truthy : α → Bool) : DLX α → List (α × List Bool) → DLX α
  | s, [] => s
  | s, (nm, bits) :: rest =>
    let s1 := addRow truthy s nm bits
    if 0 < s1.up + s1.down + s1.left + s1.right + s1.column + s1.row + s1.size + s1.nextId + 1
    then addRows truthy s1 rest else addRows truthy s1 rest

/-- `DLX.__init__` up to (not including) the row phase: the zero state,
the root node at address 0, and the column headers. -/
def preRows (m : List (List Bool)) : DLX α :=
  let C := (m.headD []).length
  let s : DLX α :=
    { up := 0, down := 0, left := 0, right := 0, column := 0, row := 0,
      size := 0, names := NTree.nil, rows := m.length, cols := C, nextId := 0 }
  let (_, s) := s.alloc none
  s.addCols C

/-- `DLX.__init__(idx_matrix, idx_names)`: the matrix is a list of rows of
booleans (assumed rectangular, as a numpy array is), names are paired with
their rows.  Address 0 is the root node. -/
def make (truthy : α → Bool) (m : List (List Bool)) (names : List α) : DLX α :=
  addRows truthy (preRows m) (names.zip m)

/-- `cover_col` loop body: `value_node.left.right = value_node.right;
value_node.right.left = value_node.left` (each statement reads the current
heap, exactly as Python does). -/
def hUnlink (s : DLX α) (v : Nat) : DLX α :=
  let s1 := s.setRight (s.node v).left (s.node v).right
  s1.setLeft (s1.node v).right (s1.node v).left

/-- `uncover_col` loop body: `value_node.left.right = value_node;
value_node.right.left = value_node`. -/
def hRelink (s : DLX α) (v : Nat) : DLX α :=
  let s1 := s.setRight (s.node v).left v
  s1.setLeft (s1.node v).right v

/-- `cover_row` loop body: `value_node.up.down = value_node.down;
value_node.down.up = value_node.up`. -/
def vUnlink (s : DLX α) (v : Nat) : DLX α :=
  let s1 := s.setDown (s.node v).up (s.node v).down
  s1.setUp (s1.node v).down (s1.node v).up

/-- `uncover_row` loop body: `value_node.up.down = value_node;
value_node.down.up = value_node`. -/
def vRelink (s : DLX α) (v : Nat) : DLX α :=
  let s1 := s.setDown (s.node v).up v
  s1.setUp (s1.node v).down v

/-- The `while True` loop of `cover_col`: unlink, step `down`, stop when
back at the column header. -/
def coverColLoop : Nat → DLX α → Nat → Nat → Option (DLX α)
  | 0, _, _, _ => none
  | f + 1, s, c, v =>
    let s1 := hUnlink s v
    let v1 := (s1.node v).down
    if v1 = c then some s1 else coverColLoop f s1 c v1

/-- `DLX.cover_col(col_node)` (also decrements `self.cols`). -/
def coverCol (f : Nat) (s : DLX α) (c : Nat) : Option (DLX α) :=
  (coverColLoop f s c c).map fun s1 => { s1 with cols := s1.cols - 1 }

/-- The `while True` loop of `uncover_col`: step `up`, relink, stop at the
column header. -/
def uncoverColLoop : Nat → DLX α → Nat → Nat → Option (DLX α)
  | 0, _, _, _ => none
  | f + 1, s, c, v =>
    let v1 := (s.node v).up
    let s1 := hRelink s v1
    if v1 = c then some s1 else uncoverColLoop f s1 c v1

/-- `DLX.uncover_col(col_node)` (also increments `self.cols`). -/
def uncoverCol (f : Nat) (s : DLX α) (c : Nat) : Option (DLX α) :=
  (uncoverColLoop f s c c).map fun s1 => { s1 with cols := s1.cols + 1 }

/-- The `while True` loop of `cover_row`: unlink vertically, step `right`,
stop at the row header. -/
def coverRowLoop : Nat → DLX α → Nat → Nat → Option (DLX α)
  | 0, _, _, _ => none
  | f + 1, s, r, v =>
    let s1 := vUnlink s v
    let v1 := (s1.node v).right
    if v1 = r then some s1 else coverRowLoop f s1 r v1

/-- `DLX.cover_row(row_node)` (also decrements `self.rows`). -/
def coverRow (f : Nat) (s : DLX α) (r : Nat) : Option (DLX α) :=
  (coverRowLoop f s r r).map fun s1 => { s1 with rows := s1.rows - 1 }

/-- The `while True` loop of `uncover_row`: step `left`, relink vertically,
stop at the row header. -/
def uncoverRowLoop : Nat → DLX α → Nat → Nat → Option (DLX α)
  | 0, _, _, _ => none
  | f + 1, s, r, v =>
    let v1 := (s.node v).left
    let s1 := vRelink s v1
    if v1 = r then some s1 else uncoverRowLoop f s1 r v1

/-- `DLX.uncover_row(row_node)` (also increments `self.rows`). -/
def uncoverRow (f : Nat) (s : DLX α) (r : Nat) : Option (DLX α) :=
  (uncoverRowLoop f s r r).map fun s1 => { s1 with rows := s1.rows + 1 }

/-- `cover_col_rows` second phase: `value_node = col_node.down; while
value_node != col_node: cover_row(value_node.row); value_node =
value_node.down` (the `down` step reads the heap after the `cover_row`). -/
def coverColRowsLoop : Nat → DLX α → Nat → Nat → Option (DLX α)
  | 0, _, _, _ => none
  | f + 1, s, c, v =>
    if v = c then some s
    else
      match coverRow (f + 1) s ((s.node v).row) with
      | none => none
      | some s1 => coverColRowsLoop f s1 c ((s1.node v).down)

/-- `DLX.cover_col_rows(col_node)`. -/
def coverColRows (f : Nat) (s : DLX α) (c : Nat) : Option (DLX α) :=
  match coverCol f s c with
  | none => none
  | some s1 => coverColRowsLoop f s1 c ((s1.node c).down)

/-- `uncover_col_rows` first phase: `value_node = col_node.up; while
value_node != col_node: uncover_row(value_node.row); value_node =
value_node.up`. -/
def uncoverColRowsLoop : Nat → DLX α → Nat → Nat → Option (DLX α)
  | 0, _, _, _ => none
  | f + 1, s, c, v =>
    if v = c then some s
    else
      match uncoverRow (f + 1) s ((s.node v).row) with
      | none => none
      | some s1 => uncoverColRowsLoop f s1 c ((s1.node v).up)

/-- `DLX.uncover_col_rows(col_node)`. -/
def uncoverColRows (f : Nat) (s : DLX α) (c : Nat) : Option (DLX α) :=
  match uncoverColRowsLoop f s c ((s.node c).up) with
  | none => none
  | some s1 => uncoverCol f s1 c

/-- `cover_row_cols_rows` second phase: walk `right` from the row header,
covering `value_node.column` with its rows. -/
def coverRowColsRowsLoop : Nat → DLX α → Nat → Nat → Option (DLX α)
  | 0, _, _, _ => none
  | f + 1, s, r, v =>
    if v = r then some s
    else
      match coverColRows (f + 1) s ((s.node v).column) with
      | none => none
      | some s1 => coverRowColsRowsLoop f s1 r ((s1.node v).right)

/-- `DLX.cover_row_cols_rows(row_node)` — the "commit to this row"
operation. -/
def coverRowColsRows (f : Nat) (s : DLX α) (r : Nat) : Option (DLX α) :=
  match coverRow f s r with
  | none => none
  | some s1 => coverRowColsRowsLoop f s1 r ((s1.node r).right)

/-- `uncover_row_cols_rows` first phase: walk `left` from the row header,
uncovering `value_node.column` with its rows. -/
def uncoverRowColsRowsLoop : Nat → DLX α → Nat → Nat → Option (DLX α)
  | 0, _, _, _ => none
  | f + 1, s, r, v =>
    if v = r then some s
    else
      match uncoverColRows (f + 1) s ((s.node v).column) with
      | none => none
      | some s1 => uncoverRowColsRowsLoop f s1 r ((s1.node v).left)

/-- `DLX.uncover_row_cols_rows(row_node)`. -/
def uncoverRowColsRows (f : Nat) (s : DLX α) (r : Nat) : Option (DLX α) :=
  match uncoverRowColsRowsLoop f s r ((s.node r).left) with
  | none => none
  | some s1 => uncoverRow f s1 r

/-- The column-choice loop of `DLX.solve` (lines `column_node =
self.root.right; c_min = column_node; while column_node != self.root: if
column_node.size < c_min.size: c_min = column_node; column_node =
column_node.right`). -/
def pickColLoop : Nat → DLX α → Nat → Nat → Option Nat
  | 0, _, _, _ => none
  | f + 1, s, cmin, cn =>
    if cn = 0 then some cmin
    else
      let cmin1 := if (s.node cn).size < (s.node cmin).size then cn else cmin
      pickColLoop f s cmin1 ((s.node cn).right)

/-- Result of a `DLX.solve` call: either the Python-level crash from
reading the absent `name` attribute of an unnamed row header
(`AttributeError`), or the final heap together with the returned value
(`none` = Python `None`, `some l` = a list of names). -/
inductive SolveRes (α : Type) where
  | attrError : SolveRes α
  | done (s : DLX α) (sol : Option (List α)) : SolveRes α

/-- Result of the branch loop inside `solve`: the heap, the `sol` local and
the final `value_node` local when the loop exits (by `break` or by reaching
`c_min`). -/
inductive BranchRes (α : Type) where
  | attrError : BranchRes α
  | out (s : DLX α) (sol : Option (List α)) (v : Nat) : BranchRes α

/-- The `while value_node != c_min` branch loop of `DLX.solve`; `go` is the
recursive `self.solve()` call made with one unit less fuel. -/
def solveBranch (go : DLX α → Option (SolveRes α)) :
    Nat → DLX α → Nat → Nat → Option (BranchRes α)
  | 0, _, _, _ => none
  | f + 1, s, c, v =>
    if v = c then some (.out s none v)
    else
      match coverRowColsRows (f + 1) s ((s.node v).row) with
      | none => none
      | some s1 =>
        match go s1 with
        | none => none
        | some .attrError => some .attrError
        | some (.done s2 sol) =>
          match uncoverRowColsRows (f + 1) s2 ((s2.node v).row) with
          | none => none
          | some s3 =>
            match sol with
            | some _ => some (.out s3 sol v)
            | none => solveBranch go f s3 c ((s3.node v).down)

/-- `DLX.solve()`. -/
def solve : Nat → DLX α → Option (SolveRes α)
  | 0, _ => none
  | f + 1, s =>
    -- if self.root.right == self.root: return []
    if (s.node 0).right = 0 then some (.done s (some []))
    else
      match pickColLoop (f + 1) s ((s.node 0).right) ((s.node 0).right) with
      | none => none
      | some cmin =>
        -- if c_min.size == 0: return None
        if (s.node cmin).size = 0 then some (.done s none)
        else
          match coverColRows (f + 1) s cmin with
          | none => none
          | some s1 =>
            match solveBranch (solve f) (f + 1) s1 cmin ((s1.node cmin).down) with
            | none => none
            | some .attrError => some .attrError
            | some (.out s4 sol v) =>
              match uncoverColRows (f + 1) s4 cmin with
              | none => none
              | some s5 =>
                match sol with
                | none => some (.done s5 none)
                | some l =>
                  -- return [value_node.row.name] + sol
                  match (s5.node ((s5.node v).row)).name with
                  | none => some .attrError
                  | some nm => some (.done s5 (some (nm :: l)))
/-! ### Observers (not part of the source; used only to state properties) -/

/-- Walk `down` from column header `c`, counting the value nodes currently
linked into its vertical ring (excluding the header). -/
def liveColCount : Nat → DLX α → Nat → Nat → Nat
  | 0, _, _, _ => 0
  | f + 1, s, c, v => if v = c then 0 else 1 + liveColCount f s c ((s.node v).down)

/-- Number of value nodes currently reachable in `c`'s vertical ring. -/
def liveSize (f : Nat) (s : DLX α) (c : Nat) : Nat :=
  liveColCount f s c ((s.node c).down)

/-- Walk `right` from the root, collecting the column headers currently
linked into the column ring. -/
def colRingIds : Nat → DLX α → Nat → List Nat
  | 0, _, _ => []
  | f + 1, s, v => if v = 0 then [] else v :: colRingIds f s ((s.node v).right)

/-- Column ring as seen from the root. -/
def colRing (f : Nat) (s : DLX α) : List Nat := colRingIds f s ((s.node 0).right)

/-! ### Ring predicates (not part of the source; used to state the
cover/uncover inverse law) -/

/-- `chainDownB s l stop`: walking `down` from the head of `l` visits
exactly `l` and then reaches `stop`. -/
def chainDownB (s : DLX α) : List Nat → Nat → Bool
  | [], _ => true
  | [x], stop => decide ((s.node x).down = stop)
  | x :: y :: t, stop => decide ((s.node x).down = y) && chainDownB s (y :: t) stop

/-- `chainUpB s l stop`: walking `up` from the head of `l` visits exactly
`l` and then reaches `stop`. -/
def chainUpB (s : DLX α) : List Nat → Nat → Bool
  | [], _ => true
  | [x], stop => decide ((s.node x).up = stop)
  | x :: y :: t, stop => decide ((s.node x).up = y) && chainUpB s (y :: t) stop

/-- `chainRightB s l stop`: walking `right` from the head of `l` visits
exactly `l` and then reaches `stop`. -/
def chainRightB (s : DLX α) : List Nat → Nat → Bool
  | [], _ => true
  | [x], stop => decide ((s.node x).right = stop)
  | x :: y :: t, stop => decide ((s.node x).right = y) && chainRightB s (y :: t) stop

/-- `chainLeftB s l stop`: walking `left` from the head of `l` visits
exactly `l` and then reaches `stop`. -/
def chainLeftB (s : DLX α) : List Nat → Nat → Bool
  | [], _ => true
  | [x], stop => decide ((s.node x).left = stop)
  | x :: y :: t, stop => decide ((s.node x).left = y) && chainLeftB s (y :: t) stop

/-- Horizontal ring closure at `v`: `v.left.right == v` and
`v.right.left == v`. -/
def closedLRB (s : DLX α) (v : Nat) : Bool :=
  decide ((s.node ((s.node v).left)).right = v) &&
  decide ((s.node ((s.node v).right)).left = v)

/-- Vertical ring closure at `v`: `v.up.down == v` and `v.down.up == v`. -/
def closedUDB (s : DLX α) (v : Nat) : Bool :=
  decide ((s.node ((s.node v).up)).down = v) &&
  decide ((s.node ((s.node v).down)).up = v)

/-- The vertical ring of column header `c` is `c :: vs` (walking `down`
from `c` visits `vs` and returns to `c`; walking `up` visits it in
reverse), with pairwise-distinct members. -/
def vRingB (s : DLX α) (c : Nat) (vs : List Nat) : Bool :=
  chainDownB s (c :: vs) c && chainUpB s (c :: vs.reverse) c &&
  decide ((c :: vs).Nodup)

/-- The horizontal ring of row header `r` is `r :: ws` (walking `right`
from `r` visits `ws` and returns to `r`; walking `left` visits it in
reverse), with pairwise-distinct members. -/
def hRingB (s : DLX α) (r : Nat) (ws : List Nat) : Bool :=
  chainRightB s (r :: ws) r && chainLeftB s (r :: ws.reverse) r &&
  decide ((r :: ws).Nodup)

/-- Extensional equality of two DLX states: same record at every address
and same counters. -/
def StEq (s1 s2 : DLX α) : Prop :=
  (∀ i, s1.node i = s2.node i) ∧ s1.rows = s2.rows ∧ s1.cols = s2.cols ∧
    s1.nextId = s2.nextId

/-! ### Instrumented `DLX.solve`

`solveT`/`solveBranchT` are exactly `solve`/`solveBranch` except that every
branch step also records which column was selected together with a snapshot
`(c, size field of c, live count of c)` of every column in the current
column ring.  The recording does not influence control flow. -/

/-- One recorded branch step: the selected column, and for every ring
column its stored `size` field and its live vertical-ring count. -/
structure PickEvent where
  picked : Nat
  ring : List (Nat × Nat × Nat)
  deriving Repr, DecidableEq

def ringSnapshot (f : Nat) (s : DLX α) : List (Nat × Nat × Nat) :=
  (colRing f s).map fun c => (c, (s.node c).size, liveSize f s c)

inductive SolveTRes (α : Type) where
  | attrError (tr : List PickEvent) : SolveTRes α
  | done (s : DLX α) (sol : Option (List α)) (tr : List PickEvent) : SolveTRes α

inductive BranchTRes (α : Type) where
  | attrError (tr : List PickEvent) : BranchTRes α
  | out (s : DLX α) (sol : Option (List α)) (v : Nat) (tr : List PickEvent) : BranchTRes α

def solveBranchT (go : DLX α → Option (SolveTRes α)) :
    Nat → DLX α → Nat → Nat → Option (BranchTRes α)
  | 0, _, _, _ => none
  | f + 1, s, c, v =>
    if v = c then some (.out s none v [])
    else
      match coverRowColsRows (f + 1) s ((s.node v).row) with
      | none => none
      | some s1 =>
        match go s1 with
        | none => none
        | some (.attrError tr) => some (.attrError tr)
        | some (.done s2 sol tr) =>
          match uncoverRowColsRows (f + 1) s2 ((s2.node v).row) with
          | none => none
          | some s3 =>
            match sol with
            | some _ => some (.out s3 sol v tr)
            | none =>
              match solveBranchT go f s3 c ((s3.node v).down) with
              | none => none
              | some (.attrError tr2) => some (.attrError (tr ++ tr2))
              | some (.out s4 sol2 v2 tr2) => some (.out s4 sol2 v2 (tr ++ tr2))

def solveT : Nat → DLX α → Option (SolveTRes α)
  | 0, _ => none
  | f + 1, s =>
    if (s.node 0).right = 0 then some (.done s (some []) [])
    else
      match pickColLoop (f + 1) s ((s.node 0).right) ((s.node 0).right) with
      | none => none
      | some cmin =>
        let ev : PickEvent := ⟨cmin, ringSnapshot (f + 1) s⟩
        if (s.node cmin).size = 0 then some (.done s none [ev])
        else
          match coverColRows (f + 1) s cmin with
          | none => none
          | some s1 =>
            match solveBranchT (solveT f) (f + 1) s1 cmin ((s1.node cmin).down) with
            | none => none
            | some (.attrError tr) => some (.attrError (ev :: tr))
            | some (.out s4 sol v tr) =>
              match uncoverColRows (f + 1) s4 cmin with
              | none => none
              | some s5 =>
                match sol with
                | none => some (.done s5 none (ev :: tr))
                | some l =>
                  match (s5.node ((s5.node v).row)).name with
                  | none => some (.attrError (ev :: tr))
                  | some nm => some (.done s5 (some (nm :: l)) (ev :: tr))

end DLX

/-! ## The Sudoku front end (`TableModel`)

`TableModel.__init__` builds the 729 x 324 exact-cover encoding (one row
per "value `i+1` at grid cell `(j / 9, j % 9)`", named `(i+1, (row, col))`;
constraint columns: 81 cell columns, then 81 value-per-row columns, then 81
value-per-column columns, then 81 value-per-group columns).
`TableModel.solve` first commits every user-entered cell by scanning the
row-header ring for the matching name (raising `InconsistentInputs` when it
is absent), then runs `DLX.solve` (raising the same exception when it
returns `None`), and in a `finally` block uncommits everything in reverse
order. -/

namespace TableModel

open DLX

/-- Row names, in construction order: `(i + 1, (j / 9, j % 9))` for `i < 9`, `j < 81`. -/
def sudokuNames : List (Nat × Nat × Nat) :=
  (List.range 9).flatMap fun i => (List.range 81).map fun j => (i + 1, j / 9, j % 9)

/-- Row `i * 81 + j` of the constraint matrix, as `TableModel.__init__`
builds it: a zero row (`np.zeros`) with ones assigned at the four
constraint columns `j`, `81 + i*9 + row`, `2*81 + i*9 + col` and
`3*81 + i*9 + group`. -/
def sudokuRowBits (i j : Nat) : List Bool :=
  let row := j / 9
  let col := j % 9
  let group := 3 * (row / 3) + col / 3
  ((((List.replicate 324 false).set j true).set (81 + i * 9 + row) true).set
    (2 * 81 + i * 9 + col) true).set (3 * 81 + i * 9 + group) true

def sudokuMatrix : List (List Bool) :=
  (List.range 9).flatMap fun i => (List.range 81).map fun j => sudokuRowBits i j

/-- `self._dlx = DLX(sudoku_matrix, sudoku_names)`: the matrix built once in
`TableModel.__init__` (all names are nonempty tuples, hence truthy). -/
def sudokuDLX : DLX (Nat × Nat × Nat) :=
  DLX.make (fun _ => true) sudokuMatrix sudokuNames

/-- Checkpoint of the `sudokuDLX` construction: the column phase and input rows 0-124 (verified by `sudokuChk1`). -/
def sudokuS1 : DLX (Nat × Nat × Nat) where
  up := 65227764603741593885986396305435836321955980073259083419874528652430019260957051259408107717094923691810997128503817153148231073650328644181251530705203793885526526854323884354673656496584091041771445685043947118918108471210960506086180240993807395602848880282521680585811117602000418136618945672628010090802654161520232853294965599982777125435379951829532586905683555415863458717290544799500469098924143270591159047500238966200220694366373119096046250663695963886795279856524851883069798150945224795594101832896364341133748300980569405292881607976505744652279490618571996980859660567934678952892071789230742615702623149470790507945683502213245431451563996264623625245977651370690695579314093482210563844382053632264770359743674065083325981169850207928243004833049727658657794454541619909538254230261349216676377699900705177673275196704664475017047871692008103834472864246320273502716926448841943997164828715508144864695200661335295261692812791142941318256825526230707936572646318672267542584772734056887229730452112099319892232582608617228996288849921941269828771381059738119626370540958658280747426904958039723058801766231667607937447370089162211613320807219417955427210271227622619707500734750244940952203638599078711395888398617172819889215031659767360382662053675159753294616661884315925605611896886166033086788736800440051906800169844308617411182920093002358550046654687748811689103679158123501290492810692867466994354955713348543133346800611245923994424294720357595184419389524241661200009733767648439966755395759893208354499384745204105494989243616524313925454535112206080801148916840566332955705900278614014879379309166531791906942927470335532047207298317001116115331103931088919296129313383050261275220904616019329125784087786363590370664066224387526143571788325351958466395872154744818616041908921491913504035709561352538407074578580052548396186289787247944218070993121378330073951405070660320845531202436504166642481429462214781397867456393041007680654938043261323174383485411671226283163741852392813656571194959760617151923586995880780938861123265549677614057630694021013863265864524795675770348495460218800226834429570299184968219053049054859602169613271156842898631238970229005663601182040560076628525912836588435068284690339160593272415209860341960237820433515868103067207953789404217880961424774332304531052373923927911076716067617687590320266252599169033477544042000182009294537509913723545146375241553922918505347043791581590117913829471042125704546930937420496793080508040700519603525445855474429180633647880466921163820940983062924219331799737136345325548775078718259343940021795381400935349100245880124063885288280404266128066222281601974503412065757010489883892358186653943681442691234679539583859456695307105315526487317200298234319066285301691917426684238895279974387882512606806071927706518320024791672695969516860568254900295254869414539918578166344917906581714554464655403611362717072993235009517559123075032907580060970312608102751447148677830071088294777456484142966268552834137843063117150723566105059282208017997061497910994203110192707404113248661577433056200423255024762143453370368866010687452184074287629887365121919590706504698112409713430389838798928804730852458385366039228204005647140135755110748040260360487886662392715020690437933372595509441976288410339180534811524777296902770442524391527736738516849612016269573114684995294688000464896297926589070389357195438030840458280112067243278389388264096781016760436631171169536455901161869606401287600772792975793277017272465196202847985891971648860131669777058996220725686955417323343564165955037263675829969997644786460016247075051094096217175985372424177115399306702827318243546152004352782700689042992424781380715809817868127734400467262849780761930457406080410427689805800174745544801043136357412866448726573248469825665925244458165443653806482759066396796498586953196930694966665185345708534146618667546583261494751675789555243662042550030613783327785786172170453779214059939030189118318707055817054270990790105189079236327905311198013406811530817666585131376944918884048239653493814167294007521303329904262738033852993160660621046103332784939587213078129987659488163255158300561238263245921640642407097040340384894766300155767192814082218516348422273966002613260758010945034498443697782251704620560615863956873460167291265368120974246521311227961654694257387830869592608939225281132121071075668615584896686924913082300300920315406073515606225348398705138351243644382800330353343047128176730097117542189328718323624879466517437988088427835300308897759056626755279184528085058519985
  down := 17827008252806431716198597550192192927394595931784546862217060520605707936338315936135694081620326509392640184724762513225610524333262176896620388296739329884479814412923968071847991635241594878269656219098050446548366271382544072413560725407196906218561948319429848307640735153589284653534278999271263668270531625455340358854345962029763198710575531806065578448362330637708179438600352461313560790114510710655742606047124709586230269277354690196452008085228972384176326948699250869719164449206796731398384975904765677385724638030838044836577747343974974673835420357384978882826652869653877423835362980398964826217497154161889897010225619076069189803664631371343315600283746886161320525532397549488172802736899721753045189376091837981115299282916406492941068388718179578842730929374875886671512635302030553209611565000623978522024115438761308721409678682291081117556898885306161285584097976687726244978299121622701154807398682223964156349890718049842718569310524435848929722745284442462603078107601532680752071178363614036423274705933635147809029059503077804529063421060076976968344079707599663357768714353091701863506370654048258584941529078540846862794618973120027326562445488471414354416334258552185496692201096519306364739838550505799586093453407288498213849629402207574529726151466571434888392831157754736679289293890903981648972386209241315616221536282676849056856129766667860091377418978008601374452243711958169271984912167918549799561867054907623855267646234882653147837105368866160011316039562680642796566950655758437731598203741730189869112071518263984378212740751956852532928554864944736543968823731707338980407877495976181009332884744190675655070325075827866615957037448279381486246963504624248127921147434746185801387366623122203385916611335546735430947137413726364757374038491717017185915870563424980649333044034339947384494151796481975647405812093514732493584156710030681716995083566158458431392651654880822683234531695832736627578614830732654778300321207228112495734927061542260027179641318693983383416206607725502256319157202420039228729392225178272279921103719442447034346238377943385822962782945563865886435082421606822972997578912414087052361025415611942991293952905176922177902256758122121372191961357735270399228773895579381794951231038448252146454820444513919269366662489869378529983770234784513296385563773640953603700220095798446808552087826441308826963953433796621470510966328970486420327284928493056562252498261539090871019209376782948156656109690773787736511507417967939729727565248737646523682488723450169092430015150028841039311796689537075490916646119406900493617538868513596725644585214880225950384740949337120544369450583728496458385211863813333387954419671571356251162840461804172472649273268883982340784293194497483459760675313562199762696805371361623729382829572763081124978880770111069555216674145645930296487647384288670376184322818407340792737524345033043146301912323576927859673978228443508434131809672858319189365328104172889422008511088399623955095630190221559445509589519650869267581056025777621798732315092842667384093382723911539317304724423824198472216052461774401255282476011754778534861814087055307329653557033799160921517666481211817276279604922735198266389541996653169982623349146355322618336006589824185331926381477053024166974697313514766896869821214287760432667181040811536001163313661695115444575984464673567888378102282349068795871132571617469879802173391203936425624646897818215368269087051733618537968728433369401937376040669309066574462709557724781674533763929097295117581883217645630423823141563372141735815414942328708841087940757062300569652932352438807295908793228013358263730671669982564884085404010451725866127203594603457041134294804077266696184622901173521147437455029671915011204393272005599036944438980751579500521176771978380075009159212307963099308792329610382125035758418505950945867749256650421896905605623502491052652658853975847588872339190210882864422144276315110353814208398893552530807269644420249257228636781123146247058835879614109176765343649996334751462541136549214419428351554502534921326011570492103084471568211591152121979051363852996969889411030748830147004065382653014155249929325958378588227819488076756804854755233319594247566167493681840427310365752194711053197241275139656668707939608753599325674239161213851239568407586985047143060654090599885986974298277593445836486432049453707544509530278930967426033838875416688671040640102068119473521621703818487156952675589378043530345896868365392799898049127310991830654063832486987849443560930857970153887493965672739407406965256570425180485
  left := 65504195792948507232965356180702801982306384570357000776244173673663030824703277645711234862637449002633647579101242736591308933910403772434313058706945304121406543917879404684100903393465716629782701198659171676561374191061254483010437731374033610512815366854458217848821392552512599984559078259705974662880562303395223382501772565597624320644385161714526334100160416060883750004140941120227230735724190789255572327251482681368861403621725387398524511621313337312277368004621894385468419302934177130541237018416369521714583471514391956886768464525381449166928259304149742073320752766741955678272510041752579242437819774738248261451794599552404935137259685181689283605862480744801487382896588750977478433882449354106259150027485073402164596364556430029858294268996582910157907632653704038751386679579944885405357862118446608730347895238932344924874760351993626985164761615285094120134492014446849094210236688045885084325008110813173107202072138253719763975567083219122297819056896071815159483025780762069432125431896619313233167865655850703770294632708527900133246848585236416275304979060395503173700660241597628477042546929263528201638226088494610353350951233649368734494448400370115204645627453973751467623013960518657729172433058949304066821537217175375303893847089154334274352031459174805061737889209938031667368907316643364488834442298345699305971739782699280843934917920509932349986257596743951785114269695978733390940017921527961481871772350442440484546939506138161094405564341251540553184182116456729197510241704341400919198178773504243479531189074006122298769374315347416258372057065843461628250963496670143028541648364361597075203483917887787137340125399425571563684571131814911095787938541274970369008842267592789537344214361725666102741186193741033969440557764487044435390687603748160476166991612705825697642693628004124588749906399705082042174274956637871759382454687004966189623493191947713851563281844173489666544156806704742054637112279553099596920303397822668120272506436987789535692308622669536451455131390405522509957992314478136411082955376816030597813837405585143859540262556592610325652279172861925013350951009047054653556046500161305846552739399383821487490763424534296274061408216557171404627162995559850926143222671057198429212567010010683449446668485213124305317477158387059187126404702423264765083584550880345073770738381151875865278887643577861091299212633014775393141875865224968296741333275556064820943237425744567727006452095322822441798976270555251384315834242835162931196928739337898911487752621763055429344491003208734539108706701163464241230650943415314708614583776460724501092387956330844018959259337707742321720361196030824870344082429153519509449944643134360006025177696134836919195247030575032579048820131718945189701046285555964284301294706816891939851464152270703349809742118403745524120592808010399707945448430036156275256011533323533366288038610948354562151635657267585485633166844267295880873474716455121647575886394899037589464294406679257277604989578261989313628105598117394000459528223779808577485992917393894665965347389950478261419344841137057186324095031016553799396177181687585161025452002549129864219716689948201841433288338864073354854040293985292936185668431327808593776297920896943148194646354896752934516217514127040309460192833613546664419811003111424003906070266226881773994168361293891984525826602998225135831141052897586083241218009997618734051552157535735030039011984325786666623868170829884674289659028122245582866916602807617128099752044752583252247843937798502826301713511047217021949316084231286667388716115153554555984020518183010235399512999835706092232378548212675001259121250133407631564331614778612316334121895488901669379896741826611117978070503220957916472655202569055170447174809395080627159166958200184868892598244539180530414793637039989605258626652289473366771118862670003801669576238759265933490342456257590713283489626597092791109758027430239670995264719172531607170839310414363054197830481864181228520276011951054790763454240848925900060784237853113562981781727509716423750641497426129994050299928068602247657012334984662061875664200733112230994309294618043583694824139332109619939694308469180372854371637632550658364958622141742397780606381429170610365231100840773114358287198287410579791764993248307885765911287991932200800568899188509193460590877020042889050867488774545577087366139037232792480804008931058790408084929958645007485170419263956514619921668563761990031884103597641832402454216372573185107092649002580441172050717872304893207280805988317778185048080771995184837999507451282456900
  right := 65296909302475613717959188212243318936261747597511708417266884245960270114438781440142795759641786160088048558085334794718532640640728309319060195296920469416538810416015431846812683980895018237531500814315492830894040920245479364989561700478013090112508773436630400121727217734131222407306149466867653784014254708318377865608745826878433545323650840846517182152457895472972962603292394528194609795795359628313544848869672022647475840107425986946038966795437388320428184648381028889110064235802741499074392091407992644640986796188403918597525906109609805111196194577931029857932352696222073298350689530488714485958918444955016400955238335237621822910518757317399480456220818576356343654228047036908551505127024304532136534064608135905385879560301452472681288468214664449124559247102158915250918619656990244405458225435560544050185591004875101362826855212285093023681499563867911821355621903634565123909491946148712774452705312750762400726918392597137034557562581520928777850763746288070691349130674184827678247737914755091423295043306591239893558727596448155453798705402922665524559474787272814697732964652774996109068630501020380562566426797019508998126316527788422230970938157633850481930062931384107637597376138009017674476091281516708540692212958094321845169644209683244970939192085968184333618657814624649762184324657493377943368355668529764568515125039658933877593208038376507776944738118393394525739610167369573845256515184862956289580799014002144883627234213595113048924335693800627526301241985295805947395159077791959708904493960034955354868911377144347667497616143020821228725644385139209700578906662372828343748038589544139867020329786469121659154760840156272756653544252188902986894128083214884524356330931381088255689190329966607093498994772875856201601737457521354684988548126628785594199031676476719984662595900176143741065785863607350686296754837320606909024800895526163528180169242712033274039569709371343805934417951294528061520698759468972643169313061902379233989773466455352476397172300248970071508158412439434547699836445051613082243985875742447436520062707111475459770231469453780744162090747195268904934739150431166613897175180546326566909483425711039772111515896960569425263407014002839397705274215361772158123969869683087405056756511924343296100887061431347151059051184761621599056977270388065572049053080286767299198892450202317151023955187241848342471803152701853600870098921495330670868227215460416508754350008278029590818619869090750682598317506130009044709357609914337716112264829830854655160231344147983067643153111169447469687419760944519825446381564575811893164860233971782980362059941715950679198686140440588590869136990683692083559385460587184617021122152530205209253186727887051829180507262949134982314517524602053912031143403407430260893535034968633370549361881084033267132397113807535338607796932853902311840227268679188053421629793942957848229975651485764226796215198378948328352344245739214384476327102798800177081093112301668382333710031560054334347187174205449481086487909441832107465733988126758230038818514755752826566204515188711006610011692061262921508151793052330643142476129313977631534200652493499452270057492564937031126870259085386389685490659622277804088239723558984424254640331566392424341202633647788047414973974549165546856582670398594204502082362229799700301321802643552746336483712003327477070648400298790329068977475826334678777683071959500335340647152120718995327822974055242906003589338711088203888694891746691966280845006030177364876037578433350564350618881085009635130409740499587197581384595743348716700591819856740513162627601831161536614491104128166483430438542076315830596017033658566140409164417474412548064236863282779307592795529740309875727662739847215050041278129328116345697800971018377416642129869883317474317395124749811035753966510763576993529497320045348916153861335735856234600574465750027338117173545874247062549038130693425337147694056975885197535436281526016626540025363458310715925188821689216243543499482288263861553935279051847772373986656671348353516434451118618245239653030282609837936149668003068833867943541430190366601530924351076157364032001881238268387488767582158447205649427809555693577887965068102785460463214258640119858787064517667425821115045049336741576034224937379880014153749637561032922203388726550668235649052789770690194245084582117141974996481393741345417005521340918342892384926907725055962924595037756135979567295950445821132086134301412357914428582674577300603192930947437580801550664417901885773514146060943538251269493293279606850854904016449236223929674288911745025
  column := 17827008252806431716198558056061747433809600951916101025565839170849955180146854386875524143413388492820140530984289399951219852163154494699723630042907215373858852708871915937607865738635130986536664298415601507834971445646485908190813219473902606877577258118808134742753720027207941806089407377940803810533001450543206638992873853662753190439685254434583312794001714688161440444570234171293060197322261395148893640740074868983790894874733324378910879170006987183828728425755288158634450267682538278367979570644838006565471947485886596241186393205399557678503284386192869700362636789103495579167749476950694844263563015075088492623257825463651512040136903448886907601866105925389225496154121611391402990832572125333302993152802150748537684003023276447230105408278673995034987097042339979626383358781979328754316691969212226712732300006002493473607795104633891283288084939585152996075210172655998483073629314725926826792887812679009964010351132638652568722058664980601747572890391311176801264902623655291007939552865213698948157753821226379513617190587453005328641283530050364860675065732818217382078678731816933073877252332516925249138854432561992453597324732189471296427634392551659311337040858740601551104764940105723224105181815504569158445758127217619163582442736869053175523531285854390092234926338383327266556861168853420886329193950600045960001945356465676393526176763617111526064621978414495380636119639460588962125168641851072350006224120677172156533055419445064124691772459003541577362320598387443075576575307535358902207671747367289285567835546317069723417137206296529720655201258076243801386537510892031731507088945260826228707018446830948154601446715145524953488118310155799703913441119938521456237438424572621715269225725425631843600689983099890710102825143894615459895288577501962362711267450211250337475915962780879128541454357120143519787239735077476367172472665960335278293737324333221609025466726541022510448168765094312087491246210039979756898409681871125264977488547343792196508858277145581649806916613790878451768249780506234465638166248509533302344238479345258008704470896627579147318485076982290754200029011661047465243055563988933803012791198856390941874071456036295264176160386612550989862189724175683265695704841646722983682571349478051637850967835233509464582438605045310986556804693513360042405875999677599862369593215585743442541377650761444643926491521107939270971817945052796127744205074677775000867202352176182656872810089391273413905634980518411287847821142359674076520185685786539752407942307108202055267388925042402586536655300285506765535032359388810947678300481059168713189082014891485683714483330576080099771578094667593031314694194789744907253499400645723534910262781732279979469702604044738619465886954544588251994343210923417602074410835582258472196437696140343920935817562702778947329694176452955143376918524386090234935354239940159641654303949062809178243169201071002227036904918008750117255276850500059865281855648973035500076465361408214201953806346629608060126236778235692001490622459963706818834990541348827865283596361361174772525982885501316608018761707862973937408120958253182314552656290130359006057173218160674158254744918590253534391041179616866280083290229402781293281271376617220361638965248322974709691165754998712822296690427091743410914859749516523175154423574943104152705214670411718569096317324659058505766199675663389192153503319512746277527044099626212872795464566777524750396117873511444603056637994547936870525379412680196607604861558920144223695822521097214582722159789640894808581778431584892913607358802432178783306529818120144085349717565600658781973441781471440723496770842644500388591968945510478556112524312962282897465400328390122444993138267647396815645963291581666351091446526920051295336476189196663391676095058891447378412940951401583709224078105747332948839967240587269715017712549129632672498654249267044321769647516569362350525956574613879539940739752548972865732454652995876285996649022677105146547778115387396815438394375138957163191227807228860707600833052483315919860727331588574780365710713735809366888147235343007044980585790337040196237970519102876110611247907065728985571771505224598151414305280370885021768628087373865287783126833538843176901822611668215078206166813556540700688512279762277924217666213545663951387720176150863110255382345627472731290342270079040236953317376527450697900641345265904848758716968701540205022258761315251656248574609399116012525714615267365961937904977604844502017288702844624831382941728047069311024051079269020962926301680376466106939260693369493454848
  row := 65296905085130004024937999759395291712445199246513277218160552483112508614181721490072520226067855658372394956149251067923020386376552325775162460684903537826493218275384892507436674555309080379897401450790536000454570502516267697411816259913958716659238264538100027193607011873635840344391207701153943923108759732127344598101500028081447302477257620773793117542871018786674303143686063013969926614447059161373510844752485841927596958207403500299067892031087754789215864510453106181778701342405691848087735407089521111073470647481802302778762357836951263002298174803982588385979943576272836129669473489349031206134618659042721341136153914218577306285561098726931411928166784524296508356919395655256014068130442244984777555008527364736584597981209967332892552440452852384355527242654790182714219479549285659781337898553261743116517230542171159878385046605988101716373434546965103927394562240764855564436440661372173983699125271543150728515325863510744078657618954481180382689444234479135966425569400709718979947484611348450288163029132330472320847547508908208792668692582985033306788739052150135445253588290374293499935565410250386413124374136339410283658357522334792955225625492247322566067002398723126544343561574815275353227249206234400033507429754504862523677174832243125740400802136823517439070351153645357032386221105671892549334500392186817439677202226705198488443167488051933591994212468122800015081529421543340745157037215686331828967134065374170724391951507444162545820685521597397067860138085853156112159677447416014167236585175608462184882933894529698952401468963130949654306525233542575748201078270627111878087689283422624768357241202137643062223311987012155842189456952900679725941067492763464629380156468044591560260940008768198548272988844014681891969459513675017567099094638664386118225088337801881450681501034134548809167651653382332287245212523883062567704790911415101077435523849639792606264411206203665870550492380503738917930446213238898050142836095043087548701253960591287884572706948111401667827588438310511320536910379799900209954791250888207831495935325727611685393819177655578178034644358199749820279635413402213335237840380070170868393296757519376986551325620486873475656030098091190444779627088382086719900369261905250525491265895004546716614408824462014641798968242478049728817315356533774460353409777048867668773327058476169677636446033810011504257526585810878277365491420440401405397354952970064832816828598745617044122392398140556101026743788616398574728620028767769117302079958085169292532640045910535065377458037686674035457271756206929729103965595939899038624328831826412839941251895837965660213776495557500693780696007776814969821800170140980783540738847315260189135155950318955890304057829093418688659517807583324433663114806722109875104483830784374541453509848001137866536854016606414082992589419261523550028239190599528852614653667464566757146968968633252121286022218931946360373370610441650970084117755964530690494641206548546041351289398386578676230353698558684668935604047955886001104856637469952156218242112521095410164798412333129434856492702016388743884335182889260961533134829780825389688046122132563520494659053883939139630572601841185548576364145997792941866224512896947026592586660238983966187950289868688376486250448311591650177156357448225297035618443767886423565913324244637518781085994758365276839183776889387695480027547048418858562295304011099538543506793356097606097213505193729800070249170195924785966575789785888713723141700313325819973588301598577926341887615113491889520925880800425718084067213814086635594575622459870691789560992403109183870845829522279318054567580496819698761153281346846682845110453666459130702726642833671288733685845354515694192956166159612176420798543642088018777218379890929609938677881973886422238216373019505596756119180895126467540597278178009286934987956109113839632391925902615701931777064489434230993128831373698322718615862731137059731731432461082127428961876247942278099875210892154614477299455925431522691481493223835346172843351356539078865542895522303820271413098159765110627834340619121681003531297410764831627085840801682015167525412645665659737377445536328829524650910982648352440299987037432671958347678852791443724205107789556452474425713480170559321208503626835505618410199631387378363886360581280614021842757015904404800403144123153776789494084878675177734190034431869832223386331852886191323003655505950940966403999518907130765016656907909395023852934859153778075903529965359639670842863100346814938589400518473466614642099810774788776513887059174392278720824647681638400
  size := 22428491126562431872337772917810643913668989220306545764744534140121945107010740692869930336372977177532119173484184090877450924999740396138356278405798559024220241616854215285656429998977910167930261029502079614002255906118175565854545326635339718536619015845131930237703828917900971312609854242009471360772530718793450098469250890579972613335151790521611286672178707815133910736659093711654621232603721066664881752859882867725396610812442986197511956828226712970104311561263164730678071564321493777268488639571100884547076011177208142379127809231082199125436723846252054661818718469678524010307154602027897314207617604670796491554538890328498102510725796731487920004017676738104358570779850588085933348478309219377710236328637263836176678465540351943706570324933630667843118709044136771173239406301931164783662743837365753770474461540581356162881246393378014212059089699764958983349892449522273176605556814901314578978836421090072576724090555063897642595537174178436232013342272485916049774817620736015212315301474819002122349264894017800026363959046267952478425139694615406849022156761466926513729689220365253024882106545109429500467087469995856003589783585673895750766977534230848864575862718389651064931808718569919215454705017906903777280
  names := (.node none (.node none (.node none (.node none (.node none (.node none (.node none (.node none .nil (.node none .nil (.node (some (2, 3, 6)) .nil .nil))) (.node none (.node none (.node (some (1, 5, 5)) .nil .nil) .nil) .nil)) (.node none (.node none .nil (.node (some (1, 2, 0)) .nil .nil)) (.node none .nil (.node none (.node (some (2, 0, 1)) .nil .nil) .nil)))) (.node none (.node none (.node none .nil (.node none (.node (some (1, 7, 3)) .nil .nil) .nil)) (.node none (.node (some (1, 0, 2)) .nil .nil) .nil)) (.node none (.node none (.node none .nil (.node (some (2, 1, 8)) .nil .nil)) .nil) (.node none .nil (.node (some (1, 3, 7)) .nil .nil))))) (.node none (.node none (.node none (.node none (.node none .nil (.node (some (2, 1, 0)) .nil .nil)) .nil) (.node none .nil (.node (some (1, 2, 8)) .nil .nil))) (.node none (.node none .nil (.node none .nil (.node (some (2, 4, 5)) .nil .nil))) (.node none (.node none (.node (some (1, 6, 4)) .nil .nil) .nil) .nil))) (.node none (.node none (.node none (.node none (.node (some (1, 4, 6)) .nil .nil) .nil) .nil) (.node none (.node none .nil (.node (some (2, 2, 7)) .nil .nil)) .nil)) (.node none (.node none .nil (.node none (.node (some (1, 8, 2)) .nil .nil) .nil)) (.node none (.node (some (1, 1, 1)) .nil .nil) .nil))))) (.node none (.node none (.node none (.node none (.node none (.node none (.node (some (1, 4, 2)) .nil .nil) .nil) .nil) (.node none (.node none .nil (.node (some (2, 2, 3)) .nil .nil)) .nil)) (.node none (.node none .nil (.node none (.node (some (1, 7, 7)) .nil .nil) .nil)) (.node none (.node (some (1, 0, 6)) .nil .nil) .nil))) (.node none (.node none (.node none .nil (.node none .nil (.node (some (2, 4, 1)) .nil .nil))) (.node none (.node none (.node (some (1, 6, 0)) .nil .nil) .nil) .nil)) (.node none (.node none .nil (.node (some (1, 2, 4)) .nil .nil)) (.node none .nil (.node none (.node (some (2, 0, 5)) .nil .nil) .nil))))) (.node none (.node none (.node none (.node none .nil (.node (some (1, 1, 5)) .nil .nil)) (.node none .nil (.node none (.node (some (1, 8, 6)) .nil .nil) .nil))) (.node none (.node none (.node none (.node (some (1, 5, 1)) .nil .nil) .nil) .nil) (.node none (.node none .nil (.node (some (2, 3, 2)) .nil .nil)) .nil))) (.node none (.node none (.node none (.node none .nil (.node (some (2, 1, 4)) .nil .nil)) .nil) (.node none .nil (.node (some (1, 3, 3)) .nil .nil))) (.node none .nil (.node none (.node none (.node (some (1, 6, 8)) .nil .nil) .nil) .nil)))))) (.node none (.node none (.node none (.node none (.node none (.node none .nil (.node (some (1, 1, 3)) .nil .nil)) (.node none .nil (.node none (.node (some (1, 8, 4)) .nil .nil) .nil))) (.node none (.node none (.node none (.node (some (1, 4, 8)) .nil .nil) .nil) .nil) (.node none (.node none .nil (.node (some (2, 3, 0)) .nil .nil)) .nil))) (.node none (.node none (.node none (.node none .nil (.node (some (2, 1, 2)) .nil .nil)) .nil) (.node none .nil (.node (some (1, 3, 1)) .nil .nil))) (.node none (.node none .nil (.node none .nil (.node (some (2, 4, 7)) .nil .nil))) (.node none (.node none (.node (some (1, 6, 6)) .nil .nil) .nil) .nil)))) (.node none (.node none (.node none (.node none .nil (.node none .nil (.node (some (2, 3, 8)) .nil .nil))) (.node none (.node none (.node (some (1, 5, 7)) .nil .nil) .nil) .nil)) (.node none (.node none .nil (.node (some (1, 2, 2)) .nil .nil)) (.node none .nil (.node none (.node (some (2, 0, 3)) .nil .nil) .nil)))) (.node none (.node none (.node none .nil (.node none (.node (some (1, 7, 5)) .nil .nil) .nil)) (.node none (.node (some (1, 0, 4)) .nil .nil) .nil)) (.node none (.node none (.node none .nil (.node (some (2, 2, 1)) .nil .nil)) .nil) (.node none .nil (.node (some (1, 4, 0)) .nil .nil)))))) (.node none (.node none (.node none (.node none (.node none .nil (.node none (.node (some (1, 7, 1)) .nil .nil) .nil)) (.node none (.node (some (1, 0, 0)) .nil .nil) .nil)) (.node none (.node none (.node none .nil (.node (some (2, 1, 6)) .nil .nil)) .nil) (.node none .nil (.node (some (1, 3, 5)) .nil .nil)))) (.node none (.node none (.node none .nil (.node (some (1, 1, 7)) .nil .nil)) (.node none .nil (.node none (.node (some (1, 8, 8)) .nil .nil) .nil))) (.node none (.node none (.node none (.node (some (1, 5, 3)) .nil .nil) .nil) .nil) (.node none (.node none .nil (.node (some (2, 3, 4)) .nil .nil)) .nil)))) (.node none (.node none (.node none (.node none (.node none (.node (some (1, 4, 4)) .nil .nil) .nil) .nil) (.node none (.node none .nil (.node (some (2, 2, 5)) .nil .nil)) .nil)) (.node none (.node none .nil (.node none (.node (some (1, 8, 0)) .nil .nil) .nil)) (.node none (.node (some (1, 0, 8)) .nil .nil) .nil))) (.node none (.node none (.node none .nil (.node none .nil (.node (some (2, 4, 3)) .nil .nil))) (.node none (.node none (.node (some (1, 6, 2)) .nil .nil) .nil) .nil)) (.node none (.node none .nil (.node (some (1, 2, 6)) .nil .nil)) (.node none .nil (.node none (.node (some (2, 0, 7)) .nil .nil) .nil)))))))) (.node none (.node none (.node none (.node none (.node none (.node none (.node none .nil (.node none (.node (some (1, 7, 0)) .nil .nil) .nil)) .nil) (.node none (.node none (.node none .nil (.node (some (2, 1, 5)) .nil .nil)) .nil) (.node none .nil (.node (some (1, 3, 4)) .nil .nil)))) (.node none (.node none (.node none .nil (.node (some (1, 1, 6)) .nil .nil)) (.node none .nil (.node none (.node (some (1, 8, 7)) .nil .nil) .nil))) (.node none (.node none (.node none (.node (some (1, 5, 2)) .nil .nil) .nil) .nil) (.node none (.node none .nil (.node (some (2, 3, 3)) .nil .nil)) .nil)))) (.node none (.node none (.node none (.node none (.node none (.node (some (1, 4, 3)) .nil .nil) .nil) .nil) (.node none (.node none .nil (.node (some (2, 2, 4)) .nil .nil)) .nil)) (.node none (.node none .nil (.node none (.node (some (1, 7, 8)) .nil .nil) .nil)) (.node none (.node (some (1, 0, 7)) .nil .nil) .nil))) (.node none (.node none (.node none .nil (.node none .nil (.node (some (2, 4, 2)) .nil .nil))) (.node none (.node none (.node (some (1, 6, 1)) .nil .nil) .nil) .nil)) (.node none (.node none .nil (.node (some (1, 2, 5)) .nil .nil)) (.node none .nil (.node none (.node (some (2, 0, 6)) .nil .nil) .nil)))))) (.node none (.node none (.node none (.node none (.node none .nil (.node none .nil (.node (some (2, 3, 7)) .nil .nil))) (.node none (.node none (.node (some (1, 5, 6)) .nil .nil) .nil) .nil)) (.node none (.node none .nil (.node (some (1, 2, 1)) .nil .nil)) (.node none .nil (.node none (.node (some (2, 0, 2)) .nil .nil) .nil)))) (.node none (.node none (.node none .nil (.node none (.node (some (1, 7, 4)) .nil .nil) .nil)) (.node none (.node (some (1, 0, 3)) .nil .nil) .nil)) (.node none (.node none (.node none .nil (.node (some (2, 2, 0)) .nil .nil)) .nil) (.node none .nil (.node (some (1, 3, 8)) .nil .nil))))) (.node none (.node none (.node none (.node none (.node none .nil (.node (some (2, 1, 1)) .nil .nil)) .nil) (.node none .nil (.node (some (1, 3, 0)) .nil .nil))) (.node none (.node none .nil (.node none .nil (.node (some (2, 4, 6)) .nil .nil))) (.node none (.node none (.node (some (1, 6, 5)) .nil .nil) .nil) .nil))) (.node none (.node none (.node none (.node none (.node (some (1, 4, 7)) .nil .nil) .nil) .nil) (.node none (.node none .nil (.node (some (2, 2, 8)) .nil .nil)) .nil)) (.node none (.node none .nil (.node none (.node (some (1, 8, 3)) .nil .nil) .nil)) (.node none (.node (some (1, 1, 2)) .nil .nil) .nil)))))) (.node none (.node none (.node none (.node none (.node none (.node none (.node none .nil (.node (some (2, 0, 8)) .nil .nil)) .nil) (.node none .nil (.node (some (1, 2, 7)) .nil .nil))) (.node none (.node none .nil (.node none .nil (.node (some (2, 4, 4)) .nil .nil))) (.node none (.node none (.node (some (1, 6, 3)) .nil .nil) .nil) .nil))) (.node none (.node none (.node none (.node none (.node (some (1, 4, 5)) .nil .nil) .nil) .nil) (.node none (.node none .nil (.node (some (2, 2, 6)) .nil .nil)) .nil)) (.node none (.node none .nil (.node none (.node (some (1, 8, 1)) .nil .nil) .nil)) (.node none (.node (some (1, 1, 0)) .nil .nil) .nil)))) (.node none (.node none (.node none (.node none .nil (.node none (.node (some (1, 7, 2)) .nil .nil) .nil)) (.node none (.node (some (1, 0, 1)) .nil .nil) .nil)) (.node none (.node none (.node none .nil (.node (some (2, 1, 7)) .nil .nil)) .nil) (.node none .nil (.node (some (1, 3, 6)) .nil .nil)))) (.node none (.node none (.node none .nil (.node (some (1, 1, 8)) .nil .nil)) (.node none .nil (.node none (.node (some (2, 0, 0)) .nil .nil) .nil))) (.node none (.node none (.node none (.node (some (1, 5, 4)) .nil .nil) .nil) .nil) (.node none (.node none .nil (.node (some (2, 3, 5)) .nil .nil)) .nil))))) (.node none (.node none (.node none (.node none (.node none .nil (.node (some (1, 1, 4)) .nil .nil)) (.node none .nil (.node none (.node (some (1, 8, 5)) .nil .nil) .nil))) (.node none (.node none (.node none (.node (some (1, 5, 0)) .nil .nil) .nil) .nil) (.node none (.node none .nil (.node (some (2, 3, 1)) .nil .nil)) .nil))) (.node none (.node none (.node none (.node none .nil (.node (some (2, 1, 3)) .nil .nil)) .nil) (.node none .nil (.node (some (1, 3, 2)) .nil .nil))) (.node none .nil (.node none (.node none (.node (some (1, 6, 7)) .nil .nil) .nil) .nil)))) (.node none (.node none (.node none (.node none .nil (.node none .nil (.node (some (2, 4, 0)) .nil .nil))) (.node none (.node none (.node (some (1, 5, 8)) .nil .nil) .nil) .nil)) (.node none (.node none .nil (.node (some (1, 2, 3)) .nil .nil)) (.node none .nil (.node none (.node (some (2, 0, 4)) .nil .nil) .nil)))) (.node none (.node none (.node none .nil (.node none (.node (some (1, 7, 6)) .nil .nil) .nil)) (.node none (.node (some (1, 0, 5)) .nil .nil) .nil)) (.node none (.node none (.node none .nil (.node (some (2, 2, 2)) .nil .nil)) .nil) (.node none .nil (.node (some (1, 4, 1)) .nil .nil)))))))))
  rows := 729
  cols := 324
  nextId := 950

/-- Checkpoint after input rows 0-249 (verified by `sudokuChk2`). -/
def sudokuS2 : DLX (Nat × Nat × Nat) where
  up := 376338116488975741625241345110748663602379563760526523176979659466751366290465084771541899920553600075827424465941359290422962442386442310896101145642493774039766761251922329905026832448364958164129514557882752936314620493277558384541806689166788625824467778132111920333361075444028711799000118225551889469807528720548462543901369314922425816745978428191415581120405311085235376247348439103533754989198701161321669575506609325895685803749349722896073560091392425036928526716336741968250185685993095583622947355950436111379248549489397402064323652517994208571739950238688879644447192730318143009202371365159583729205541412060331295536999051196051987125696869142894375145032240942074718194985001234481202916479200566163270631057043949090569688137896293336643079682743752794077350498687874360347510899317771152634385925962399652602034430685943801278353897071672058091440214939639391250150766903389303602622263059043657841378005357686999161389932259515530267644326858046077581093910558185993607788529888487069807496658740427431533895535808832786075298300204825842693451793426492982977364656908095144804606020036142680025269148399282683358384008477571180272199779717463397943781027353749668479924596275775703789547079898677293848892147889078462605690587120883439712706794751567223828324911576304439043620156630821855845779541950726453992501286205052017825762780262843808891197961193458891352050779537265768562874339802227754587424373233688538116277725752845345821206134264608996486767764110639198004565397967580490882773773732261227688367068833348920352583722731933097406273324669258177296571872073037993675192365488378297071306613432264352692727180841286488124423651597013087915268245410212793966566112625192249354228190940488485434804164448759133310812903474537785237815041354120279846567460194133481694708561624853663390854203778000045062016699334519776383336269135828405029868080069346540275534979841998542530094971113708727282418949306731392552115988148113143655421949125641378474474745772746562221062180066682329566879302587439320247522043744084396173021682743349287179836466847829176866909826207513964166252373338281647845264238195629129835896248757523067307849732059439362384435757754993194286838723929640165494408210300520495211535538126313196458860591022509237220054607309667326121414996663350405833193534173669266797827522402548284757959008979482172834787052957795851509220423004898645436226581359753729373267319230355157173248237415875281666500916440146560931207437101425930226022894892919829455590637985143968151808872302036865163886284471012071265095738294753480082359088587878345004662477564668533278991565782712430305687399831331010457195238452039370387096572767430460903595555937217729329508972070677852203418904547563105226188234816452335321696488494374134422988790915817273342878126150332631750345873226354136328283605327610252738654933358069981435864834770525810855859823660114558343814790062440966856638097405679022818229152766348058272343589515380546399140989821821168519758088107237246618756372506635367391057245895263002175460431904138415391614710206241794008938997606486144645216953086667915699971148744569102918287643066360780311885905528713459049111870387973099069305782717724492909954660714704338635044863940329559210401696509801890833804733882597062578575824085524595924133728182965992386213270532246619400429419056947268606991193442592997011186837763015244457728273355461029899161455737314965354838789750096880813559212591519425980523856953288438640372263062492537241752327278977484483195165737400175620353134469069307020123627522076161450817911626490266768645234387534111321254574860891107070791998529843723712541855457774447902583752691468617021692744867446075988902909213536700977986714858081861493721926447581630634961267606691283010680985268712434598397189669709221498156157143850184577908110643642521470092450044667316557322897638698847657596323790351684498200449812116508221911065130117952412205047092427105989171238906119475136288753278315683402793546142458077500049756201602727613565879293033458615556178247861677470288510312054560061305702473714181755251322006154322853518831533040917056797315916854731202881357068011099357547791797482004463539790728632697439018305191644649863671525387352234253799795859550603964256123348534761109174353775380934638058487773079806122733340449143757287877420682499903879444787902322084155341367918712756205769712643004205468842352469974748214915824863948013107576285153043764392787631376894311125737513893012122450037651393435021287157521799050754013064282983251112773164093253501308536826479620433455799690075618571324942068211377271119233679192002553781044878834105316944125012897708715900891874878752228017956942743013945819383054129760854812181427891710502727616984295691779900686253626324995474311222723460492719342130890739846390700760974956506438732231226928442778308272256622547806573782915392139782818064482368793419945052551051951212316306372478575584960794698934439969216386213859545828279868039008285515903129281063113121846609036235019119285928512043517819297770643932562067096714592086783245621188176330122810554869391426987084327025262117680194589109075740407783352642007619376021924022184896420949186297461119116603030653896884141289723012314940550681805535392003579978431436866325899465499490620793620225767564771000320531450423353680388213153054877512569131151879791141412701651265925786289266306121189053522119244095786973966919508629506471308719205633998193111850942751752101026293829354787698027121894674069225475844398504117822734480429415800336978370830327352187837889045787219659943452081217213814692333281707111140514302837216607941136954611536009774849219117624199943434154647873632733105157173596778991071641164323593526016185216757800940257685845122104977873365745139282962343468916255611207292251711678011145290421074135748571823841962924507461344605382441458323246857259521912907470197999892432604843431517463941736605525692862982610764271036004833323464314793336228061330872394327867070342301240693054500238664630561474243620025696396298226733120420356005408341710152603297154813998321986957330462210075506670262323547255614832767874092763921872098976797635544526300212188617214123007910050764878254365708315481863267708709071628517173291311875471637144166903726467292393010606049114897794896725021386709208491464264005015198452663894344252664088029997152170878937968576248764436711557444340430746338599466053443538519308670497304290012072467068388396284943298585853674823293947015144572825132113963322907822354118112208110401387045740083489865096542773230648282400802336023349572879635136088163866063885444226116550116194274998726866835564652072849568059044598770061882333655996378484338602914619304224540643538264439240987550648896485515582763674061219023900451531588550959077667145105129500632631394385586102695076547622608598813702719515751616061525963032998746231748943288044869871293669114128501300570826613848078946115582970927503858467260084391759270274722560511678509779524972438090700093900624232324262045340015980068229193791449520050475040003511010812217936827004036354473157608714447094766679160525951077643026680064166903014688950967981266578585354678754410631781649152812582277223937712297707636747551525579477240072848005174530148362010351961009952996559430969670976591029765761195374142705964828974619285079911840107860070213645549373831201014830914015095436021495935951529087071500073049966668206673518502181781157052884990584864339206541275384151171571372612516436391168341484007190640237892207430767285865946955552950567231782304470795438983902911288252435278399010
  down := 376338116021010353979098861215602135055324287348202577289252766439244065187238857383200664341670264425950248674317670997177433219382944343711818926760942235745566782419117177695726092010507660947634200373795666957586152891727862920210591299625361813833205145696537138087904762791536773077338102517279514190898067225863542656634920511548819058134950940501100211919750333863029983771247522934617544773866261795042704548087596514830365623498696922052855632438923703152330130656616189443299842708800223929423571979272727532994449714179205286488064683251441115976598898740314980272853669891441955480138751933562025712620333416880766148771300246493014718559872210013390421364511998998146953159755596822261805723224197232428275256289522970854628925054228577036018421891191981923853145328198497529199473017382364336229126986228689153850802325990299746852726102678352386534761543704984087079804247310276746792344167496120223887533974568631967819067204892241475314382850621657665623849090796387838207810008817284944381355679597383701550345662713155997872708796866701508171641630883921484760475197796478390427836845355978142880814783553978536646951581660140305594097625462566486453868945801945826117312138480586309533734993171359077860338263329781060859502518321161126066556660653316676175092190752726190291775782020048615299307796622818080439255472654547110861136796239123288426004447468619619022249726080438942920020502438710127638442829209502710529829627172818372756406653260181411325038976155842421282990823236647375097660367623948207951337884431039338549519668951663240418235330103139232999706058495588449054514937938428057395479852635274837039633798174200079664866814288193692222364531818752455084611582406661531408081342918966740643004320890652874477274884671128095428451726234404497366838108794110184766768334674907352766309042954315811922515323820533346540023454352725102010601701114794305873991857508096745865015013023212804993370328249562719406376096400622153147013699278774248615931976829144271969704548109840347233677468702555517302285185293129116344721109006900210816865552923632298672702784621996009844758957333551049758495966053929679293986345401245031206058962591228941139136151220280173682837741165861528299861014581136115876396437024529965755786113920583057687654922027762691203452387539489169348778272981862921114575010201556539489960142011805129831793606702289729399839179908507386915958409498068757553826758008381865803360777458755128882042261107719836806360185130914125944443910812583679122882432623639129135052451314328568658482503426562052426106513727298151451715385373790315727689774846862216569551848481826977961021532192034554470819790865678133411265715600626516065114193732303452938305061042565229932823908594597984964423314566659475094859337794521554415809360261582750696779322570631179578862617366459680152128880243763559973148629444938998098018601636074676156286167213929594324396483408534080877222839892494016720300260074287261653252117479009194686906867462557476913283089241128949455541217735163119046800844026191989715411707601384928666231077555733483985126520675839959433755401834791319731146553481903291706235252817462761224751816230016483316161806477812069229898965265987135891162390794532965204925561570044988541509922284345945786345916050139811265614365357347956801443825283186998754791848894421085890475954447881021472493479558915145726310734419719592059000583627321731593697851639995013370437833310731831466613127219735716767381147924012995968656090310297033735091724186797827815379253144112293670687881213699861256253558957190973882355851331646969095167186972988389758980034221697475609558586229897963365633739703378794077198688121477859631356338767899456892747334286769473047532813398942674892471647120442317572113947569803930321751904996819832458581292745798289411664837697541507834978296148024374625859281666926999732273787496680410147436887156929968130075369097129343415704831806167382497902314095232501153236758514960503517449318772797501540005059240030386852514623695212279222128403741645997626811878161642638774888516266073678319312567647769161516138960255076104569187564702741800169356389261623546746535912525826857474620681625854398872386561547493587102590317413811267156249444803833610689345426316944803310954379123317363638178229485804737122358368488720710864688590447238681972729468553084095365738833440144234965271442516373780169210215518903041103861818572759191503298346145326405991509316745369384496847862193805628747482497324309776017586900296148448281172246078563817793062809360667705405153813984791969967064613919783218425281414640347986029390470779807644388389671231974138222865408753957901899211806304623252142139040179733624474210216603824459916467579046769224380182060822368098327838794953486704055388103408032284423394339204426360382302731011449765695505570484065030306383130371371010469962420620012068528750263279005807635837938999565505571171171927765325225875431304790333815846935989029804819901629641698188785941359677424365227676712522237856967112849494338430412351703108885905881641241561692591698589841944991987537942372187541015716463761923066448275266038328881584000010724211564228890719074085553882052448511168333221728447818502744742877917039544632258829188334051969253397463361598605967524762869363438059140992823278440574164859779234701098588433725416005544012469974606762941032866500372670247999420643724680988040523345133773675204578991101201996138815746357517190294035231683238210714214989195125523284572703628331439589043008120240140770225793082559178088504215601903807112941786107913647650887371197312394381107111225949379804738774741637312123881178305601155547578534725447454404555985490026104798488117288167177769972759978719447626381125357922693351221098798295085794285641312238162159134331947089973412151930308392056040645064642637104936066941017933176339717065781190274079765053971793596600806162545264292157070804387128976449033499049511432514479921312268422041829289405139334717630951292041953683717130562647023306248240444183917048935408489306013903198285784380592752806456100505440151277199402603469800599434207992750999050017732141479663658651117172206708378421688111600632237496701266216483732813579284736075700116851341129903625248185528371052780590357303602369012091797446836163889162664060185762518207379217650208458442874526724820551997914337437492888391005012964041686288987187203864237269848371433084705045365906757639832351335111950265214302074041602797864531723619318374539781608820161828271721554218280240918179136654115065384784175057817562001444492627655776593044350863474958038492940182043026062303848712693743452598077478588140960180610651207957883946258654420930160397752128210561726017232984272870094374979274935494206059279691714199594498114209455908089710906771341981256770784750059894472691631802925212535149847961029022009038788234916670652957280966129863117220557781839158020840097676764169328572050469146277372821110948675772826450264865618775654958832281573593603426562169836255232846416524223089390565237198807530899893323019686068805233623028571205328138198777881226255009139945668048265599302301304273892945547504887324894499788832997094230749343203198649108445377468665241033323365565758666756614535186362463300702011814614655619571013270355132504049525877024818355698050083919029321862804133394008600117540641778839544541264223753709686501676975220424653473701118505375917112395189212687775240752030218421965861161350512509110133734677751601888109995251098825214387026902414888404104133335046431566937150014251111490654221329123326802176868127900727177670142038461429186885
  left := 2168433694334039943811125205588539636887199648069639247665391726729706907895734923113457720149775208759847645286043560220800027644919277045060339186140960150638311137509253879352414446764993434720371517432793467851454520809069181784438232455603707134168591827913818322172776840620409049409539295499884172984404428175798778588286351397144992265161059563824320949768118942927644825442396964659426653933466072368972920356926564600893242893904880906815460917751843291880908181672469821040834346983949090764307626713775283206308936966982249590361095065329154209129042264039468726997263971250383102506963452081986204963902715157660611961937497028229508966185162350438496864574434088357598953192271716846134163885987601768184979549871611149212544010938777717621551510491091160154163598465435680648638773246513971032736555328356320526122033780264553482242258140962049572977260497020023122217557808899217383818041859324291808839389831744683181959660733178234574113395698223991069503906761189168235944996320412315105912817854591965565958956798363843829312394915589948880647616514203029251086270527332876685307051943233941073875826883423578131006451809315354441142883782972153375631241645055573254686266535221569687811222179739468712925437917506805029574514874522404943315651085447290593376165046546624470766765337772395419223438039844542630225890335973450563139368952521266227600223952946165242505317892387950543616050353549786821466350404034612817527759828681473031593411535367844179330056802479680007201956500404538720194862574661751048396874935357037687023479328682799670676912957137186623852304958441645687575429572341603684237218558790073121889828088556265009490092007568966490097495192738779376751975931411069605636112648560467529718785163891750721862116324949768906581611833882011842759261363716931949732592444606317726123691911988208914440179262430922817964363524333013161394375933095265864650713719296638242504177561902064648074917792639049081391845031334570299225016130283232559020011463220686174827951903737863979467193764132700664743035925990903222875094424648438102647147213290169808689260970556410819732005439960391070431238640182797765306753528597110274914586661095425367721037791504553244427358940415593831505151345905816262744954714400604231278555155968153234143467301847363529306209333056908861122031443011494982556469119994566972190942823230735448736052321539188864487819950396725294271219928634360215048040281677174637954178069439438324754270593944924425432384646010307119183345839428884764716758057972586753383603085805294311984684194503710881259147173893321714920422125666806559762617305175376016971408897254246905793111179055663092989359668706876231302605640368330044276809588140637835397651325377213957214533291564415307184649772901137926307688864273879201103322526048972269356726753193378557940581935794592397847877772073722453457522644918283815514494975844838730236733374792475575540478061263197108973798148624984398265128959963493854444888483816169730997307390474470609981125037992385899212991469767498267737841342212096071552066023475575303264771806119018676625537555048378400267083385976764722510443328552466807464862440166458693525918097592978741355884241905220624662422026801367066740177035686787352495269186024219842676985275761831271796019670527339631312951706085629582016303789465582151433179126556642178389340179506968080496147430188367951499624560782868934504394302910538806067709855923366077176422668325296694672792480010943199073363011803176131883025400932415564943923516967346639786520934465101342571114554118973610939160568427856886957334786480169543282745126771482947871530896931654435091687637880299155214357939948820558930894032397986018480638049097286680301745405318283251087087491755011008463602830895979434469483173702387230991599989947920040232914791585241374710747099715813929959811041544775544467401173627210840694263461937703386981879639752101047630900410904834072781923506925329532805472484190054007650922919661715673772707102467792575064704580258234430700820659116496559016406302397991762516414122384128626528343530611147840397938490936969360864976761850624884900578811528410815611689802405738863262119508722323101908968126493716251309972922419298201303529157517748219608255190146864335283584562809064193173940169044909239902047240080717905892931499508947377401404574375360928878828478809099411519265722535812860200217639157834191395814530772055602845668981326215133590972699668107146695443844000763787815602945728407211955376799137955694537866015076710902574971564150000524144205472465945211941380853138790788066956434072150328980671326085332102388653471558510224023961621191270356569641532362959771724749103178446304719320706282554533135428055859662067635513445063305705352606314461981262492263712250687768868327330721756346009175933613263032324680260196452764422782096502412235605055986477483791709298214802991574626098274089464146995501168228433018524015248827219999739292854466708167671592802219243948410633498462587673575266287909293835400501756726840044688433397116617404396688732416813416154910276455427367538048664448642418920133884757266818339295834681977305597537388606269766850305875225617157628234060117196752192044829147646560091039508658435222885767389192518675157758104259461044708787027919627141876023687142031909830124682466099257353058579267331228547652385168309284708330957250013064076888576414617241488440729780730679743439320060415680940093733057007181102453893487261258679902989861182224715468423270633014857389912334810972244363288210965521105627618823540295335448977789935703782956865179580051747024595926962787251328957454929203786927262131974517108954416010547108764384789665529898352000588876542917102080365698332745337525914201774925038740882260467265264998386864272553874687780933623007633869454827714627871262068063983974174650272220362428911989666078428311770422333749508496736786538375393016292598217202428788319513040768104995267774573785543569369746638115172813548416024287146638467295774117073792212764749728618311567958912359704504442184959334519807335293042638300174754932491364876952475627610744299775951409489752900245718758822266063771779047860971406179646906285725502550980554108740581880405571719340584726243358174526465646441810132055282790309414472240474690573665852301119668982841024126898032203663871353709494260142271515336562572242251584105132610604929844874088369736304962039564755146515971314128419252505336009464598540930724919881497887044416902865639732243754957562638474214561676290122791883158286077773046944982312616392438936318864627844687993519309175682193815934800935109543290741529846050308975103799863730686446740953094012830804864291543893531587874122667543765516120428922533112551969203080002562816610238472427034241267116687080307560729362639916080742352033562471021861387167437491864699707971060782186174102480550547115509034446161485616848175020321194669113630818297878161938231705603292415481582197601415879316083739654519405639513953969861002723711914107886315103279307957082324346795140057537437845681866429017856626038504797228606636510551829116077786144368168223559708608488831114459797587688763044525314111707436986727177736427330351111358680061302214783543948276476813494723273210492522551346379721042030413066241395948391913241584745799211599052824852575299564724906024760243752006323557749075116811148232339414170464649261953368508863510071197900323916023654910583613659833113798966283908906782403999916791831771772817519922323012206259741274984645000233873940958079320481073649391062323771996748085790458262880942838416422168397275307019087379144168756932653745176900
  right := 2164298198016338698169709974330132802028833209210362966972340680098582226902624738147454099116629906976283037715335203112831761104642852574918600173931780283523200676255843733933004475932032902779579352623432860885229131477517952992620173374936587137336162290721871182359820849606423288769592839577500462653424326478690718785217344454733173778159487142220623116693097319880297700590115598420928972656486266341976868674391052805836684562044638847391620370145254346912521782719979153109594559258662519427084470274548730848193924581646896599296623507617538563394227363356988629238527266757485775150279324502592249000144310864889052567933222659632274146923098994747760598362892644345641737388169419037616010460181059661736788933613037752777684460731043403674283959244704812847637120171506412200193726713577053840389682007003981227682641153644893169513289474853166095127675565300461845970284332668651891718168326839583037518197805026729645063767752720043916469542546990439035173756608319217156172417795133891995899974059936402075516032117930915657853553410754742792762584751386455444544511278430821953235399449682551474984811488514819478917141328598723012628154193513898271196013323165355562044571345718945430158864291199751228024448814666178121922610507814806103622064987774811759705812586288913094167317313750142174128560801365708039088204734837452334730384069990742373988660113567713853403075596543032023345354015715330833516725380762497964868059897561278678039022038393530089036766307740417641968585423325323400814674092517159078366027875590957233387933173682427794730545141647625286691891677333495968266724442203327153981628282412728747444106066623447351671745320182300171068886536609057201725751885286351095095591992841247714427789358268020047135429707808836052296497207571617240862658936649989551349619571284029911353854632945490183532087906154660896363069582158524336136397613784376512811683872494770885388883047589020437764752879599037517305773999770014043515529682353501835949207095608720346140962086469322611373125623542774929721035885296673788415051088764528817267300235130021493403133747108697361162661393129165494731966228085288573450928932445692066658367026082335841750138879359540807737890405274025090388680870972843234489828320094344518658911717001223271450199516241918023084135858370217033986975288991250427741512190597600780159419211659130940393957187921922562769221261369996642257476078490541839520110607459641937210963522519695327652489355850368372853607836141740923807926169489962505570269383585051737920161019247330291725133047874216723315111563841582414042936192312058564526215438922551270616561774613134633523348078033132447313448705091318818759936163098927229286624099621374725080925732850600798816856582304465356304316478732577037211509637309299057688599163541038464502011241572957019764424219455663117571147728673656428530182781181256347064343687338664932500797701240030236013238524640848481408735015107822438224802080834465715990192432635578730581751813872717119132993108844349417409480841670872450902561869194149563985805454808457714347681900196640663444583435665155203763852824864328150575502529329759595905582455450341454879625134373729093318033392656273363878919502844159123960468492004027567090320967586057179021752384292306046208271242771925106085032851021988620208475029656928714581636215263546264571049454557091795870184372151193395112316915199338380785281424709499411395842020920433260105037323458230242125084306491132890072299047328511352441998555145899017993221432662860281251729568287103917202441312198303565462198977962854750585106873663563832836069895341657174202794491778996847973912821481989605369239383259800364593393517590640338865362346991333053970069110083741885563313810526354235346593807136861979191866619880686966437236510256356003142223162184397600048616494682987097193989897988292573309502305064872440617997538591439899012026911776103798580429755082288336105952599529596816040774763222663885374014187053524802090950230365976655228492950499261718403993687801972051904734099935362257852474048071482858704907098585774780437059584016267606810956448861280581440630292027685704008049950534434521968528116255425999697525691994679921150200865969093170851279121410011007149106327110471552468443133424173852621397933365695784181428660590759160516344411754193503841356595892850476943081582974357875110847681180819580628517012914498489985763474650696543474708482075930585966285579475051163222003368600291739167842677382284704345459696683300956292059163026461001523742056723243457726593972986512863201895805096945258056526797309093448428244513851414522744591239271622466516438750065757481863783328620655078418217305115202004974871672472856654842647369092422432679215013137596974939419217214007374968104639609225935316983112274202835558294257288290616252706245697147869527191548057184094312755809190319295988109474592929035912127547279066425368933371176672212709182688066253866471284960361883727008540425011590162275239146228386060956948050783650196022158866738017129534031006369377615107515666556404627309090646057295894490329702474179310510799593402729832468254199603664794691398937475384474405658906988994127283443173465247570281785215413010616333226205544715099488942355876489503395245552545991664019589680335451558223953985550598678799194390191211308103415817901290393488806427295872452021368477144692780166460573079733315176305492399090956712051848613228671914876135659951352385431988781130205044164616451027848120402178047927714176849225059188171420188135572328874931674503498051823320949033811173549909859765392086280517991363652081318339810686193071482659439984005439580252071892673790442623319298858823919238667500552916739413301825706602049673616544843191039777051798768833909561908425643855469331790331340822029752501554871571903673159405855340885661134923366518688074219056066356720057073904361096459902034577738964233316027721925794635717184094115966867716826144028040785625835667647294885447879779425188817333535253809299392304392818318039282215817303563656872455002689709827008670848675035935108252699609503841411802114708851825639386797745095104885743778778067891277711739697289992298032192298049800719507055033357570152834995893598847219785703672540644729098027458429162831384076470454593170797617197570536593593833570022877659015303618197754676519211547189440044155685624582263916092387896867688338923888808843251840871014855986257159245465901320192831271253154889199120735743324562565668243182154843526111031911273929565237654585760833492678759433575788761637073640768486350710804435603192790322175208739636814770960949241446091861469363782590859792452758003865168532400479071783552418274672045843014158482806499737607105718112930051292930561420703173659732292785917356021360979636010061641742885862345170247296947366635490564415479213628006030497176095205132768744610464704001533662352687183996676395934901703457326557436839700443128966303264562714694332951227633860669330012210147799128715579329526478465618792059901686739709328486829676210755977689230570337405185592219625089781439461159722887013838847822416899931046518958594406875294871952320981186514421437299086618871213907150291977858593058596284892172277713183249686423736107276718656237610607059251420061664850479188947722192475705570638009245157635499680424879305475689715021373581264336208468651202178248924992503962134211431303098861653652267314859758515450689568986345914837730036956843260184719941015534760711051562159336544423598111187416148162118395870466874612097811455610319121789835677789140309148607346623456792242169304479562443835959226120328009634862465025
  column := 376338116021010353979098861215601746640663951797564864256239833720550679064599367691005684456455735716296997016740772026895085234763067194303755525398433971982372963957186333800099074732697679147734738210512901838043511542305061799902308780342668935552261364905747536594639154593789169614000388121185841066052716447232188079617351057194130705818559554410720055336792021513185933600217254573156967403632962077895304718654130041669614406078036389517032170550399243169638565405044395720831662898728871065452686279201648859945394655219511993893881789179044885180863514312167951790059472807229020411712241072082420493168649748477363695505146913737888611558931405669900039400161140396713361901356286413141345291730530861211959440879879298883932152686081445769328747794402584285136410126114964504745857338930122903159527307241378606936982653855652202167634201662500939759190702297004149750129502970222827418688910152373824843437292844975251528140750954207004122984031042565281734412962624491551253124869254375421308518796640422703173915187853266016792508311623359694144725127357652467418836146535430249411747921569444561035124519537983852860119497685908746355277412988918804729019064202998379744396051322199745988694629996460247223928832055352051279100551765059377336038388364894608868437040691939191811333702015554078464109676503426690474925731881395325387792977382846452650200732127503701745502587267396906558118884990869715823685983839860941356189419715961874583590916039637752427531046222035234737506837145552782780803983474963415926138363432102261752361555716620775123530830235032296316640681938393470747104689133183323993619284838305014744012797475021681507410036539211056315675770700716842888417810853604250858539732781593612029865342593036754988633293171784008341666768516981888636331812991575942448960590434665246485678158235087104764241233724328314459109247917463543444550947644442103713484481283720353795217301391933224923612632461502638050984153790343248923834161289874479676129124740604039624217305730345519821764660349635899726657151972216575388583853559779699310888218490067995355084364782017471969044797889937383555637872462229298982003766119427531157797518787932422417009966093687337639613476038339084256653695614665798263946635307670818362382784786920485545740575435496761864963878475572661151599115435739179805502188613136206677726247606832061872027617496195819690463481940282680553989350441878902932549489363047937875419209666512195556546623369070656474620896039962876924341871912096628582357824445484798700719907976533445817759271073641649197370144145810426083027050756875845434643338391828197241190394387351491236997036187615259116629323539015052455121868775286024459362656021705222371466947554005763692799920164804026022601386108681960885635035614694586919053972872633487166830438742148468138657047978496257092213286822223135883456613457266009585595617113160709781555943181762633565317513500887247182678314155254057292228202659458868248191067060015661716603741309903760039785467019881998742387280833812939320616162024075866463984322031326365667434422220419254033836593063820911249948921953789284093594916009328156602642758225455851841286183069434030553568745262662953470709565524714055153769797518153703250567157066212081194971633813466758105247545138804736303624966639546112077087311373970091726158940401052671149014996897105283935742885667055481552244765131543488805181269818371376799458857073492852834636403960535745743155565194934678398890152225290283048580489696547512832508319500618423459319373393224500978653203086879886249594940143618586250977269751816047439499341793707188920927318251713710617558606485169196604599689192128029470200924384134747248292289445419386137925314539645570165611871205875925350386496131289863367925707619657796699108430740490417713510352858906985362820108770536172796576531730089346342444085484741035699240282478214942581654606633529972885228009555045785027674580425318528693234088879045054816249195460618589320551732797971636416702325323712083502403183121855933559130882924346547894937694258627348400645342293097543190063573797405647502705366030741607946273954947145131081247663259318195829723062461201073830416709566895063059693597893939163030903258123114757097456415300757789670569362681165503167372655169136480758397253988786731498743437643847321453526663854635233821734045358840873929039890818764085710396756101995682651728691911086182508435990537527338278191070970238949282206629187272806731198702829842415807640565702273929270330785699065775495036971958587329160317385000353966403030893068120737485047465269173103938759395015500439669030304020746031286810660660659185981164342126409809523955225527354603285228474122153460206789957840473974529649098513870370145931443870880669929005940520173109190874500820972636879083170768241684300109269419078270945466519861050922425019625177562335030128814334293559121195773082695811761819170622350031296232991089494651958104311573378383816502033187234738723946967856845461044949251493633109573850018330345497647332208858942989603825635127286589321984241437076418915882625862075425805398211189835833515290697381347204063321296439032089484879668923084053303377228162662469856878788721790078346343121126732967998597766289934791983598411507860875468305479083183281488743365228269806511909824812236745500342553172731494755807723824193402968117041115577118139625236435749888816353741641272215991623165995844875989522458925761705281981664299107415742689572412675164549933422227786528342770975960144504249242791507211122495277593688500584822606934571316781331333867196459171709641520124127421641172311529784561402264169505907322914729653109192480971280488823567690265618926174506377453092148148041928749121253626069945256116799094598030732598873102320208511856849604247567600047730691834660342725271424751380244770122190429369600703200383260870829129736797087848572008337329695461251917722656454972105153060651103313226186909351911828004454803958018395517317944689454096630927650535762499616419566386800412459123037737641649928074530694007595873959085584020657760698555886100149210541812505621451824331512932442490413956803754652317846238775479833426502354840543650495593378392709924018363998701692847842441774584918812701110628717555921582118263677832158029942123563717706592298840116598068754238011453087609875252881405900612983436444499197232623338794263469651304573298580624894221183258294963140336745381811906324714759854248823882669497694455695663219933599352257160184638444231868887488812853227089894322955805691786742798348455382696151746732969276758830087804661684107576907484266234179103037220758318977062116453909417503211039322218317695170217716116183218055502388940626659034520106436041727204614352802558620927908692267621677931606835581496781350499177490896097360824013523884145067800859087064544242324030101913621522562882897101379601890562685554772759662257005117614906270980138239206549911795679920778693060116942621038701163117216151337074371929554558089715592251795655768445477203110470512063970928987916918388122074862695818738046973268339908527136195298720087898237436206114597169925361936694409072062907545269976584493045910878816206335078010360846477888254573194269288181899317253165661441095830369386200855980381219067996162213839824771379324458619128996547444446996828321175312828439850444121614057065754664565510551294224462144250342333230048246081281945434807585479346297831005543906028893396170040202274150062828799520846479627569932052844624773923086353346954793812922355136039984742753652957969099767451827935233249896507540247332698280037469158633487071501590944874496
  row := 2164298113877631927794298340544848680215599063905024425830951853710385552686090178951255769406968768153700057865154506995627340946370947623955067767009474351396347975198783222676551367248658882227030788021506425029524904310792866436640883465634853240641037639002419394881292951914875027404076483101750330215930191899963890236572442865526872022385040380680069193149834305615114254060419349346206156211159725766158914616602969912918892791471248662934989147056717804442689676857443897579409386188197049187458717339418674141810701583294086474576812509566034024643768803990428938171749230527346101837580873652219764264151421581521788102894520907091204408234749399187299488640433111382832375724512171076607295455648784565919399367519446253660259972201280763549950423994730823185119115431835980957985058874391773832636992726227834698616962887007781341602173231204803081299545333719421966830091220370699640785426301099640194846081016401931659717870955873001559966613978308624612496643530925022740230221744357373631157499173518519469835902654703502699598449361057111271490284298014697670964224740819355538915292809220100003894901377615433814210982380344916347116118076408932633352757530263586249598723255367413905809537495623579162369255535292226539761312368115658392927417937521181696014831254863732602101450751130499666778771999051607272170129198371977166813035150367704729037840826174702792022289537639037431148391752666010553320531098739165820651576300681852448359598041752494184668227855929346277098983740031119738258040333788390213795178106024762172522478545736045679588356696721196134764571285927357656008396410276836695798916250489406871543147781565385738688173452116840231112260326415936913693729346332466275799977015562760061409175826108308975629782685086172756462047963041039361777767901719476790812788011445083684897178178002010041911889406197698151598999170428160281957819332621997259482191989950462636933303923298815103285560502732299488867484915297715337189763562540528259600118858341763643838284196307645145408656003485603202505360368914292506182393050485886566788095320070479834335455768440517490329263957453719972721891421606208039818611808466511149475756517956383908354463859639285425796843409922986434085334701497812393445914764664709861958181703466139027892284721604126774879557628644804505422136635893318342864921281573459756142591324990354886441994827852656124924686949100238292856955604338503206101107810699223077407900102278943312807398873645742330529682976562584460105140554955508923639240895922190540942436767393872795718854826753723952094885334877135097927570619700021731662213655939783264492050800176839651198944549481249743444737647805893040426564053686531737496822357783589699476515753132414526807972795126757960762591708996582340949943932027359594711778522600799903299059552518109365329665761191745324298568996515179709015389691877860083155727577014878713797965167649972967201293424049603385070156356432549350810172262775313719846380772616497068119923639995549018762587236085155795177229442563249807045300986065188712603881493258891896348360404854770521941162932281450632093695192337997394675657022872087590959282000527648657837342375799887599491785820575197092391291625301143911541068776132320711133261636760141545071842599055637288343933431840719940216403261369492199951326284352792602332220784970878245555183091900717447300491194046572595081753295263884561918829725729269588509282991057550359426008674541287461757877936408615476495201275805761635585681333353481406021044188653808850809624155709432037249053164091704024652418992583862001416341253150877069972865168042826705955270409382073977930202215346486717736743181694286621256814176129597254744552932678276868149252549867437076272188847360710645498205549771543691669383808610305974279213791071690594538818391143944069423614292428302494381482168877815303293585099324849372136661384327445866283643868539176905926397435257497016476777276390131648882515437711236766626986414790370323320599269510440955732875529753957927016959302190456920032999684709702581421821992263559316474548992007114595175950323308101209377059855323524045779542813366019464751590597287292254649787225482351903565217170908175388032871573674360881884260117212239659963377389488392625038448658629004438209233821938936183945110533256581899812529173897907551166312084988474449558927586060127277770478021341356188190918801487110442905519462186944879043730400944057260535427487916981822389560950218898178108479456351067594864044917505088397783325884349697717290982232485539373626416780846046942965956872902662879769851569474807673875784199604313597567986005581991884242045965973733838581194791300762580740237648562416323718260336266724359356872612240449126125652769491717701939630055173410519734155941498396572237722033099276316820246933814462820869993660425238550920502804006868842357551366428089691359092013496588062058572900026603774188076143342435301919479571827751394804299238239603195744116397755707771637753518049098413556506546799151606582921454265756962204199628196072931415529976582007915860562524486521148958172815212951450161481829847430170376204971084631156291825405139686105363633130694311903355001053496166981000060968958045543887313673174029945726045787400309052300438030752260493118013159883800983260389039065264914626088287464113910084135148386737654778981362908410958904197405877733935807453430617024696939393889947760968286808629110033372868515632289893884325453765884948972344057118199352676082000913008562960284916465936359432357948980892820377168796287003172154545754976622478833555862627665511002643801117960126689167252102382240724857022868323021576470565587412498058377081720177702946995726252013436569777455193379620313363475028415622683685020865491498557435917032148140364138226507077716550361734595672982172665192600917378166328258511504506198249246309089493526834332278006147602484054238879343325264340142593551692378589938033047902885127674448273453106923801976658139141223109651639986893434201292944122178230099877961614489158592170264643473933726253346289293878174457923075732300410403908796393850894610177845959299994371539264857918330967766390804742071116961857849328645261161927575403786657458513529592628485405072000134379329755145273689730701488795991789792564091340669801685100733362671754984542024062366006071133753575414513092444890123244408983645470561986591209885414253034048930141585188777048622743959100526523588767861989641208312734294050517400226740227166733500533124694355608051820948187496536032290619471403591068317536540131867792625483841034856493101053638571280608091968914627509614273909543223067067749749779544095144383041290915542889625661399991951043933848252189181216223489839729744147782666530397633816524052830927659899262980281635099605031665008175284579806373651820613811072960510594746716515851373458069972739419014381639819274562177562620754066909158855473426761180641654876411245987548878301563422918476435514465112261861107161344560230183409964275746601581805439280222448033298429079041417998638005167161349814581004741058385602542457069458838051751013167434352876507681552892847853239116713466654941314660869627802923560178695596979298903697949041492931586078991230922606481786343087830122020049363513522564123852034789589452602362360412400403165748631865642178213840415665310488267378471788041292911749009567071198626971698285725539862579707285060322121639822062842325101457474102598246188069311000828045587297916524540032386642067891766564172972706800652692094470222475457065284848054962626685134138759292860847331419455324328782132414544072853160279299806459243304073627238400
  size := 7925760423743671838173473482270020788722747467945866574046527266358452960198889634304428929593696153561750002401543403024637865388672114273897481488531672949820699543719067948039203276435863535293223163835012965164099999682303465446656781418800877978411471270973984411991320951080695738672403805753066811407909322391634142574143210030142998864731828436294757341007169842223625113514311071080239183283577156930367547659742462018739954760455989102970072094629799176023377973205784135280369532301486745115533013097205707437302844895023186058095167665117181098921684457001912989113651556534759606270526008135401079368404419690698451114221281370509814539691754826372081412007055699524518329043941967000891504513385831257211068123605900395227610191918533775460930179114184261116912929558100017546940712027682805753732128796767234117613615925397600344553073539959553945233172066526886124187682433120849084147902539062609869433289141982329235749754568592978632857218228962144990079296097316464990724275055683436242041214937788082168394527583604466732018813256360391359981265103621643173197995301773694170294823447333301175159361360166061105027034499381827082525417813772476312573667872310701052980019057682276007636399274655020199224794257603251281513423305181657123933738729072540714648723291523916698030454910560413941760
  names := (.node none (.node none (.node none (.node none (.node none (.node none (.node none (.node none (.node none (.node none .nil (.node (some (3, 8, 8)) .nil .nil)) .nil) (.node none .nil (.node (some (2, 3, 6)) .nil .nil))) (.node none (.node none (.node (some (1, 5, 5)) .nil .nil) .nil) (.node none (.node none (.node (some (3, 1, 7)) .nil .nil) .nil) .nil))) (.node none (.node none (.node none (.node none (.node (some (2, 7, 2)) .nil .nil) .nil) .nil) (.node (some (1, 2, 0)) .nil .nil)) (.node none (.node none .nil (.node none (.node (some (3, 5, 3)) .nil .nil) .nil)) (.node none (.node (some (2, 0, 1)) .nil .nil) .nil)))) (.node none (.node none (.node none (.node none .nil (.node none (.node (some (3, 3, 5)) .nil .nil) .nil)) (.node none (.node (some (1, 7, 3)) .nil .nil) .nil)) (.node none (.node (some (1, 0, 2)) .nil .nil) (.node none .nil (.node (some (2, 5, 4)) .nil .nil)))) (.node none (.node none (.node none .nil (.node (some (2, 1, 8)) .nil .nil)) (.node none .nil (.node none (.node (some (3, 7, 1)) .nil .nil) .nil))) (.node none (.node none (.node none (.node (some (3, 0, 0)) .nil .nil) .nil) .nil) (.node (some (1, 3, 7)) .nil .nil))))) (.node none (.node none (.node none (.node none (.node none .nil (.node (some (2, 1, 0)) .nil .nil)) (.node none .nil (.node none (.node (some (3, 6, 2)) .nil .nil) .nil))) (.node none (.node none (.node none (.node (some (2, 8, 1)) .nil .nil) .nil) .nil) (.node (some (1, 2, 8)) .nil .nil))) (.node none (.node none .nil (.node none .nil (.node (some (2, 4, 5)) .nil .nil))) (.node none (.node none (.node (some (1, 6, 4)) .nil .nil) .nil) (.node none (.node none (.node (some (3, 2, 6)) .nil .nil) .nil) .nil)))) (.node none (.node none (.node none (.node none (.node (some (1, 4, 6)) .nil .nil) .nil) (.node none (.node none (.node (some (3, 0, 8)) .nil .nil) .nil) .nil)) (.node none (.node none .nil (.node (some (2, 2, 7)) .nil .nil)) (.node none .nil (.node none (.node (some (3, 8, 0)) .nil .nil) .nil)))) (.node none (.node none (.node none .nil (.node none (.node (some (3, 4, 4)) .nil .nil) .nil)) (.node none (.node (some (1, 8, 2)) .nil .nil) .nil)) (.node none (.node (some (1, 1, 1)) .nil .nil) (.node none .nil (.node (some (2, 6, 3)) .nil .nil))))))) (.node none (.node none (.node none (.node none (.node none (.node none (.node (some (1, 4, 2)) .nil .nil) .nil) (.node none (.node none (.node (some (3, 0, 4)) .nil .nil) .nil) .nil)) (.node none (.node none .nil (.node (some (2, 2, 3)) .nil .nil)) (.node none .nil (.node none (.node (some (3, 7, 5)) .nil .nil) .nil)))) (.node none (.node none (.node none .nil (.node none (.node (some (3, 4, 0)) .nil .nil) .nil)) (.node none (.node (some (1, 7, 7)) .nil .nil) .nil)) (.node none (.node (some (1, 0, 6)) .nil .nil) (.node none .nil (.node (some (2, 5, 8)) .nil .nil))))) (.node none (.node none (.node none (.node none (.node none .nil (.node (some (4, 0, 3)) .nil .nil)) .nil) (.node none .nil (.node (some (2, 4, 1)) .nil .nil))) (.node none (.node none (.node (some (1, 6, 0)) .nil .nil) .nil) (.node none (.node none (.node (some (3, 2, 2)) .nil .nil) .nil) .nil))) (.node none (.node none (.node none (.node none (.node (some (2, 7, 6)) .nil .nil) .nil) .nil) (.node (some (1, 2, 4)) .nil .nil)) (.node none (.node none .nil (.node none (.node (some (3, 5, 7)) .nil .nil) .nil)) (.node none (.node (some (2, 0, 5)) .nil .nil) .nil))))) (.node none (.node none (.node none (.node none (.node none (.node none (.node (some (2, 6, 7)) .nil .nil) .nil) .nil) (.node (some (1, 1, 5)) .nil .nil)) (.node none (.node none .nil (.node none (.node (some (3, 4, 8)) .nil .nil) .nil)) (.node none (.node (some (1, 8, 6)) .nil .nil) .nil))) (.node none (.node none (.node none (.node (some (1, 5, 1)) .nil .nil) .nil) (.node none (.node none (.node (some (3, 1, 3)) .nil .nil) .nil) .nil)) (.node none (.node none .nil (.node (some (2, 3, 2)) .nil .nil)) (.node none .nil (.node none (.node (some (3, 8, 4)) .nil .nil) .nil))))) (.node none (.node none (.node none (.node none .nil (.node (some (2, 1, 4)) .nil .nil)) (.node none .nil (.node none (.node (some (3, 6, 6)) .nil .nil) .nil))) (.node none (.node none (.node none (.node (some (2, 8, 5)) .nil .nil) .nil) .nil) (.node (some (1, 3, 3)) .nil .nil))) (.node none (.node none .nil (.node none .nil (.node (some (2, 5, 0)) .nil .nil))) (.node none (.node none (.node (some (1, 6, 8)) .nil .nil) .nil) (.node none (.node none (.node (some (3, 3, 1)) .nil .nil) .nil) .nil))))))) (.node none (.node none (.node none (.node none (.node none (.node none (.node none (.node none (.node (some (2, 6, 5)) .nil .nil) .nil) .nil) (.node (some (1, 1, 3)) .nil .nil)) (.node none (.node none .nil (.node none (.node (some (3, 4, 6)) .nil .nil) .nil)) (.node none (.node (some (1, 8, 4)) .nil .nil) .nil))) (.node none (.node none (.node none (.node (some (1, 4, 8)) .nil .nil) .nil) (.node none (.node none (.node (some (3, 1, 1)) .nil .nil) .nil) .nil)) (.node none (.node none .nil (.node (some (2, 3, 0)) .nil .nil)) (.node none .nil (.node none (.node (some (3, 8, 2)) .nil .nil) .nil))))) (.node none (.node none (.node none (.node none .nil (.node (some (2, 1, 2)) .nil .nil)) (.node none .nil (.node none (.node (some (3, 6, 4)) .nil .nil) .nil))) (.node none (.node none (.node none (.node (some (2, 8, 3)) .nil .nil) .nil) .nil) (.node (some (1, 3, 1)) .nil .nil))) (.node none (.node none .nil (.node none .nil (.node (some (2, 4, 7)) .nil .nil))) (.node none (.node none (.node (some (1, 6, 6)) .nil .nil) .nil) (.node none (.node none (.node (some (3, 2, 8)) .nil .nil) .nil) .nil))))) (.node none (.node none (.node none (.node none (.node none (.node none .nil (.node (some (4, 0, 1)) .nil .nil)) .nil) (.node none .nil (.node (some (2, 3, 8)) .nil .nil))) (.node none (.node none (.node (some (1, 5, 7)) .nil .nil) .nil) (.node none (.node none (.node (some (3, 2, 0)) .nil .nil) .nil) .nil))) (.node none (.node none (.node none (.node none (.node (some (2, 7, 4)) .nil .nil) .nil) .nil) (.node (some (1, 2, 2)) .nil .nil)) (.node none (.node none .nil (.node none (.node (some (3, 5, 5)) .nil .nil) .nil)) (.node none (.node (some (2, 0, 3)) .nil .nil) .nil)))) (.node none (.node none (.node none (.node none .nil (.node none (.node (some (3, 3, 7)) .nil .nil) .nil)) (.node none (.node (some (1, 7, 5)) .nil .nil) .nil)) (.node none (.node (some (1, 0, 4)) .nil .nil) (.node none .nil (.node (some (2, 5, 6)) .nil .nil)))) (.node none (.node none (.node none .nil (.node (some (2, 2, 1)) .nil .nil)) (.node none .nil (.node none (.node (some (3, 7, 3)) .nil .nil) .nil))) (.node none (.node none (.node none (.node (some (3, 0, 2)) .nil .nil) .nil) .nil) (.node (some (1, 4, 0)) .nil .nil)))))) (.node none (.node none (.node none (.node none (.node none (.node none .nil (.node none (.node (some (3, 3, 3)) .nil .nil) .nil)) (.node none (.node (some (1, 7, 1)) .nil .nil) .nil)) (.node none (.node (some (1, 0, 0)) .nil .nil) (.node none .nil (.node (some (2, 5, 2)) .nil .nil)))) (.node none (.node none (.node none .nil (.node (some (2, 1, 6)) .nil .nil)) (.node none .nil (.node none (.node (some (3, 6, 8)) .nil .nil) .nil))) (.node none (.node none (.node none (.node (some (2, 8, 7)) .nil .nil) .nil) .nil) (.node (some (1, 3, 5)) .nil .nil)))) (.node none (.node none (.node none (.node none (.node none (.node (some (2, 7, 0)) .nil .nil) .nil) .nil) (.node (some (1, 1, 7)) .nil .nil)) (.node none (.node none .nil (.node none (.node (some (3, 5, 1)) .nil .nil) .nil)) (.node none (.node (some (1, 8, 8)) .nil .nil) .nil))) (.node none (.node none (.node none (.node (some (1, 5, 3)) .nil .nil) .nil) (.node none (.node none (.node (some (3, 1, 5)) .nil .nil) .nil) .nil)) (.node none (.node none .nil (.node (some (2, 3, 4)) .nil .nil)) (.node none .nil (.node none (.node (some (3, 8, 6)) .nil .nil) .nil)))))) (.node none (.node none (.node none (.node none (.node none (.node (some (1, 4, 4)) .nil .nil) .nil) (.node none (.node none (.node (some (3, 0, 6)) .nil .nil) .nil) .nil)) (.node none (.node none .nil (.node (some (2, 2, 5)) .nil .nil)) (.node none .nil (.node none (.node (some (3, 7, 7)) .nil .nil) .nil)))) (.node none (.node none (.node none .nil (.node none (.node (some (3, 4, 2)) .nil .nil) .nil)) (.node none (.node (some (1, 8, 0)) .nil .nil) .nil)) (.node none (.node (some (1, 0, 8)) .nil .nil) (.node none .nil (.node (some (2, 6, 1)) .nil .nil))))) (.node none (.node none (.node none (.node none (.node none .nil (.node (some (4, 0, 5)) .nil .nil)) .nil) (.node none .nil (.node (some (2, 4, 3)) .nil .nil))) (.node none (.node none (.node (some (1, 6, 2)) .nil .nil) .nil) (.node none (.node none (.node (some (3, 2, 4)) .nil .nil) .nil) .nil))) (.node none (.node none (.node none (.node none (.node (some (2, 7, 8)) .nil .nil) .nil) .nil) (.node (some (1, 2, 6)) .nil .nil)) (.node none (.node none .nil (.node none (.node (some (3, 6, 0)) .nil .nil) .nil)) (.node none (.node (some (2, 0, 7)) .nil .nil) .nil)))))))) (.node none (.node none (.node none (.node none (.node none (.node none (.node none (.node none .nil (.node none (.node (some (3, 3, 2)) .nil .nil) .nil)) (.node none (.node (some (1, 7, 0)) .nil .nil) .nil)) (.node none .nil (.node none .nil (.node (some (2, 5, 1)) .nil .nil)))) (.node none (.node none (.node none .nil (.node (some (2, 1, 5)) .nil .nil)) (.node none .nil (.node none (.node (some (3, 6, 7)) .nil .nil) .nil))) (.node none (.node none (.node none (.node (some (2, 8, 6)) .nil .nil) .nil) .nil) (.node (some (1, 3, 4)) .nil .nil)))) (.node none (.node none (.node none (.node none (.node none (.node (some (2, 6, 8)) .nil .nil) .nil) .nil) (.node (some (1, 1, 6)) .nil .nil)) (.node none (.node none .nil (.node none (.node (some (3, 5, 0)) .nil .nil) .nil)) (.node none (.node (some (1, 8, 7)) .nil .nil) .nil))) (.node none (.node none (.node none (.node (some (1, 5, 2)) .nil .nil) .nil) (.node none (.node none (.node (some (3, 1, 4)) .nil .nil) .nil) .nil)) (.node none (.node none .nil (.node (some (2, 3, 3)) .nil .nil)) (.node none .nil (.node none (.node (some (3, 8, 5)) .nil .nil) .nil)))))) (.node none (.node none (.node none (.node none (.node none (.node (some (1, 4, 3)) .nil .nil) .nil) (.node none (.node none (.node (some (3, 0, 5)) .nil .nil) .nil) .nil)) (.node none (.node none .nil (.node (some (2, 2, 4)) .nil .nil)) (.node none .nil (.node none (.node (some (3, 7, 6)) .nil .nil) .nil)))) (.node none (.node none (.node none .nil (.node none (.node (some (3, 4, 1)) .nil .nil) .nil)) (.node none (.node (some (1, 7, 8)) .nil .nil) .nil)) (.node none (.node (some (1, 0, 7)) .nil .nil) (.node none .nil (.node (some (2, 6, 0)) .nil .nil))))) (.node none (.node none (.node none (.node none (.node none .nil (.node (some (4, 0, 4)) .nil .nil)) .nil) (.node none .nil (.node (some (2, 4, 2)) .nil .nil))) (.node none (.node none (.node (some (1, 6, 1)) .nil .nil) .nil) (.node none (.node none (.node (some (3, 2, 3)) .nil .nil) .nil) .nil))) (.node none (.node none (.node none (.node none (.node (some (2, 7, 7)) .nil .nil) .nil) .nil) (.node (some (1, 2, 5)) .nil .nil)) (.node none (.node none .nil (.node none (.node (some (3, 5, 8)) .nil .nil) .nil)) (.node none (.node (some (2, 0, 6)) .nil .nil) .nil)))))) (.node none (.node none (.node none (.node none (.node none (.node none (.node none .nil (.node (some (4, 0, 0)) .nil .nil)) .nil) (.node none .nil (.node (some (2, 3, 7)) .nil .nil))) (.node none (.node none (.node (some (1, 5, 6)) .nil .nil) .nil) (.node none (.node none (.node (some (3, 1, 8)) .nil .nil) .nil) .nil))) (.node none (.node none (.node none (.node none (.node (some (2, 7, 3)) .nil .nil) .nil) .nil) (.node (some (1, 2, 1)) .nil .nil)) (.node none (.node none .nil (.node none (.node (some (3, 5, 4)) .nil .nil) .nil)) (.node none (.node (some (2, 0, 2)) .nil .nil) .nil)))) (.node none (.node none (.node none (.node none .nil (.node none (.node (some (3, 3, 6)) .nil .nil) .nil)) (.node none (.node (some (1, 7, 4)) .nil .nil) .nil)) (.node none (.node (some (1, 0, 3)) .nil .nil) (.node none .nil (.node (some (2, 5, 5)) .nil .nil)))) (.node none (.node none (.node none .nil (.node (some (2, 2, 0)) .nil .nil)) (.node none .nil (.node none (.node (some (3, 7, 2)) .nil .nil) .nil))) (.node none (.node none (.node none (.node (some (3, 0, 1)) .nil .nil) .nil) .nil) (.node (some (1, 3, 8)) .nil .nil))))) (.node none (.node none (.node none (.node none (.node none .nil (.node (some (2, 1, 1)) .nil .nil)) (.node none .nil (.node none (.node (some (3, 6, 3)) .nil .nil) .nil))) (.node none (.node none (.node none (.node (some (2, 8, 2)) .nil .nil) .nil) .nil) (.node (some (1, 3, 0)) .nil .nil))) (.node none (.node none .nil (.node none .nil (.node (some (2, 4, 6)) .nil .nil))) (.node none (.node none (.node (some (1, 6, 5)) .nil .nil) .nil) (.node none (.node none (.node (some (3, 2, 7)) .nil .nil) .nil) .nil)))) (.node none (.node none (.node none (.node none (.node (some (1, 4, 7)) .nil .nil) .nil) (.node none (.node none (.node (some (3, 1, 0)) .nil .nil) .nil) .nil)) (.node none (.node none .nil (.node (some (2, 2, 8)) .nil .nil)) (.node none .nil (.node none (.node (some (3, 8, 1)) .nil .nil) .nil)))) (.node none (.node none (.node none .nil (.node none (.node (some (3, 4, 5)) .nil .nil) .nil)) (.node none (.node (some (1, 8, 3)) .nil .nil) .nil)) (.node none (.node (some (1, 1, 2)) .nil .nil) (.node none .nil (.node (some (2, 6, 4)) .nil .nil)))))))) (.node none (.node none (.node none (.node none (.node none (.node none (.node none .nil (.node (some (2, 0, 8)) .nil .nil)) (.node none .nil (.node none (.node (some (3, 6, 1)) .nil .nil) .nil))) (.node none (.node none (.node none (.node (some (2, 8, 0)) .nil .nil) .nil) .nil) (.node (some (1, 2, 7)) .nil .nil))) (.node none (.node none (.node none (.node none .nil (.node (some (4, 0, 6)) .nil .nil)) .nil) (.node none .nil (.node (some (2, 4, 4)) .nil .nil))) (.node none (.node none (.node (some (1, 6, 3)) .nil .nil) .nil) (.node none (.node none (.node (some (3, 2, 5)) .nil .nil) .nil) .nil)))) (.node none (.node none (.node none (.node none (.node (some (1, 4, 5)) .nil .nil) .nil) (.node none (.node none (.node (some (3, 0, 7)) .nil .nil) .nil) .nil)) (.node none (.node none .nil (.node (some (2, 2, 6)) .nil .nil)) (.node none .nil (.node none (.node (some (3, 7, 8)) .nil .nil) .nil)))) (.node none (.node none (.node none .nil (.node none (.node (some (3, 4, 3)) .nil .nil) .nil)) (.node none (.node (some (1, 8, 1)) .nil .nil) .nil)) (.node none (.node (some (1, 1, 0)) .nil .nil) (.node none .nil (.node (some (2, 6, 2)) .nil .nil)))))) (.node none (.node none (.node none (.node none (.node none .nil (.node none (.node (some (3, 3, 4)) .nil .nil) .nil)) (.node none (.node (some (1, 7, 2)) .nil .nil) .nil)) (.node none (.node (some (1, 0, 1)) .nil .nil) (.node none .nil (.node (some (2, 5, 3)) .nil .nil)))) (.node none (.node none (.node none .nil (.node (some (2, 1, 7)) .nil .nil)) (.node none .nil (.node none (.node (some (3, 7, 0)) .nil .nil) .nil))) (.node none (.node none (.node none (.node (some (2, 8, 8)) .nil .nil) .nil) .nil) (.node (some (1, 3, 6)) .nil .nil)))) (.node none (.node none (.node none (.node none (.node none (.node (some (2, 7, 1)) .nil .nil) .nil) .nil) (.node (some (1, 1, 8)) .nil .nil)) (.node none (.node none .nil (.node none (.node (some (3, 5, 2)) .nil .nil) .nil)) (.node none (.node (some (2, 0, 0)) .nil .nil) .nil))) (.node none (.node none (.node none (.node (some (1, 5, 4)) .nil .nil) .nil) (.node none (.node none (.node (some (3, 1, 6)) .nil .nil) .nil) .nil)) (.node none (.node none .nil (.node (some (2, 3, 5)) .nil .nil)) (.node none .nil (.node none (.node (some (3, 8, 7)) .nil .nil) .nil))))))) (.node none (.node none (.node none (.node none (.node none (.node none (.node none (.node (some (2, 6, 6)) .nil .nil) .nil) .nil) (.node (some (1, 1, 4)) .nil .nil)) (.node none (.node none .nil (.node none (.node (some (3, 4, 7)) .nil .nil) .nil)) (.node none (.node (some (1, 8, 5)) .nil .nil) .nil))) (.node none (.node none (.node none (.node (some (1, 5, 0)) .nil .nil) .nil) (.node none (.node none (.node (some (3, 1, 2)) .nil .nil) .nil) .nil)) (.node none (.node none .nil (.node (some (2, 3, 1)) .nil .nil)) (.node none .nil (.node none (.node (some (3, 8, 3)) .nil .nil) .nil))))) (.node none (.node none (.node none (.node none .nil (.node (some (2, 1, 3)) .nil .nil)) (.node none .nil (.node none (.node (some (3, 6, 5)) .nil .nil) .nil))) (.node none (.node none (.node none (.node (some (2, 8, 4)) .nil .nil) .nil) .nil) (.node (some (1, 3, 2)) .nil .nil))) (.node none (.node none .nil (.node none .nil (.node (some (2, 4, 8)) .nil .nil))) (.node none (.node none (.node (some (1, 6, 7)) .nil .nil) .nil) (.node none (.node none (.node (some (3, 3, 0)) .nil .nil) .nil) .nil))))) (.node none (.node none (.node none (.node none (.node none (.node none .nil (.node (some (4, 0, 2)) .nil .nil)) .nil) (.node none .nil (.node (some (2, 4, 0)) .nil .nil))) (.node none (.node none (.node (some (1, 5, 8)) .nil .nil) .nil) (.node none (.node none (.node (some (3, 2, 1)) .nil .nil) .nil) .nil))) (.node none (.node none (.node none (.node none (.node (some (2, 7, 5)) .nil .nil) .nil) .nil) (.node (some (1, 2, 3)) .nil .nil)) (.node none (.node none .nil (.node none (.node (some (3, 5, 6)) .nil .nil) .nil)) (.node none (.node (some (2, 0, 4)) .nil .nil) .nil)))) (.node none (.node none (.node none (.node none .nil (.node none (.node (some (3, 3, 8)) .nil .nil) .nil)) (.node none (.node (some (1, 7, 6)) .nil .nil) .nil)) (.node none (.node (some (1, 0, 5)) .nil .nil) (.node none .nil (.node (some (2, 5, 7)) .nil .nil)))) (.node none (.node none (.node none .nil (.node (some (2, 2, 2)) .nil .nil)) (.node none .nil (.node none (.node (some (3, 7, 4)) .nil .nil) .nil))) (.node none (.node none (.node none (.node (some (3, 0, 3)) .nil .nil) .nil) .nil) (.node (some (1, 4, 1)) .nil .nil)))))))))
  rows := 729
  cols := 324
  nextId := 1575

/-- Checkpoint after input rows 0-374 (verified by `sudokuChk3`). -/
def sudokuS3 : DLX (Nat × Nat × Nat) where
  up := 60340731087348151854458414024166000489220109382579512908217125672127853796540580336717825931755185861318895701832676939391884787720749374459820612540667889474105270741828366300583315464873267630503588656756032448047594091437726370684568229694475428518233509556245271188462465725402696817518187614979383309787599071854655056591018847256373502686497916031820288513890856388306977388849183580271191166945358104534962203988957264251191279164437050258015097570166470366721573325816496954370618336063610252522122069336058640694988700137912675196983243964953078971443916793449829085122394503987871218907276144495652117814051347277093181911458820915734667988773453244321642342928209282837348456054727471600749892506450567905036517017487587366438677804212988059242318949515053063184640409004104333116219921120281974935909337765175825033631479997489805688782912023847157439411762967477788264743774582312484196598628840369878666915276691732134030624986769467815442794847219042907665175946309884621244049536222308484030459175191941583620214024087453357884242280273349843288383887177990835996280404644586044153613936159656951599702027188567967631657934670393627419789294579025563575954546614324902158630028703583621742436988565425045421841141096040390119459167639307280750829878680630955740505248539510698742834374363011292264588526014148029748766569090429490529439132626570466585116660563045528743293868733948393977205146879035705949350243963091816480648812059714829364220220831840995803102290658105302982505511581581791498452685070793204560464503376647320513070152727208818106708573388708746906250901027472799326004979184724426543896311669418151309503575726494498903938884322853415515595484514950700834227089416165012265305965156794644132417201510955538872081248075545605102588158735148248523517659834632315631625703506825935807671856080649175353143448022849989525114781969645638981991771572594673942578175258626037459258043353093502148228448101409815586800435229005797760038645996727173518656969463403377065347906728426174928051356788778332922923103346375257511162847156888538896176042777290485928743832409820062880289358947618487727633646768890083243700412316704123727140180643816646813244301717827522765836406200668041012320536425489366466093301053622244213638690939535920279698622808247868660575160785935025273822877008071609662577558367572107018027393521394152749828235155217429536342106661568687494305718548092869260777954808158879785693621463085133256809923955028964323928680116293125730454850006923710355105985765026323400052437379306064988707967227901784909591040789261462399884934566294156262614351156620453194845175793080101599080824250357679836417390168399460294962039728246570851213662092976024440472011437314597537816942194193732351352279583831059537748686997503690359139959104823063788943915780693064131588033553689708735008042132682117027514809915195580496633681942649449452658965177927777365901545316996240948727228990155358944000474207666138461554661521783489894653735079677099785340309272774382993548451725408460824602678065885201660280890615147736504099360148675442807506220411444448583315976678729778031861537996432167330393141843900267347305283353458618786470119317842124230936956081334238585138315944610417979654405057744568325217887412543741475684863294160497070583065296613187239917722954773319298574545106383944565321742241764680519848373408526748374336595600929116713997204986121385008882341945688886623786684508973841302248372889104077346370235466282210016971245012464059053866182987646943867847149611356305706825808766348640180947773648774315465241534413298144939161141011532775711713771827124480128451336880200268927091676762530666219681386976779178497896462908159342975507072849033076849835888885091343198455410053983732509581090305861188600518188887831865955684639354069362684180265014665683502072937743745142846981763676307684807560446761195640254278096154047134543145874458873391895696926352532725821750412631846507707811916659705520112794252629312227368029737216032586044694087590110812349574857354490407804649130897612962791613029861749907684138297252262465447230974888006623031198980574381888211599582290722681150493449503965705306095424682485340105956486209829989462804806311272967835309784938601686526781246504642778937233175744164012686071612613952609924840537011381013795158142065417241899411507104038147836328932277541127743352349888469245109324402646934103610786554549924908146764491327535239441399090916968772664169542041590433476522982279468241232832773919864648543631523483370948797593601495368331369008584620203574879694119308456269239766024617674712398808982336484563953212685652564876995138602902962776222099778433726995821912534198564351560787627915103665049272025626195603028753579007880048860300388739228221322485983421158100160026505841750728328017129344895454740664062687329654558711080714350066982625537737605404471680659845369514029432027101872075829378839442895523005656703992879394237603355306960315125150400633031575411761836907211100919484313407113058127661503128115380015959719616191808829087117017848687735410309788439059663202377370208694020874200757552147784681083725629953281871102179740922513515852956907652954879645801372059316874537580594591982831429071433141457436555235356199305967647875211818416853434461587930173033191028019371455340985002417089897563570048701104327814473377679379642410400704057875675761068106230441501894227250344372151460276497935441807512743243933506348658930948015846307988057572391157071240869929411252194141606494817294197116130691438061528548589107127594756580905845384410191020320429899469547801394836264817991016309783736571982592988741193749153306268099343677895754480385191036479280783890624801789180216007460295120937549939521766773066690156728335363984375907897585709689399266936652484800578435535135797427666618632154502283708866357215682919790024800875040096982707436762269282126067470661024833803497197649362503283362351124643628938132054986703069961264605608325700285666118420716256081113059171740286925577530571030525582243340233434796916342906718203062875244188813360983695010040641789662517458133744537545125136671619333588682325355069785140620243405657995758696739194692722412615369798057145161465951639818252441938673184192880221224629382363275263054000984743416352915160177857254802862492862248878660331840862896495435924314743972595704014026789797568249932738326306842947659238174236828194927277461857706445792480990317959864975639897278808244720514474377813262132460766885771171256822833243178044541650841974525689611993413870605159591012240968466606586576258902381235739371842681520876282558279030095797495230022258442637501108275062982901987485548941209435640963324653536163987771085862513173977510325208558255907071299808383833116485344990093706927981967748541036345347486635447320138278723016016718306848572440513232078432818079408514087254759989831094398878029506415539818820754180325494614359314686253401113298501181377240639825139500213630868627989682264203613132011150421698129616438953837400272078773603371083454196727128938124626837722792150956706142541415087663866107317504582673255107201038739876964235846284787745897948058986941386172398091830499500774977770121858774014014616459009159676987739684269327362172336068661670354614021393537340187775998218061560455432452281153239834164428557820273058305242813934545564055726012657787289431162967897605987700674605196042585343384152710441339942157112370146183648037177186202573763452869944507021039126678079319655810150238123943454915815642253415045045671557931951369831578669322798812250645343410316334568447167413825480984938040860208301896152863170023841545239618156481077634129925212992325289626311551146475505323074191235497896969510046333136933395717059958527468060370142316511645628654286765610391454164865073399633780572724853095847499853732860158239325041126451221526627373187915381418262437980084300540197252762406009983990543956961171707677529494057288151322389675438670386284236913394680853554133066394672932721346637411544286083091708736491211422911683650794590358859533978083351710422713646252891750416321960470659569135556223206959497241620051787111190286266820193629493146330943203995563851062927104629046515226556013182546170256666186214404167846501308709194300298825986195995176595224693495641142573660685077514374642801368796166528397098392379053886893215319442172016819879925025039539170800619849384213780741545836541616985066219631551763986755969353016703431319285756216109145510599761106938902899236465807731180412399486531488325422168309260530676205006039796551538640140218260743099187438381286318813827527301995494106566801260404478883016599879966510065111237598522678507590336264195499212072992390686499164357385239153728329701309125548468871274496868740676178818183160366704027013684009695898079135059288703526008469915288858312391072246321904647850286061373878850695918737096385562927580008189027789244330798873023167384620746875960318492699428378774376243268997930343474269941835395622820450896788244658432269951308444678907025659208838056870375634057585431943421664616928275596131781461765262804258338240743552417436983503056574222508010798830348000374532027609520685061330342997032757279692066911718118764550035417660748250775757208288834056335182371392006903705120028522608066298765736541015047478008815709543942824555803374757147574985400467547157700080902095159404207956156460997245090155996302734185505136053034520791750702778242959034228278781745943810028911745841533272251874828982997414380779818739518209146726182408731294446453268119711868213276300109862311316699595589016537932778917733456694885618774139546171983729302327352817670121289518643270421627797866005500829300848369652123127250867107493525894383013594236491998459119967059390515523311789531746472394799225075447328920727008833526715524998437025697872272791499553646192357769881924913040355692719210071697418557780211539269902823729367326447460886608785279677830669962862873272465117963301058002580131818571568443981454800218426606064742175701476864815118890540561644835527974070104845635073686143039911242477046266830731580755606009594222000833969698051180161598667527732741175424089897993694304217538179910898092183189496733244115481468907849215582661793326043076997702545551981751189144027493758821026018542046477647824902768112169632130592889312258041365409799064418544870909763930317030225028580760110322062542264862297424683051850676097469776673388706720214032952287542729107680071074294689946576677743632016745205603279644186469311373191943224352096495725858765145247142985437312405390314441339083978785035582344339593914615955
  down := 7810710508632774730034940833268242150409241923413063959292356733174619142830585912368311281056382133653756423052907544391230177688371630209881387464019362009108489370804824814306087455968860783254198611964090528551270787285654500840900579347036973559775556575288115727506477297284096097666321051847146355947645480775570827886547092303651087829299044447238660347923256374906276460398992298728338015615694089518431728117862050534174528972845438765655589455050023827707137710955325817058750923469666410597990401317012194371960109065950155969909456063962805294417470641505283245154912272502527349143106653112945332542041533706062484735270806175808528083775455349005261460950571690082261423158979121519738716289507306508913609635421509037628330660467752574651990806399286442096861352654814130161690157467400173742076225533045694738790099300379883619509626448035391076423384099035536428301352234119984538566313075868178133777928583663761922629514140868339087448219484324984291302412208775555679064680850688424540769211815924859905113249565171904625327742107480517875791947049146392451653738996929300665195738014181815857194940527229632715047297342361742994597002460855495106692323042966753486610907614241454709671300687801794781081024177176609876122205945761095546453222966269687886453174514753992007871415298878674953032468763287378091351103763114946352251893935177453579971837082042488725161527007139371295317972756527967326972109696451211443151394268183189429828564770520182885295778891087811008491232912901767736780753291639158578316481546455341083569377986890544875275856242565074790570874459040888007686751855870303920491080540454205975941893666428384816430903525483664291250879352806287129093923200562372976016024171046178949488465483739827360551508239665787161049760883757694304974820510392286778321849977341239673978211275569585940172123296013402663222807721330755781182851468890311101396492656610179953432999568877078370776120762703547038515329146380590791722747145931265902804375969004244127031275832347627092915156254202131635975311134013927219290579280809485487060485547337019226209675948743454122168505099842287740032686633961214947656808370884884207657683561889921717469645907202377893588763148509587388405255778657335638537043179698752039848159786747496514409593513820632306976381211132881332954283024661359558891676402012979985012140747218268627228940970670768894001812373543876363247927479208368425885514084396066726402411876098013690124682702624077769099328673368038720219279928394227776391503540116925197326195869808508967343975862471281796064432571342532482215232661337105372306695010000299897639924874475511514699672682810035751053988279924799662122531987032708082836577661126059373890962648262717545538475364553071568355282711088520831091553685736876370510638875577903116968933682262269312817756363197568689566562531784352955165082337299484105942473523318026522517250234480511733954745363462074886613674050853952136841754276079285117499583492792561299034220834651631570600019511625948656822180965489779739390026844261689524685379070838756965168672358718990798184408321126022854235788783483445809119272992391878574927684357968813072069738092172752603370562169985411675354923675482415115682494124236602441368387429151519932782423723029746609095509459011695979915848211803078642194557322389354129160829599750632346817186289100933992780152696221525523116688105793625248295761645433158915717068723382051135549752352412259612192497982951056306679302738966430216513732821885944553059325612686872467181694492790883743591427783751360076179277112724060901786936514162960491556400194936263098994873099505193172445593577564387997174876828031325041186468258085927883196670512176122012127987158059592581331651891531389244657606583864331541035580886818621201396615148888024554715940728557741100432914957794724415338759283123326138124728413964113176344776096099765848692428924342893899325465795065657335214845171749959764549797301086587889714012418703007052531223895221023309282624430141166503635144230045297146845734256426861423718956716523888806566564972976568029029149694160042767644275448901224974618245915138443357799837845624589180114602988004452488453159510283634636287352634605863869299993951211993202822211215675398120581621793834767447403796893603165591146117496032135869319064451202610820634675253302765618120181805662105388094709586076924991532790383777864351727103622872037685987297894549176672652243820394734516768790381023917741449799078104546069560671018029802095296419978285588281961153044503307303007320738816450725492908800117616523140209911729686180453232782805590771391824088957960270635996487944433948860006476959710147250470915684663372677599798060260902835101119214558008600409894292866781657066062971349387673152588344276119657352708198169720605956141788853188610935505369623707264689307420120590070694782535273881771711791405568087685191184818709918118598850179060184332065478189768234295485128962142257960628325900248727865229748238135725488034923862820208939879490174527193050911007154000230874004915755007323590867840630862080755577819676316677035686917381311913533518257435778586606457318402639406673710196246816858431409142745419026211996011240690849950841461090153844010465059540460630418966480214050036580467116348647206218388830849306558894248448331868153964897628938259435960672344290260342779701773451705882524568796780163301532519492586615578789574456862524545415930932305037754985329959900571022890551131261462896881877591074366670256022531326772536555898575379748939192554611292681710803856761715165064960214478259763723548971925705809173236048367584228132901000604726779678595702956969206317493792775399413078877536941222613826199989382672479904322527082268132635066541905973020209976779723165615465205703488640247971177663896251228046605739577146836014234574014595583801182093916439756067643584976306057411858854598739908200978092725524329009611368712807568075532785296476224207699415560284316043262119064608242250583504964893022295190401165464958331462973244283668478249720151969503563086253368224358597541444689920874002026603426910526640227064214902305734946749358598776486280707428615260295864246952973235774506406879242860210638429275734902951896349327038053347304839518681194641247605560976832145360698137246793494169588494840299224786391668540216490915894708854631023642590453212189875159999805911509063861584892720823479822391450889828193333084473528763676239070009656549982447410779308293777133300281172075901441648526008458167249397567016529286298411847699379078478330903202382512780183032926660910600796654029548131115896609765270718495358363174780575922088449555846071941101131992889788836571872280563216874315659493505163291094921409463171226416464757886907779811522045835052588676650183815803730255501170455369583124271084090758789923942623999847801507128240879561987352146266541062300002629661554215742160877542887108452666381152968131206579064585849612922640360256262261657697356443639071700520639891962338318330400932889681711020751195080106945326861935796977575330923458104171103206657271760651355929212196682610790655716397863899748090256698145636502377113784593854321589660057059151854422873974746945843508315269400733279357294769162314280183760484386312237572517914190684860289006319298212641356936357573139680913459911756766300152753088431674826133497549332054900839866693660322643979060329494158879067252737388328152555474137436838956348275176935578814478196256141894753241785357818363892930126594778041676719280206333038854773024514311022500535580237837285193145028109877848573657895126906138702484392874597091741731019394628390079700598413664490744976779460011855567197694129643185406124774655017422259043601952070849427982047836262376941605089084606586428819820610137879125098234679735345577537805676233083510973223992702083253497854616950193313842662822425073043013611546970645995243316177640527791548793958325113224927352973051886169157094836587028382621828420632235876995702719548231856251208054696902873138351707316458695545504335671969719769403673093161797732921410505207685635758757316987508076637729868523324911669139815819152944257679610210929489955456973091983991545515962687230202633572785626164832015355382180692265947294114902707141455932241461778514413575379231391862740305606460859754668107293897078756364703520464429792319907878601824314540906470166662718929742574576501924661352947249671367122074649090247736931668985850391244890540284638817478790406129819567007778004481482633790002173799985843217175165512684287001393970716179535889043989410099618790579084141968863210826640513752947588196396624745520613258884870988179532514272073549932733262800737033450939218339544174636136398231003177035531854443480388047973100009819159326557314103388508208562629105918944352710517576102931600910624026630649627149408819091902468053090468095227783013079690321933590354134910181763605707568505019789650962402827447365209431007654302514789928496747275954158406433309502162752966551938141769816122053769843921084609159933667932102483315605055977960028686289536675972352882058115445154248587750827787289591077292856212589023803632162708059537283385242524621536279223168433554515192774270709722027646477113049227282643296844254241344123439864449729802725636214380735940232626478713012753095844388433907188422854309853056679001035362880806619985132872228088270544759101960426749849469046561360285756526876521065425251128368626747655340747948869899958768295768858659515280700213434382633934296816341042116847766071617644103178044819870916135903880727962018126189570485337250622424383998929960313138112946660432705080604423569769644063019580190043805814990855793619067028919263408406431399935320800867697867489455349618651754198912984323387806352060528537544591961561839698013289413090597787127156384554629357861303592936381611372993350180662383678432420142676323702432352839429331580857781520995888960138305443881538346526557580253728771120599443729623960889251776695363650500419580626395595837759230200054412331952413805146545386608474881766349343657353752875915274228923562436770768416543979627159095770513781701529838950164242879317072744375134988760785465822932059047427972963358419213759620231685190022597952088630964427275522647510569389866893492753970530521244961474720126084840434570331551896391571851615634502174417910313456828776072979133487790226153264704268839678405410205360229940001122367531273022286821806687105335651178707028325041286191389637620598398926454712440887001045157149155460095739011501170454463484759855093364060706385904667082135626378252019752237298280681416724664804081074687980783961371956347205
  left := 60450758353382887821448808062475812340081857440612481854943762537720504997553618407711094971647808386002776117330638919931007737953595707531797599258618554259969920355982529054653706424728755830188415734428708166093631859331330242423888085166816593047995178162957671682347860077225331773405059624518778474379867395188528860444761204487490833021478072006056091716789452874714190579287437317817593102799419585921793873849224228726221062223058406482590276138743579438875302996457079372602042424763545336515652219788613045277868695640603087623137419473284124665993993538469932936390602602413496972682556924649284803155211525711211715213528356438897424572879986987123433894900368586910507035281866460560017263147121124868678204588521548231521979790954068765550013652871370173744172475091677040734484311346797951546081399036189136799118258122056273546395529210817857357285190890011180398833930809569397552690027951993355472009867447218527606007969914251785932892221195634551310849424764042000283856125316038688895548966960714464661921839201355479422034804071676483661337312027631760863175342920816359959152751964516237124153725433329489390741855285564678823349617293455043008060287918030399817407698155415793359442748975888558153125117413439542181568771008238735050003643667694015320473872978065883889089975550950057194334342518042903735909241378855130014756560529126005207292038484558717549954703360116636825238877929997988365331135075958810677076101668329200877596236919981029086369431818469921098515654968387208728887185199574844749963628650631054265329072668947010126664528638986767671760239124835349257774974180571177080893961258846362586593614936155369856944466906440603149143601827824196620824588489418893659652038980755291047519674256193287828949612652993897976551342936298693427523443326787560263206947179554112860072050019935910645804573176297118338326660764289107124781692787741661906432076446765905449761156698718781404245056023260976487459103633242716859523901940631117729257030716268748798921827434857500193579593778022071548988500218183849414945800095684246747304582303214243877248463009469956483202811633507868116886900033919908395239516464977843050554446890784060093944676004780368475723965499359965293284548456577351936728199170564175942699753551543650748186095301847255038274414293705393079259334736388366054250672777364887974781686533988548274975814840704431346738304041660158766479481274949180530291395343029589619192231133149545912378661001733936565625707565350132177883344593603754786688934219081415015422228125398142649575082149455378219842273349299489771387932191248603851750401177350690961282875888183931941898480296300754268443129514991804703868687433896594062817955783293223591801613636418475439413038281180989278373343890013192894488157784792489178849149845444599793032872398844137992453034106482380114108412759397235157756355585118785149812383826331256019100990507110018828366040930309638363706094903840529636294800258671603762506513997270009651955712635175370229650548291289810159454406549754775549538733235900452874873101595554551393495416146689908056619768354492065771511031690220651291496762928476899849171177734567015424086554591189978263307777697657382105280725634673214537923970813370181383181993289768542193062056752565508735006692187709041873893279224195043438804028004147647946280457722153267092556366734078220046936897832203378937140582425379939677081786934667190121999243050995912142771412595459729398498163106747098651663900452859467056319411903311613610352532042761189675334002865410283381140572758317172214678077495393572755435333759807268792171618983123825987771878920638618361946988174331296313144492961152454085328630818383428030109894979857541947415542677811759854466894416814064415792364335645470461395673578650896622215898250436574481996232201530714453686454958847312148715669716095930988213475331114315738589209683989038011204909346509858342339663381777484274666761235204598801018727127862670587092045020856850499534867515472749538735071235011520319325557520360426867178403350832158139901820595700455535747694323544279799339577923278365222858132932658906296212302616423462971429537573726200757030296829057223164892979413469933747708450203822874870286235997547320701153892221511517651158102108059667090525199963354526889761598315121382345574494181882316181611402904851111912818086304958516694645968227742598053646796005349698488126528496911981675005780263637532475945613274946907617565085875473147893483683189588054479003652836692860081055607712639078557732235987230336098453112729786846059580084896653011464622735190886508240486049772348397846581492393893047476133350782328836195169251671510850689421722281151046913161165213004574925542227544254567346680760911452188410215989408005980935619697824906265699975421181621360860681088901219843735085355514448335631935296801966804814017192361356984895756120473809363330539573227808375764136671805253905948002176916316863169122535643062533674510216156004759826838768203714022052405876183277237001841303994589723739165057519241945545421517280962952100104670113123223718614076727157615408260468311933617383616708344215287593764817286224718083439141822064023324371673259055298309516842986744837757677744007980153822613636846413300990924744835832630087084268710329620470721795933103502464468233470587605105531090743199905540350964305193456220986094622466251058503895609482688659910691302000382878545453122534295343597613771124962113094644535317836794043315659362133431585995134105803844687540797323595979636529390716944839100652178485511795329323898229778498598898088599407753981832093776126072722277274089192228771766662879637466371172655915341614611148377614056763031119976769697471343061699904305636356357629265983522392741411294784128398394207292458250815056571097906665124896648293834564306031349722269366698035444635031761345877216236288991686614579235142367196240182402304557334467931902026820737736657536734203344822814406915312213261607009775129665064803639701808980496012692761984430577678580870085738301914444446696338092068404304969084309754220137785831256342257030431977187852816756421641695604595122372233860459412583787343670989671319079806163771390855001668043621207105799155181473119146631649791549512101036255244126506730380418477350863915324483128387877357708330451136665404263682663553053743316326277371273868116614532180330524227657612582132554849609759049452025689636692764344257962484907493165732421457739691147422654719113155265903256510315971634640732652484964915838721669682983299285362320902416308966378748169626008457468806101661598202446365269361921651290565216914233464481850032366513002140715599295997975491708331354245700761912491163956081127700138253313960958952080994527441212476825125164766129581981043512605232330669698937492473879003101191762072980701838575406000823307859877723775626820989952704501823909180792482413333923512305431194620156547938308666767909891867542769617839060560938571840486179196477414786842462426180055445930339923833956856958105636750956364896065270962254628900195399005565433934145816227448742968500302167725725400601567604103605624565459331428278333756359049258248159879189514449535675526752076589243024595610730100842967923616531037764149368805796128489296241470942332358850589671093816741665535929498454485214821762284217934687174124801346465296184956150819198499965884823383313624174018443302923300603241902709422956855433583747723455626500484811244891218662166706053470307481111786324210173927170039038355818438743813382156545717271167501285854681011843066991753841296651675036885590361632990579180691297155647079528755454586650780010145803596106589240783249871909280598267037625980148192172772314465696881056631772485515480847855721025960789772764489501647128874393838148941160812730841283418366262180908956918442760841795813081965037069269867889095746404472377410774528712722066087648467477399858847557801388111209438805323521594963085865851809177548659572950903465868737333038458456628608293335307276383512833561999531881756023839582856979065268448143879611882877854957013853362414796011327292960729440728532924634357931350492235211006556322737598617940269911452407988568409879520515432240958891904315978051401822708625287351491833050743028537704028318212877391902472451077749403489648568941539513889314127328369194908491901358347489184523607293569202527340994339899231314809085202048913951049451197379238524042414667620644833537204519960385680640793966760263725327432280499904923016250563835419534762843527087329714634400839493240975888435510741127676346422479551978251963929287106041478994688766099422936220763002834246280057392532858241713791864489042680374640895682392068572674370124286749922414228603617102744929655933386705164048444736297478652813564964380465087501755729820214426364868982551639578283501993760141246136404258679498494165601565474123745342074904340237770119954983906919157821210776544426443218266743997794439587605781545333995428402799235220069007643086098284317888481734318398092731416172163771606583465161544383055649139837157463860979898272137030995659463206927506273379958697680496741678369547931195300354780690971414594103820521540357576926746385875978407440529271418118796425706667717484764994510058316372398068942785970713837018554845565175139028948887920995249309857806674479204590036571796098477691388533264635560643372224872009908049436466560191939657440576628926979389880578470097196524509670876141263710555148731940141559876324030769493654846455245196445661108300300601078971881865882428767767004358883091296861638952601703999704251410435881517383349847136473752499530705856047668105649595294738989131034888686072764782128812437613069642069409694436869766063089970748743748307978496803472939914124109990909528263688830675879283883501064611836416924327211032974164427378245844518504356258803110165902919475606586543087112420824373376143647387136483834350372887348057084078057404008578560842632720929111702792432637742656003459076338291392221504509103149060833967364207778202810673071166011034327852544176373430761348632716063213054520187850004207447959445021466190035627495477700671907632671187202511360972196402912082560102822473739961455166387175112024475876512213262782773725692621958163877559491121816977974634905784380205166117547185918042023490096888156058830240107009184394294780782788509599422986941179287650093478827276997503798633058098050068882301785154130896606370726935432252964994488370008236802360818251184284533922127641482784377589952272197087227863868024349086838023561764035173348707487491413668525395027620362574825560896829658881857479772691535152126874034366952524090276758009807896900
  right := 60368252591648468360009663041578282690135901458974986232256511459351761087225275830566736017032704214947263337391641659667099341895988122294856331241982066930479436315717965719655531643684590270192130261262431120484820531387638444879012747202261170671668229689867709904903369970419451919080812330525538159789043931108979439649026102312766617792062424401204171271519430911188029090318195835979885314902851877483899737122822471904164112010821452751603602474439138213967374321804826264906435669900069473494932057148292423543843999460581567893523596674901031410541120245885450270138608985931214685033549921521211737398796404567257748732208606473123957640931570910535577527999151023971215243333234296028336656981327907489061857476465884783308122723225883789103798223070458363336611454680516018716074620897405839407386605649485768116033864381612478560771498749105187418023127013277788147995638089737319194914718066904480172089869799442610032161763217674701040415836541957540473292764389899480382543319086142538554274222147014838085287892815970349868757734042881548661489759156985598966039823538363754041483322615945026446728533210025887645965907249404735789999939696101470203718668922031675504849668017911018476913218087863430869208205880164432185878409976525732956031253334086102265179925953381887252493327314383121202134411619857843843139823469956958690209634721730926935021981604257469090791568942794811364366330831425545628331436379403777777595309425037643543233010511376661468052188465608490600238989199693893266812726992713507135913748064377413121218986065263547120041788064071117934281226743493444311507989032280654119076334474584781588462341857308401218521429287749194133369589127515955208993360287619247464568412742574283997008538788719704336101520841216497051052337356979394719928391144418533182806578572865516252853416045689497446775084762938115290278690058639714286277069036646788903765790658957037493679934494788795078460510198698106395947915306391338598754067639276768858240779971080798622589519441422021009490989784324441757522876774169442922356392504226342990576586073527063418281360655697317535904420940333815105028268304593576556411664549911475809354830447856945449298993374667086996632800471567051517800014294051521411786496817052138108922448390891118752071831386346358031365286942325619834613086777839748824408431026333520108746098048877683220452185040690074432537717529725965342971837595287812285540970348691343001928711061478209926416359635273534243044547030126840005617811355718594464673479586007932590411873010103673761103698724705672303569107337578969404435913031960798035530310457094864461808255768393772922044478448558088331191891132473011579408781935937225037322494378628056549973912991659143097072795115527186275505820904997543730674106907347484489572025022395101075440034480495903952521206149384683695513677253693961217216893551959430013680255340950848630123124147370224075088110452899947235389108127217862669659136883131667594072378036744342281124503354437847388053434021547323313831496815759954245255662205046112998869550971074975395091708440488139762862279561013726775253017185695198666986265376043736793551139096219890884018201277002141433937941244652488508787935694471192530281351427919777026989636084076633266338795725926862145866651088499831039188954076660801867460569314377789683821941411135820023547801192008384124875486093821850976316219029990111640872575192354644868750768483542733735405119301655358401046622191259782138768435694851933283345236844800568334412615285939611883586452235640296186138302756500195231776289262546170941852581663066627971657187014959233662931354168981543519192423118453398079798002837695682334501571152048012507843451876898751632304441747642441194240317678658810756450983889041750060842541008477915134410655676912094582902941771074045492674371248650183361705979678049102289998442610553135985756545700707021024824307230856839393593167884199146587532332653588358298183299785560026834469580761525282107548970032626240070545673939134973661379925285858432211346267500146973225860668287617265793354959146920285330186651171187542416132926502465202982559934188724056953655452996780408166082879089754120525805979530054906048831819598449696040139173412112197137027820750127713309590275591241635517469191904011861839334915766705812027195405535084835249991829866601522531943874677072431570765294886880609016696195347233279815726533579319666300188476176149789333582602555558724794358128110548408772379860832412757865282657189685343601879451229021364767755174917857028576515486441073987222967844318704009323597491848169016827121183322755787077023141785175333510487659416828340279428981118855486276540778506810581078063703033039199666820625261551861286656052824330919751720689015979239611901054244200621000480225351751367673995112384703313121258611971513550417054377012114820857939033771590069619254761390285993297522256500626242859114825107480101113511081489341577138282836926028336632046840344089001077409864241832006619057038027404948446598135868892255007924179003163211327749962409811586039217701155660142563515170761540048488009935889792754537115647706224670247765304450294355665286672424967019593389809413670105328056300729314398814827993301722256885942114275923945790630883599922080622955589148345889500428796833985641348955956097483066419183124256448512578948771295539065102620691831471427703395491028166414865601337626094530683324684439091154586655385685735843310113382962953197388934212316162441889907138533555399697975555998152400999021495980707491014331036860929438000009568546895826399203984624929417654330470280959899791681449640978078572902778100849168166669440646007733950704593096577357863081684943926357517997153551558281053791268384488255535364222274351128122820031469758784517869726190637468233394477435477068215603335716554462085045137388915144157971389965384493333152294991448283636773262099952539820110686760572684769711554502629046651117686446284795490354848332763103370917168641129374204439183847136025424543865977329846938524930373849380031894205373744195592693040908939883547888976000750387622928322226824602966974351648572810243231027323954050463716732758136022742007023392086163748674617385324811495935422015432916816785953254270847708935794408156348799753898933205018601854295254553568270245145613036764180773810163696106408023304916368274434852226156448694501838865794792231229874277938193870589899392719887777003819888687797473254005134944092075793728188690228413843074157607345365027227884819389082551004569109032487190211601725897192414948882010002970493676049811504344958516675484909153905391045465017133738442693199316879975504809390129885160606948340898079950036454269154540060287305411291775444177456132886637875563603814897093305667824892102123251490711328813219907331003133562975663868944490429373112768827318226937567987105184546926876290320898140744846118495208513810665279743763712581838193198519560295707720855660042471354319046247025548762320917423497368539163464741286559595489835661356416444509984083809554001748049409175179444473034479289350710584870297951034434586606209225799317280272454203256187565677464355500159415210049915885934237737480407023684312793471340191763878029292881527981495379786349321767097545088353852992131074585088931595044742986856913880896886926339713695463173470868949302671602679621530630469349505695819524369586917422605299726283130020852785711618908801523563352113203435853394081073241433578033778033765016935963283491799713574133154647061068991414023139925467474448704545419192574991673220920752695263694147348275023795316736361873038184211988104490644306799068593385230837040124167518814615636584928227195980593957675574590797443007474411157476673706439045293617182403377028923696368692308392570491686906466526953483890476460453122715020517091575557956862471998557631620298813516803170467951216828397531758822391262432180703315977026650824346699114454625827431889548138579551772626926337073111524526857026670351874602493593297101619738323443388005315499413831236504785879477079348869802426480318104690923891515719277002722189580727138216339909323015875637589235153113672423514093261432451007260027663977174436226192901717159443532712917559404256959090458159524028962100748550153629685025314758302729010017092065765582434295283894410922644379329599655366381123658457929184344256460842873352666126072069346726972958885769802930672069461473156739573132599263060666376474119615194634696948292850250384065160094682159348685552392959014889111839746524487185780540675809589852030001133581899588758726982438143771168250300728237082612353344644802802321111859703457798387961020786259873524208569007462147546532928979382142743364940960940670186533537561126942569058525797221523067120270715242568356258672039585880297992194260262367384759474902034716177074574606353423020078604496710599355448244657866653985441336278923610849602638181253508258989909056114188109671119930765171048959068690033522506740990594005388655194853964738269805731784091546030979201941630477956463266311665438836048157486138267044371591043303026164907272421233258209602399543028938113769049871539491316094240440884635773781662069501791274432175813323551068088146543699576003238607269716845058689085482701772041931628807191491657067367271642032950633596357110189624691625062115580387747426487933544571141696368378046576598655185633702173807824624047261995101752294699867517068374955698175792919923121179674147292503152408877219476510429578652322999040127772877512930307184719031941380781675980438552818244723998057598705220015509355372765438605382660392094321418733820409790167141639147003123423754977953464094231683746575657095582387227197837656797396347405260702775496654113025675435244335570094654276612530108672175743885186440146362697314036914567570357932268836149300437596627461884564137754599510511165439324573291267123927338612158156457086909560291555988899032284296252088470227238520258824249728739867921038713511002975388120150405429426780636589427730031026176539055952912977950272916739931886342326633019000291719026589466782717947085073474406619435867051592745716193206771061609789632521857908207247942120297182588637539289817511028775630157021115375352123005321413720203028511337759919163725634468955431872070341285716195672631011832566481344278804084853490276271598576070549195531125643096535219428190675879172793991023926822951065519926569326825928961504771084190388780396436767494799273747644732476518448032538947679717568468894973889964508530605495552272674500362971518253777127665218993797412229226404834272973817795926531062278325264233275952125844825598067058329598385286568136629934413185025
  column := 7810710508632774730034897268383757427972097509951401221925370901720089574286776355016824053700016900904131228823568308135071881019164361197738639054415753428868905567768632784690111621447972857855704363756121791119588831720016580825120263898084423626443544007968681292875821628234252610044615043845820299403773842793498253156011245107744011414116467659065413324048818798285312967779744364984668127037981112785374220092966779532065872693184326504166960292852126437014897817826432467871882598793414465259202031743492871055101742692280299084410803176990837028929229967139490147383112992746565352810458480731257292873777201207917758231528903444319086031445132206899760724964729400141191801762243952617341658287434753710486859010048612802727387165583326385194193415242424099639761695719687807840343184075097108141906949389584532073588219592111896308229971114397914331857403085645638403421806356648722639963186689724446852190224217293880244910536070065142566210877932058650906107207782512154459692895674475889089305537012662533592109581739644734767148499867384282531336538104361809541729764743826592763511762000985478581321200480775481113885395050143862701451124699026990286246941928960670445232607692536208426194474846666934610431034252800918693086900271820851485094138128526420334842815647266881067845423631250441399383532791071373360408773345229731916049009432759174743467155899315581807226678015160650588854612376649925223916089417020357591703417084472845659327065144790807392916718614996602991597792605245757942488930735314828751996106208082446526032833418062084451031025870022545076719679937862293788617702141549105881679807733222316072190855584920972801920166561681843787467139220838593403366546569942495785598887476697194421974752491583414402248284102139784455345479598577944326162319323575196501828965932636193738764393324663196559098230192308924167815914629722846069624924706134677972552046225908216785500707100497461370654459548538491533950791163422690040757628221729778960529695156306872572037240138507680649572500660393868121020357150784973830630362602387966228052815523474527350921307753845710484080668397466678308887430494958194572037292314600339033972905390027349293374741302744928450610761335262108247105166706193769816080116540330730243469846255028468211329966868513512816458300270028479566178954284379149163343205668606833416626429066179350858789951417652562378512345842498822437032831376335359579463686860349325862536449683158838213512429844287509648457774139315421633526419923035057605295186039371789250302872946848854752777410867636788494942534274514817972859305175553919244847233417340769377816003559060404565963853943190909840168459608978498576677190964066248312307373609548703399447228895837043434255569341054693144881952292171779863537241822713601933636171474229064065283367764878693697999770860491231317643980606897167316759589961990074672101731073978660754010187718541275465906513247313407277989164984635780927377703700307960991307380749725461196895762739586209027356765229878480499818053699255728534271835384192054530177590510848478120881309443252545831769151299420342063170858614843343500958599519290619145362326955123642595994713036641275377486663653242005857543121546702123032359052217197273517468040888495572891367734244842237143689923646072484024814806212387980144196276683303241176485905561109998652517555054674425897882325999528364188175480997412847865271422577587439986753441466237625163626033457738012017368615947929168390221636929807747971609256896164067986064785455403820469545029304389053932030831288419278363072002983556967186131920435286863064961809894347801407426542509769840662998566549715894842156607873982201111158827488781126579500898552897410256837653765824356783602156402919108945996182706045563700644457756365543874641497288954350069032196979847426736426097442881150648242494677473152871183213740990131674048545686105681446245332109797516613311105515859173264381036857861569111973389058684891042817391982589678657224189392221392869732348609134076684677362456690877067888423046375676950780194005620232695434975510284611602714600135933663059224782967190046935602549531586448828181339859281930451990950958836475288883402982526320797920603028615325383187576339594542951218187385783849983408685196255609030801840574631660556955995754892130031332817633397665676249477764360458175142661355937841580155105822556361184295634124948030804883279027016335539631979148188765882957389311945435691479393845720226241715623692926823675344570553900326272322795767237082828088382724269728678689455753806661239343501885590727920509669690825170508712793730964933768219435618432881630376964500822972776948641450170416256102755882154644459906192399979939405137926695233483342665265497429730239940854743071239055380061823722399760055292795028304769540320460230080865405264429509364217593156912795498725156536676902142113359265843328563281853102143780902880869325067573167740405937187371531023041177041312817872788242844178942808564203067490025829249828034047503261422755363293260123853500120591694084200861320731546186817192009729189018576583165498357697778307260484952632024022257664499017216064523178913689737871594245998471324472249921853422479391099682140173488295485792070731721835070995260048214560160777386320114893700773591729939587294742818116640039524832088404478641506274301836974965066161862599285824185246322459206489143872285840824533498487574676078108776163971350914600485533668667718545040553776065398253385796869657068507447910795296495382368873440828144668342420611602909383686507815529366676745703313288924050668908450051601160049024098693824777698541848356761537292475382221586950924151448343461254486933875825020392969125143994857112744288506729709315037986157359556748335055225022257735480708574490319436543999232039745221246370369451360990621923864774075590352736727206555115595554673950794899786700206103011557092091909245433801165366439538425099219865449466571138338087105993968428026673829155806370029852197143951228087677833245761870972210217392523603909525321488261687378797863278307548245735251692683454989887407323588251403195167034965727243139894607044582355569573405848868461656732822491936992214901682199823505446817623213964159887286186102062592019446347821610221755498945955761470618952380337527799559879334146481111401534959719939330509746395221576510092345257281834038078724594670514414211713424676717274446426526345789713504837070206652816206442935331428758235219498273115318123825768283385894388570092900372419118564769318242394412997089720599996876521313686050848036213070504159401578188300709524756372844391055014779429021668684107615361241066537792439294984841549515809621279505002294843450955840921505260288924924501031763559495354727834505101686152793264485659699816923396726084578628827172043402842656458769156979826434827428601800541519699772015051774886017516927146878722800219280741745765479242421982421633868389188416872118489584838067019562093646014179362124677594370600114688661273035227087288690003410455615096876710041106687362194902433274959062723260263049461315572056283675573648429412063489621381048422600471397241422896386987371196075444823568260606258194153478789920269566456242284182735156237249974677078480296733966601559329778656038231696919811414058264000727215706601577230834167892413369125435947185905534091677246978512128210834074366091165853388044406886802992288975691029191707527637476023286327143199977255028541773582208677773454981005589698444373146961124987832230130896370416619065235602468902222274411624488637942845172890731895013884641475300195881307992481825608759193568807971795621011942736855166669901203213534391592526655688769456557516415063415025785645654471048303800693230784900707998935698888763641771348739282686821379204667588075174427287944208804000647527275833855135021033657166981581543282708957104231686418539018225132443087441616880493412842043799043675449798299678152791555702469083757628306874827962921984742755314901438666357535376761156424411942227723721342455172906552994124673499886041162839611453007694975313776574150313418098975889866987611791062067862460669079414165466559867024793524877279659505624759368921778535420950973595388830728157101197367535321555766102302863622376092330465737944814079786267362046247085034363171741276762063007087784957026147184733745054194497028396394607449245935290637973218958347144311598878240902778779215583752881595554999302347812014419993218335394457892334644021057067744501806018509864665425622930298287725542524306579300416466141834872109040900679971956771819010092432223569038331446920761027113779160307710964897587442692527975941151103951494228695899358989386345902096008366047927982311199588559047870865912481458362898686352556854097440500818151238800060279143258899842779455013833224603479426257066795658493093031656930270683012398856237287428085482586505404446176657371713237834218782806751360370053644589608884022016574017035312913047705424012702341497362576713440129012714194647877203575921450060140902426168075959313818326200241016310705585223471535990103119624904494753630330330850502695631616547448112352570710899457926203531557041252905856167467353602853269134380361642109451320213125154914760313694614158556619510189110012610677921369704419846603933364873204927978098932592378017722079243641274108315640030561829667886840754103766166869079712962191948207991733228554350852913801372086630856149855224698422326806812491187826433210180781878552560982374952496475223693188466018520827744210281840761968555237732946182979009213414635011846171429936496893818252256594754554595162310302388878041339389641981284600188094543472732935656228408804305024924485233998819473181087946446023532843202800688485888430743524788349148281938880561953390491701980335520132159847424483814430740059873015284984898028010873271809718363520527590014871557159863452633936636328631770928030025783497657586401083019351587342177769973665817853041015333005777102687987866862239524848234393637204552925302797942275972004714756947344369136716371312324841836446907528731976840175578811335695053796084265729228372126911869399049008906092928528811456592252468779829400543063574467508134649217599931175803320995150509953380849498819073642601219657474058420814537333698279351043276444963620848697943735687428908284061279058397798403233728887419925925111222288796305005251395630532491012336206696220084110787859347995477243597783909950359917685063560964139159970930889404479218703076199327881673085565294779607529244852414364607375441204665220717698982410852373556559981426213315925335660833813768717227810724195629634189425047255027861797423867909569431965771436720128
  row := 60368250913028162563796295989928791434444602665088944854272053812972607386222452068532667324336314463558617043808309790501117633356530494664787984021001037486719218112277729404556394643413464341640080924152672768190318034312564012190879416491732527908726931297144389515785809951817934645183047882081779500137619279421309425692546637835600328201435262617251556816656742980642760804074942684277819549441233252300003360063998649962844506767015160623038925804587444250473473033893403693277394750339434111568579657459200624389521465494696185605568079916830422018072534030519210424492099173751194037227402348208176731084508826032200133870043945518534828279520742938414844018462970826030226298564165094153140871171289181811246603698169272381247632530069949083889450970844021212360808974381515761044935586594777114874449908674516282687914958103579916169169331740806316142526022702995301048986813422648221859531403499696106195454160816997506676114482011699757998771957485969665083142366902603099078607636182969564350122930560664436400212093503903908508076753888130103892204241733410826331854459479451908183924361850655255749928389246699158737339859983107017123840714291945869674509396831637539245464102146082160367342119593069478737054845467688074781175331813244895549213420461117968136480186644864617554703698826518254864326551167866979626486857958985902030660938971713801204011478652841517480680088932156715475679547001905735064015011413205072489870658491637604860038197587929681829576030695050823669710384501030462339215721835382663849093369513123103910120063223827128282071521719705259625618044704357569317326136044763411659530859691724645664187557851953356705177103790237782490650708505597870363760300030498705177247772439283291499147103994788091730833517435604717473766197241019336307758555174278614020376586676105476673466055912532374072750397261552216551245959295580352899562426709168007780099169919063015855113427730353776678413272875229233777177175825980633845933161450129824916841214913006090117698030632665870751923971693106814425499013758136966614092425487051500115489917429185459240922666204479034553987286940615067065008860352622798778891228906889138025096386763254507657008301682808275111639269153910414655481378161663522463560818112118683610543338362661277790399449974849767471309338301716045213203197420779305707156302978867633751006220077056575678336209329866248665478376431976275480107320825818355236758178962976928069190460762007671561741351047971422558328464568647385463231240060006860141965591473743990697268166202210491361266340986601218716404855409486549392076963755563862116209665480009083658807138251844884035810972330665129312020655005179663396770624702449290616025816700703075384211570103006513779457852378074297017929814331222594342486713085845115372547149783701128210329784089720941558540159637920334791942046256632144747189989668229981647204360695620076992838743974866004342311627358967977384027689669276885435537444836905486006310696932065274739926466395428460179226351057046307064177717877755528977583344449337405330658550979508263739226187635467210000152012720647970832502533656371914486819812190131034000745480817108070340753154157404713618510934874080462184543267780321085707082781664273684400639683316751072459011839159184200401007277706720141684497955382462449768828575528139953846001482942741442196946050807295638000515801204441574851261232595640589717846184662600009075349970058960182874585515237427650924480281581995674809737117884177290008392131780493646218763283284910261556589512241185140837128528412848602260618762791130330188055916311843155107287641908768559154167239296427543861108101162758614900492455878861932791638408515127061174033430553222418366547715014629919054138796367556019311742205692434042855338096125409839481475221772096450664049612135177489322205657757954153863227157822001313824223328359171053771388089900068918857894008866535837653669724525054209861382785527712911285515820712394697984030008741129246215547427226697502746396672981746251207701769165619253169992866059536091031906772432091188152290917560836962785649396299636443984899893781075885373203459473349584949239421765539753842384883612094792403346788194429109610165092509534913792155658177983478635559987500190445367225398991194446591624732358872551890816844570508527166500303245249813899345979277353847063935119744119113317581694318958927845254248832477710112344947251008387020131134347459931164581388374350131220515349673848818130776071678017483965390015553587475045967467763558072238521180272217901905405326029522594475428953763599292892436712626599241811006381844024159723257216913345968471554588515822974097759715046969630950148964763066508373500585236612431728197052716109359195585043390978917825031587217076866704099236797554843569879269771950121935992801636108492270999436922641923502288590647781790927707385727344497994134119733777474210786244828041777613496177583309050509163948182823053565263235201005758917696172272973701685472998860257115113609726561076262312776608272600123414150288462331208497476650489196854411143471885585121090386930875258811237422836771064855174886294980170909173329336567418842944025121944730175188539702945276073911361618832250847792960931598433013886355532283957104305887375964513037314502916365441263929240918938846832477290371254173110641235292030730064376322279284073624113958172077816813308999086348381544676967555854714215194106242252325698886494659047463594563610258710644359953295841955114344858416294844684275734590136395725841064278412968218586789478139788987308711199515469487340520392476855745049027228328767470039238254694623845454261384328663041467237626445610738038462895759953649386922441752732999964833702292059645369477870336530337191162737298016770817431275492574466104281385275946973551935275187772023578347895763635972833811489075546197636434695140744420720412398350521005490267261173166220463454781687772088084369297309615113417655597502590720092237210490158453988012686140632799755520451009205388903053317623882625859709022526060636354582102248746065263419728930738776730909497303036623397207038802482726916072937612367189176265417810150818622647146835521341634835435461010019471737779506077613258046723643715493957198040418921316122490215870861831770023837870491592817494489986331384202377291511354767456298541213659636095994890411777622652269768336508714378198935235414828505672265423772110453362471606457544925770512055704362944636471572443759232579092430696347275676543545607233440612645949605093711773730861966156287922886623721003567654133402118968563826238223957894724791832122707673041102061837502709235479650933634947400139258962174579156879392383004721453596898129400944021077224496186670503379649106075268959147681622184099601444906577325325602530806249529383724987900363795840876678188829564456205671332470456390575758214043429459662244472486073855590657941413243641936119614717333789088013601969195835127487825830786664503946613219989699324665545751193831631363341335780462166463611120349779307050966017814834438789089946103816596814073159870293597967425174686628628234927812405701961112656675124599648136110704296060824862065143390759685600694192967934727488235498289945942836156044583026892789403773303379566710282014631535387474818528896261022690786120731538137140128942326166670837844284370101165012773317474262502052743231977439179936957557837590454106413593060094885574717489950387544048598698926295739401141773649448309622615150336083694343012279390295909214290144062312603474659277457024026284681852070508361092391178412505026655555674666502541992642620858926477600942468795536019116688413216453611975287730560112603018910831335671754344967777575055388309654696501102074795634433980654046727240585347688167993604574194405345442974175629898430918889336566392274165555301057289798980566561353879240129720134201650909853753779289529339091603771540849646654753221427788924025733423712418470311301660296191166980111144975380280283072435897410542617474679591763186598399497673740862755073456609590675401340942158454588676119016939980329006640864222461731502671570962139823329591235682801133299907116173964176234222243864732856922573079344540994143079660525437950725118138417897194800262604437066416137184399441376130011059885615625917105823462569217967833058014725395487746513106047664980096014768532834125339847228006764238165809097000192890094203981513146824012665016479938641180900050108423417169190150689578361840711842153690952905767609825992536521068162116970844686243290710241830531022858668639120125854617257086299749866420355365135744499090879686137576423312290254382089839022743720517630689426772158499962866622220215116163015839963928803295817829697708881528975022698244263271982114242126397095357408961297514610010647186080038118327216526918430133247444590382855351021861954905444499132360446572232300529330961213708267260666818868549232987533526114846243855795860748937686257379449905697572754196793611002595102191114534791089487157895540492023038655276244983816284572359311064809513440467564521266094797206817421341787675499274740324195781338098424239019321819734090921249547704895855883294711779386491506561783984688686164437442143581283485510065942715830792678741474877485785080166922973290476630334303145183027929585610707804236391777719106642525169179681950401599456068526239501784726094504852732907643050120910538869289345327309450085327762384884216016191648286421878646291209051719643870961378685061384363181224508360530679677194037731756575038437225658434059970471091949017812947021587207712106994233789768114251804314013850205599662196570964476179879188238777101755146490491478428948308336467539508282685761514857952609383044368838880514102845090427312149468813444974295517822024438280238249442971577466410976831213272895170356580827203252492431168287770125015178910301593466775249503035334396601459358591157178390936749619200192328952430456556587629612617220630673454346479402147453419922015787630737331544307740607840597902829044511625939705428318419160728622818038534550097895804372260152172860588070186457154070901700021194958725075098180291066387308255136907051426369005210947518761541424362881484561002314055707501280775979469722418013597044130110261865266469850975724223659647023271566734176258669310742419555939396363292554430209348155472995633292464583295088897057836602365582458183351254133592624605707747543574684035905859115195764622234835248806459821153858559860907231134055399316742048307588527928282187608427871285499199047382846604610834451825213187951915590880956403060204928049785118595614377431119155638967167768207408882177423970671802106512578547024723301172838400
  size := 298497995036047959110100922659249695383007327302775274499055989904518328055696916366170578810052417443814016120260802947293402402848655826414389968345384742903374414796608455431120109495804160346771864562602651155110041420533766281632495950042591676863300598614819033610747902714606121824173598169984461315831477411006779612016511025230919995005361779835294990570680846244730827525772193512788926144312355667721752996230650688024174293993498147578400932062330694252719477706914947456047766013845569480686081376561933168230309814453712544418280087753185270599276098766021468344439246736653799701940565436855593057963907865476089481534478408361237163010759757276495110335744974484886134261998734276073953917314058941747620897413064025441806669655567446580975577150536120803634012050191197052518599393126530073240886497465196039033198323380243900081392873242957959710409739566607035291168526695149485591367914610508332871775362607392580718168507216569724758430450353035125340010531382653614513150584937821634258691108212553238927258749328815991281338624535492815790448386428633743130474628210450529703419795890002454318570441892346737854507268320120201227999121428762777454803625066650114507185508350028219944706704609690918178853988575949945464900988170765352277146751810214058123273548518352790132878118733571930816987935275118007457594638304915004468303906485575822921236480
  names := (.node none (.node none (.node none (.node none (.node none (.node none (.node none (.node none (.node none (.node none .nil (.node (some (3, 8, 8)) .nil .nil)) .nil) (.node none (.node none (.node none (.node (some (5, 5, 1)) .nil .nil) .nil) .nil) (.node (some (2, 3, 6)) .nil .nil))) (.node none (.node none (.node (some (1, 5, 5)) .nil .nil) (.node none .nil (.node (some (4, 7, 0)) .nil .nil))) (.node none (.node none (.node (some (3, 1, 7)) .nil .nil) .nil) .nil))) (.node none (.node none (.node none (.node none (.node (some (2, 7, 2)) .nil .nil) .nil) .nil) (.node (some (1, 2, 0)) (.node none .nil (.node (some (4, 3, 4)) .nil .nil)) .nil)) (.node none (.node none .nil (.node none (.node (some (3, 5, 3)) .nil .nil) .nil)) (.node none (.node (some (2, 0, 1)) .nil .nil) (.node none .nil (.node (some (5, 1, 5)) .nil .nil)))))) (.node none (.node none (.node none (.node none .nil (.node none (.node (some (3, 3, 5)) .nil .nil) .nil)) (.node none (.node (some (1, 7, 3)) .nil .nil) (.node none .nil (.node (some (4, 8, 7)) .nil .nil)))) (.node none (.node (some (1, 0, 2)) (.node none .nil (.node (some (4, 1, 6)) .nil .nil)) .nil) (.node none .nil (.node (some (2, 5, 4)) .nil .nil)))) (.node none (.node none (.node none (.node none (.node none (.node (some (5, 3, 3)) .nil .nil) .nil) .nil) (.node (some (2, 1, 8)) .nil .nil)) (.node none .nil (.node none (.node (some (3, 7, 1)) .nil .nil) .nil))) (.node none (.node none (.node none (.node (some (3, 0, 0)) .nil .nil) .nil) .nil) (.node (some (1, 3, 7)) (.node none .nil (.node (some (4, 5, 2)) .nil .nil)) .nil))))) (.node none (.node none (.node none (.node none (.node none (.node none (.node none (.node (some (5, 2, 4)) .nil .nil) .nil) .nil) (.node (some (2, 1, 0)) .nil .nil)) (.node none .nil (.node none (.node (some (3, 6, 2)) .nil .nil) .nil))) (.node none (.node none (.node none (.node (some (2, 8, 1)) .nil .nil) .nil) .nil) (.node (some (1, 2, 8)) (.node none .nil (.node (some (4, 4, 3)) .nil .nil)) .nil))) (.node none (.node none (.node none (.node none .nil (.node (some (4, 0, 7)) .nil .nil)) .nil) (.node none .nil (.node (some (2, 4, 5)) .nil .nil))) (.node none (.node none (.node (some (1, 6, 4)) .nil .nil) (.node none .nil (.node (some (4, 7, 8)) .nil .nil))) (.node none (.node none (.node (some (3, 2, 6)) .nil .nil) .nil) .nil)))) (.node none (.node none (.node none (.node none (.node (some (1, 4, 6)) .nil .nil) (.node none .nil (.node (some (4, 6, 1)) .nil .nil))) (.node none (.node none (.node (some (3, 0, 8)) .nil .nil) .nil) .nil)) (.node none (.node none (.node none (.node none (.node (some (5, 4, 2)) .nil .nil) .nil) .nil) (.node (some (2, 2, 7)) .nil .nil)) (.node none .nil (.node none (.node (some (3, 8, 0)) .nil .nil) .nil)))) (.node none (.node none (.node none .nil (.node none (.node (some (3, 4, 4)) .nil .nil) .nil)) (.node none (.node (some (1, 8, 2)) .nil .nil) (.node none .nil (.node (some (5, 0, 6)) .nil .nil)))) (.node none (.node (some (1, 1, 1)) (.node none .nil (.node (some (4, 2, 5)) .nil .nil)) .nil) (.node none .nil (.node (some (2, 6, 3)) .nil .nil))))))) (.node none (.node none (.node none (.node none (.node none (.node none (.node (some (1, 4, 2)) .nil .nil) (.node none .nil (.node (some (4, 5, 6)) .nil .nil))) (.node none (.node none (.node (some (3, 0, 4)) .nil .nil) .nil) .nil)) (.node none (.node none (.node none (.node none (.node (some (5, 3, 7)) .nil .nil) .nil) .nil) (.node (some (2, 2, 3)) .nil .nil)) (.node none .nil (.node none (.node (some (3, 7, 5)) .nil .nil) .nil)))) (.node none (.node none (.node none .nil (.node none (.node (some (3, 4, 0)) .nil .nil) .nil)) (.node none (.node (some (1, 7, 7)) .nil .nil) (.node none .nil (.node (some (5, 0, 2)) .nil .nil)))) (.node none (.node (some (1, 0, 6)) (.node none .nil (.node (some (4, 2, 1)) .nil .nil)) .nil) (.node none .nil (.node (some (2, 5, 8)) .nil .nil))))) (.node none (.node none (.node none (.node none (.node none .nil (.node (some (4, 0, 3)) .nil .nil)) .nil) (.node none (.node none (.node none (.node (some (5, 5, 5)) .nil .nil) .nil) .nil) (.node (some (2, 4, 1)) .nil .nil))) (.node none (.node none (.node (some (1, 6, 0)) .nil .nil) (.node none .nil (.node (some (4, 7, 4)) .nil .nil))) (.node none (.node none (.node (some (3, 2, 2)) .nil .nil) .nil) .nil))) (.node none (.node none (.node none (.node none (.node (some (2, 7, 6)) .nil .nil) .nil) .nil) (.node (some (1, 2, 4)) (.node none .nil (.node (some (4, 3, 8)) .nil .nil)) .nil)) (.node none (.node none .nil (.node none (.node (some (3, 5, 7)) .nil .nil) .nil)) (.node none (.node (some (2, 0, 5)) .nil .nil) (.node none .nil (.node (some (5, 2, 0)) .nil .nil))))))) (.node none (.node none (.node none (.node none (.node none (.node none (.node (some (2, 6, 7)) .nil .nil) .nil) .nil) (.node (some (1, 1, 5)) (.node none .nil (.node (some (4, 3, 0)) .nil .nil)) .nil)) (.node none (.node none .nil (.node none (.node (some (3, 4, 8)) .nil .nil) .nil)) (.node none (.node (some (1, 8, 6)) .nil .nil) (.node none .nil (.node (some (5, 1, 1)) .nil .nil))))) (.node none (.node none (.node none (.node (some (1, 5, 1)) .nil .nil) (.node none .nil (.node (some (4, 6, 5)) .nil .nil))) (.node none (.node none (.node (some (3, 1, 3)) .nil .nil) .nil) .nil)) (.node none (.node none (.node none (.node none (.node (some (5, 4, 6)) .nil .nil) .nil) .nil) (.node (some (2, 3, 2)) .nil .nil)) (.node none .nil (.node none (.node (some (3, 8, 4)) .nil .nil) .nil))))) (.node none (.node none (.node none (.node none (.node none (.node none (.node (some (5, 2, 8)) .nil .nil) .nil) .nil) (.node (some (2, 1, 4)) .nil .nil)) (.node none .nil (.node none (.node (some (3, 6, 6)) .nil .nil) .nil))) (.node none (.node none (.node none (.node (some (2, 8, 5)) .nil .nil) .nil) .nil) (.node (some (1, 3, 3)) (.node none .nil (.node (some (4, 4, 7)) .nil .nil)) .nil))) (.node none (.node none (.node none (.node none .nil (.node (some (4, 1, 2)) .nil .nil)) .nil) (.node none .nil (.node (some (2, 5, 0)) .nil .nil))) (.node none (.node none (.node (some (1, 6, 8)) .nil .nil) (.node none .nil (.node (some (4, 8, 3)) .nil .nil))) (.node none (.node none (.node (some (3, 3, 1)) .nil .nil) .nil) .nil))))))) (.node none (.node none (.node none (.node none (.node none (.node none (.node none (.node none (.node (some (2, 6, 5)) .nil .nil) .nil) .nil) (.node (some (1, 1, 3)) (.node none .nil (.node (some (4, 2, 7)) .nil .nil)) .nil)) (.node none (.node none .nil (.node none (.node (some (3, 4, 6)) .nil .nil) .nil)) (.node none (.node (some (1, 8, 4)) .nil .nil) (.node none .nil (.node (some (5, 0, 8)) .nil .nil))))) (.node none (.node none (.node none (.node (some (1, 4, 8)) .nil .nil) (.node none .nil (.node (some (4, 6, 3)) .nil .nil))) (.node none (.node none (.node (some (3, 1, 1)) .nil .nil) .nil) .nil)) (.node none (.node none (.node none (.node none (.node (some (5, 4, 4)) .nil .nil) .nil) .nil) (.node (some (2, 3, 0)) .nil .nil)) (.node none .nil (.node none (.node (some (3, 8, 2)) .nil .nil) .nil))))) (.node none (.node none (.node none (.node none (.node none (.node none (.node (some (5, 2, 6)) .nil .nil) .nil) .nil) (.node (some (2, 1, 2)) .nil .nil)) (.node none .nil (.node none (.node (some (3, 6, 4)) .nil .nil) .nil))) (.node none (.node none (.node none (.node (some (2, 8, 3)) .nil .nil) .nil) .nil) (.node (some (1, 3, 1)) (.node none .nil (.node (some (4, 4, 5)) .nil .nil)) .nil))) (.node none (.node none (.node none (.node none .nil (.node (some (4, 1, 0)) .nil .nil)) .nil) (.node none .nil (.node (some (2, 4, 7)) .nil .nil))) (.node none (.node none (.node (some (1, 6, 6)) .nil .nil) (.node none .nil (.node (some (4, 8, 1)) .nil .nil))) (.node none (.node none (.node (some (3, 2, 8)) .nil .nil) .nil) .nil))))) (.node none (.node none (.node none (.node none (.node none (.node none .nil (.node (some (4, 0, 1)) .nil .nil)) .nil) (.node none (.node none (.node none (.node (some (5, 5, 3)) .nil .nil) .nil) .nil) (.node (some (2, 3, 8)) .nil .nil))) (.node none (.node none (.node (some (1, 5, 7)) .nil .nil) (.node none .nil (.node (some (4, 7, 2)) .nil .nil))) (.node none (.node none (.node (some (3, 2, 0)) .nil .nil) .nil) .nil))) (.node none (.node none (.node none (.node none (.node (some (2, 7, 4)) .nil .nil) .nil) .nil) (.node (some (1, 2, 2)) (.node none .nil (.node (some (4, 3, 6)) .nil .nil)) .nil)) (.node none (.node none .nil (.node none (.node (some (3, 5, 5)) .nil .nil) .nil)) (.node none (.node (some (2, 0, 3)) .nil .nil) (.node none .nil (.node (some (5, 1, 7)) .nil .nil)))))) (.node none (.node none (.node none (.node none .nil (.node none (.node (some (3, 3, 7)) .nil .nil) .nil)) (.node none (.node (some (1, 7, 5)) .nil .nil) (.node none .nil (.node (some (5, 0, 0)) .nil .nil)))) (.node none (.node (some (1, 0, 4)) (.node none .nil (.node (some (4, 1, 8)) .nil .nil)) .nil) (.node none .nil (.node (some (2, 5, 6)) .nil .nil)))) (.node none (.node none (.node none (.node none (.node none (.node (some (5, 3, 5)) .nil .nil) .nil) .nil) (.node (some (2, 2, 1)) .nil .nil)) (.node none .nil (.node none (.node (some (3, 7, 3)) .nil .nil) .nil))) (.node none (.node none (.node none (.node (some (3, 0, 2)) .nil .nil) .nil) .nil) (.node (some (1, 4, 0)) (.node none .nil (.node (some (4, 5, 4)) .nil .nil)) .nil)))))) (.node none (.node none (.node none (.node none (.node none (.node none .nil (.node none (.node (some (3, 3, 3)) .nil .nil) .nil)) (.node none (.node (some (1, 7, 1)) .nil .nil) (.node none .nil (.node (some (4, 8, 5)) .nil .nil)))) (.node none (.node (some (1, 0, 0)) (.node none .nil (.node (some (4, 1, 4)) .nil .nil)) .nil) (.node none .nil (.node (some (2, 5, 2)) .nil .nil)))) (.node none (.node none (.node none (.node none (.node none (.node (some (5, 3, 1)) .nil .nil) .nil) .nil) (.node (some (2, 1, 6)) .nil .nil)) (.node none .nil (.node none (.node (some (3, 6, 8)) .nil .nil) .nil))) (.node none (.node none (.node none (.node (some (2, 8, 7)) .nil .nil) .nil) .nil) (.node (some (1, 3, 5)) (.node none .nil (.node (some (4, 5, 0)) .nil .nil)) .nil)))) (.node none (.node none (.node none (.node none (.node none (.node (some (2, 7, 0)) .nil .nil) .nil) .nil) (.node (some (1, 1, 7)) (.node none .nil (.node (some (4, 3, 2)) .nil .nil)) .nil)) (.node none (.node none .nil (.node none (.node (some (3, 5, 1)) .nil .nil) .nil)) (.node none (.node (some (1, 8, 8)) .nil .nil) (.node none .nil (.node (some (5, 1, 3)) .nil .nil))))) (.node none (.node none (.node none (.node (some (1, 5, 3)) .nil .nil) (.node none .nil (.node (some (4, 6, 7)) .nil .nil))) (.node none (.node none (.node (some (3, 1, 5)) .nil .nil) .nil) .nil)) (.node none (.node none (.node none (.node none (.node (some (5, 4, 8)) .nil .nil) .nil) .nil) (.node (some (2, 3, 4)) .nil .nil)) (.node none .nil (.node none (.node (some (3, 8, 6)) .nil .nil) .nil)))))) (.node none (.node none (.node none (.node none (.node none (.node (some (1, 4, 4)) .nil .nil) (.node none .nil (.node (some (4, 5, 8)) .nil .nil))) (.node none (.node none (.node (some (3, 0, 6)) .nil .nil) .nil) .nil)) (.node none (.node none (.node none (.node none (.node (some (5, 4, 0)) .nil .nil) .nil) .nil) (.node (some (2, 2, 5)) .nil .nil)) (.node none .nil (.node none (.node (some (3, 7, 7)) .nil .nil) .nil)))) (.node none (.node none (.node none .nil (.node none (.node (some (3, 4, 2)) .nil .nil) .nil)) (.node none (.node (some (1, 8, 0)) .nil .nil) (.node none .nil (.node (some (5, 0, 4)) .nil .nil)))) (.node none (.node (some (1, 0, 8)) (.node none .nil (.node (some (4, 2, 3)) .nil .nil)) .nil) (.node none .nil (.node (some (2, 6, 1)) .nil .nil))))) (.node none (.node none (.node none (.node none (.node none .nil (.node (some (4, 0, 5)) .nil .nil)) .nil) (.node none .nil (.node (some (2, 4, 3)) .nil .nil))) (.node none (.node none (.node (some (1, 6, 2)) .nil .nil) (.node none .nil (.node (some (4, 7, 6)) .nil .nil))) (.node none (.node none (.node (some (3, 2, 4)) .nil .nil) .nil) .nil))) (.node none (.node none (.node none (.node none (.node (some (2, 7, 8)) .nil .nil) .nil) .nil) (.node (some (1, 2, 6)) (.node none .nil (.node (some (4, 4, 1)) .nil .nil)) .nil)) (.node none (.node none .nil (.node none (.node (some (3, 6, 0)) .nil .nil) .nil)) (.node none (.node (some (2, 0, 7)) .nil .nil) (.node none .nil (.node (some (5, 2, 2)) .nil .nil)))))))))) (.node none (.node none (.node none (.node none (.node none (.node none (.node none (.node none .nil (.node none (.node (some (3, 3, 2)) .nil .nil) .nil)) (.node none (.node (some (1, 7, 0)) .nil .nil) (.node none .nil (.node (some (4, 8, 4)) .nil .nil)))) (.node none (.node none (.node none .nil (.node (some (4, 1, 3)) .nil .nil)) .nil) (.node none .nil (.node (some (2, 5, 1)) .nil .nil)))) (.node none (.node none (.node none (.node none (.node none (.node (some (5, 3, 0)) .nil .nil) .nil) .nil) (.node (some (2, 1, 5)) .nil .nil)) (.node none .nil (.node none (.node (some (3, 6, 7)) .nil .nil) .nil))) (.node none (.node none (.node none (.node (some (2, 8, 6)) .nil .nil) .nil) .nil) (.node (some (1, 3, 4)) (.node none .nil (.node (some (4, 4, 8)) .nil .nil)) .nil)))) (.node none (.node none (.node none (.node none (.node none (.node (some (2, 6, 8)) .nil .nil) .nil) .nil) (.node (some (1, 1, 6)) (.node none .nil (.node (some (4, 3, 1)) .nil .nil)) .nil)) (.node none (.node none .nil (.node none (.node (some (3, 5, 0)) .nil .nil) .nil)) (.node none (.node (some (1, 8, 7)) .nil .nil) (.node none .nil (.node (some (5, 1, 2)) .nil .nil))))) (.node none (.node none (.node none (.node (some (1, 5, 2)) .nil .nil) (.node none .nil (.node (some (4, 6, 6)) .nil .nil))) (.node none (.node none (.node (some (3, 1, 4)) .nil .nil) .nil) .nil)) (.node none (.node none (.node none (.node none (.node (some (5, 4, 7)) .nil .nil) .nil) .nil) (.node (some (2, 3, 3)) .nil .nil)) (.node none .nil (.node none (.node (some (3, 8, 5)) .nil .nil) .nil)))))) (.node none (.node none (.node none (.node none (.node none (.node (some (1, 4, 3)) .nil .nil) (.node none .nil (.node (some (4, 5, 7)) .nil .nil))) (.node none (.node none (.node (some (3, 0, 5)) .nil .nil) .nil) .nil)) (.node none (.node none (.node none (.node none (.node (some (5, 3, 8)) .nil .nil) .nil) .nil) (.node (some (2, 2, 4)) .nil .nil)) (.node none .nil (.node none (.node (some (3, 7, 6)) .nil .nil) .nil)))) (.node none (.node none (.node none .nil (.node none (.node (some (3, 4, 1)) .nil .nil) .nil)) (.node none (.node (some (1, 7, 8)) .nil .nil) (.node none .nil (.node (some (5, 0, 3)) .nil .nil)))) (.node none (.node (some (1, 0, 7)) (.node none .nil (.node (some (4, 2, 2)) .nil .nil)) .nil) (.node none .nil (.node (some (2, 6, 0)) .nil .nil))))) (.node none (.node none (.node none (.node none (.node none .nil (.node (some (4, 0, 4)) .nil .nil)) .nil) (.node none .nil (.node (some (2, 4, 2)) .nil .nil))) (.node none (.node none (.node (some (1, 6, 1)) .nil .nil) (.node none .nil (.node (some (4, 7, 5)) .nil .nil))) (.node none (.node none (.node (some (3, 2, 3)) .nil .nil) .nil) .nil))) (.node none (.node none (.node none (.node none (.node (some (2, 7, 7)) .nil .nil) .nil) .nil) (.node (some (1, 2, 5)) (.node none .nil (.node (some (4, 4, 0)) .nil .nil)) .nil)) (.node none (.node none .nil (.node none (.node (some (3, 5, 8)) .nil .nil) .nil)) (.node none (.node (some (2, 0, 6)) .nil .nil) (.node none .nil (.node (some (5, 2, 1)) .nil .nil)))))))) (.node none (.node none (.node none (.node none (.node none (.node none (.node none .nil (.node (some (4, 0, 0)) .nil .nil)) .nil) (.node none (.node none (.node none (.node (some (5, 5, 2)) .nil .nil) .nil) .nil) (.node (some (2, 3, 7)) .nil .nil))) (.node none (.node none (.node (some (1, 5, 6)) .nil .nil) (.node none .nil (.node (some (4, 7, 1)) .nil .nil))) (.node none (.node none (.node (some (3, 1, 8)) .nil .nil) .nil) .nil))) (.node none (.node none (.node none (.node none (.node (some (2, 7, 3)) .nil .nil) .nil) .nil) (.node (some (1, 2, 1)) (.node none .nil (.node (some (4, 3, 5)) .nil .nil)) .nil)) (.node none (.node none .nil (.node none (.node (some (3, 5, 4)) .nil .nil) .nil)) (.node none (.node (some (2, 0, 2)) .nil .nil) (.node none .nil (.node (some (5, 1, 6)) .nil .nil)))))) (.node none (.node none (.node none (.node none .nil (.node none (.node (some (3, 3, 6)) .nil .nil) .nil)) (.node none (.node (some (1, 7, 4)) .nil .nil) (.node none .nil (.node (some (4, 8, 8)) .nil .nil)))) (.node none (.node (some (1, 0, 3)) (.node none .nil (.node (some (4, 1, 7)) .nil .nil)) .nil) (.node none .nil (.node (some (2, 5, 5)) .nil .nil)))) (.node none (.node none (.node none (.node none (.node none (.node (some (5, 3, 4)) .nil .nil) .nil) .nil) (.node (some (2, 2, 0)) .nil .nil)) (.node none .nil (.node none (.node (some (3, 7, 2)) .nil .nil) .nil))) (.node none (.node none (.node none (.node (some (3, 0, 1)) .nil .nil) .nil) .nil) (.node (some (1, 3, 8)) (.node none .nil (.node (some (4, 5, 3)) .nil .nil)) .nil))))) (.node none (.node none (.node none (.node none (.node none (.node none (.node none (.node (some (5, 2, 5)) .nil .nil) .nil) .nil) (.node (some (2, 1, 1)) .nil .nil)) (.node none .nil (.node none (.node (some (3, 6, 3)) .nil .nil) .nil))) (.node none (.node none (.node none (.node (some (2, 8, 2)) .nil .nil) .nil) .nil) (.node (some (1, 3, 0)) (.node none .nil (.node (some (4, 4, 4)) .nil .nil)) .nil))) (.node none (.node none (.node none (.node none .nil (.node (some (4, 0, 8)) .nil .nil)) .nil) (.node none .nil (.node (some (2, 4, 6)) .nil .nil))) (.node none (.node none (.node (some (1, 6, 5)) .nil .nil) (.node none .nil (.node (some (4, 8, 0)) .nil .nil))) (.node none (.node none (.node (some (3, 2, 7)) .nil .nil) .nil) .nil)))) (.node none (.node none (.node none (.node none (.node (some (1, 4, 7)) .nil .nil) (.node none .nil (.node (some (4, 6, 2)) .nil .nil))) (.node none (.node none (.node (some (3, 1, 0)) .nil .nil) .nil) .nil)) (.node none (.node none (.node none (.node none (.node (some (5, 4, 3)) .nil .nil) .nil) .nil) (.node (some (2, 2, 8)) .nil .nil)) (.node none .nil (.node none (.node (some (3, 8, 1)) .nil .nil) .nil)))) (.node none (.node none (.node none .nil (.node none (.node (some (3, 4, 5)) .nil .nil) .nil)) (.node none (.node (some (1, 8, 3)) .nil .nil) (.node none .nil (.node (some (5, 0, 7)) .nil .nil)))) (.node none (.node (some (1, 1, 2)) (.node none .nil (.node (some (4, 2, 6)) .nil .nil)) .nil) (.node none .nil (.node (some (2, 6, 4)) .nil .nil)))))))) (.node none (.node none (.node none (.node none (.node none (.node none (.node none (.node none (.node none (.node (some (5, 2, 3)) .nil .nil) .nil) .nil) (.node (some (2, 0, 8)) .nil .nil)) (.node none .nil (.node none (.node (some (3, 6, 1)) .nil .nil) .nil))) (.node none (.node none (.node none (.node (some (2, 8, 0)) .nil .nil) .nil) .nil) (.node (some (1, 2, 7)) (.node none .nil (.node (some (4, 4, 2)) .nil .nil)) .nil))) (.node none (.node none (.node none (.node none .nil (.node (some (4, 0, 6)) .nil .nil)) .nil) (.node none .nil (.node (some (2, 4, 4)) .nil .nil))) (.node none (.node none (.node (some (1, 6, 3)) .nil .nil) (.node none .nil (.node (some (4, 7, 7)) .nil .nil))) (.node none (.node none (.node (some (3, 2, 5)) .nil .nil) .nil) .nil)))) (.node none (.node none (.node none (.node none (.node (some (1, 4, 5)) .nil .nil) (.node none .nil (.node (some (4, 6, 0)) .nil .nil))) (.node none (.node none (.node (some (3, 0, 7)) .nil .nil) .nil) .nil)) (.node none (.node none (.node none (.node none (.node (some (5, 4, 1)) .nil .nil) .nil) .nil) (.node (some (2, 2, 6)) .nil .nil)) (.node none .nil (.node none (.node (some (3, 7, 8)) .nil .nil) .nil)))) (.node none (.node none (.node none .nil (.node none (.node (some (3, 4, 3)) .nil .nil) .nil)) (.node none (.node (some (1, 8, 1)) .nil .nil) (.node none .nil (.node (some (5, 0, 5)) .nil .nil)))) (.node none (.node (some (1, 1, 0)) (.node none .nil (.node (some (4, 2, 4)) .nil .nil)) .nil) (.node none .nil (.node (some (2, 6, 2)) .nil .nil)))))) (.node none (.node none (.node none (.node none (.node none .nil (.node none (.node (some (3, 3, 4)) .nil .nil) .nil)) (.node none (.node (some (1, 7, 2)) .nil .nil) (.node none .nil (.node (some (4, 8, 6)) .nil .nil)))) (.node none (.node (some (1, 0, 1)) (.node none .nil (.node (some (4, 1, 5)) .nil .nil)) .nil) (.node none .nil (.node (some (2, 5, 3)) .nil .nil)))) (.node none (.node none (.node none (.node none (.node none (.node (some (5, 3, 2)) .nil .nil) .nil) .nil) (.node (some (2, 1, 7)) .nil .nil)) (.node none .nil (.node none (.node (some (3, 7, 0)) .nil .nil) .nil))) (.node none (.node none (.node none (.node (some (2, 8, 8)) .nil .nil) .nil) .nil) (.node (some (1, 3, 6)) (.node none .nil (.node (some (4, 5, 1)) .nil .nil)) .nil)))) (.node none (.node none (.node none (.node none (.node none (.node (some (2, 7, 1)) .nil .nil) .nil) .nil) (.node (some (1, 1, 8)) (.node none .nil (.node (some (4, 3, 3)) .nil .nil)) .nil)) (.node none (.node none .nil (.node none (.node (some (3, 5, 2)) .nil .nil) .nil)) (.node none (.node (some (2, 0, 0)) .nil .nil) (.node none .nil (.node (some (5, 1, 4)) .nil .nil))))) (.node none (.node none (.node none (.node (some (1, 5, 4)) .nil .nil) (.node none .nil (.node (some (4, 6, 8)) .nil .nil))) (.node none (.node none (.node (some (3, 1, 6)) .nil .nil) .nil) .nil)) (.node none (.node none (.node none (.node none (.node (some (5, 5, 0)) .nil .nil) .nil) .nil) (.node (some (2, 3, 5)) .nil .nil)) (.node none .nil (.node none (.node (some (3, 8, 7)) .nil .nil) .nil))))))) (.node none (.node none (.node none (.node none (.node none (.node none (.node none (.node (some (2, 6, 6)) .nil .nil) .nil) .nil) (.node (some (1, 1, 4)) (.node none .nil (.node (some (4, 2, 8)) .nil .nil)) .nil)) (.node none (.node none .nil (.node none (.node (some (3, 4, 7)) .nil .nil) .nil)) (.node none (.node (some (1, 8, 5)) .nil .nil) (.node none .nil (.node (some (5, 1, 0)) .nil .nil))))) (.node none (.node none (.node none (.node (some (1, 5, 0)) .nil .nil) (.node none .nil (.node (some (4, 6, 4)) .nil .nil))) (.node none (.node none (.node (some (3, 1, 2)) .nil .nil) .nil) .nil)) (.node none (.node none (.node none (.node none (.node (some (5, 4, 5)) .nil .nil) .nil) .nil) (.node (some (2, 3, 1)) .nil .nil)) (.node none .nil (.node none (.node (some (3, 8, 3)) .nil .nil) .nil))))) (.node none (.node none (.node none (.node none (.node none (.node none (.node (some (5, 2, 7)) .nil .nil) .nil) .nil) (.node (some (2, 1, 3)) .nil .nil)) (.node none .nil (.node none (.node (some (3, 6, 5)) .nil .nil) .nil))) (.node none (.node none (.node none (.node (some (2, 8, 4)) .nil .nil) .nil) .nil) (.node (some (1, 3, 2)) (.node none .nil (.node (some (4, 4, 6)) .nil .nil)) .nil))) (.node none (.node none (.node none (.node none .nil (.node (some (4, 1, 1)) .nil .nil)) .nil) (.node none .nil (.node (some (2, 4, 8)) .nil .nil))) (.node none (.node none (.node (some (1, 6, 7)) .nil .nil) (.node none .nil (.node (some (4, 8, 2)) .nil .nil))) (.node none (.node none (.node (some (3, 3, 0)) .nil .nil) .nil) .nil))))) (.node none (.node none (.node none (.node none (.node none (.node none .nil (.node (some (4, 0, 2)) .nil .nil)) .nil) (.node none (.node none (.node none (.node (some (5, 5, 4)) .nil .nil) .nil) .nil) (.node (some (2, 4, 0)) .nil .nil))) (.node none (.node none (.node (some (1, 5, 8)) .nil .nil) (.node none .nil (.node (some (4, 7, 3)) .nil .nil))) (.node none (.node none (.node (some (3, 2, 1)) .nil .nil) .nil) .nil))) (.node none (.node none (.node none (.node none (.node (some (2, 7, 5)) .nil .nil) .nil) .nil) (.node (some (1, 2, 3)) (.node none .nil (.node (some (4, 3, 7)) .nil .nil)) .nil)) (.node none (.node none .nil (.node none (.node (some (3, 5, 6)) .nil .nil) .nil)) (.node none (.node (some (2, 0, 4)) .nil .nil) (.node none .nil (.node (some (5, 1, 8)) .nil .nil)))))) (.node none (.node none (.node none (.node none .nil (.node none (.node (some (3, 3, 8)) .nil .nil) .nil)) (.node none (.node (some (1, 7, 6)) .nil .nil) (.node none .nil (.node (some (5, 0, 1)) .nil .nil)))) (.node none (.node (some (1, 0, 5)) (.node none .nil (.node (some (4, 2, 0)) .nil .nil)) .nil) (.node none .nil (.node (some (2, 5, 7)) .nil .nil)))) (.node none (.node none (.node none (.node none (.node none (.node (some (5, 3, 6)) .nil .nil) .nil) .nil) (.node (some (2, 2, 2)) .nil .nil)) (.node none .nil (.node none (.node (some (3, 7, 4)) .nil .nil) .nil))) (.node none (.node none (.node none (.node (some (3, 0, 3)) .nil .nil) .nil) .nil) (.node (some (1, 4, 1)) (.node none .nil (.node (some (4, 5, 5)) .nil .nil)) .nil)))))))))
  rows := 729
  cols := 324
  nextId := 2200

/-- Checkpoint after input rows 0-499 (verified by `sudokuChk4`). -/
def sudokuS4 : DLX (Nat × Nat × Nat) where
  up := 1546769812826313168971883590212429279699650075393233620751373670915603009855631497872329302124411086886074331281107267660130392618631181251440929771295583772846036611784030808959831711524841859253020291130508708037157931219717711885019843142968224429507675256885598760792286963698814694321514475148195042345777007887059854057629426673216579176765887355751387125813941752756293196851796951190759820796504031029127461300067635104693945545481609991390421319280236957493555947111167906522793418966805427045917645519619174306821501814841046538651893031381845039680530296930612572699911054063380131760680362540753852227902606198471246560555831883328376876338987748922263680053240403391728872305406330487124234837158825146739258790702149486234573822761552910512247600981338095057429796329306483809340419411637963870346744047661693269025010185233259132501836578144529393046814169438626370951484470710951177626485220294645992598113433423553654157919843385251404570719560210842136096005053243949132556581325631262141756291990645266039085757915081571443180262596225966223133862619316395417860183316273395294538906246366189179746692180528159541797441960026102936649198106428082547489416516543008535316571024239005924239327715302767280977238105850982679470684433287150422614315957478600135429042299773699208963137613742157065676024825060658937489108322452467483647737849786205411698109817518820105873188001362220026740308898858706489626040427982598964829538240187924930173594701675713039975130996613919240205115730430238167528673479414901241163342626895301715728945661420235156289551090102613340614393638833164221712008173076056423898521196321506202655016145848907437783059332096909257017664248005462500368416027910192161441321524113338156419885523784141548231357720925248843094815811696279004954124688455004348172064836762839568525926266010538171386171118450944434925075139731903563978562103765157807907729547683772899673327374800263719312303632683371137645466287634354286121990284615080893835542836510792666621941868997862968969523669194101219147393609185761478881647574693780969721545983496558538492991365381690205297002581898960551831733478022207827431166240689112984354888364136928096979800961473497522878351024977012961503988794332280802837085355545639714393069046090322348751718907400138084515061387426658308255295823977718842972154978647563828798540085267153778518291086648047200607229710129131027542489984891462577881650768287124779131453009301249462060354175684149390421528303116939318177077821520696324115860696574359139578011884626679205993413526054032002659025164107575446555248196627020750250096858625653456857004962922123104626698075412488051153105906660753875971898440995288323087572477240264999591187228288390062499250412356740445880903028924692034962866917740802269992886724636377033600862018957110167100336813660800176265016346291251962417023150533417606500355356371248974024725143534825599712515431841462249711482648825240536306779875925814498016118864129414788893453809003468810227945613402906333228419740679047402316352381359329686200159656935660695508146794360505310441264508857510919763768198867434185590072604684645896204567322469259602212229695798694758977540901275544260643175378569098414206515402155512224078333838693939498050221316747852133231619416291917656069856357308618883323541568557599132742946842318941491664176601050051070288148972750145181740819263699145879231958120529481709880993923280636191099084911294177514530548253342693552658628544428030267201144423321121385547855496141210945667787296431478715777023363670983774670124482599825507444708833475088902849950804319505188457417622008263071842714139178079948320874353325856914587134138053428899185212893846321526440091361273107142802727595544821845093597248888962646068418679508015380561125387282028677469753844278708225194271803188716273262367680732562769366502928119356768397627421348446514451998537300198383469866326767433304502715892620703423712954699821119716489341953111664760867056706229501523544766248961086031793080900583990986586995861302001341053390999736583216372675725653417434723310716244562352171163008262873170421516716378722084255550518287646973110606469363252578285489752798780451081560159388217785127282698873409876467223730554268138069463670937547735304965454559758215208549758469340956524568495405911002607421964289311764214646880513029197403206872233125960605958377974335352067033336656406551053827814010904553732222396799374347939494833076065972748805069556768742133224325504123252366073277110566134631696133991121389370430895605668017191435407807298662396543147694681625429683660232606880404348489091549012004616820176134039130719639210391130106100158718717788668867725876766574885609368397595363081921469604628461899116175946959111379637626612601282177422747527359188736872499152286187291746901089919990764970346802996867570634575202971418557897431751686090417452624521623248910245151040476276813359908242357095497964007674804538777084580620803679527882120467064807038453907415208990511511419882981610827350651043478836117252333830245855477542128860798973963384815946161920412185838810567818280504086343742100807988852001133377747324373475424333422671244418003042482910739676644005721250549563905024073236342672808052995822055034848918462586050334217258734646495988047978551039858546651324074800532906935404879563071132187406690316968861109705516449323592936243815417670284008767963735483827503932119527623083411749259791865154839503365889434007838854509681461998499552820068958752458231668421046063335049339109576035232326818084697154497708099423796946082696053342538619435346181106622964068164532343071599207978873125374764782133379613896449775397305891215402248447302266227444320480278654673917700496704061178529732867277746984026773522588326144059261933229659201723936762765088913763840902238246102566744464112951771788112021812992644443855987464884310658936864540650017039777439717902630014984425357636981318238707455708032932781471705635866584406854635935618557874044283430948809136751003646743145620617355395573633421282140298565070382998932025367634078232947903466796048962806795409055672124418066197822548153659241099874816252253778405128930186047867612208361002765089639644746504676894389986292171168346987926152620724069382384094230153631040815649130048328672797409435774048776981667451651604668891216440201186682009215245101774321738513481769162768218021989987313350899134000342434221970182373569047136500654845474793921675393970620462832200482021168060637098924232718903803631301326144942341456920944828339123616345531606091063394251188887437472672981905777648423373264294072525570836779185572535815193250255529321438467253917593589602345020941701764311360528966634695885059883186038832403569458105625601666820434412277975707121320698263266641371105244184760064599610215438080295497196326059154818419771125681044232762184234029358179842011379262081282294808293652191140720210303874930678419621184788588515291499098002046179418678774182638507955315475880696999935940753254016274253478068456397484289743392360254583359182149571598239786169713591416639393742753150608647543819698956386049127929264714721557485037297305236433957906195376458558854760051820250863380799266436513458808093138467104331165812849048159492446681151146892865504757910558552893508008930255926370985116241404302572128273633516281674001811320464022278651501791230266339100370927848669434989140456331328974787901057490461857579814520450452950008458773731424249447041140784399306494362853612848234734410726868604033212793531632705825841546731488447504775496446557120059681463183886424524419036757416634523796041384498158817442057663544415798310654164412381106831067961336159430006155933287856854026696921583254372024260729563006268113044721577990240364682243208659647586181725503102021809913954848130077021654128451169203470918304806810927924862869506670155929562087906599499490090975093589184922490282270325377774661788836480848342122385170183198208717554440091069275401370255174445741875081552345304285865199551588022339778855735916152465825443304248448341980419617016434526565374244479954239957946374954447555092972561911538964781690193323506508800733843119958487470674455033219482343969282902750718478900835466698354686228164434707662463988143502827567855089875704208702742704909991310550916974690695467837515652121693831197179661882968538076648483130296843714582208976151495785435960356702476584631501311366191465484866565952397541993964319963146487067925992304886075941496265899088399040035734001802961015016106829957535942618074237611552941084962090034538636538225096464898937789702838758402343300835894785961177989175441730885335872935048271449692598236650564391911798184352624988451946696081414272289609767809283982571225757973065290621552566677865941230196302027776104033621303576107213543200061816073297062189378329636962476388461471695615452112498246875844160494905222559500634437846510155553165774985516114531072229509411872614053258604395544701065180410906216344399388577628303184379167652024888524200470804987622868771803940474296768907431545712078297563475895661861823270161750016219206146504450897121399155485928800967135018014236566332535900873272377775837450600252905660223880841150137184564729108742273168590947519372003486709923612249736473808788955080131262704790259737105553964982252964633440052911608552606490885779615311053783611452589430132467651063613022292414895575395236945184292309086908919269006059092631099602962967349860563588263881264909458323466400556954886402976427200390822104776205853194328459686114487382369745721026467505808618632170203713444745218640691790711479318398848866433711892749223499092093718768209696766979421918940446477107886419703213633145772225272981762235495768016193699486658010325950304032570687308937690419490676605928564018365907790426867304062050997973568150847036791366899522759081241407487446050781056715025381506621614943304811145470452092483669202288482681134704155278487668580758618886023064109463638312488539382084245931389160811350243836323253792657746535332112851940350771072302837941011278886248036656133698514401426024290886181940195688961753517656975906784796636291530493234864892965782055499806571995539563346688351003220329864951597601064919762491461841723311310009270066214426134010957085449628732085547161102643699573876248988039304217190769239993629451253856382303531432034076813688819754063343842733378296598887775605041169680222619402088343843202734817457616521559861024600307386218069419071207564111383622638083072083349700153995539612877954784416979021059578218948641222154146716995908921208259140553159376762148597238108723855714167760958557429806521847250624192491018217255601027545687101974041652560105342787363769296978244369029676532516682163739264982586700800054374646426944651526308633330240019331098367801989425369947344920377668041409385621663810830179556305216072407144663356682557423370721358776630814925710411797511806332951505309844118547040109153497060154202030598291659796241309536845141894262063262677743048115124849007470629684885989855969198243860269736786509302394845427322937666985568204997260770380468209634690786200986299050789889699515726736002723033708412040698333453385689720777075498256853367463692587983777199393842802303933154811266835256844144716430869400679262632019212575356988053538797211294183738409161858683697789109979606390007825556007409086511871519040692696275612593293421201398443987597998759877468704791444109255792866489424614655736000483011128320153833579413332926921643587520261950890922343700000686734242537070163854624117104548465316798049623765338408707865625128037152485824653460095299584634918666470522551326563483412239742633830750583765902747290306911722977843105759451919962750279764285974239179053038174495347268907747006778389722333109412441720595904015243411752466849717440256824141428348988568712899925938050961194993526513456837252696898507894913202263488573780938706579199867556797150934391839637846347266903590993717805778210085632986934369570950329832992931579684660688012330263463193665878084724912804527807275668176051107044256964564377168842603028411650728939264157420151122693496385741049597570185778435625604226239755660818492907794905941519734608013605124439430627890052122442415925249603113498072161880003439453448250647403179357484670782975706557890828102700607621483657467460568815222131325485577215816437706705580622054792520779074723245525939503691640761159153970724393944491751939980479757130753917556206956804454059970534637419834647125615985003531489033241768319386191353872103477459786742902713747711404220699042770246755993950160873273615608315843622492382862401080292915131208412866366983501895451556802834652203431712550879115975469062103058864136384053189800290396610529203150998329368279001072919218358292881214468036777071535692565003036763043944784288549623426994596315971625406160621446562751858724828982964706771099599807628663181454416281676572230404344574345833709683862580697951055029643608517400532657099329111258162219477391222318272067355510324653289686065715576794516019088596870845993346945559544868093080201455321849486842301668776674443371521089005837771759481967686421494400750960851968594787053838368306234024105493952505374832387132328405890992765121314869718462909303975789913647304373680220173466249331200286915793896196800739984074016709426561838854698977574706323916479126536278930770354802447307091351640673800738330591819788869469820868352439431829063956580368241436819528791562551312015805446804028181703766784948122188750368550914904582013825107620962307348948062892454086520071564786250175188951469314512816782490629886538409110180385262340
  down := 164059040687224069812261133990476126544902475000622584050052383929424071941653765056122991207387993215073662266939031421036128471214929292417994678293698762898010018774999506691661250528281899633886805619465973117743542513267165536620096952843810968519843294504337202903489706404824205830404737168848066004878812088495423602569293287626410013075030651300568561822474545752215447908850957074258052249365209687079480980940434205119741485650295619302171054639303990920012536273142380984770475036415248920741794181676407642786104534947465720431279959876362762166035479741006019650772142352753646842569212990358720668203894206612485231345923150284032625664827339036434219809244055631708416724503353765539232033376520756194527116415177352102124762405805166461660222221703851235822815473609860472297512382156358253042405315360304452700801668355988721105546522349650086650806522487319662391673611734106394397325945520861515691377910318011949717799787096128627037435655345968968461072146850736810868032048758693706803152592528749714802552827240897605568874202887871826608555400056029235619585826830023964236520528324709034434636632674990730829772249192858904240636841447570074583599156539317942895572429935467604219218704881229466781835592070865204310161795764162503500045407993757347665265329091508924798227802219640416065833384483445634267821309764321153794111960506970818329063477653477923974583246919051033294676501182901160860224228798720239965456692108049727983551589096384223989386704310948810282614071907537828969111344114703527004684210602975983469365406023270458741987583645490932005114309504147998831485193025927665198041369302762535749283727149943730639519293829412176741456253283627661299230496358383624330384396816192194298882068775581789588883902088931920919129277414582528571193291543305065900476458215386834489201431615800294735200078221057427922679081410535778948467989931034921399104440353939613418756479200206050203021935608722200409774835728296156605758183545038610936330356010755956798068938381193066939351383893149711752267740900917522491021115707089074424573504137741851527764718244736328612577582374073813552219984246799053075127589700412775632854342611806093816675004289174048112247794251080356233698916821567832533681202516091273694294775633510428046544701887682545821212807833513757076584785636209675630082703069975772872120814250441029813690522027898505427430162947600337458275501653722268648029376859120827053246274434505054776657337350810392784917326134775552927349565712695492806757850015249910803734340294494993984954982788959494840462846660541035996799632818492476581635557411550891597395334117097337546905338490031078297937128498594285214605616293138865774768469105599082360716080999100744763808458499388635457526146887871666735491531314642145187750178706491484252175410369627420335116505002142052364789180778106726427415346448725546906138687032776144553571594036503123733802502821524968702254310950249140431584278341867021060070581464776117852852591499541405762329073840174637644269267860015849559126984409590040490894683957726002705766577141299517781946342573720348217863021487997969956228536720923293325968031030058578528364847524828134501663339552162838796346052726536431418227673118351898608884316609293590622226751177471955731898201831278275715169217129450077037499874827721926819801125308983896300469049648261306388527962727245371268438145012294416221540063119868216897563802808274103779614972495758551026275468549444304228914385189730049626606897043755019078273584124961865716331974862763469953609303313202935648765610184333219424325301690372607498028187983638201524998234558688550405231405668374753393022452222486345902247183987977170431700181745771806784530917833251526155261646866527270761605876801645901948473956452094597770032996648188613776869471269896012609958625205540087925332628202221635892998300502224865585550281262385791361018551593021973096380669786935572609302800188035433425628646539463628701710619199881804111420088491271903345145030989981020759631158382733489847821520821414979019281303182708454949991654075488434132806634004191093931042615712770808810466908421599741743296593996226271396622355959289164014317480747664187028781925388398023726160326767115167371828162917765061537131319500061517519498022095648342761693828773689138650580040655217416105662124544674048900581102403745023029220028121216794905199920116147443441964521376615465990066889321250793942011855369581960341832073182496237771955066425533655148598316558005509399435627214881702860995921885494341351091454055316659652868576875602726429440479007245493538374713354582719437573968362724611252540073723413647040894388145209860983868101037450018554338474086084773296918338355484887627324000099936139519993045662350627622361262110560257793749995812293499260298399310221325513623297057483039556752626474438524526530003103602263066851213961235102973347463576651645939869660055748054702069700723481675428417609261354090885675546349247243560236577641429233543812373095423248711762943088133989899776811379192454717841359913989103688051708232238932863588287234142125106870455183039238689669511507934940186043584848337146883246480450816656000144197271396864018988721776304040998667574613118260463035083620519208456701289065897934754279924269115287718347924854616949633764243702071641590995990651655453591474333936852929237446371792037518594361737316639453046898301632786057979297294617827179476256090520427985695173603796927460890736879256137109462262650576904389227806878002812172775154764070032598493041974447372297446936948422553022007971649302400380747373099181923694674180740983942669736867207084518418564679368417975390714270512359837996756697410736306122462785428619340652173869732697985321152562078603340771274152541531877572401658715434065226016355277442499157975792451586856105981779900041474742325617495247508811782747777657515845753725320991933072979133725859122442669788362644111443140476840857905788888629881654885231171157987937462112516381517759340887123725712879591305751800958734773515474040575900527496249547166712459807824752205750958684913776209485784271172011593977145940081054853593787809892403694967931713600264637421446819514725246353796110073863828415120071259064127273254747026135126869422865888259386635541900366868958221426123850145038827915344657251170442284490586212735755878593015453498331248450532015888661321034057989490749572911421480109472666802134667044823614658611464545370747950514975002659179414674571521748999394160804460660110636677221263415379128072935215571660631279755669343847782586559878157998905049282334215211095693316221973610569088256898715094947102762013692825375489840720888976786098570114860354171569655086028705128348249283974034639805815734325206214512354022787313461019055176316741681080755281533773086109169311439873570185493817009076859769395938566400185679554874717037185698691241751043772090410580319882855382715056042946224413785871922895038278322876341972013061516735705747629216973150928580109900402752364467174743318424327135796679999758765739201526013312697824736120145453337756741223820684198142378930235119094930745349949700449391180963209370131268141481664888451243908506193042035049359659419245657043178453645521384306630414365472741760597858531582623793672337769857490029696553535330755901868041267367652764457549595836291121798192890790680526589530545515741232406411247218597027438457703478372206553806777276462174213495335677954201472368295616469094781859789229575643063929642362650603307019076142830831145059652434708332803119151953987723155701058014604315321054115341567948853663074525824466191350916019674623517643984955755062240307053993653884627228403627618957435337099002991771969020726153789404088032914839730106612835941669773697392902050101826473936476638454312475130120391314671386537706803300832444837177168951305038228882103181352858428140396421454988214058609902724866873948969541434721843589289790694872001352763427396475308404011292286724525498103659663005748242443159758889135446732539816083208005335946439264292717502912870667670394735741433158818697186911303056576158117556267272269432343899004343519529558482560577560035929766581461877732592860304656454363068210705049780753247801371937528304525161312117698076186820477809531816618754567355934630265708790875800512981789524978501009313502859096276049539794256685942026754365823475258564022555556776631135554580407246209169728428701617829014532130073545237915846299358828266554488122364490959314731390064872008558093763207747851082025394247409414224255017758727954782086043086829533953511349876790494794435326101895873262514930206919740058171568290641279522704098860318192300405943908146048206366693461786246435060064944457167962077158602024525749744247340860287031712952933746771922107729308353172860188909119900477788699178769020096677520892530279814716522514719427290755230782537639537001921716306117056905581154469674407689761641214223382312994594487568655770582743649774627807389274678733218816915115031798650002905148960041050596153464404085408750897771464916988440204639105610847069214569498320084169139466583111036156797778839685112392767790233135959424201572709525387146881233888226128764563913104303748594857145305262957472914052332603574478428053065461095948466099153978954664742107966531558078885841154985519340859062442262940615488149342437028297070216350530866830906057550200275941026349327663454500030358035086638530543632765726897284041958067131103599744145135975641687610398406875506464599228419531001403544956117283474002835923652260795160525896292565855169188334141722608715864939434723205704608588494979649541834735900828133371455811062198367972171048992544188957656227310368744231681962826774140321899048434915731332538483309487807147164134657521291353670019543396384043116192315294646817567831461783322672813596205060662951969774814042819564863817739497966461875273657760500325195058359397170368410456098761345850327939549582006808038040547113810442016563262887067762939560065794184449095344018279042595639784871341979542139812061793581213186186710858884381767045250711341029962494894851781887863571082006338996487451837104835681563141767431957771136231787530307923857309951864856922606899333294842724056112258733041605229423890947565982637292088294779112408508154867923347922525718381378247466374570049264415557675503120639067396476688071081331041902811868594998342733064607877607728854659016236739954066104790347258152389644172494007623086746566020852986590213180417195045749354582214892994788063277523942816740604376791952286043756383919773244557843939285703374657063287159350796635449888845507248892021205084610354279078769534554667853772874507379268500981577198795807892220763965522140876892824757402299267638875265259847145378664901793256935157473761037182869750959637854156547092863414789606820680114737162050458827531045748534191751471375063053674777253872887617441239565313294933852056848329980115027854056200077038842890646905358379855085374374148360090783232529091771551264859840380066825751302408806382728959814274135528493803259485495959771769756550448257163814282754072864084060449974224670566570015535538384722212150428473516634502667034200067099242822774305282973274312748753236126730644317930157097757763435303845732043300302131717018100611144430505068403396944737661867352043904081477039651315491278315242424505475835217219019652970777774377667917065576924306574325983354250350776956146166652677583618351288143558974148532151851646024231219419072806344311734818220972857971447902182520442356732543008570035235410878919160711425412201180819618953781657587995398341596800810482584913311728135172811135956978810385286262311852173074996191770196728275410491667106365891106870754598665443312856588028251518489240858271102299476637885451004572762178982852707614945531606510459295733491984195039507837231909746131767125687804994739394576756697897878424554751113027893879048097724126784674002071196691963464128384223491807914555810873568864450228192345445324680811758967970970315015162716714817803768568633283300984031985555232317122626390673056145180972694034425524305990279430498724788583473616865456649269775659931001887434186582186220446702183314665386228451437151234290537569141315537665692325602326519818832017014921917723521416790517812113287624465166840616220857254437608301793441588487413882868442037077194840497941758108381763316334326227104303070073073127242196348634106080669361235300285659295808919275915091805595440298187390143408426328077418863005499787806428469197714317029754394535096465578739450443599802436374296796549949269335070922369221002526090498148998330687176719501120998365727181098799070660338452631659364865547790070173458304111263103042010805793330955703280154340087926652209212009447732954020782194750192854040636771800658983566218233848501022969236530543510977115626849209620491474603335886535841646016268523746402375081512902823525704564425017789410774110465502309538836119853540539574218842133386724947753119983727533936656653445690305632153098048264362936232252308056144733179164913662288717097317333422585756833841717856875589691587192614119357286058203167438847422100487786445043910523515044974038269930917344116258791181917834037658861898428207659144976579210682210608315858181497933595221559256508487698028356702527931355081935028164647864752734600744694597803704973956112808956629460887212644922917719691805676983378968758723949828997852060758648962156996440330001303618507770490055336561147395597533910860884613003407360136505728972557860230812332721681995575724337965600642213969691399786715689325778154555064749764824649030088624224700940861750481027845770205132811913463617158512965
  left := 1548964926229484456368554169271618598681875341037492458988326342264792002817825254436565133398885335587595157199472588782193570770376343770166758538367140118362494066889450244020710991208421871938674938579232041365828664942259888646266448306889352779000751016895515024669557446115659285216031686054649222660699140759245603355729431530891513821595869428965288637171785621749589702289822654126809716168574913068790357585002610699033397076403348374808186483705569588455570302420687609951178223137815778809596094794221005092621720469654517092835073099460794154448351916892857017715406288691192388825217148966160356952941584206277135105841691769085570157082371280122136602840395636318135858734561406218193161354808721154278782901828597701848422131672751295089414093746681177318231714979388470362236600048992764251862589401636395787404978490204864084543307160859664223858001883576913984742866859413388701863011349902741476895379201342189602614715583682576475026443170616638541423956475283777256931559532364424508128553072807849990688259189850259739973926998948103773003592500615124211157635246954033400903326486884013945432965134829811368158371755600417811416786277925614105338642015579812137215381279802430505417164703130140634935155096790750568217554446614034373814769596742722639100448299728257110787480793052803818115914768806995133863860243381709628699991728505645355129322560799880135428278882968244313430721067759386208688970663910049656400644419812462274483868493879556660150347318990156122967196721778364180657551379555856864804450424545357422197337448544771389440066084950385774892657962328639180006256170116528378138930355792093424653427287025221735238354408330098746404944774073385380083783817164657945566732565412454704840835769612693204421434762610102884129743525547700071213685249689261346695737148837493140953488922528285552153120294560991083761138102768898532569728180590630502072067512334753424458322713297834558659280469363143977590615346217804639199955445124404458629526618171794848225197552262599217538804886523348056838747735374656754549837702836516710441155395791160586155140036212694855158342161937957564338383453333748402669632545846208259747387717821943936064705906430709405627631524972684761341730383390450762894195882628512582441867963474885484279630863517198626848585354939216973812759683697034450045644369586383868378401979093036730281135463163627994646889777365218007937096282980011696990989587260711964268331398114185758831248985939073235249163894036550718473670236188649269814187173024037760851333443267880693262495269538484803918342418634862708482096820780381784477727289206462615031855704740285500804519316731692856879393174129044169849576654110794201388387245122134815043344907725780116508956042147645018604983272868193194612015802263281491595574311843540843709141431020045221456461745501366089697010260127438510308311601737875739487151797439533560844743661993117755901856214028178725848914193176710821541272565249752316549568284875049156278334422668566511737457118595738359290698020211454806329147569239080811884932015281172821025464898259804866300031930940128217965924351164987228659556400097697416727993844834078885556884437350510160462286655547742574081872448805094209237502292550874928572399869235801295748509554271447340249542430693437594023345887179653807798635919825733028189900039579165059783835527377901521623863209453837361666852205053152857768455215319801812615063562851552739842675136973008818513286439761782864915667298880924019775231463093876694812500271191484002950659500149931664916067157179155788412842542499508511310799975296978650798981757588719417866462957680809209361870338258081526214734040791755613321908555118621481793081387804638614592838799609188321355986645115028182705947629163414383050826795868299209218369315379044138473837777511336233481957851691055245405054165964402150693442756211291707740279085610548758766158712659085591422744484217148398029019918767013289466379142174616799411086395693026898456199052950795575359573102625007826705229047191290888974426203443570087968516783518391799872551985417527177390112174840794265420863822166852063831012796366167200368320635647831427505407443908301163541326369600288314493612587347447871215683665196121534329322471325496100632370184819329435475733810554231668937823364014142883776115357894111137249126188436203638312538150943806508979568904540101430930251175677339124012901788532756163954519694745568985138643066150041846062502997107846363837299646768104533720965836017875615259601078526076654538097302647185113481087392535265375897492040302258434783019702281988190230691284920342150645211193234033845737469636409862341924196393081111650735047062325525334952499381330074890348456307514057540556101506670892500687522259885134938227577730677386935779641455340754291633635216824754831599008290782764658838256259205677194848457731764583097112529049150782014534610921765958154238430824117861922804368937941897992628286673450522793282224851106305776959690899985574399881074618291937018205137819771508177306153050620759328343686532683398383635467342603809583433222893428392158677088315933441132778850809267572661220223304667280105344440811553030657371762133761347475470227212228401282116039888503359851305334690894691717993761646885534470693228169058809578746480796332683357987299638550386112073916053092910374659875353070216577413464274340227397723302579434579549575917947253388697023231767260965851382195231597120359984225948054221182655556107482238089636936552845033454724849118804094563468671469102930287953597849632544620030918550786393848568354678419267665363838193149800145155225190996518915464049097081090282772705132311302566041725224838514185728223406453006060305167269264429185781902131742482392643837351969108829192233037201218807455216247812987008925157181025661318097619119413496050334465297919638057069570388449500753903064224643868819693179795889476663003920142087318272256136297517671926491607485119708642564044081231143637459088347693909813090698720027148196329450643860813360390498564795029913881740003165858293584618278609121078953786507927052275021860600800589094706082904678258720784338264096480339284763838685687939715471510023102360797031155908893233117788949509886599385109675849553828592220965473385465539936391642062848409976884894615881215862221436333148359604833670250083181061190945494065388543273270729384433269684951633343276711597345875310564269008603573059952354525516988933833998385000221821942746505931288718382171502750944072155959567683848814482266140978581965425643435187120696271612789095716303096522578266839440779720573013471819395631115171077904449297626072806949120671790001800888101916317286599458878526175426868125269163908043046330016097547485488733213450639466615063473195004455116604536636125805174933509695764387503768067164478521035294769536452034630800860838704208051619584809700586050176236699144381440424798590306641824372048890769179693697563864515748787764845425290519643291409122009646507958560987774389483355958005387284693987082074951610030947592274549522606697207761945736952452223726404942806174972198551499644161356299649480765826477300691883624711697430129187202339884152176828971829575550107046632334818092055404283452986665013470387122817928909676856673336843278609629291633003029264652554826017892248961501049109929546625125861624160655700299428547388519547265488400109946031466926518007189276816114154215422865134989039041537152926962930586335769921397535742027011543535209329056410952457335922661134489166253558291570904254140915350737446960951254060110137653835561975352498925029914245742618184428273710408367868796366845804131727234600237777644955108415593780639198320098420340572588548892087253148432418157431168352165594468451207059858066115298650918495039606427602027656741085903840975965957215026020612909791605293121112272360144018569433380217567038796676626692444029424336044769070981711421206097977756396483178523329379593041690479708535128590950638150290991626113856734404557598351352226083601786723335275782493754760252760266967330058890269632245836221465878720949412622084358224659137787145517647550927403372725808443669588895438138111281343720105247478334998103912646281536134694559053632330710540903208260611703225560110966189590423587896655221932577749463364821252483485906764353891757994632593409508220500605493866666223531534807497863785487811775503393365712154097960415546208798182243293441140405676241650384750201258209606528940054880562925236484659582236761733453190213327898554349346153573703405523664849224613305466159504268442270242151778652181790131986684235851471278628660193989137969598931151181096288054604064669785499517790915384175204993953460998933230953337604372756170843862529141577369411267962660015547831967088249469716947622366692026467597977461618830025396250392008639000621469898828510734519145605640684111165832954992106976134035074119563947025598668106710069472243474601750083857063702784111638640649491495351875351611923641043575642142357166884920428120946607338092633821820008024974279450939379963438779382681804051753996419603608322782951363439637317170451160218396528031581727102409821674107243004857763933204985688178965659861894626425526132198640491511700279031558429156033909044879827357947382245228922247353336275402221206014256818773553982142482146883209765454081164737815275159322027546029188391773039529617447015207190717710831077290887362168587710148088389351476181766867279761778382147179430599921392117357568577302511799744328912788206847207516112107377256356578086707226072735627919727134081071648065391574030611644818338288877683360031901884526480208261833396738026919508209181019580699253196197875865061783847134086970349823883146487560393278674789059145206854006512793480925904862432252285262026283580251612233536866542263986967933137003055972850923738358620810838276159376287952999371014098063694500982405724082099702609604881569428030616086370292689414446396295083751671431418234577233035375022629268320324985307476142317071922244431595545819445838660579146893601172500979036518697837619373418289199281702069451646900239512357474483116500691320387866530171086259949275698177706451839311323079375693090904454562905779744963932427120237924727545347085642103472648325176344980563942251339803726937078892938871347244181482873015937978736185930621076785612413892956068398179795327315815805270609215092989520418959886115688273512958161352569567285268971419074532663983797624429172953158818256209040990549420884231864599285661067268966060560882187519271805574923993796643453271646572761561585077048635355377902033218588150441623559468884457814271328394801260410846323812182114672112017832083574081535110361582118117428436282051842307435195419745276520378482979441506487117400732100179633226349553087405814137659041183620337285714775477665456217778944736586266845334833591000105666852508696658623468773722784026590118436550229572622444879330812578585498783180360466227678709267417865449307670681545701339197660807924434331875644989020391043341254207938624661542529198411570787301402489911426679125149974062970473534284352388859292412574107210031316274979686008263571177037580949591526850307883305795989880855666771573840649486254583586390581703017832064073960466763532223181850457940693205206543002009720152764503463400669804510229442005130837543860504720008730973693040964380834096053997689042066537855624694634265244783745084285722412560526752847092268237262290937362877731507701276361621156916618540141177938070067613834661792057235611999433944067812294107829423999005388885668187965423879323560554635218736616665517876000784529411167108804440535896573932720170709517631118068292182735772528166659425724221920768061840174656844064594437621513116695857289311560353128417834023464257324246474065799736942383671629286424603646528058527645717807685192216064815438307435753544573137133003168042710887889819241604051124478909403327381605834671877858661438770015408396179070717332976449961924649106726714514524129028325330481843846168968815259725419650588593919801860230330230823820718689974716159319795101891103528023543591857418735641260631143965754324026598893960337702738688653856846862888829068048449543380155446362386547589405073690355038414417373408726278711440160512800773310695865273068663235631265904174427628600523579776914108197350801676770549405823786963325753446429119521153604735597771053968999677896044848043953249159513108684436317318496182878352566812153119593735923319693321707201969398975208870319093588896513363249706189190770295418201625362771656376215364402875717361125515043800170879398882280289757546450068774581062901807304140542228931597737850394228950774555577506263839673923811279590631642702497957026346928341691319845582075544207087944564083185011743983822907723380803213545700994760589955096769173158808291796085710211084193151139751550466633475712985198378791931837843746102555418425908363310325822867454746322405108611889911300588653107959194301896059853493298977226238246812461417810055491490284842289767955050795132386573001288270557412139339041435454048713898705175300829248801201759187459224976091144118001285413565885483485450463314774659307133200185820859425857746480895850526904728347548063028173925534891453207973788300980712634978379046823061444037137808531975280985098355315656285921710222389514364444335261764164735484389584975167940167307286212353683902966126534100710755775943195510180355436267610760395211802518592453890810868373695601745296566603100441786505800140575754973749909495689611115879557736165916755464188860847792332038416802044514946560244228226443069513480945464781030689742673981227699059494409006545480358599659792903519470616900
  right := 1547318884207819535402167842750498251323983612502413564661633328652581582473278751673669654199957244945585084039366952837880153681202800080077098244390116254176162219873925446496513886227446558949084140610437322725493423098540817315733999308848458839449963836407822971660494954721513768000582780579495542670777413379583547745896321179977947356328459223255590937630136187884924049606061551118702684687413906156683525968562819026761098780303249907047322381720965191140589562101334115488819202815527926582189923439077409344851807827065606048855510257210272298892139449294141830707964344611821656525946003220285220080646773887774831486333032174848372372167057286824564839758826716299126262446407981831040250913423203997773449203845568007199642172746269841946375373289377811613142098481667209244627665193293219504268463233559707578011614065294094644270409713041037257808888205031934039226998719116856685779036862337700982938953672040566756252331509161241397630917154892885680776181776918727831110862166192587456435507216459627411141696844340154587222865067428913699973959530781334729180743600335864289402529740024971621943506122624953183364164018938559525340873176327053918412509041151664794338964019605731376136375016446002723133584506036524408354832093857747174047052147347057744202225040908621680377888980026241202883615262735795016953708503653578139856656185870624493040582597551778046073930003778426837858551102357212274130325771535495141738330050665885472921610157861993924111445063070375474837528387023854811494274421500334206564183388564376320283913177518385416274222616386244936146596811125588700176668102746004392005366960084741002141123243446498081678860533195184867972996434263772237430697068738031543731506208748444247583623646139203490022330590992782221881294713612828691304278369971973494097679402775478895420410170652805590605319692645620763811724993479121612293033715369845379003610552937730734361185187644432587681368087429424763064400643827209353566034336572924465911968075123621399823073942014839475877453883321021813052255690024057974626486139618828622464985021015925795909363892381116327097956568814534529848727546157605323685666352061666647542070425938361378590086588720646304267714399059250505774912142244434182027083397080633935548341459580158367443615236367986194187482699499637005767386994286027160052449719346402773987868222059119818603185243591816014705790395278856709067008851684291225848648817913766000499971480576999021163877337439869708760243982045725719787630361504367921716324683062592882171978703744632232339756603753742787545071668049665471125464530201236186945247411754909304705671262117122590874984005502023457288352873139420358411569397314813617931227294118482262724305278507486578500194065474731094011488287888271399064962158112569056450857936937647007252688235531453712627318993034504200116990433025082550269939747226031109015129396232601181221792114698975256866700420039052159186020926821015316398433501358777906327037220174962190305273593119807875481806173290852858491010124070720682476361620479750967432705097074045941887641167793744484360434529548469070263537995992611379767261679359066635709990580936493198321848970719522142002358538686099220648963164264980804980281635448493193776469554752897398051732954912565226815214507452955867540294879589490124303404191223051120124434822834173446620679068817932704178675474772510861789089274589861962598765308582205367868052084819263221047044432309111428967398115685515436324900499962112980191348670396716379973114924205820659021466015197361139889010282867996611203581699604783772023233878563310350890621412937139510179003918415198914145489745226268932571567422520091197189599416513067581464581834581408846536361883344884517971863877763031197625480768898856831284363395719916620096101029710338790307706416123066598190847434406824440998254119813438382403387519391769524133596418859239307259806099384531615240636622071320043013791888464110693028193205023047728467175217630392512990134442172960572335665768985365732892426901298678194126596457252193856600467126240567123425770988472164268109380428285522730605295409146993180569750449533560422214288355448976673252092067087074950437511481730692688103224311900988410777806955949196272761156508322714848881309378341223455358355475522868857849396867984555782349250856477171726722092217713748063327882024317411104388573776196014290157199731366185539985310726648859167486432730596716874761720191979679761169992607947951608356765381514548071722933277426958226578519146523464185454597163721772278798243950006754003311334220114886385449737495571015358744346096166411173004378144017754202363299036798179322826080772618843102767763907520608092271653675895417067765801252759874627194603379209979302527078576070884951007409037311148885889028020602483647886882319121823281990260173624415142686755255499331457098512353151743444625632905094468640197701343904326291812767290642612287839332758684634114330681171524775989133498936250805058474323410637374175053290885335410563095275540153536368145821860895879302810550793213453148455976942993960661262894105941715023246799715813456093820168128794505008341352086808741729663553439806899707304580853082100105247085323467629709407902522464731828181735882750812466970963760326185116597198606106340051286815337200488136582832227168179565281093133640920763637025505887910295260934507590363307065830178076547604512861433223008735724610652842224091599419946019599752234557920119980830584543689929987120484323396808602990372622992164496158361938860499834411665199595986617972793531731468287576027656486805674360262664644289009653374006074201153547809126127047722245651600041468361513615292396388320184628358383349044881220841806559019312624406261835794382936600047840033852661752025145107145218826847607923006830623288681562397862889748377929990046446515386307858602760988779473467075786180983736180670500713406811312777586103483464767434023449745461088733511988846087765505384082281678557338890507187381550900250189021522629663507933865544287475268002236328060916149701374170266608288131546570124737116349717028005161617222687849472090108968697942184356036229723810009800505371059603486321474703685272585454637964884136091565984633479397302933934983091375197811667018221646482470460902106600235263948011778333916692392832847202465832777806552521815965493381320265087740348115917486061631224326339270973713340878685356248849757165939095096835696360351008452171972282760626104120793689455861824650654572937460784711346713825555445510159408005742222067996859527638468596448944726617737618492532719157385251583425744872578438899373334009493649439912424752844625060976655008413344954030870989872304012885802513539193804343856150094216859101980627581913787621282009730940737575736124284629888848799478923720622226360284860781209991894619250417949892728062479216485003279878985540885736978454275345937477080078805117559817454669553209626591766908551069250747609951734931986152760822544290739412993974798742361924521481429819700477323150125068843749793882723840597021933261136969948540757233498145962561887209504364073694971391479859011109903134656799661852397509943139111131782650731050197646893075291399062707933986212367049530095385222101861225621336021406432358470158630536445206468377177260339574645397976051320992153938649025820868849059485461208111768003374901691793732734402393551385312393670426917216634347644720455768905203065288844349580902664659923045412649462049999650065264349675109125852457421129735603083778678417143867997650723782655803136528920413181299677661745010659622193248581510129943300614790834497391498899177036172390117517089829829337691522278760278275476850927436566406948206069272680519083830950578861521853811692731404003885007317879878535399810883403501957735639829024406245005570375143475072458237059546650244423443697932407262134937419409468944795553624530916805335264014272167884772968703610582768447970285900274202836750605773460564262707611475508491581269946699050352177218545981677412574516965247029628771219743943779199521246434567898871785751253022089597666036651827137996195535746924887172828800758235789126089036199531465648796268275722551643191700986539194351406732940800583894168750320815322974711787123225761458371736112277023676490664237379217831922963410243285726430672273756162046018216887394915277029411205103482081841076330921618578143278431429415601623398698894538483611343839807021396130024692337249589847021491721114965576217161631103357589631187407946922874299069502037900198987580486445753086782413673694281548800397434893956437988068088958305031325022855066676390930865318465609625573284066326137132153370196471550471517340467913372572681083378239305461467577651022427269427707400861231966389522231336965209365609389399700134551865737944709160833884683004795299216032098207764127537797694017423684712465308592042978119514104318000048645595474105762413348200749553429872576231162559063176431019851511980281857283908552560619153558285600041369921689364705077004574150456334031712830169981528826422487608357132596803959913271215629301997545563342361909025400384839550541623566568421482556238554875093565196920584749942910830584259239673020719758743226258955431101407396435899591451974610663514254130239963917557222856701379011249711535028442950356002960389981448684285032617402013213864352519056723354502633342257200473161444786230397736061202461322089976019308436796801142022230939927230107327884790816946141163048595307011319926550716486168083556351086535412510523354710784995967978561382747376291294531016224013488001445811734932910650400658986998565900452432023934804964315273222613702720266642704642914654515861573326377907363962220659890972202561266186740305870829058339965677389179483041894070660414403067234425667087652684183874279847368773585087494829228680906226911590051718924106379926002316964640874625362859791374298329368858241295572885781678268136097863635149767180963764487090080660750686408821862339995341697805366276735581884245449686758697476495636027425694767614134375273827755628493530966573294399601961315315349706732558083209766025662924938894940751315555579910799182192934526659097751790951017627563539023992231690126349074844994233569428248425366158534438307555519632006393290104699534497023016105818183684662721626578625935418298771695235562845547347910894064105974156132853738972015553238200913060703272228104836496998266967530793061359381456203762701058112766407977700632728843264407528731357590416579993922552617744044365435483154969853688475882386498907287594651698230694016814048279949613961655325088958450904109443740676157403418878889664258396648235857205310629938526082657198825144250048142926350509941462821307410687972984898920076684156704980000714438322575767244136248881290396031299817167979375299971125634446098036266995144332589586533911601878683544963628646547800254476426382016573010002135620398481902648061584253664776234670001032248669825426486457373798467596021111314758782676607695228095809436353800947276332647100340431725896626368691462761038036621320691101026482472204787161993693712021487529710183799432015724538627775165545332394654615684939279518495012934148645681456824311243994082779474033798729948935418019493354745307160489542359757025757763445848314789954558800574119345041892308767894602300597277298693851445223511535263379025657588915445021250214992989845968038410365482534996277747110740656888416051472121736041975844350296174203948148309662606891535528400886455086536525742449005590284337966909534578915575307069214092515505996143674619898689863963661558911918899397251171914992503024225979085263127735837717119374651316051605142391488274721161982910695647428031300821547564656152009464619274012302269600197382212182218762006980467477578254742582070930822771951509878668921790690393801349006095673509390550017695937745537674626059784537818583598981508339498546436603655775040711196415791343779523240054827569030171643891241024201052236746436051942512181817487408266210606350380145474284695913291454463716661701697465012658102806134388217669261838462172995107872895850233103124410410075795534189918609316589615123735721144347095851274190813743674007955051655394606792968728627797604670368581783829991360592502387789460365653001915554162117409531112976748092557575451162324408534172865571187237917566263044295509002890733715913825929416359497371376544480496371680877678140115971363167592355822114993456117754493826147957760600415502903624929968009900281504554184161513812244854979739737861699513277920072472803824733118901255653988467585667087842632885333689438551482122068065314576651633362630904652465446153997307871886945822793467208519608362288298236684750874516301471630012990517113047646189289078687984091655403141603745687223390745983896693635044485039039399822257071429894448541278052249010256938512829401630366901766619031206691209938224291391362415625085986207375440147053286193197585621936314099482644042562001301043196164629809957865503575607101155143112348070517525854698303447543214107256960019226527007773036279199598305326383383206339394063468503081572343164079135102690270808334850111009665171502467592050193252320280518002695414217532791892731342327032276931699795072531211008641179087534372075726927144758003724020554965996763769449667023605355096576581525528466819398661332517590332554849790696032676773281600183448035655176696315545250954241419940161247728067220310943745042026878730399305681755296370148086926333246975733246340604968208132083525281631019534161101741964662308502726714714670086950209433108777956233279901191859369390721101376502078801261253738448740671842372910980052865716568309506465192536628158669455187563905025
  column := 164059040687224069812259987987327712640625677145065915706371650275479156390119138986884596781035424036082191093051411956480877166767605927865875884873077349900111679715397413889609790574327718980494873455560481431514998201023732450931434793492938272074726969074428057378934901352131159176878426301858630380587398841200985297945032780763253878012579800218398160053365150935751464949270362665137487000026724913126519638136272922649072840404643806130059190221189110351374260058971373182520056964763986139034907184226903122019658176838441259354707128798918500369693567093066196403191468593832797837230704383320637778097961614745546277931851453153850699538635805960240380285964063261147986521234865598513116122280018253260903505775883352842127286806057555944027585585731319594909968790767616171386057207537453247504097146347018876800383238615150594747201774452729012382192405968206701818335356638417827927668896333170383059570006083684004143802923007012215306272743995483582472982306268241948142845717645791206579551137611709540191946245313223597809095961232591365740878710926171829681446978866853661590872224325672875386650408178300446286679878275266061799160039447897825746703271285979107214316115218065848032836604965471702215622100177221616833134278991102826083539220142546271292226859304815657240522091398254628426359822829700974110449896431242404686102706888508281769465798093706796779536822443489638415398617385703481759602738436339727942892755653089417455612743791815801537162997958976601728970042513744012289544536998183464421366089757062503482091191002737113822629316614945909652738621495795630034988463135440029083643314351155104905914236749548352253763886497296040100109863691461080662294702475949581645262804566802221552839179806614170334262730563863580123151152684769572429663293233719097329843574149197280514738099692564710899345186836930676239059071364136035674498770525330223843629620787567511149518772482831147956478675997735096835315137999824763965111868350835030364779720097261884452504137772668019420585772028620164188674317396029936389189407735856465578614484907002144399159575131530842532901555140513936675309358662269069951005152965124191742123599775610801312617795526142433938285211029748493888105942626454178661835852896522796174451992538348308874630349052734297400442322391686594900577898906321455483838592680015754215414600922839727780588538848326883132551582123156901429424260279479455211022525886099573135273561122660574291329287946670129860053847624184914774813810597851589109979737548975860589670369757413589160764766970825648075444798216163197016979582141765143589150915839256903659887301029184774105462145878498175040509123894237059076731005596029571544590593374407198479608623386776638007582541881937062718757165191663608777670011988193803568551234901641525684582809216035929282111752466779209753353639868134911710938700995669698416022332594284683150422464637723559161552403127593743233669348379364200308492540021020562935745917258989240657730688840065111822375998899810706941801196340382112585238136027237026565366736066404225570533108218822683228855670612762725724093888896948566333026539809743502531652483432418079941121434907956521458104273219712183096097448100492604610703306004349496841191269527058943877789043989609383334632003656711027766413460089620669033168554376915690101233056668596444272376919173369405103611161713525643097185879042042670855084928169996974525406055407424077432280323492058506341527862638315402904292532626548002785029122208642390643130415617636714475793259860386171689748247775183075631812204782376881675435309800851233777845970940995753201515508750521501060018855738464287484136452213642337207497969675344262735829011338941327979253023227791064562613889203594204308943450718708873467814096367902886427674571641399812629557351637071668105719193885717576768280875298240627579714356858048595472738390523205982722326771845977874704132351914841582743720630824942598021641944657194368046754913627666380461203664401377256878433709351808026831024491329156228515241074061477652804488435392470878850208409869820616313351367056120041691827578025647272875443993454023865789735506065826298310763449729799190339428051061711886430994750754799249279720226920532228226976480703738765420608623516784195465847654802544497066503304102218179516730599009647406536380840175532240198477689110028988478735163068848038067835312258309501185589049749564532186676531029828992255884922175727684566886066645190527647829852341022866421891694484930207234036703524691117831934204248734454534723168243153853728967369142969189146821018557745157024977441495093132186965081299038401903825626231162340438190102461094632115163485122051352195232346817130876197815580632204260760232766221129005178366159346771250703770749634257387576119653155327312137848704574368975515780240421933629851076231935966538201967458061942603834101060091875550320310726147638637128937973467906568142667777519239371259671737747093680143563214670561351785406823209192692496948762110533148095966466137508629477611731562621073499886511387865773799337724895771688113686137131727597621122412301276615522356299587993376574437345757188571814027868821272880040999287477944001160377242625658435649087416426129240959817846965892856602992047647558910994928957086714267025995071549072580314993488380065416517817142244157512520634385773549086858798053022905268621883193505542915743693124194035114196874292959762242714659956815897359297130777051788502520352312276834873448714561515586117671691891804883340076574613068217789927928246353414348444554520031147681947288679281076956090040874601221255961635461150344662268702806699519330479898910082221769607807573973774285758769843160503652421620238405288818995999009809057542041070906862051555592134069748738362152138016155766424648664927439492233659671103923567905724052193802971955572201944121008552382362737304916349540919240866615047450662524555466841339142128894230570209639173115569537036151404103373788988826494301139182340740757344022063794068584494116989099023882243034520116076936824310710822195614209401599287653713551325528602074738029932552617143545236562858942821890129726357555648362039791170885209757440296259442106539861594726480823134887454660507228404327732856990862850408948991924914563613360161961399773137811146537103920123216127891087563667606920866410611863892249977383861366062976895661560615903597138933001967118580221799938462073418777066980001794438767248840586588271960383001415997642673048540289003639776124450727167213114213428764253962433094738570719186017930859142849680131483873828667006755530597339946282076597552348251574256205532489617400118763442970000249133606386278752538575617875479920126516046426467964785916777744362876152040471333567347785961651837504372258422476364416898360027328697260194830602401843014293479205856834302278318118989987226282551409713795654288780888475457188557394845105638447769325855151339243804159694209635544410451180231626764857037995005046893961135909722763454691465919579734175687133814892463074113444281884674379577938854590630961383442351648003740765196838855355418963733129416590755467175419421240670033997101045361917744385218544013616441931726071148627795282485434115939209878395002383830792253690511036246932325097014194516155761318120957349082356387742069106809992068840287398740341012313408902403739671699324292482925051521205489673923285028265874070502445535664176452222146503172961987271416611128227755537893022827024155521016071971410607391269829809214637425855857985180317248374876835853776971561367526677419251338812980198273815817287873209344394323747557211021281528673117317157439079040696943831673168161363114566449835600607915309186432893962802752095322376335327528597577186510380206572378353517184000683969115484558433882275231719659666961459440748875076116950855421400492519262200108566055284027947759241480601046380794183969100718304861985450716455005179088909811566037444390190543779088608045192648366770769707359288342805218191540497574426755268540298943949797131134219472657519750373830107880326955085221005497435021667833279118787477226707431056661446029384644780274445870827415665883674666861742531381910892239588955235009417761677221014281082788934773534117873843319175818321660677067500018849130683336385607164246895163882027174690215643407160065088184686637050158786507285387680780807195636573256256086765382322767890951314976348516999359840803623942047456468054143489024462499966522453318179446989721612725675294950020642137048048737742957398729170890757896639806439053704924672980646710084594527487313488916800110704800073081245984831304561660370779071719515032375561650501017188842448375710689757789510090526137978044817254679579314645806318266086331925286538389649472617253473657130238496901735540719595474723133944537568697402933972636688666687454865804389855519646331232916048732223498205283902792392162139717419642251400937470177431460611938673601821564438606000095450134655680491148665710298463196895972834368222509988635087771694535470818323240433444389265278979903495092499750733369290154567992275071210661623191464027520143516581158434619168584648306746968778838147131789643604178501176648222129635364204439990048095604815299834032378631745984808604414174053761835140777568830285440479163795293754225470678294668971234657693974359644482701661182084480703858469999127911899055022232758880019620412377590102968047510096287885967671907787468027178821079651014958454606838646702455777079150679670579298468227296189154802720492133694977431510408284116684305472773993895706510816918423723222384482142116992066972398235031900775954882139426293845172704145991524132431512907352267611607131053323025304420134644146661125507664054143249994404802736818383569617410117550234229056419581232954830839704196032462867459559269425353649254828568281916232367189960542444547470205207994489389528026058102379345221825039650515623076648320124156683153325420063985871592445290434981956822050395625666648486465453442663219197515727930759813327722658217305134062427883946020660755448245160997556933207605005899916211451773798967968427714742113381850722716713779569682205367559968232654215771004536850195418005265330525852577967377201516074927542760542510351608029198993875738964682776449160960448304692916577194934323215992114264541252581735316284904961798842119186745208256093671990698730170465545613847024857613320076530468652307723368482560964699588728089030684131094416091107198325302390290111487370263064561252912145296851062145413652073167296974939571662198175756930411963691555124884689641502427342646051441293240671862551127820721093168105900933154211859506884152445080431478531739770368909202132786315356383385935343299886596357968985541610267194343108349401707559446408484936960018622794282828276648269890056054502684088346788499107306222399524921052794681319440449493212908012654027316232120537604956654939963052279930596483039619250764304278349683329368367573117426420824616353998992347599737933312603156527681890030230555642105522480357044849680964648558669069748124899020820927302481237164996577533140543284157884968761821384423048999518847699089674440318887557493253387533231304824118296737155067227367591725558180742747225803976005129835635034230248598908776096993890519995996155248573673019588996011438916704814455598870298585146446602446106811203141500483835298588799798555910664388962703033858746175445980712178064442505908658844653833563149664127860288102283001505318957656620748787639179435660567260557138963331886045136880547025660275037785807930204183865329459362612332507878241487537832769266274300053397811458778593522924402359068049104826121297222607522283631641197718331591478410200770759730956720052363432646763907703122855859049955492912774209987421692233254829625351806782318118380494035235718291135147237405331156390282811948714340275745763994415331502452177609322826170956639759025995797728049925420474229715226033386286034657116106118624999472619975004500200989876784016528009073491794755948282284618904582674772347301115361094430081115627833374755515754597922129705989811875720238077132881529770370689187632445342449952789593308322340368831222954049654558554201243892087848053382365788137286231022727717121709318612522242162823930265264667023673303367929587251443482901650092061656158382373665532758130245935977618415796742505691264948988263212428369554128779243984065675301990759083046644344137593587374576696484091699247432366594396568589813997539906096393845706506811363474894827235834933291980813339207809684499513188709435976510013799391047790982568066974762552174945384339491703720006538159187195586500729004760796954592775886900936699990162748627645671878556138319445253486501792230403937955804965669808843258781241158439770328513355266419072020722224859228134550475146855476622932463462803216362032664641244894389711821771013827569297903079243316659999938348495270343238409350715761975010661214457580129333770097787059775737536742797341694216095901248536574853008632734695077155641141847811240526458354806949363651643837475946785318002279021809741034761762116834672085115738751576888832244073559905834760696496567632563578333603528552457336381186399395897624287700985606401782393268952819996800700104794244615375190664160675907074990144217356796479399005696346255688205987482952024927894480930910291654120407470502441483696591825293865197149208133852200647962691520986153298630402877349626100827882412221279788726914871759106897567189196997661925174085827209345202748692870756865390247387096204617894350914254796962705081739014817211601323157107403933738588506933922524237863570001582291586079838972801563441666903809164231815142710780507477499772928
  row := 1547318850718284941990915738380080003154679406345865434439032130169964193858357856502570321237531094489757354833721820634939775672299382315509346765149547039369820376199474838777433390993154124126174402549256228764055104266879375813643375336282238135618448216422790052424216089658468118722348730191252132513178041878768673347182955320812947911322557736957885190419350599613721476928648413198615862957918331945107034258097786689262302818291751105863251929954111593990516152654070897151670220365968641866282747558304321131391626353157143249212785572000359504960116706106696909514373128282017626306786201576080170585627977299562781096531054889216690865975667897164491062733961361765907278700521313959407211586482157844618361386320709561235540646631824282581145505556631557886549594837927669731404159135269716348987054628570471806570395060342064122126031695846498472989387800226658828799446725815206596890163902179634414566739939749575422345065402577173462624822253116349954280572737868593998752769750069321234968739660634307399055728863599227677976778475414798749089206592156012726169198643713208357230287382665504936526137175126573952486620631381361852312429689536189385939335080108320430452383817116194057867164633533376031552100535054592683648559794592125680151061064202959959043588747797416341234433522826105966562695583612918524821821759848636366193190715029610207741358597793605526218400908612957281909374514394140397512698188411399915192829519190494963344573952017966973329657406239039907993529869346529244421568092325066003672662466590770004757272020257828075208299137078323410059170635032733739415791425217659310439960499266856244785288624179748634167403956119807417328681855027669126795773277428617776512595926110258052559203398784486636668751067182910653109548099029163062841921366475460293240515520695691012160717198029746703829122406954602914965583473237487365998930754988997980332086740406758283570497198339477659243245455668453942360730675251376700173593549824958507832097812140382609536173214333663550644647189975363119186494773143673621166878236076021789911479121148810514115239734655130347079746591803882023668871069033146123099953731704800056359078668044764609740711737611388928693186522971519601568387967894026612674450848273467239481219812297869186543097547962079806069864273928352227454866794203507422212795830065800819020843111589387609204963334233499543670560632158120161660113102136955859181122522157541979870304600359023883007196750726497668534915824273958441425018417932457412830375375467570895263543120695963395288248063538606620091019281444307586734022879405201076793680493008310508833287499533926634235169142884665126258362711290325573986918360112097651711187174756429874026922376815314310062055970935729925205978368174049527788545819857072049282003355847609384570330906691821871711280433072724405156076839060247290086578295206905202886114564210004909644528388106627962593762828528235492047367925189449091415626005814443613313063006279370283265480343831309115742910711686109252894889391658820306677838058877717709134311693801600817993618918500177171454569999592858997094795869438183146070094320940196240318795612237928294797415878142247540070660426927911611262558852163917824454886170821153558347728229738290899054002001674721486190984300461455608927428484566397432991704207244266177845755323218407207869282200397643430171833369519579394886779070853910114738961034159154847890503284058374660193484400140426181512579975320743419092440192673829763819026739153384697430372544243360040228248578907877084814364063959327240943018616077226756772667274157843948889880915935583964834408549539604074834920686391397149331680527279197191291592487612102672556939364120242012082937996424414561232819286637273822931562524437354790277964679527908261433018354099353662834281887737694561520151529615802113466183391658447236910806682547725493575728884849785253114931235800149972818870067205536969749066855453738356443940541471240292420002126686829794562517210319570219700811431185148832461040191870935053686333400750896940811407223280082087718512568139748808382429770929412254118347835926820913923562091404732933662259585743663878192798374642929357819614497348023020551819586286361685047386424871021004819120586376765054831818154352789086182449454258115879828220701250812563971552974650939832283261295927913064397773108882567553681642146243221599555291375770250111193187139815615140960891943989594095719571270047184882933463485547948229962377227493014643179699044736483463679467010019534208632980808348500724332703207936886772216329871743624486498386333281220443919145029603476581044058992541730085528195466218558076210981846660416690594409905255325635731806888160450336693043717137996255578632933792541189970175295953346488028716695629258849879644790237549027211194600454244343121221217516265796899383576236367210406068127872120992767420320253606165343773129670224397078735549231185328983602239098567960009897361459820667212726077698857611250722176563998076722010827027882705599767788114576981990052003008166745197194837243570461859603405243748073470484842636886379941095210734352532626229120944096983275899806438946245004317083982523811106794537490262119811293802898066869787679314741720594597576433503251530105924258816184794542576869611773470121302718026758088949625850702525090058537980291311650092889554045789460392023647501277146714027646691529742293172252100501173261164688568372122784693896502296977529919877826679301749928290242138026706936389415289948122676519819960169119746627138381946697939941151293801542454355141600389450327341265912810366708539129761274391788856271050097540103631441116205172998248900214405248577810316620396643143965920691569829765851458579045867005188555805962837865959127200098011694117900772803603547839752897889025515054003309265469347707187341940046385727990464486459755058551799691501604257179360478964036981482572824298501278636336778065599759820838988179738222565309730837027914428869347905601146736708569930229700256256866451613325916268312382636498187806460901484979853135449329016084593591141427957254377815904192957782299522854232906379707151573501100516468055470530919385612260534705630326177729207892842933372948109684501135213107878171906961745785378333385873763693381420882980872691830325686045419188708280659470115102467893200525768856806605810165481367111077604713799272924757209012599476910507011962650091749794616916483774955126551816569473347296530696143547431440475753114215188300357537562781662211469483764918705250854517314943239678990267403688185881017675090247414022158919754940287493916530656923030790486579375605113127062050257176897950205099746129334631783435330016358140802386288468212508274665855104168653206997221957391283179832821603034579243579177440669377894311397747904143773833568712707503084130534549286462996556121661026061825244737621908537938473888454087386125920482167871020243967805480989164296569953997858782898491120264908861222454977848052445449028940859582148229433771602105514452800100602000570297798829002590003100668948080363774220998270044393748600979401273638944911764520356764323299179824100948618031453696596521090895548465431234730943958854091649701276616200107580092291873945273007648698323052873393408515569339500292683644587151174479485824777593883262892257923481405135801519978101038628135368149337160063798957558753545752586905550607575953572296401179855066998080138326986637622895693958545398044814900885444063799884703539020992054067055364557099304604619099300392395611455006106372435877826894962514563166489470713073075545558056451721501364399241881298684539638399936717211051016983754617538982750556398568985550799763758985537724874579979529753076757066063062703862065620254570311729325550280841854102266524681525111049246871360399726504078349560596895499678873165829671586766647448015798454700946835383160604351921441250016971722654026796084750384617823106908881310523683502737132345376557360200463080926897708678825568889447897249867981040934655251440493207691845468012199282717866012043078957666073140936849170140965254751383094241357064999521822376979701714838822447898865574778992916860678903600160595025918302387154693077730806861574268601807171652965482785097970162591219251993890835059286061444311336917705434590650833351386985630969222403008317919803576812335595153592909830936324421044467495822749067656176830092245280099146391622254409149348570449891988898182942843943935036493752429813676578321319811889018836531815736103581900557029054632653195203715879245422070585774356043687771161060683772937429000586532608954120384518874248330171625116196248133374128943789627777351379631267521679722312647339317738451919431392510026991169626845523373731539402766554642769348800744517345114327811142306571491799704759874663820907965695508874492086648241454196342108891058911578650936099247714648389572204681078900584675873407064276059676599871180488327299929469107156854088423189540929204391671479045165507505541629107948283427975411473177310279657535352664956021499686001641311168836166318641088311323643735923601816032900457972432039356963820892388840331919037460779641755416402022037787083288194478706165801729412548066219097994440095703627882174771528251453976392109801155092202531831736706660233401414732039573602270055009604534435402285370541636348456599300687242297582555599618682572738088657045150408540287498391972253273261899649943437233560000060883725380372393830083114476103041852306573866714459078175172159242199402828458663910347850670139695454227262985064302701910209338196716682497229187181224479877481544409768169725204840914413642125698542400277790550966041329747561926403554780038511132074773166985120084302022241636067098482753966394443530974302705753946696799589198656747191073955565037805943163707459617923522885346546354978057068149862087975472511565203196892786228973326408706810951874132827337800690954389416018720865056230257648525430611014334532530399063647730328415770386975486106297494592582584740710341706684081970893772769256599147082399896872230906159885346844323456266705979325087137788962972493148322511964151571704289663217140458847845062420626697626540548309029738460536217494698585055251110749573484792782738070234283688017610010461992590471138914430845584425121382612668591436999686638350776107138965200259134110621512088353524973077472467195083239457076758202865223451561417689091853125427345779509467341967444908881003646464704051744301699252086495729652663697675281652367455124343927996248549821411001682417033224118560822728979726720594386388910418912943612809693400016701931372004995003512898196692708760151197262966678394949824473197620317647289503813040062261326815417110971651795331941173979925180824078045482749997516430112578289450520616226019973868920795456400481104652980541812684955993968158228204359113793280481908067775343289799175129305235816291148854307960544147635080975406778435037231376100906724238540293981282923363521008490744984424984630587310503797604713277862110406787360091566485581930985181738273021719356295402558996369158513555431903704993026287345383703148787184966522010959503111894842013783510552494895688154849941046325055408204876952178259537222215190419040403915378116833355301010538467631089908755403087760188727393414354496513262012852520495706429930909226036456657945222849240293306559361770480706350078311784953126665154356191329011305274403187848721147113884508883268098798186993819988590809503309983644844856223250801321957814556379500549972489222505965709329538638207624946288564496725313305573425147781073929579089061935276848930056458894491620147528986966285282427550868297544705207421003341448200405168082293400193246004856194491384004191472393248251557739693267346375995238285929507574485825049487454886224497786193733713036266221737818500988217257785133723520561873862309210308084652618753819543925216806951119486128560076235459416674676527347147794091403089144361347900356869305801177369766914028112727915753734700538115678772612785456116208705912041208178233142535609390742743934846279842288229431327408354807999791805767521975606731405841966635292543644595633062956040797824787307461408658184126314306263592608081531148205136650543108866029577927395996441615144407561142000228931962961668451752339942651942022200922797937615034650873830925781107438302602603863927423095985355144754720030271734953986710525547227405413508611851104412812055290715102523954196857718050377918243793706598738474329098776563876277962448807746812138309692619524958091214731272342025084341523270382859477232688036653983910887389775574689512897010371812894542558197419218046846198604424925791771053637849386052524654121015946595585743821990606968848933445528620590449616807194229186823661328756100017502422182928831146995198450478383879566208847152618786649555088710651823723830706322667521906442773406016169876980709725591928756247898848397011526132024572692156566799237056888058779374697640062956890622640436624699290287235792553955789335599568467016298167054277792376225336439072486667837406709601854928894915885123182349467012701173418425846959952141761997454489527081415755306613324138120047637636401699782000619322041765117750878364789426537765532888849992281508865740108146039175133652747810635741793007941217093955712336441732716588841261184496501069080151770360795232561433698849643786944556408979793000316493474732376548475888452587875759163546113853474004555677840396464304174042082600954390462429664480043157716384057881620250164624030381000351349618484268736369488867984727199552069928546707772820964712478033790605286583593808700574334763203304747729717217075019531185045747420071359895754102364236204178319802330318438400
  size := 263700823825356093674564822537427236282204127778217291858853362365037399225028850536579176002711769081774005266588637976173515434487506976139218495252117883363572276735171581232274451132451656440974138933382625695884124386973676056970546487161739778546593666850177145797273049493484708680384432766460786915966934382749092441943387255749497292153099622352863762401434116248913510459919958077938799938733858343981802869628489851673290011955098440799982503706254044687150479154415333561746046999964987138642432953584274061595195835559049347706840394001277371723466163139065342712149890686063649872690630936368377099525351263133857443310501253444418266904502161884376903179614799293950584294878294473023128058820691527914379184228273341006381584319717492449879683302872895805379909134383281250907138246918235310005467865034263499759121104791592181869454358753433394811084923615512777804152747090242854296452598873978737732400783175630619735115775561123427267962924722942961367864004856980178030044322489516883407233849096226868481016806082451357867950104571711966081466210970336835436807954880623946016370975739397871142423440159657131910984820200580027856691163056068943661548668926205423348314615045329481771411780289099881521198045002326738549165798269269834156207810075411537528069093220056445304209335745525078721524313899120728254802112997425535446317186811174792953356643667586215563995249256761344654311492833516842761038558059948017218682880
  names := (.node none (.node none (.node none (.node none (.node none (.node none (.node none (.node none (.node none (.node none .nil (.node (some (3, 8, 8)) .nil .nil)) (.node none .nil (.node none (.node (some (7, 1, 3)) .nil .nil) .nil))) (.node none (.node none (.node none (.node (some (5, 5, 1)) .nil .nil) .nil) .nil) (.node (some (2, 3, 6)) .nil .nil))) (.node none (.node none (.node (some (1, 5, 5)) .nil .nil) (.node none .nil (.node (some (4, 7, 0)) .nil .nil))) (.node none (.node none (.node (some (3, 1, 7)) .nil .nil) .nil) (.node none (.node none (.node (some (6, 3, 2)) .nil .nil) .nil) .nil)))) (.node none (.node none (.node none (.node none (.node (some (2, 7, 2)) .nil .nil) .nil) (.node none (.node none (.node (some (5, 8, 6)) .nil .nil) .nil) .nil)) (.node (some (1, 2, 0)) (.node none .nil (.node (some (4, 3, 4)) .nil .nil)) .nil)) (.node none (.node none (.node none .nil (.node none (.node (some (6, 6, 7)) .nil .nil) .nil)) (.node none (.node (some (3, 5, 3)) .nil .nil) .nil)) (.node none (.node (some (2, 0, 1)) .nil .nil) (.node none .nil (.node (some (5, 1, 5)) .nil .nil)))))) (.node none (.node none (.node none (.node none (.node none .nil (.node none (.node (some (6, 5, 0)) .nil .nil) .nil)) (.node none (.node (some (3, 3, 5)) .nil .nil) .nil)) (.node none (.node (some (1, 7, 3)) .nil .nil) (.node none .nil (.node (some (4, 8, 7)) .nil .nil)))) (.node none (.node (some (1, 0, 2)) (.node none .nil (.node (some (4, 1, 6)) .nil .nil)) .nil) (.node none (.node none (.node none (.node (some (5, 6, 8)) .nil .nil) .nil) .nil) (.node (some (2, 5, 4)) .nil .nil)))) (.node none (.node none (.node none (.node none (.node none (.node (some (5, 3, 3)) .nil .nil) .nil) .nil) (.node (some (2, 1, 8)) .nil .nil)) (.node none (.node none .nil (.node none (.node (some (6, 8, 5)) .nil .nil) .nil)) (.node none (.node (some (3, 7, 1)) .nil .nil) .nil))) (.node none (.node none (.node none (.node (some (3, 0, 0)) .nil .nil) .nil) (.node none (.node none (.node (some (6, 1, 4)) .nil .nil) .nil) .nil)) (.node (some (1, 3, 7)) (.node none .nil (.node (some (4, 5, 2)) .nil .nil)) .nil))))) (.node none (.node none (.node none (.node none (.node none (.node none (.node none (.node (some (5, 2, 4)) .nil .nil) .nil) .nil) (.node (some (2, 1, 0)) .nil .nil)) (.node none (.node none .nil (.node none (.node (some (6, 7, 6)) .nil .nil) .nil)) (.node none (.node (some (3, 6, 2)) .nil .nil) .nil))) (.node none (.node none (.node none (.node (some (2, 8, 1)) .nil .nil) .nil) (.node none (.node none (.node (some (6, 0, 5)) .nil .nil) .nil) .nil)) (.node (some (1, 2, 8)) (.node none .nil (.node (some (4, 4, 3)) .nil .nil)) .nil))) (.node none (.node none (.node none (.node none .nil (.node (some (4, 0, 7)) .nil .nil)) .nil) (.node none (.node none (.node none (.node (some (5, 6, 0)) .nil .nil) .nil) .nil) (.node (some (2, 4, 5)) .nil .nil))) (.node none (.node none (.node (some (1, 6, 4)) .nil .nil) (.node none .nil (.node (some (4, 7, 8)) .nil .nil))) (.node none (.node none (.node (some (3, 2, 6)) .nil .nil) .nil) (.node none (.node none (.node (some (6, 4, 1)) .nil .nil) .nil) .nil))))) (.node none (.node none (.node none (.node none (.node (some (1, 4, 6)) .nil .nil) (.node none .nil (.node (some (4, 6, 1)) .nil .nil))) (.node none (.node none (.node (some (3, 0, 8)) .nil .nil) .nil) (.node none (.node none (.node (some (6, 2, 3)) .nil .nil) .nil) .nil))) (.node none (.node none (.node none (.node none (.node (some (5, 4, 2)) .nil .nil) .nil) .nil) (.node (some (2, 2, 7)) .nil .nil)) (.node none (.node none .nil (.node none (.node (some (7, 0, 4)) .nil .nil) .nil)) (.node none (.node (some (3, 8, 0)) .nil .nil) .nil)))) (.node none (.node none (.node none (.node none .nil (.node none (.node (some (6, 5, 8)) .nil .nil) .nil)) (.node none (.node (some (3, 4, 4)) .nil .nil) .nil)) (.node none (.node (some (1, 8, 2)) .nil .nil) (.node none .nil (.node (some (5, 0, 6)) .nil .nil)))) (.node none (.node (some (1, 1, 1)) (.node none .nil (.node (some (4, 2, 5)) .nil .nil)) .nil) (.node none (.node none (.node none (.node (some (5, 7, 7)) .nil .nil) .nil) .nil) (.node (some (2, 6, 3)) .nil .nil))))))) (.node none (.node none (.node none (.node none (.node none (.node none (.node (some (1, 4, 2)) .nil .nil) (.node none .nil (.node (some (4, 5, 6)) .nil .nil))) (.node none (.node none (.node (some (3, 0, 4)) .nil .nil) .nil) (.node none (.node none (.node (some (6, 1, 8)) .nil .nil) .nil) .nil))) (.node none (.node none (.node none (.node none (.node (some (5, 3, 7)) .nil .nil) .nil) .nil) (.node (some (2, 2, 3)) .nil .nil)) (.node none (.node none .nil (.node none (.node (some (7, 0, 0)) .nil .nil) .nil)) (.node none (.node (some (3, 7, 5)) .nil .nil) .nil)))) (.node none (.node none (.node none (.node none .nil (.node none (.node (some (6, 5, 4)) .nil .nil) .nil)) (.node none (.node (some (3, 4, 0)) .nil .nil) .nil)) (.node none (.node (some (1, 7, 7)) .nil .nil) (.node none .nil (.node (some (5, 0, 2)) .nil .nil)))) (.node none (.node (some (1, 0, 6)) (.node none .nil (.node (some (4, 2, 1)) .nil .nil)) .nil) (.node none (.node none (.node none (.node (some (5, 7, 3)) .nil .nil) .nil) .nil) (.node (some (2, 5, 8)) .nil .nil))))) (.node none (.node none (.node none (.node none (.node none .nil (.node (some (4, 0, 3)) .nil .nil)) .nil) (.node none (.node none (.node none (.node (some (5, 5, 5)) .nil .nil) .nil) .nil) (.node (some (2, 4, 1)) .nil .nil))) (.node none (.node none (.node (some (1, 6, 0)) .nil .nil) (.node none .nil (.node (some (4, 7, 4)) .nil .nil))) (.node none (.node none (.node (some (3, 2, 2)) .nil .nil) .nil) (.node none (.node none (.node (some (6, 3, 6)) .nil .nil) .nil) .nil)))) (.node none (.node none (.node none (.node none (.node (some (2, 7, 6)) .nil .nil) .nil) (.node none (.node none (.node (some (6, 0, 1)) .nil .nil) .nil) .nil)) (.node (some (1, 2, 4)) (.node none .nil (.node (some (4, 3, 8)) .nil .nil)) .nil)) (.node none (.node none (.node none .nil (.node none (.node (some (6, 7, 2)) .nil .nil) .nil)) (.node none (.node (some (3, 5, 7)) .nil .nil) .nil)) (.node none (.node (some (2, 0, 5)) .nil .nil) (.node none .nil (.node (some (5, 2, 0)) .nil .nil))))))) (.node none (.node none (.node none (.node none (.node none (.node none (.node (some (2, 6, 7)) .nil .nil) .nil) (.node none (.node none (.node (some (5, 8, 2)) .nil .nil) .nil) .nil)) (.node (some (1, 1, 5)) (.node none .nil (.node (some (4, 3, 0)) .nil .nil)) .nil)) (.node none (.node none (.node none .nil (.node none (.node (some (6, 6, 3)) .nil .nil) .nil)) (.node none (.node (some (3, 4, 8)) .nil .nil) .nil)) (.node none (.node (some (1, 8, 6)) .nil .nil) (.node none .nil (.node (some (5, 1, 1)) .nil .nil))))) (.node none (.node none (.node none (.node (some (1, 5, 1)) .nil .nil) (.node none .nil (.node (some (4, 6, 5)) .nil .nil))) (.node none (.node none (.node (some (3, 1, 3)) .nil .nil) .nil) (.node none (.node none (.node (some (6, 2, 7)) .nil .nil) .nil) .nil))) (.node none (.node none (.node none (.node none (.node (some (5, 4, 6)) .nil .nil) .nil) .nil) (.node (some (2, 3, 2)) .nil .nil)) (.node none (.node none .nil (.node none (.node (some (7, 0, 8)) .nil .nil) .nil)) (.node none (.node (some (3, 8, 4)) .nil .nil) .nil))))) (.node none (.node none (.node none (.node none (.node none (.node none (.node (some (5, 2, 8)) .nil .nil) .nil) .nil) (.node (some (2, 1, 4)) .nil .nil)) (.node none (.node none .nil (.node none (.node (some (6, 8, 1)) .nil .nil) .nil)) (.node none (.node (some (3, 6, 6)) .nil .nil) .nil))) (.node none (.node none (.node none (.node (some (2, 8, 5)) .nil .nil) .nil) (.node none (.node none (.node (some (6, 1, 0)) .nil .nil) .nil) .nil)) (.node (some (1, 3, 3)) (.node none .nil (.node (some (4, 4, 7)) .nil .nil)) .nil))) (.node none (.node none (.node none (.node none .nil (.node (some (4, 1, 2)) .nil .nil)) .nil) (.node none (.node none (.node none (.node (some (5, 6, 4)) .nil .nil) .nil) .nil) (.node (some (2, 5, 0)) .nil .nil))) (.node none (.node none (.node (some (1, 6, 8)) .nil .nil) (.node none .nil (.node (some (4, 8, 3)) .nil .nil))) (.node none (.node none (.node (some (3, 3, 1)) .nil .nil) .nil) (.node none (.node none (.node (some (6, 4, 5)) .nil .nil) .nil) .nil)))))))) (.node none (.node none (.node none (.node none (.node none (.node none (.node none (.node none (.node (some (2, 6, 5)) .nil .nil) .nil) (.node none (.node none (.node (some (5, 8, 0)) .nil .nil) .nil) .nil)) (.node (some (1, 1, 3)) (.node none .nil (.node (some (4, 2, 7)) .nil .nil)) .nil)) (.node none (.node none (.node none .nil (.node none (.node (some (6, 6, 1)) .nil .nil) .nil)) (.node none (.node (some (3, 4, 6)) .nil .nil) .nil)) (.node none (.node (some (1, 8, 4)) .nil .nil) (.node none .nil (.node (some (5, 0, 8)) .nil .nil))))) (.node none (.node none (.node none (.node (some (1, 4, 8)) .nil .nil) (.node none .nil (.node (some (4, 6, 3)) .nil .nil))) (.node none (.node none (.node (some (3, 1, 1)) .nil .nil) .nil) (.node none (.node none (.node (some (6, 2, 5)) .nil .nil) .nil) .nil))) (.node none (.node none (.node none (.node none (.node (some (5, 4, 4)) .nil .nil) .nil) .nil) (.node (some (2, 3, 0)) .nil .nil)) (.node none (.node none .nil (.node none (.node (some (7, 0, 6)) .nil .nil) .nil)) (.node none (.node (some (3, 8, 2)) .nil .nil) .nil))))) (.node none (.node none (.node none (.node none (.node none (.node none (.node (some (5, 2, 6)) .nil .nil) .nil) .nil) (.node (some (2, 1, 2)) .nil .nil)) (.node none (.node none .nil (.node none (.node (some (6, 7, 8)) .nil .nil) .nil)) (.node none (.node (some (3, 6, 4)) .nil .nil) .nil))) (.node none (.node none (.node none (.node (some (2, 8, 3)) .nil .nil) .nil) (.node none (.node none (.node (some (6, 0, 7)) .nil .nil) .nil) .nil)) (.node (some (1, 3, 1)) (.node none .nil (.node (some (4, 4, 5)) .nil .nil)) .nil))) (.node none (.node none (.node none (.node none .nil (.node (some (4, 1, 0)) .nil .nil)) .nil) (.node none (.node none (.node none (.node (some (5, 6, 2)) .nil .nil) .nil) .nil) (.node (some (2, 4, 7)) .nil .nil))) (.node none (.node none (.node (some (1, 6, 6)) .nil .nil) (.node none .nil (.node (some (4, 8, 1)) .nil .nil))) (.node none (.node none (.node (some (3, 2, 8)) .nil .nil) .nil) (.node none (.node none (.node (some (6, 4, 3)) .nil .nil) .nil) .nil)))))) (.node none (.node none (.node none (.node none (.node none (.node none .nil (.node (some (4, 0, 1)) .nil .nil)) .nil) (.node none (.node none (.node none (.node (some (5, 5, 3)) .nil .nil) .nil) .nil) (.node (some (2, 3, 8)) .nil .nil))) (.node none (.node none (.node (some (1, 5, 7)) .nil .nil) (.node none .nil (.node (some (4, 7, 2)) .nil .nil))) (.node none (.node none (.node (some (3, 2, 0)) .nil .nil) .nil) (.node none (.node none (.node (some (6, 3, 4)) .nil .nil) .nil) .nil)))) (.node none (.node none (.node none (.node none (.node (some (2, 7, 4)) .nil .nil) .nil) (.node none (.node none (.node (some (5, 8, 8)) .nil .nil) .nil) .nil)) (.node (some (1, 2, 2)) (.node none .nil (.node (some (4, 3, 6)) .nil .nil)) .nil)) (.node none (.node none (.node none .nil (.node none (.node (some (6, 7, 0)) .nil .nil) .nil)) (.node none (.node (some (3, 5, 5)) .nil .nil) .nil)) (.node none (.node (some (2, 0, 3)) .nil .nil) (.node none .nil (.node (some (5, 1, 7)) .nil .nil)))))) (.node none (.node none (.node none (.node none (.node none .nil (.node none (.node (some (6, 5, 2)) .nil .nil) .nil)) (.node none (.node (some (3, 3, 7)) .nil .nil) .nil)) (.node none (.node (some (1, 7, 5)) .nil .nil) (.node none .nil (.node (some (5, 0, 0)) .nil .nil)))) (.node none (.node (some (1, 0, 4)) (.node none .nil (.node (some (4, 1, 8)) .nil .nil)) .nil) (.node none (.node none (.node none (.node (some (5, 7, 1)) .nil .nil) .nil) .nil) (.node (some (2, 5, 6)) .nil .nil)))) (.node none (.node none (.node none (.node none (.node none (.node (some (5, 3, 5)) .nil .nil) .nil) .nil) (.node (some (2, 2, 1)) .nil .nil)) (.node none (.node none .nil (.node none (.node (some (6, 8, 7)) .nil .nil) .nil)) (.node none (.node (some (3, 7, 3)) .nil .nil) .nil))) (.node none (.node none (.node none (.node (some (3, 0, 2)) .nil .nil) .nil) (.node none (.node none (.node (some (6, 1, 6)) .nil .nil) .nil) .nil)) (.node (some (1, 4, 0)) (.node none .nil (.node (some (4, 5, 4)) .nil .nil)) .nil)))))) (.node none (.node none (.node none (.node none (.node none (.node none (.node none .nil (.node none (.node (some (6, 4, 7)) .nil .nil) .nil)) (.node none (.node (some (3, 3, 3)) .nil .nil) .nil)) (.node none (.node (some (1, 7, 1)) .nil .nil) (.node none .nil (.node (some (4, 8, 5)) .nil .nil)))) (.node none (.node (some (1, 0, 0)) (.node none .nil (.node (some (4, 1, 4)) .nil .nil)) .nil) (.node none (.node none (.node none (.node (some (5, 6, 6)) .nil .nil) .nil) .nil) (.node (some (2, 5, 2)) .nil .nil)))) (.node none (.node none (.node none (.node none (.node none (.node (some (5, 3, 1)) .nil .nil) .nil) .nil) (.node (some (2, 1, 6)) .nil .nil)) (.node none (.node none .nil (.node none (.node (some (6, 8, 3)) .nil .nil) .nil)) (.node none (.node (some (3, 6, 8)) .nil .nil) .nil))) (.node none (.node none (.node none (.node (some (2, 8, 7)) .nil .nil) .nil) (.node none (.node none (.node (some (6, 1, 2)) .nil .nil) .nil) .nil)) (.node (some (1, 3, 5)) (.node none .nil (.node (some (4, 5, 0)) .nil .nil)) .nil)))) (.node none (.node none (.node none (.node none (.node none (.node (some (2, 7, 0)) .nil .nil) .nil) (.node none (.node none (.node (some (5, 8, 4)) .nil .nil) .nil) .nil)) (.node (some (1, 1, 7)) (.node none .nil (.node (some (4, 3, 2)) .nil .nil)) .nil)) (.node none (.node none (.node none .nil (.node none (.node (some (6, 6, 5)) .nil .nil) .nil)) (.node none (.node (some (3, 5, 1)) .nil .nil) .nil)) (.node none (.node (some (1, 8, 8)) .nil .nil) (.node none .nil (.node (some (5, 1, 3)) .nil .nil))))) (.node none (.node none (.node none (.node (some (1, 5, 3)) .nil .nil) (.node none .nil (.node (some (4, 6, 7)) .nil .nil))) (.node none (.node none (.node (some (3, 1, 5)) .nil .nil) .nil) (.node none (.node none (.node (some (6, 3, 0)) .nil .nil) .nil) .nil))) (.node none (.node none (.node none (.node none (.node (some (5, 4, 8)) .nil .nil) .nil) .nil) (.node (some (2, 3, 4)) .nil .nil)) (.node none (.node none .nil (.node none (.node (some (7, 1, 1)) .nil .nil) .nil)) (.node none (.node (some (3, 8, 6)) .nil .nil) .nil)))))) (.node none (.node none (.node none (.node none (.node none (.node (some (1, 4, 4)) .nil .nil) (.node none .nil (.node (some (4, 5, 8)) .nil .nil))) (.node none (.node none (.node (some (3, 0, 6)) .nil .nil) .nil) (.node none (.node none (.node (some (6, 2, 1)) .nil .nil) .nil) .nil))) (.node none (.node none (.node none (.node none (.node (some (5, 4, 0)) .nil .nil) .nil) .nil) (.node (some (2, 2, 5)) .nil .nil)) (.node none (.node none .nil (.node none (.node (some (7, 0, 2)) .nil .nil) .nil)) (.node none (.node (some (3, 7, 7)) .nil .nil) .nil)))) (.node none (.node none (.node none (.node none .nil (.node none (.node (some (6, 5, 6)) .nil .nil) .nil)) (.node none (.node (some (3, 4, 2)) .nil .nil) .nil)) (.node none (.node (some (1, 8, 0)) .nil .nil) (.node none .nil (.node (some (5, 0, 4)) .nil .nil)))) (.node none (.node (some (1, 0, 8)) (.node none .nil (.node (some (4, 2, 3)) .nil .nil)) .nil) (.node none (.node none (.node none (.node (some (5, 7, 5)) .nil .nil) .nil) .nil) (.node (some (2, 6, 1)) .nil .nil))))) (.node none (.node none (.node none (.node none (.node none .nil (.node (some (4, 0, 5)) .nil .nil)) .nil) (.node none (.node none (.node none (.node (some (5, 5, 7)) .nil .nil) .nil) .nil) (.node (some (2, 4, 3)) .nil .nil))) (.node none (.node none (.node (some (1, 6, 2)) .nil .nil) (.node none .nil (.node (some (4, 7, 6)) .nil .nil))) (.node none (.node none (.node (some (3, 2, 4)) .nil .nil) .nil) (.node none (.node none (.node (some (6, 3, 8)) .nil .nil) .nil) .nil)))) (.node none (.node none (.node none (.node none (.node (some (2, 7, 8)) .nil .nil) .nil) (.node none (.node none (.node (some (6, 0, 3)) .nil .nil) .nil) .nil)) (.node (some (1, 2, 6)) (.node none .nil (.node (some (4, 4, 1)) .nil .nil)) .nil)) (.node none (.node none (.node none .nil (.node none (.node (some (6, 7, 4)) .nil .nil) .nil)) (.node none (.node (some (3, 6, 0)) .nil .nil) .nil)) (.node none (.node (some (2, 0, 7)) .nil .nil) (.node none .nil (.node (some (5, 2, 2)) .nil .nil)))))))))) (.node none (.node none (.node none (.node none (.node none (.node none (.node none (.node none (.node none .nil (.node none (.node (some (6, 4, 6)) .nil .nil) .nil)) (.node none (.node (some (3, 3, 2)) .nil .nil) .nil)) (.node none (.node (some (1, 7, 0)) .nil .nil) (.node none .nil (.node (some (4, 8, 4)) .nil .nil)))) (.node none (.node none (.node none .nil (.node (some (4, 1, 3)) .nil .nil)) .nil) (.node none (.node none (.node none (.node (some (5, 6, 5)) .nil .nil) .nil) .nil) (.node (some (2, 5, 1)) .nil .nil)))) (.node none (.node none (.node none (.node none (.node none (.node (some (5, 3, 0)) .nil .nil) .nil) .nil) (.node (some (2, 1, 5)) .nil .nil)) (.node none (.node none .nil (.node none (.node (some (6, 8, 2)) .nil .nil) .nil)) (.node none (.node (some (3, 6, 7)) .nil .nil) .nil))) (.node none (.node none (.node none (.node (some (2, 8, 6)) .nil .nil) .nil) (.node none (.node none (.node (some (6, 1, 1)) .nil .nil) .nil) .nil)) (.node (some (1, 3, 4)) (.node none .nil (.node (some (4, 4, 8)) .nil .nil)) .nil)))) (.node none (.node none (.node none (.node none (.node none (.node (some (2, 6, 8)) .nil .nil) .nil) (.node none (.node none (.node (some (5, 8, 3)) .nil .nil) .nil) .nil)) (.node (some (1, 1, 6)) (.node none .nil (.node (some (4, 3, 1)) .nil .nil)) .nil)) (.node none (.node none (.node none .nil (.node none (.node (some (6, 6, 4)) .nil .nil) .nil)) (.node none (.node (some (3, 5, 0)) .nil .nil) .nil)) (.node none (.node (some (1, 8, 7)) .nil .nil) (.node none .nil (.node (some (5, 1, 2)) .nil .nil))))) (.node none (.node none (.node none (.node (some (1, 5, 2)) .nil .nil) (.node none .nil (.node (some (4, 6, 6)) .nil .nil))) (.node none (.node none (.node (some (3, 1, 4)) .nil .nil) .nil) (.node none (.node none (.node (some (6, 2, 8)) .nil .nil) .nil) .nil))) (.node none (.node none (.node none (.node none (.node (some (5, 4, 7)) .nil .nil) .nil) .nil) (.node (some (2, 3, 3)) .nil .nil)) (.node none (.node none .nil (.node none (.node (some (7, 1, 0)) .nil .nil) .nil)) (.node none (.node (some (3, 8, 5)) .nil .nil) .nil)))))) (.node none (.node none (.node none (.node none (.node none (.node (some (1, 4, 3)) .nil .nil) (.node none .nil (.node (some (4, 5, 7)) .nil .nil))) (.node none (.node none (.node (some (3, 0, 5)) .nil .nil) .nil) (.node none (.node none (.node (some (6, 2, 0)) .nil .nil) .nil) .nil))) (.node none (.node none (.node none (.node none (.node (some (5, 3, 8)) .nil .nil) .nil) .nil) (.node (some (2, 2, 4)) .nil .nil)) (.node none (.node none .nil (.node none (.node (some (7, 0, 1)) .nil .nil) .nil)) (.node none (.node (some (3, 7, 6)) .nil .nil) .nil)))) (.node none (.node none (.node none (.node none .nil (.node none (.node (some (6, 5, 5)) .nil .nil) .nil)) (.node none (.node (some (3, 4, 1)) .nil .nil) .nil)) (.node none (.node (some (1, 7, 8)) .nil .nil) (.node none .nil (.node (some (5, 0, 3)) .nil .nil)))) (.node none (.node (some (1, 0, 7)) (.node none .nil (.node (some (4, 2, 2)) .nil .nil)) .nil) (.node none (.node none (.node none (.node (some (5, 7, 4)) .nil .nil) .nil) .nil) (.node (some (2, 6, 0)) .nil .nil))))) (.node none (.node none (.node none (.node none (.node none .nil (.node (some (4, 0, 4)) .nil .nil)) .nil) (.node none (.node none (.node none (.node (some (5, 5, 6)) .nil .nil) .nil) .nil) (.node (some (2, 4, 2)) .nil .nil))) (.node none (.node none (.node (some (1, 6, 1)) .nil .nil) (.node none .nil (.node (some (4, 7, 5)) .nil .nil))) (.node none (.node none (.node (some (3, 2, 3)) .nil .nil) .nil) (.node none (.node none (.node (some (6, 3, 7)) .nil .nil) .nil) .nil)))) (.node none (.node none (.node none (.node none (.node (some (2, 7, 7)) .nil .nil) .nil) (.node none (.node none (.node (some (6, 0, 2)) .nil .nil) .nil) .nil)) (.node (some (1, 2, 5)) (.node none .nil (.node (some (4, 4, 0)) .nil .nil)) .nil)) (.node none (.node none (.node none .nil (.node none (.node (some (6, 7, 3)) .nil .nil) .nil)) (.node none (.node (some (3, 5, 8)) .nil .nil) .nil)) (.node none (.node (some (2, 0, 6)) .nil .nil) (.node none .nil (.node (some (5, 2, 1)) .nil .nil)))))))) (.node none (.node none (.node none (.node none (.node none (.node none (.node none .nil (.node (some (4, 0, 0)) .nil .nil)) (.node none .nil (.node none (.node (some (7, 1, 4)) .nil .nil) .nil))) (.node none (.node none (.node none (.node (some (5, 5, 2)) .nil .nil) .nil) .nil) (.node (some (2, 3, 7)) .nil .nil))) (.node none (.node none (.node (some (1, 5, 6)) .nil .nil) (.node none .nil (.node (some (4, 7, 1)) .nil .nil))) (.node none (.node none (.node (some (3, 1, 8)) .nil .nil) .nil) (.node none (.node none (.node (some (6, 3, 3)) .nil .nil) .nil) .nil)))) (.node none (.node none (.node none (.node none (.node (some (2, 7, 3)) .nil .nil) .nil) (.node none (.node none (.node (some (5, 8, 7)) .nil .nil) .nil) .nil)) (.node (some (1, 2, 1)) (.node none .nil (.node (some (4, 3, 5)) .nil .nil)) .nil)) (.node none (.node none (.node none .nil (.node none (.node (some (6, 6, 8)) .nil .nil) .nil)) (.node none (.node (some (3, 5, 4)) .nil .nil) .nil)) (.node none (.node (some (2, 0, 2)) .nil .nil) (.node none .nil (.node (some (5, 1, 6)) .nil .nil)))))) (.node none (.node none (.node none (.node none (.node none .nil (.node none (.node (some (6, 5, 1)) .nil .nil) .nil)) (.node none (.node (some (3, 3, 6)) .nil .nil) .nil)) (.node none (.node (some (1, 7, 4)) .nil .nil) (.node none .nil (.node (some (4, 8, 8)) .nil .nil)))) (.node none (.node (some (1, 0, 3)) (.node none .nil (.node (some (4, 1, 7)) .nil .nil)) .nil) (.node none (.node none (.node none (.node (some (5, 7, 0)) .nil .nil) .nil) .nil) (.node (some (2, 5, 5)) .nil .nil)))) (.node none (.node none (.node none (.node none (.node none (.node (some (5, 3, 4)) .nil .nil) .nil) .nil) (.node (some (2, 2, 0)) .nil .nil)) (.node none (.node none .nil (.node none (.node (some (6, 8, 6)) .nil .nil) .nil)) (.node none (.node (some (3, 7, 2)) .nil .nil) .nil))) (.node none (.node none (.node none (.node (some (3, 0, 1)) .nil .nil) .nil) (.node none (.node none (.node (some (6, 1, 5)) .nil .nil) .nil) .nil)) (.node (some (1, 3, 8)) (.node none .nil (.node (some (4, 5, 3)) .nil .nil)) .nil))))) (.node none (.node none (.node none (.node none (.node none (.node none (.node none (.node (some (5, 2, 5)) .nil .nil) .nil) .nil) (.node (some (2, 1, 1)) .nil .nil)) (.node none (.node none .nil (.node none (.node (some (6, 7, 7)) .nil .nil) .nil)) (.node none (.node (some (3, 6, 3)) .nil .nil) .nil))) (.node none (.node none (.node none (.node (some (2, 8, 2)) .nil .nil) .nil) (.node none (.node none (.node (some (6, 0, 6)) .nil .nil) .nil) .nil)) (.node (some (1, 3, 0)) (.node none .nil (.node (some (4, 4, 4)) .nil .nil)) .nil))) (.node none (.node none (.node none (.node none .nil (.node (some (4, 0, 8)) .nil .nil)) .nil) (.node none (.node none (.node none (.node (some (5, 6, 1)) .nil .nil) .nil) .nil) (.node (some (2, 4, 6)) .nil .nil))) (.node none (.node none (.node (some (1, 6, 5)) .nil .nil) (.node none .nil (.node (some (4, 8, 0)) .nil .nil))) (.node none (.node none (.node (some (3, 2, 7)) .nil .nil) .nil) (.node none (.node none (.node (some (6, 4, 2)) .nil .nil) .nil) .nil))))) (.node none (.node none (.node none (.node none (.node (some (1, 4, 7)) .nil .nil) (.node none .nil (.node (some (4, 6, 2)) .nil .nil))) (.node none (.node none (.node (some (3, 1, 0)) .nil .nil) .nil) (.node none (.node none (.node (some (6, 2, 4)) .nil .nil) .nil) .nil))) (.node none (.node none (.node none (.node none (.node (some (5, 4, 3)) .nil .nil) .nil) .nil) (.node (some (2, 2, 8)) .nil .nil)) (.node none (.node none .nil (.node none (.node (some (7, 0, 5)) .nil .nil) .nil)) (.node none (.node (some (3, 8, 1)) .nil .nil) .nil)))) (.node none (.node none (.node none (.node none .nil (.node none (.node (some (6, 6, 0)) .nil .nil) .nil)) (.node none (.node (some (3, 4, 5)) .nil .nil) .nil)) (.node none (.node (some (1, 8, 3)) .nil .nil) (.node none .nil (.node (some (5, 0, 7)) .nil .nil)))) (.node none (.node (some (1, 1, 2)) (.node none .nil (.node (some (4, 2, 6)) .nil .nil)) .nil) (.node none (.node none (.node none (.node (some (5, 7, 8)) .nil .nil) .nil) .nil) (.node (some (2, 6, 4)) .nil .nil)))))))) (.node none (.node none (.node none (.node none (.node none (.node none (.node none (.node none (.node none (.node (some (5, 2, 3)) .nil .nil) .nil) .nil) (.node (some (2, 0, 8)) .nil .nil)) (.node none (.node none .nil (.node none (.node (some (6, 7, 5)) .nil .nil) .nil)) (.node none (.node (some (3, 6, 1)) .nil .nil) .nil))) (.node none (.node none (.node none (.node (some (2, 8, 0)) .nil .nil) .nil) (.node none (.node none (.node (some (6, 0, 4)) .nil .nil) .nil) .nil)) (.node (some (1, 2, 7)) (.node none .nil (.node (some (4, 4, 2)) .nil .nil)) .nil))) (.node none (.node none (.node none (.node none .nil (.node (some (4, 0, 6)) .nil .nil)) .nil) (.node none (.node none (.node none (.node (some (5, 5, 8)) .nil .nil) .nil) .nil) (.node (some (2, 4, 4)) .nil .nil))) (.node none (.node none (.node (some (1, 6, 3)) .nil .nil) (.node none .nil (.node (some (4, 7, 7)) .nil .nil))) (.node none (.node none (.node (some (3, 2, 5)) .nil .nil) .nil) (.node none (.node none (.node (some (6, 4, 0)) .nil .nil) .nil) .nil))))) (.node none (.node none (.node none (.node none (.node (some (1, 4, 5)) .nil .nil) (.node none .nil (.node (some (4, 6, 0)) .nil .nil))) (.node none (.node none (.node (some (3, 0, 7)) .nil .nil) .nil) (.node none (.node none (.node (some (6, 2, 2)) .nil .nil) .nil) .nil))) (.node none (.node none (.node none (.node none (.node (some (5, 4, 1)) .nil .nil) .nil) .nil) (.node (some (2, 2, 6)) .nil .nil)) (.node none (.node none .nil (.node none (.node (some (7, 0, 3)) .nil .nil) .nil)) (.node none (.node (some (3, 7, 8)) .nil .nil) .nil)))) (.node none (.node none (.node none (.node none .nil (.node none (.node (some (6, 5, 7)) .nil .nil) .nil)) (.node none (.node (some (3, 4, 3)) .nil .nil) .nil)) (.node none (.node (some (1, 8, 1)) .nil .nil) (.node none .nil (.node (some (5, 0, 5)) .nil .nil)))) (.node none (.node (some (1, 1, 0)) (.node none .nil (.node (some (4, 2, 4)) .nil .nil)) .nil) (.node none (.node none (.node none (.node (some (5, 7, 6)) .nil .nil) .nil) .nil) (.node (some (2, 6, 2)) .nil .nil)))))) (.node none (.node none (.node none (.node none (.node none (.node none .nil (.node none (.node (some (6, 4, 8)) .nil .nil) .nil)) (.node none (.node (some (3, 3, 4)) .nil .nil) .nil)) (.node none (.node (some (1, 7, 2)) .nil .nil) (.node none .nil (.node (some (4, 8, 6)) .nil .nil)))) (.node none (.node (some (1, 0, 1)) (.node none .nil (.node (some (4, 1, 5)) .nil .nil)) .nil) (.node none (.node none (.node none (.node (some (5, 6, 7)) .nil .nil) .nil) .nil) (.node (some (2, 5, 3)) .nil .nil)))) (.node none (.node none (.node none (.node none (.node none (.node (some (5, 3, 2)) .nil .nil) .nil) .nil) (.node (some (2, 1, 7)) .nil .nil)) (.node none (.node none .nil (.node none (.node (some (6, 8, 4)) .nil .nil) .nil)) (.node none (.node (some (3, 7, 0)) .nil .nil) .nil))) (.node none (.node none (.node none (.node (some (2, 8, 8)) .nil .nil) .nil) (.node none (.node none (.node (some (6, 1, 3)) .nil .nil) .nil) .nil)) (.node (some (1, 3, 6)) (.node none .nil (.node (some (4, 5, 1)) .nil .nil)) .nil)))) (.node none (.node none (.node none (.node none (.node none (.node (some (2, 7, 1)) .nil .nil) .nil) (.node none (.node none (.node (some (5, 8, 5)) .nil .nil) .nil) .nil)) (.node (some (1, 1, 8)) (.node none .nil (.node (some (4, 3, 3)) .nil .nil)) .nil)) (.node none (.node none (.node none .nil (.node none (.node (some (6, 6, 6)) .nil .nil) .nil)) (.node none (.node (some (3, 5, 2)) .nil .nil) .nil)) (.node none (.node (some (2, 0, 0)) .nil .nil) (.node none .nil (.node (some (5, 1, 4)) .nil .nil))))) (.node none (.node none (.node none (.node (some (1, 5, 4)) .nil .nil) (.node none .nil (.node (some (4, 6, 8)) .nil .nil))) (.node none (.node none (.node (some (3, 1, 6)) .nil .nil) .nil) (.node none (.node none (.node (some (6, 3, 1)) .nil .nil) .nil) .nil))) (.node none (.node none (.node none (.node none (.node (some (5, 5, 0)) .nil .nil) .nil) .nil) (.node (some (2, 3, 5)) .nil .nil)) (.node none (.node none .nil (.node none (.node (some (7, 1, 2)) .nil .nil) .nil)) (.node none (.node (some (3, 8, 7)) .nil .nil) .nil))))))) (.node none (.node none (.node none (.node none (.node none (.node none (.node none (.node (some (2, 6, 6)) .nil .nil) .nil) (.node none (.node none (.node (some (5, 8, 1)) .nil .nil) .nil) .nil)) (.node (some (1, 1, 4)) (.node none .nil (.node (some (4, 2, 8)) .nil .nil)) .nil)) (.node none (.node none (.node none .nil (.node none (.node (some (6, 6, 2)) .nil .nil) .nil)) (.node none (.node (some (3, 4, 7)) .nil .nil) .nil)) (.node none (.node (some (1, 8, 5)) .nil .nil) (.node none .nil (.node (some (5, 1, 0)) .nil .nil))))) (.node none (.node none (.node none (.node (some (1, 5, 0)) .nil .nil) (.node none .nil (.node (some (4, 6, 4)) .nil .nil))) (.node none (.node none (.node (some (3, 1, 2)) .nil .nil) .nil) (.node none (.node none (.node (some (6, 2, 6)) .nil .nil) .nil) .nil))) (.node none (.node none (.node none (.node none (.node (some (5, 4, 5)) .nil .nil) .nil) .nil) (.node (some (2, 3, 1)) .nil .nil)) (.node none (.node none .nil (.node none (.node (some (7, 0, 7)) .nil .nil) .nil)) (.node none (.node (some (3, 8, 3)) .nil .nil) .nil))))) (.node none (.node none (.node none (.node none (.node none (.node none (.node (some (5, 2, 7)) .nil .nil) .nil) .nil) (.node (some (2, 1, 3)) .nil .nil)) (.node none (.node none .nil (.node none (.node (some (6, 8, 0)) .nil .nil) .nil)) (.node none (.node (some (3, 6, 5)) .nil .nil) .nil))) (.node none (.node none (.node none (.node (some (2, 8, 4)) .nil .nil) .nil) (.node none (.node none (.node (some (6, 0, 8)) .nil .nil) .nil) .nil)) (.node (some (1, 3, 2)) (.node none .nil (.node (some (4, 4, 6)) .nil .nil)) .nil))) (.node none (.node none (.node none (.node none .nil (.node (some (4, 1, 1)) .nil .nil)) .nil) (.node none (.node none (.node none (.node (some (5, 6, 3)) .nil .nil) .nil) .nil) (.node (some (2, 4, 8)) .nil .nil))) (.node none (.node none (.node (some (1, 6, 7)) .nil .nil) (.node none .nil (.node (some (4, 8, 2)) .nil .nil))) (.node none (.node none (.node (some (3, 3, 0)) .nil .nil) .nil) (.node none (.node none (.node (some (6, 4, 4)) .nil .nil) .nil) .nil)))))) (.node none (.node none (.node none (.node none (.node none (.node none .nil (.node (some (4, 0, 2)) .nil .nil)) .nil) (.node none (.node none (.node none (.node (some (5, 5, 4)) .nil .nil) .nil) .nil) (.node (some (2, 4, 0)) .nil .nil))) (.node none (.node none (.node (some (1, 5, 8)) .nil .nil) (.node none .nil (.node (some (4, 7, 3)) .nil .nil))) (.node none (.node none (.node (some (3, 2, 1)) .nil .nil) .nil) (.node none (.node none (.node (some (6, 3, 5)) .nil .nil) .nil) .nil)))) (.node none (.node none (.node none (.node none (.node (some (2, 7, 5)) .nil .nil) .nil) (.node none (.node none (.node (some (6, 0, 0)) .nil .nil) .nil) .nil)) (.node (some (1, 2, 3)) (.node none .nil (.node (some (4, 3, 7)) .nil .nil)) .nil)) (.node none (.node none (.node none .nil (.node none (.node (some (6, 7, 1)) .nil .nil) .nil)) (.node none (.node (some (3, 5, 6)) .nil .nil) .nil)) (.node none (.node (some (2, 0, 4)) .nil .nil) (.node none .nil (.node (some (5, 1, 8)) .nil .nil)))))) (.node none (.node none (.node none (.node none (.node none .nil (.node none (.node (some (6, 5, 3)) .nil .nil) .nil)) (.node none (.node (some (3, 3, 8)) .nil .nil) .nil)) (.node none (.node (some (1, 7, 6)) .nil .nil) (.node none .nil (.node (some (5, 0, 1)) .nil .nil)))) (.node none (.node (some (1, 0, 5)) (.node none .nil (.node (some (4, 2, 0)) .nil .nil)) .nil) (.node none (.node none (.node none (.node (some (5, 7, 2)) .nil .nil) .nil) .nil) (.node (some (2, 5, 7)) .nil .nil)))) (.node none (.node none (.node none (.node none (.node none (.node (some (5, 3, 6)) .nil .nil) .nil) .nil) (.node (some (2, 2, 2)) .nil .nil)) (.node none (.node none .nil (.node none (.node (some (6, 8, 8)) .nil .nil) .nil)) (.node none (.node (some (3, 7, 4)) .nil .nil) .nil))) (.node none (.node none (.node none (.node (some (3, 0, 3)) .nil .nil) .nil) (.node none (.node none (.node (some (6, 1, 7)) .nil .nil) .nil) .nil)) (.node (some (1, 4, 1)) (.node none .nil (.node (some (4, 5, 5)) .nil .nil)) .nil)))))))))
  rows := 729
  cols := 324
  nextId := 2825

/-- Checkpoint after input rows 0-624 (verified by `sudokuChk5`). -/
def sudokuS5 : DLX (Nat × Nat × Nat) where
  up := 3437812472927045674434054678385392992719310629062072535273123355150954363508511575123545889791711058111243847456391257020671914811062778811213010107087748132903332929356367631998840702098300195423475114369127869167132080044840859879112716938668556218745136973602444782393789632812093410296688717942908447294710629471306414369995539945713773485716561560985057737296473211780587977732023784264010811461553505220072279285141305461858228227832375785286274994858949102302053790259963596537355242877987730779937618299822886263884504139151700350875216805549964929975662826207710414356417518299997622837228687353412448121877429974500652372767957799686906559687148928512514258986036116145921299384416233513246939853117925728378115096491380479769387817971570538862215265052630226033875637952484470033153094052980985850613567845394738415829473212167819416346246027140780265887985674285216325183106946954139343923899844406781383523583031084896377089671844410505352313689553520719018488774072965230001433341826851142479025350215101854215020849256785887412237769705301212726407826691010557210943526024166249164970346595372846562239649031214226262328980812234508646509448375551957826124413187681281284281998576147472189618676460479450714377151802529832431767872495996190524131974917166401069976972455233418216576943632869279052060761278669439204894155289470502104727713531204322474660878809476317108413343635283428493666245373597044855776920089731491296713895904568902388541058657089516735250076805991517820773970286128097450419546496108934877417321519524107030770208405126743375130861707330676466248979641962031765040633013461683905147041259593445734010043962140188594328155356592561307797819019050851590795321440817195852294562432571689979630480151387739442490746471125804223350646582153516483088008040130792496607585118425662532475863636304166032987720188156516961888363204558684908058615012097725524643409594175176293264939745979714356243239195633520032192470039376584928102723583418465896349219823868279154986716425481881445110312316810346140639784338424651180385511546567055895269269787723648158917179190992214203582506615959000088324955198579948118783820741172933561136650535469610063536185605965854626580391217848249341677890272207171126801505711519799694030601839649174043534452692220473270904583234240580102286040047092457506796467721192525733905912898350682013469895464734881800673856639645092477640327603238012164754020140747566707729005866638557751442902674859542029888728420447023463690978316122908734610555029310106410457212238791380015946514510862355629685163175448478341947826615156825127412791099349591625859089936723081334554804561338961821900825382701676627082734688712937084398403035479484004980157602329925944882954642875484557841231531480428823152421148134115697455890127898053753429250931035286421519299327964765675035080788981430172625815325269970659041565516355120884736676171386521996005455590590579188921164144603224345185662153555599503897901257563215160262456336726559156056044481493195436221744108566280357552980007601441288743030049436007991439054959480253345488092471588800300210774995950101900404850739624009302810031743705171879020962300176509839697500279269303641257281847943514151340999429781217563704044311200409325840952666485558772549937973823028512954877675768705711608480008793356020669630646911404237780722731313628543044298194121369317884726233978159901133541796912822159451420376247626853467173136028453473645963385946866840507913120326521435852895198617553646791863230599806891766951956541094397912730558783137812204343220018939045025001649124104919917507901961151066981793844359211364266904734423968250267117118302214092642704240736615450838686459789238959207237667028010371528943643408412734978718494898894793010176618295338016170957346707288835571900767108735491706022743100039660077846556993883802143065378247213094985704359442399744918473615538394094961525201206816990740778731589535921613496902340583534615960551338207079737408908539986150245486938186890408537969995067455430423155053983023803577444000552104636464810554546998151229462106897476897029065761366798374005205071126324483492405898753658215975916075175223838786637257228109824216754407847944796211677252080438867770236387220985083424135280543092773939845609121726843403967544194360978318734412147875884070552437800942697220007769137585181319980084488961882303458810062841675651967932015872041359211016668757569258116375373575043683666626322982535762353177985131297488284929796466783648728311158032719686670644637529888277412214734463597698040597638350464927745381426060117894322456841848996353600391442363482867867536731085769844738158360173339306759011031110932579492400059573188897546754089558644274536900863796610131260509268045015782259537310234911073018727582235898428876561249693533744877823238314635485344213574893651705759074262410553697190119959265859988150998221165340292564098856866815255109285168233610320330037609961846891976521341913264952968200836429035669981931845725655939835455031212615571445006161980660739148553799325287014709250857859049424331296429255293533830258714989941034506448747216834078324492562540508870253671433854562659146620143711136565536021784061871471152976194635267941900773514765406783538299629087429018997263161575168539216636162084804934098309740764315970194280774997958602693654424031374304216141816667926489754454476195038122409494038623264254451595403451700214743212662676681153359259168263273350601524840100437527232193183917210072746919908959586944299662916408377880630876071233396522643117389174295489547951541618745851480047908462812290900862985983959653643000433781944368882577957369445617437658440451670138449956888061255388073135925093245463723383020950065314505864210598788944418067931259679993053831947194539102606073371500226992914675567984438623880766787910156253615172614641355756360847529242172044575752163869445844603520656399148763707832844342598528728743869939004687423965120786201121341800999348103455999943286086997991457179498868047437785341375978620982178871186318286261982658534903638737579666450932568205880128899529715743424128126363978257520094736924987367530225293774172207576050800436348534868491468264057501441755983298136318327775388452425836207945198313609777822777445622425447058487449255104896736706682344860933917643508011464438276995601195681192863184715760138330557330316759420067462847372401474649426599785684795902288730423552444098490216701586711062158249143619038735117924356282633875836593974720014508532264876086727118991831904268198712499689788928267720005570571750505113984686197894831940556507573623580868029309235244283352892190412323549897338791813739387015639679631600268047236682256329064717913526743043414402972227766092561236594383530317355500726097837038465287599509421030268210434816182642483419650669972385799340372117005272106567576595461632285138986271929762523261277294772509614591075085044425130444412245144580281780651296529258200769873173769323323879484168418468291402424663160286389422405711944589830311623649127000487264936295363411979436402444721206934573241696084179564971642054389755579685319446206878960559095718890480520266679038966351495261279269055920800366699299617680602562635494975378749965343431670006963614397264762777876530001579301934086039568590358690270494263828302887140798527887942159397828689066040512203488492544277282841630062450086964046412264635401005061407847206971691226401270588749940596055602489066868644592064608829782849122386562393138868144191079263219455214636337206280875823917521102688505747293734628531236173672071705278854606597815072729350765170313562148937053624455225313125852442459507257449129145247026743263070460540489614273312379142631972921922403588834230836151309346858162070271594626691796953030970453721435231650408733103305016930060957604661095466666802804678926651672709875588947949716453501641086620471570619659408528463069005205551419187115236047414999892396228612400859521213261718876703088457967573776931641722380607060546405059099035437586463358559458621814650668634495561834053457144002342145728378888659742101743657222327630100229129011951793926344987783673971655021953124788164694719481738140568863219116809570554362072898040361187545468216404189025867235340518848205661652083320412626157476010689932788999516577956890199031741530009086337166216012406517963506012195276894626388854830320190084138653079153393909056570072875080495199838235106581069946522950794822484055103870366919470348314919445362834540800381975652992753370529805077883529105521406289949843353312171280504637735297536129270101552286412185378889176812606901000164794760122182575934234006415887740585667212078662922809431266986824266895505460045964071381176624950063819946183125080646441502073098493350270510079865624244627010731386576776982974672151051919064037901281263895413768298454658918377662282700666504174025893404962581554896602247307403723225727573646717841397758741695310977657991725616673730021279255384591808463765586083019080310193461924636572709119151392985261741752865535636796583891541039986350445729672182509125427971985023413452403808681111458708886230178804262032123219780729749546448323176599388845667761595677471019559772722674269110918627260404938469637589742881311990956030836835319568315527301772251936220138371609057229574430547401128352378418247542584579772624780856956848764547818449122932201659048683978209212801438889071953712344212837181733034172149452741643240232870729957899115111498109269613228210964088581106588328511192831987703435378960764630079395179943658110989280655396137271015635113117972746414504311928560779826567864991101716381312656890417105611554383287443791266977727661656796953370321855946043044870157137440233593356207833029143280025384565631323719027637161031491063382863422073891527722151833397426525991763999758161912300296835297862690688359283648744699897134948408374904803284829350509451999239438162678411419614596980766360816893148247370030355099151977961048644779280403456646883258704666750945661876654881610465322554567790923364630981024580824910354826915590060334313555079925650410611673201826409037913602909887249414694139015806436216089851656100485665715737865841027489050326502521401989674051634240574536709004372510080018729308478606949130361111623745320861410470557544683083030705773655270415232774387696466088434331839273831518479694326876354677664980364540237548878222204581134998627612026462353047472541071113922928878285991633635905964714027899476474158407189777334918340200061914135299447913230682782752103877055509909114862804802854886911724039213423602525173415609491163952144651573603676086160882469163843796858376327810260750242680927977110726905944475807968325494169644413550290301059581012781441061533350069646722310829774548588158467449806597843381516513260668789781640401953782836391514370206702720833412935458155816802280571511910982925971120555936211776416913499633502855893667226591689320541571294587592414154951952503618695186591365036703367198830143590064421648210149562031483541298313944035787875968435841794502828156306442930177606185738649491096490872589167756217998767758500209376427634296626974822880533711806467757666732006251300514772401166946326609230636479750745235817585920345034780194532100844153014958017172787441796408311455889200506021433185061925257456809400430022778286899566972598017353313845154069801863816354331714866318640721935421562380302975636084842245368928042620072406671063363917378831325999841854265182600713442193815455904088014529231578495468943659880479475919096455741564141629287867844777432636264286214442119037283344245454874625916340836702698653835182826514650628510111962748442734176883920623140734078165964529538714884165191824404560051891691056595382808548452679165887801141702581671182026859090790654619396161489266927058707092210307072935459265165005932618243226851140442285723368627295978501521802268521420990575087843401191945140668626569973691518306379444189246502722093675290313912131833795598282930284651901101648474709818303435186035715503821613554122001987318437199967615269368194442157931510190154799372261830564113299945897596227422052808848054802211289116219804202834933798613725051668464279042805384953978078445800330335865173850893345527736411130924745787364638236552010220081155065059799940481767700368329324236010176246729588370183864582562741712268718078420073979147842157607921236574138329091176130434396533769599644735454128039101933650434207664255005352187301047704641476102095387317677814810675838609681561060911709062346556278444229078167282145842280697011231621946470017302528812179336410168068399549424196559754053036005936702896338414842308920085592041883365712881058177334703653718992932716609455292486140569965484845249490278894071762550964960665626751048295041617603564869120313562452630776267072251576944797525002055567729615647702662238164279406068397776868942813538028822681778252378224903823442815354891113043244433783566329980830904771512716306301512314619846302838564153288975042220415747275331611289803181242166267045914637622657280069917261824389112424906060878391735946546241400689850934801170211438672359111835425875260099374461611414985407623053508132262777148869000385363653845911121705699999915974344218935645983076980112784578884205928384967316100553878267294383156422553177927890258211106444331949248939862801009795890958228008228527794633864126003939669393892915526184094536699171652855745911416850732620632908810774392139782221206329612735568361823152052282114974759902854719495825258590424520283183189604364825160318432764886985812853671221471981445600336341048068595905380272082813229283134244088477091914028763156982649549200291882068036587549545478944289625343566775632215497235141873233394855399598099309064244558977779519361577666986871610363434009195975720119923060400258372141550442739695285633828635362608977085742986049936069464236275798969289014409705567490931102158679606492113575280073319952100239695463627338476319482722034901292631439066871937450321063795268099859740528289243751916648627789292712488151588809708968835389380541576912957661104445165102202001416299846255965277267445088299482640534891150902509962542943577620938061214131341896182244567980050073810500973861703689210361122048120931467752933983595647845429676568831720564990668793140489118545397808159010326964359487812162214475541965992263449522257515271982983570114867539562528790719412572220071515754488514741427709277901488787304953623667009949498769174452742615926003416776637333182734648333677334812718785137092114682412115136156590098717616191131394786687979146812735279388553380386176009205091164168372941726438833425443994069284141680930190208798227848434334878915091712622422004027025194261588089151598236690576337676489623426724740537383341861061914149692484442010400074452255038281185014224065958593151720874432734983157657949416003916565340943518963305413162207043710640853938951072067076347958434895069069035881711308647951875282727498222366077120038434563271624812947006765044356278608748580848707889950745112388658106663189426293300300373830677602546511228060973305357743669596879067973286302812959380958141858818182665856830880356379137899371523685826820283895228816261894547107177863806625967995434686130348906896713059193391352819594361752759263597805024903682579886993222928095461280452886747566691171098228637000467300004876667722486855298459562435785173758608187067093285684480145971341403627910089306550633921872317221304527346351256848687607622366324864881728387995398286660241374898037451347076996291849261398942864386534460574352686852860452585909310356652757473374951636299935359633986827727265197942169648554306217781697608721397332057454060262161479463520804784646039144051974439623872699814918424561791554130329416564121483791936502456642636349950340479570724625940246411008431038243715395364434722675501676342627684696283068714983141424592797111198139257937365681616806635869992981295042861615715040181225099962341523395308945412673686521101793376765158710334761792830881218562552437960637333153916205527197880747726890004608820628723897255276539504479535822444985210475592752980817815997244331711692689858529477560303432803908425477376008216392877908409737327771477280710316623624601481422605952869900898660462865030890839615262799900539419350311296551243628273666215837401356877090015279681939456289482176390187935653528430972447171516464935263546212804391756051761578115517816682960767809985827654557005565232705996403347365171198893498972166094085651271392715027543262049217103659257526231947289331291966092763229069429765636177125331683064658531945317973850463473177461952008981928857247805869660770762901339835765
  down := 3437282303617030529031105541729289723839211136973924244882965779673965145566381170117212783819321629048264255187287337706668485827039565601176395940762594991559962838265695334006409204426849068287437603967485529021731940287073557641461619066167889235235052494086754100710650762481852782628014668072745192666906417685246197912173941760618616826831758197972139810858066194380187718260985916040480926247061646525362095919145328274205977347078202809335083975340853797795951008737448016294613746702176151252871405968068188074076581848695009780899429409411393936205555840199307140321575653354673622021735140172673398645717351147899121448635924195077599508461876665103439433092416238266938139959368255232792602114635144703158434666508081471056044783648034580982257335535657853712947108625106316765653779141924813376486905259560499910678164808331503182255926236481745208387620643337988550353141191970345603420615850032179664619528984680536655438013840385892330519252070513589112606771143904679722064338925632083340760132538794074020593742014420364883740052093957367582734191149465715185805698047583676800291665605959783595258366062369475562786297286933060874284597001780585076120691306657284301079016004041653430427179247618061305813897307839409433952707634228821516093753089648247750206732624279796818836107275606515924514985724479461521515681974909063959280351326088822745319531634184886141008365812275705444089279094110091561975982944009650109685507717524744678091693705962057049103640083082736626640695160139171360830443366565933887162752753573373857995501627564396328295196368115240232370497996800739348500433099031669215850205810335552153263204389518111547449529324440307447449914253785967497918083842280444928940104960863357150295676595517008054030338107832703409653681466618981955151556477763914209151138661034127331817284032704999116603214646832902256214815998837761824116495989815754313927246562492290572406054497432354234776655060782471404070473898194841815801681006462004326106763585761245508476742809196360111633538471660833427768854955768523544243520090591719709359726612127643047603436738778525384769416533915095553929768284243028029164552675829852186411498159260816393936407127233100544928175764298810279524791032281463984892727205187442657622576270345312504454264639541605066982051038008308516723115053659426140230970179791105841303551013995249080043383745493427815717220326425593518534222613367602657239483556347059079451838971523676970481940179629859756054858946622997122822210748693381699405824296951880513459543058145400187238495359216178743923783179637994435101116174556569142903735374299351860556522861686322530096864679772264339532424554291916658534932351329315619151360726609445436632375498869860229231340088664612937616642692678198649664739326002971272945267373621448312069216707846011758924095987112395534623222015980894094794592443725827957715626966384744814747030805713665133637745287339505610270153499481814530407486724764255858644764077389994343069122582208860129787592204849832038425110911717225476584167033999655624141235942833987613292358677647134977436869811314051562523596842821753601972092839200399769015163301144703473519534045640052770263866379229855743252733997550835915721719647317551395863599706948376845045206767278927749348207820760596029811454426465103999832980045654708829651403973451258449194416479594180972151593677056459204729263605357270755170694961001674544925875741448327426520533564138576511969668568395320523838488690675133568091526645626333244250630823916756451582138171991771504529739465017600340762087231970776430719171031030510556368187475521769632798979425979765855191413591584961323887761715914349055010460370951662014525466156587896586548566999124783846088401217879317528663895474613591811309559936849073667285301147649507893491425277449102798780499232396527404264861930174643444285054459946527581245580463118550094304740093314223217588946512493338189450353803031338933064355066880442523708166061413786887929799697529698589140639736884896362198273326513993553940140015437363368710443664239040830295329905636369786631606702341634114061573952471184412680230083373305492919801829083612946724016642880213056686267737469779875489937592198778786801278080010363323568767259787520259429863379091835127214215404878521432446760574344804762210306475375055643147607386608759049954026636144373199587060134126166762231512375459817749104162119455864925893876199679448180155703539447149391038593977837788599106790423973655054348628496667618648923965499316426626194639767563759539346966006641261431777125821507493954824798721680737508688988111520992345399961170717072095104520124498966980980654172424439701818240437022623593021940905122820360757350901289637564103843686886852134503675827646659814630900864588927537165348584838500830949911243556689927476579405179100525858042945091834483154438166065548533912355933965806386811696203163931665159551290872891197380978770413189097536405801153061027154111290330509907676913091411659669438476719679251116113547044540285511525976448088828830936823571640578278690902721309440506985758413556127245974328141678032024310737857641767195841313119696523920381419644021946773993846415497004918226454812248943324277043874983345750362603854343012739360703188192503766493388353992594265705897766038016067411814485034757022128810877798528509776358901020362733742958584580333508573813801629015166612888987235012681353221257633599381468350105309263230091994695662596240646921581867646185598294752866324863349244991321645935730991268697493806423951937966001076923474883631543413671057242156315247528546002375006189178399887398633511914698541942393412243104531077394612652170316213525338226370863987015448661335236681569663803767059510824618534380887335576342741386832412725152995964087128634101011023811430734272411124575576476792001100739446530710429746553407650190280085374670072897221788105230336813404731415162098269789654703515853577839883036316425374502308320124826056847642370678627365822501434826111044925127703089956067635596298305473468909147294518511839133078135227284517173720573460926477867802470779515856046901111234030266033861314958470503220658149883285474920797755337712939145457646797125931295323315892782139994074369786130470840091538287820151141898557303172325693979658786961709895802104137036840145324203912874414792250805742739614733266403365154802419532414970204167744751807254596701781512691841014217927944143011806816440782496505355867004515695048540146998077013198191686709784159778042476249414788594381459852091088693628670670251845692430610319702018938522273361408649893241642386731841890447823517386427513419152316223211672366119311885767912727386807330180254948336837000804474487158362801608659493416240715652181526706244194897843250233686641040699842082291736755369811038390410447833637227855750216842465554062074095578728192034430950951821385708295379566922304709340676596775957807731625845573766692436745596036329350835377203794932042696703551984036397195745175558639527344417325421667591513447181374416540990383408891026256580069529561598706456074055172805784989779981971760151138038189346765785365303930736964843518392593544965226155496687449889676735975088903217243269306226189488863932558002404936512577187682928511120698948400502384483980336772248061034060741674556925759126940338965891317501486814701217089024563108597421447311704748270641250039264944995126688265174755569064902688294844727200207680230158341605786285105847016905209297607547244810545827336467752681040831613407179976731703736520585557969779387708426580618286084488479527351661117932205302432465226719559645851304338961261715402209278085466239988305462244969159994233473647626021343518094710160310993400560182945959985724106680193145082828172445161206789921111406462968899107230298873550239984873691601703770994714023435054467771114360189275466567222524675033418162063695981514551992214640300448763132325292792752664035958104104859941374430445404260182715447403621608051521239971215332932628500354619560301517509429253160641629745725179971893839101179941148195594765652650178710380378905547273460831119672763570623678706764337817525455677056505262968150044739585688053314951512957231214565774744658929668393906814762763337111849781094701524450698261327353507296579955718224267655108806243865465097327735575993663998047524197293166916385301610276487923449013390662753355571334453534279195300983941672916331189200560383666834291111117032388380081968813552052378933950173361534361400156337176304768230803449242414178869848004337757918833549911612758050525960135625428579021596028822884563436271258391820487971526786160073412109332343238926760328132543746347768858576737726244926200214594161868241201317590143832780403016917363799413787452642366066499625407674866769047582707789520374175899481273017394356122627004787980657495248199507550107257272128172756441426074453717320735844483415347236218946753062439468160329549333625863271894464871767953255768817156298034346034358911851288774590951680340471857762009980143013025461590784531556495432550789164558701355112924485479374681675942156351696379699159588272222463047574808858094192332649574523302389634301757991384606427820027736526856406252255113463460264404834803965185891673385910368364631014934541551711736365040137509280416660693355770510741972918100901658479357537765052133278548944656675784871712617851318683898279240986187426741627063045927597306636405333053862964232884429004890959556054579808709532474018136281766925148373819006749857658828696487279349429529105125470205541622359119813049340455989583709112957725952114018348969446968524068882797072527672631391327214051802079585905178353414888086081901149287670330228349532129178326114663682417841460694518229571581774351868400236436063384630650349049621082766767028463394403005625188866533793767173657992419870578485284947920003968809248365785410175528040892274110260796926343728500767734043679768405215754760333121353780443552675252951694387870219098811339990034075648502340046629718959366823108405724736485828103048593879603985001454133174563560614806251953795735065610719882199542534915524034068522836931486430436749932584699843967658578887500184106336759621779232767155393848825806332069700756471643228771191943788515717744524101500217116997326624118301669065506356171748428163392379652006746439811300278738846805639094208290785101701550951940952842862533269794377857158945141508720827147787332670316489405215670614590729342136044358997604632092761181411704316946499511171668917678175875031725240695151830804503797570430335425611653900239777136528063120052092538170650303646902227388902191813798254748536843872616508478652846135216731823643967628786033486387333635698191217009994995138510742115926335318590561900562950097880639850132200040510950587225307697286863447127669166205319430785266288207588279622356998805615295462188025461311777508883035816660224939516754934316157875121337651122689228144653290274693420276886011900558163038883292720966208776960900684859150835263461431447726903255170207643323758596800047264962551116997525721417708115758850161916803927421934259182946811139829155773249312330553383124576016277412829792797840856493448750206737768493497215587704043830246214319698193417013007120120918540754133263701197026852252941432061018235598672917186343229391222988597743288615716014136580452762059738631946424942172744881650075702714297084853024615983540098765621286658811386884633003291306298581545491737588850350567142416124995515617334698223432878304428030987970716260142178365030088242306219742683015462731405971387256035852206368040161184962869538260297151436830636329389178045804897074257667241133412789089103382472533112991736515502894538647257773098215929104971865607867326638621916851881099697642536380601438484656905477685013133111998776044526150236409431458010760629239228917540428298262015835887762959302984285012254303157109684560810892421932266922484282133644905672794743401230729927772928004761276070229813146638009403585839700224019336904475196493077467702248937488615389672844210746927926442371583179287856308786246551131444243364344334446595076036958738345128958623588275833967378381332947383542726491436844961884598982796332385354011328700986110816409790101093660568014116540573195366229759946267692723231994836812263072283746726662594922207700321438864979022197422365799104634807988521123779808013097117194638085534524073698466148609651840531828931030792714012151988516688449444554088187928858005955016643148332140921671275684394553413074356009505929310557060763807596365490229267843315011310511519698639479439101777390188793607919171357306292200360481146274536991865660674332966964198170666481989916325082206265494951842407457033307096706981407536907813591534894418711784442817891688457138738192348038032751152570161355239732434793271281769668121572810816917177628786406641852022767123990443072484035001653314090561368113971675127694447576584339520311619683659492465686624708728743421520161136907182765514939844200433020375658283763406038528061409687122027715108661967664531727635566952223985938836172299046618016806188576466125751886504722236035541042963415541306719196129920371611072965143595051494303244200552120488316735275709992529808269433395467488229482915045587389690629647798174792336122534063915928909530245505541186760977151648167805423790920522867118396744192878521914229029426384504536582038230541147492959415014594555684203450809675981410035962005011854536908685803832180905891181809456484824121646138407093319068085876567439748411883007435445343999288563299141247092935036276087021066878421239193931663483955443981236894792392747357847584479318792591884911396598762445953440868778472721212136924326805313347815244742409317854894038676223764073634045852584735579002859740310859788375563097200748439224606747215160417463169979975681412291230894085299798642611641136948820906803890109151132158619340613941858537942155297094466099484438035362327927650865581935596357394685491855166476331663603642419005898641077274725872616726988839872066692113391240910283267824036968500690746101223966197964501396379741830735156257798285713039674447997534991210680221553212388042818011324894705613395109566050460950138421503164719987952743729952472557930032388950463772201881864929878959191640448076509292682141432385389715106330834221976973869682560481431690415520472004003408931359149156424359456012489877867714353754533601347980706817779615834789456733724071389299242775121492135454230231621463073470180814576824730231115771829768477332274520201402563815703127822541431262594215356399502541842525695686853475534202619140193166643028641016481443801622174844949703779132683635355187380387756401557675131954651057316275313008818407332743282648143470464907039596098837653691280373851070314757257086199817005058673044061889804006370213043280485564712941347842096963142514321726487432456660345185505723052657244683307477277070874296259303424901372658313894204148430631221024330388416429589336576522505685923993054352851104610528524896612929962329593246677023204448371392470532567663284850126564045024241660105650230969436773339813957902018524954560620746446797091024297177728777744739694298284783516064732956469990489498460148728261861920888188148452704734021897556487571060563533451759164173799634160778319227977424628084202673786926744549851245774284800694762632086867145793572787118501706881216733173701158063671669823726231516338317845352124158953965589618793827830850739781141121704104892959723850612615408092314514095839133851550546642838721169325501996546640543501664881310461281482317731883036179826951556504513313462851024256163877253175632991310975779101073034760664527509763572168777107006901057200883739225905988020894818478573896363243533249478166716071505946611948140854927433264929294375361017242303731170051353022922274736836305978462923350632729826550371069475050133829234897584766643754583482529574456315285350506433303443414678486864261495694877923442087349125987912542105706292668158710411999474301018400213551723607872031785099033081327452067743908216983588562292225843072402648620831972824923343543749234264668914000190459855986055197243967426139677767809956354515912093108358449433039108620641024309448561660910539508289413970554238114646202459873150320375289137060658951379771293268387207795319895425003606916215759232239471103932722016442363567557641542813306511837161703422559156214252421672978865243889629869441404216761578329699629950430243882948747482460100863743914520011620543286803602061285916765729270675587217118623410664496593413050905301694288179381883472437562981252006866181809118943865641933144929041415270572645628952008456113499290578259673880387019235183741501765
  left := 37744580527763706659877462487749781815088453636724870610402936697466697207721316654032795441527123190537591645932274320435638755111878303125216946753400790774422600718924767132662954054615364300173697003752334034235768353147151956039613046918801666303919398149196423548840198353414343051945803558465652089874106824165367411807907630534703239920890905693438195138512823775717403912275927638528112250401166369001726945845455796044568219447479414003035361625209222310859390752051179441244707162001743963757834247690309342270265813983572762619855771135363754662886175406083230156980265710205532386535165868825079869748035712276476096010301448220696978226058310457845357724394863934364972479727199589249375843210513629079457328855695899351730279194940343704629875868694778067924107131928064934956723065921343052517069693554407982401446509052669176970368676735880322793810589528374014188506210869441196172827066585335928735765448180469843784445378798019629155742931380350276219631429091195234500168693393841178867219259967865716303443889524203779269080925328944085319168367144124259234203568118029610048939496213096405243067436339904032159374405526823494718655348960009403076891398749312783314823022862857810548414349920681434320114883656997728445385117527554816622671973294111180718046861027026151962249696190316773535227125000018132941099694283761204019086017125977346381317438355210388865784641449984054738080178863899405130784799648270895069848221317960498763256863284128938396186047816243740377871885931530643584648926134718078046706620201563870571695842770337686304433470239737456254426219371522843795129748471569942064683417912161700036719025708112969211978499993783417744990089214449853652867674983791045849038699643846248082170814345643546301378955251865863406783261532164964915690583123655368512776504211225667685281321423346797185600785185789696515253016844751844613939956934259466553871676534154142073389506769545063582045692781027832502534262483463510017087185406341963068128973579025386854828501137496279299490223036143644162587324083214700997086027699747010511881791211028143748922391097334807114795830414087585734586558123647878590181434969792342317538796766566770129445750140845987290899431942387529779758694255732580272816450417162213631389766122255198201659517891814485058206100998963249787977567821451413587768258179177775138856310820279601793177408049082767703814566136328619132214810208562639123445809176087174915579762741919980275936747548809428303175119147827133380831706346064752168717499205339358189219836810622073905407231301217184814384009916087915130108587729553407823074889612729537171090593101480343762119686077669264533660361336389124373918524571182930756954074498542156649036820963392676685732356673588137180419005647719857172641023720577717043729741744039764735166355464997178921928474533036071526066527432500306927947028084250787232030077013669394498842652834760527337840718233663765946133035491446384427769845900190244274664042889758568549181048405092934907916641417311366797661737900926607831505303793158767581680656037308395697289641778760307197452051308957604165910370665975094121734403287293502997719305073517689437474663067447718464758247802610723348345252695321667898157869774650937692047691053064957730644638313157540441628291253389496171613944839040494269385911936137983061721286360960820033212067843420209720549875165125462239761957866697630263019674715552855217264041012100718085539966709948257691693276090707133672425787839788252022626386745302393038986390657518017842024002993083380034838451646957020399920102300809343043102538324809047225061879055587071473863647853365967135120422092665111157009427840913650509799891695303653164435627025222744538616045088381863505751189869287733934993542768650991678244665848638817362934980989683674172260518973171021278806026990653737360734028642720785136516038532196422175353599766926614906515256494430183314726837705336236487549396930642444180092081872886668322153801502209272063993317748540882212702088351067090551020315869706719349459594435366199396597451688797651142411685586101232101464956067659706025071630458340024691496948200828054263915778605966507691533328681657547571456417177248849006292487634324391576947822473236436991186980006213331968130560027123051332904357045878531470794608393114532247927210122898202451290493281576895577870844384745409592573372314081160499310598117814652936689639244469838766587559935491636735269554607309700406651615130065095626349588795294227821481172537545985900530761995481147552584222255364143816202065100071231333405086299505314678983791866493304266899276813105370304747459711431544452309873969398757265045061098528358108418500309820843412189459922516058659632093703436335289638381214124473375465042879288547802967965035810291397712107332360830615035183139151379676806905409958260364793094452491278467181839594664468748561378537153150390207173693163316004628991493089912176531344838347648180820816293189347425885124561704166562223894600932633435105994019783196012699959880925672466649096181921520367710150382408677786641928935498698076062957814402568142766948771490952441067802677077384221303850966126634959463205230609070947227736254988220401693062700982501594630009862960602207854714288159436317577093900409327158760500048317157952397631223597343265920727753544137057475033625458425329040101922533094108563925160866848420585009467199259217667979713327335894788274601312147902326223655863326092596764561703479645647192426946454380680107052064204132734083299415540337525235566474552671835290962566310186507303850034488077794706262500278644103442130015226432330538951964838789747171033360183413885416291467166970399345202153820034723674093270706060447185095208011861463875130216890325271508646326560852126255124540029880489440105263010435618238893797230162327423946655209548646308746509090215723566235271501439486908491997841360130713344887266801360935259973836973817945591252864847382243957309350979494098313904783710218578841917791417631643882851012943695284351568539408411615550395389893509413844883390097193638022561167697005102398735511581764367573588088070198553743975424264815375359907629547629801153344369187028707954369119233867047451377944655617838473926170661360947714449974865345482048101499278055159420641605064719986925425200414331592549753233145245206888120627119629393395246945782197681233616939600921736306079809007650379924940017858317618308446056823397525982431778268645853868944826841333100908062533758519749722772855027603035528828116552990240847654935768702221062683627667474494249560268801638199330416169592103732404830292537815409057664246560303172960976363364660932409709376176135757667976368463370258328929729244030495997668479036727302726631537229994816912845052511814956621671725602177470187071425588211427684213536340620524266328247539525105887592360601400530648749920496825211482461126654804744356316030388690680057663389999827827451269000984826277376400694486454220175211975749380221158644896253801834727811912959485915853970314646432131973406518390089515940012989507268479696146743561780818991125836311765046549834240552890888636705254463797513667807552057599669860803035612647579368422593315129127830263784029139767773280013472432517847822855425303174379048338473815810925105497607659048453278399438300848191030611511698380353569632824956003861930722481743814003206382979252912038250566786982110169814811923216123857976669265096419362220666335015298580269691402494428648818899232874518895421890318209872492336971798666842205069487182572179094283704888178690590256247778048302063143752721452732492459684748293827052684400565195546220840820557134641891647436464016081376617418692991332223896125295235168051789438241462347790883850312283795794921611562340628613010205825960305538204254150707769077279146924791084041887521255293507822707767500054189124621477845951402205312186864291865589575467799282313345442642252968809795444155864755992592644756624177200053028078197842744556782387326877532151220191683139282760620117591188758800467111584214210733549054735453269939424842339810499437298934311370398561848309262239165940203502585973094652936967136022291454096437119298266290354156407093329554048731592351843869039304549396054975864815523195028738732881887725196890850455080222822914799452502525582593895429870924558058428597237233954487887218939603996163568666843843173740630533753161511775735498148915089813432152237756465635232962269492756575383377476505079794911172742920233019706578705708607267763780800919270890019961973844195081774905708445721671590689610043931317742597515196457509318821018211590371967512911186496799119103026214534839751991481604221379858587585292967667856427813524513074134309033834257518599223178284464509142621571711954702795660684726083782040815012219817993121708490624369611039008004832006533047829540810385757045245734872196458138422741665819732958472832034071727164208865810516949539447445862800943992167004996300907671782009995342437152287295998255661138736833662740757939246222168970730764521935757315002930277523755040762204139539583202597255525191598361361638428102084901479256999942000665353413483650454466711931585306515126153184790966097380118160147625269487949485997960642181693776521635748117931993379670671417490656478249877197719863594939705587128380089402370858648887595771236861621136858525151862839505041866258218680853289124138593897819962418431724815572792941968037303460010795906904329516441644387165780787037712423417998436753562339027000276089056034186569356222257949878453895565018185836091135690194303397334283319589970464208524226919833877928366639870271159044040099733737320008108456319265853741505740218736967184616779496612113894689095583026059040811927999575885377240295591046193030615890198054720790800199725262174659643119793234329167885684788154131376759117366826655865946834703821204816173566685560185405886310372629533905969610094763189549615505957504185644353542960328574464701704762009046665250109654590643420431090505609052106730576977296810461441642661242194311937610647755793945287644705313975721746182804484578327427312976583771547863809580981480892300253130660971284298887550258574117444084271484724252962871675666431589811179889122414967715444752959706097222664725145682807962286494633926270536017070855470738560350174232611618625585302934787947510603228369551679078654018063913613446308749882861630282920575207856466485994793259086800170561567711598398209017182461448507804384796645955343212385867479911695430189489968946300610479165409097421556756543025819830783278788441572515025282023750787502715755297222153586828330764861412465429846467598403272260213954607293380404989937023482207959730663880947656005414558405930032281118060043144223086204931752822972759448460930345663999665784499334739378015933733444612986337114756107764338944274442440551244521216216946914648760719977280911650182528857049446895611704632734713834356853586809955505268512448673978281433833522062475854361639028877923723570804285827032644430812301517130208543362903089878190731469719140124228007089057259765536370830585403286172390741369283259674224386263243682422442128488637237923236140790379329173417306793441291433700574070853374614427918391910465036454051505355584018787991086745420543158024014298778120370033285402129276578885501973642873307110516427702273625460183838241569883241153858340007978090757548547564072639951685608672871642872899995030701553737969725334325944175957321299980973175634974287497534117683959565789375251550471881849822070224009380031408184447274018908818046819417468841278377385685977208565394026925735086106569705043308660885197017305335130319800620380811158301201244817743265609107036193368545196730985003736967676647079964547074000114289150112331760592877189786199622506439521140581776909995419312175553193562523428582587238450515800650697464103366633960073256484956795094589889398841549847429246027390854212842212739013051740980019729991957923528439525957595664664780999800451423903964120961869198170393853985178792495452244032326976800460726641973038587929619185156645481351950469318460770820414473228469672447692912617384322710138586466991067102284103524812189844675508329184943376089347467907456059458111549419586432976150189076317067136830088048843255100480550483913403041828894255125740226845516942429833917242140533563265028800208659373724800216294225383040480934066212115342225770673533696443966524135055869993129257759881779604476406931275421276846540095364799002416103000781580872370352449047908933560920625887478233129654155951583209200945959156361540961161903916685031579040131393166795007066600312494478752775054502780952444198288590671439894019635311042289024899476567975820484043973561163194104513405780892325987428984510034392701039014880776481551855874771229722201809708893113586880500040100400419373285114961620167847021105737707133499604183561540376134706344345088464175331369962012689167138599286718617255689310263341026197603764807448312282248900026833966978922024025797698821829188300063769751108728821707803445069364431084520801896112470000398064808756446836767708228392824691641949599427705524789259031685958983290426530783427828500202788926636649595849009491953641777078973824390916595978241235881588865081124517712534322022214101716088957531312633777740867387043023015346941501985552696821777367745859633363959721780981769448755710728918605710758790308541734455083750515128874645509132493274770773945855284251267146439776777881806904868401768275566810162300992927988631225127748665924014534303371867383724382533080586875993752682990059284277345005790771359086386323987836262768256342819410337131742324833212908595498448197522492590127241849134613239004004442741784679641459740188097520604616783360412819166199138959112448475395827650290189097908405595338605299909487937369803429118345710594544795435680282602904078049397127093753987854839638852297963214039282595481104767129941995827780081951613310958608649813585441087836822356315616189486350773147788674838817040137713890808148628064502122987775232136549016413099834505468371819283119321509454516642781134649573475899585952660056307934846535672548814794911523384672527694194568496930493058819748968950281380890663337487533486109526288839485850859939062860345978091006031074836690966453702947074452215667487345346534052400129586729529853206679889085179652388689939917343218030862379823082345099643499677856787005711201380358607935260355089234391185776773598245578242280375800146515867534381063128516259955187027506372559220016790874018934334686900093359346947309219473094064477127136028090347213163071312470806078026535406749339643830112581432377430225435353272356121214000918354141786722682831795244215783922500122986945524773602116694984418214431433731833296974454221820347601168169459937115271014265429171211429006928251905314374416841335031121099837919123871993182065087712659139435408582637843729102780471956890694265447757710974651975127792025741599078607337321888019008941245873604709683255551484204499703189914817563249379324639772513045243191224201857649883752588470834371141455607768201635498077314263049739072774812895314996446531224950153249155714335181531372523108491894856465315926295516458454707086877809056989052133682576272272421740968392315415376735643135333197303330506227644949846241158810328001102314426347932005062068852912056142596622502596281789470164444001239945692958089696693503399090691561207464120649827308644738074393275013588748356847459982440376358558235353346702550648478672384586331596808570771824601840963701734898293314728651502135336754237206784835403876550788619465133050681026266295400492101223784795421926511102146568011762549613599505367529337988487838081278493704192359157580790428477556072158029956601844679096431526156743598089608091170593484642341378451492626645666804016498500275183617945069822875879728900947587968339894229810007260973279697340585893004624040191437300779413378328611165087545043576047647588539076345727688426647892979949862276221767059682169097260279563999880795049951271209622114428468232725108241395527368139500999971718006417226113469489890774175095495951868857528115698394675543179786321485169474224398624401862516774428907948248507649075003128246563071117696523934648596307457996369361944163370114162020368835478205967979846151744183318254910180505125668135185759069955211586606188286797676535948385617302013945952414140334479159689626503034221178467691821177540328722596507687756469149614718416223226327146699810620457440130254571341985890754042626122162681695268385887681415199657225124154928943692575653072157502871357882414800645183713969065900296247406804075267658524574618105445416799846246723477862650689223557422539289182733336900
  right := 37711740950501111439442014474100220243638190308282099809066112344921525574632284366601690463069219138122367257452829516251973164422133948995725944726488083934771122021753459701564928642511044820189473802899039525649544792316274156374800725141363985032398418767550126067117686724593235909241454504050441149909312828794029325216213595190934781258611230011392541213772907687448117061753617549139907642300005225891291743703469197421166785013315897451188512505839482873794701927783613956213119975490944153203824410082213237437378432747144447191411712084078815022550545697060408311077251467795296033776026164242871063079411776697418064793089647818010125934325412616799836934931619912640317529039793026593871072506553928817238145001522543475930199549586782937430880586884983887507308616558428251058152479903463624872725063240526565344624525684879880639202287125564796639248570049125740372662427328834666684486126402602301201076388965704439769972130538881462023995065502891985006760240279908823705483361828642944745494180567571378468511128215095625992556588015051498514354863446180137475452320331310838280535378803855743142624741159215160178796278686299236280611641042166994840142146301579858309000738143107386897402121873832894969377744325260958582938432672857880132898293199490842997070916316583285160324400189006797652428723623840525691055004044399645850467927229836327164542657628396536148235144930510484270442904317653766923264188103640204527220165684344447629955673265762716358197039892554596760121386882387846213912936536120567055770738417100357361909034667338503925251162168439410270002629460423829794083855970650108274538584163687265341996642826574217956239144714121139382623429950973199834619227848594770732588159983330790728892904008510014700915356147544080712724305949427558495767296504174679977300128935360914336439729122373288482155384950414393605548566966412633005103294932538950630283083860185574881754273925125161441785169668465640325096251552178430943801706137164637516162823675861102043059530165867293978354415689159894910257123115957937662011575888519816609113112554817581859560552534233830223867672069275307052426873663175796487879947888501202036284810735600853688280815826543408018048608015851942696897695658556586555631997010994648007960685877559599740646705674347095830640694197525730446276378256988332081165561226781800410899314327068173632291702065759462669825454938541914054084283263193092118182129876952190182041438111933245691302833143423430623360201867737298349329490737485775867988482492277091750387223695300297045120289316286834543402387848252510444792627723842680270635979196412424536490223507400627701815263252238090451480041942599125911155614969143273859891395687520972280790154979112563973930709989233296514260524798986178576335977481919089783536478177963482843549320327218207669212194683692754969738501442760347867562348411125952481847947821060546205960363620454161483194043249833590190239765093098505483961244853510886156270426977085412311770845347430621130135747261316674026466427208050667518505450547964698012352248945787846510646211823967350687646302360479222547106289133146382654685595938465742912577476717216813419571326753472081122188590807701743132303948295895098207514508872967443945488095657711368371137364789937082592235931403950745601588217693065271115521633403209375944850296412184992534678357250627928686906260119673700767519118204714032665975615330057129628114846235874482517495739193939859813651950201630187771307290027996755976305714345600222973078809866402639388896876951210083682919646301514273511097066610276964766766335650353621577004412079156183779947300749211169345490196581395219429020679028382570819654513090004777933427505440945770086281088140539550184845238167140194971252746871972656546171528405078856538927779501878370960585113409132580947088444068386010975337644162937614520780648878818216354181505412091225812187651434066865978433803971931762372957352132814997468004264289193936359081800278746387484378583881929341830410290800315032684355123665517023285612697563537613802288422874054021901255701493054405765378688907569062511268840708490426612243730408513218693251090406726333721364987312756126741963669751347133732523244800002772206972300945700195782129949197084818334027489064637078316599372827722101080099993226794492009904304559024886912430028542018943125764959577881713469700102067303723050356506831900929584331230379428319110117852973162275310510401358177508137263016195639034238172857412746080852393797391101565826841298260774890168352192529660880362004121140391253630826539598965954348469864342255406475085785103534725930119488677020856297029315539883125970485289432270885741298124254184514020590841949935711030157051522144285915279063885587661704563046334759506612407674478221515132345106115714722435371459764374653518802660451111567730383475156793803920447527464968300809159417987803811531106848869991539929068799368260572956495144356625490815986308958847527971857672929620670120334106777613590246216052698273379376210440132841720801610453693781703052262785706966382687142690625038765083225764190941387106627539869844466579825425507610843831784893624680298174726622165744907688574617522860924327621784350608507558133830230546214132128328700832380450571195949975156775637345012113902417913757458597859430559187367724972552509255374793825225507764703059943548355708716252688095947741941720866928983941790895076833647368373942918608683654308434609469832966904516720240678605746197103981753771672809763676871825565345945797793391617829303940119098973645991324550612519549563301495755761164919640174742751716376200696422952247528921898872640048797494561881528382792536497508939139996150285036701199907140181144654513330468147418880736382114493007432710419282895904760961100511990680888183615607929919541131653349029984413672283132444955130432278687927189419076828473609778108205034201007521164453897797258622389056596497762059736812240561077018250403740402488218712849882088058935701077446853820569923611749636717154813444157462542264912879871054671798876362425967890196667590074138506795465405762159764910478055412068862261198239771146999847085450049889822098564609993110241050824251586541069065462902139937446931908905665167831816099447421466915713623630797880936735797618585220354760301266335287650342066774497865905036810855316800619388109864294832569930612884703567189912456428295851292674842380843807530581722791244241680534913717240208731197342328303811860000932865854893103561640529136633349000864496823642366181258675820894314330404605028410836322654206131721141546879948820116572149967572722290902267852527077886464326824016476010278256109728774675199071672691079733354267814791302884874059815943487243884922077706029353678003200559235376427603606615308957008948981070679623345766079572741924785042065824940941083342895748838296555358035324337927682768364735121079741027807724888676075415890066150168494844607426854466569780960625739387319122966828922527018128429365467855622334099047294575374985830088340768509765201024898409711139690619882277789855866527352520929929912886109689279515058694487572556186003782891737276493871934730796093682169031757132064026539945192949333717489834679313290783513128795197098376750666934247542540521450650359387661067439104533453198091257621523092001233347059466368112626813670400329395102723338177668138500946721663715972625756698190934950058703156983790372056527049697086117376391204807663760347312449055530826377915243952078433393352650923208163253986679445123943422350024104665416069485091132206164615757771546301942489474504791418933023906365921004905491681531778511514192687945111225738745068601265863183001589903716120798100396546338256198209838598848749447977448849861621933991905404454645392171045311947638925408685860741396898986142320584205621914665365114447584335822814703097950327093647198438039581643070432222431254468684565764465953856504723483009545456636511900669355245333351741042937253787101857347643815242320251396771347922473864513213022575715642977335263420691889457227483117079906669366413622952184926555325424780487494405980057558080812185775852174800113276383429908391593147275710874525665778998518764552090520238191352451871219977430990368386565152982684524441247069070662759174490805572691773260616303500638224695974630487276857118323316035816884508584873236645450467506344332853840256232654067604423755331878043441393500342125353340053121153545064047306778353823215528081451490812262921890814952771502002574558896620387223789610315143306370428513466347341046934978008294388521470144915813815531287969645018339188181443770886237328831283703451822132117701774107338424759546558344125759209589754687688151283863898011007283823675351438654670106159979397429472039647725808930821646284544418117909100140419521938977418783526647754363232861696363968483934015287941569820584889908907415361607619443827195521194783927517561830288171354966836182365548774443529988052480121346650602676982668422307827470385233487686906016441390139959609918621988648477780317259150315690836594838621386351635094335359947358772073254549528695767319331904423705340688699153706283680904763472740675726425494308325069801189738438877597405678100333217740445335720449613566661777351512185051908811945722032317246204041104071160557950433903606050420565144660539811114815979073833519827013436988966326736442965862183336145771094842628640570762348844637601538998263637188697323973973313466955124210537031132642858864368837778730015766537867172366303164255563935346791710028401332220866958697677295719583939448316656865596934349126925546871499576969966095311649291740299049133973907516599713409488283331586620534892961269879032051275334873418575204087294584445367205028555226838355119084674281526551805511653753370877321241555723798150476309793017980945288862796412310863818922985559550180064288068488768107549038063174846251845868134475191859841904068547968488325642424996507206364758768288279982747754085411608020466869583863148901701505901072077600396530356258879430790168050936918884610088195869360870485006407318656155310991478122020919485999268416124975305952901455771554677887937067962645772712352672675888870486488101434886778712546090629259356231025141221538018162255017230739574991337461828900883920668705621573451965139715731709900714979838428690121050958124135682983921523613481406209484459583976749015995223040446156128524208789864450604354973611927664634519782689895100378578784127000818298664937064978728865340897307746783433543784982333272883421780975129632655024023337799182711217406901459193802811778582837211508094309896572722191322465678456946595494156663529768338025126134531522735144763320674578260573629858683073098745077899920483533421368536789084170662693577850750662002706992243922393354258725846523267120295749186183550615440168079003972987776725676616274867724418246524310513122040553217482809778461640429558524499721352091162837838333390842856351910791559982692144225689296613279007472708941708172772605926401958111408206699217393287984697338911000584688767942617480838847405737253128807870816206460041670784569841434985397429381354877744562286756756864826395256609202128122473140755583285572894566540035071948618741771216035711342757144740035903622198081029551909616893621282585459067111505673263201664026078793535104539100162224238184787921892731845272099618564093326102862098791302495842083389421954675455949930898766744588467490427988911604183106952138944190069358394376959759383662877986780212248879255279925614883744583311191379130733550698587883453879554726869819718957545510625841203946737244876078153650433328268891196315502445875409001215232284165396453558132257517802478359438418097156990732284330153481020994835362476193565553415057543681810570701094835307531038159959753034280032400409854199064544308279868510212124342822198732520786822929693788345221558213790574583564358567726221163908586675590232127651516341560145630643914355230920804299620556152741883730799373436422441756774531576312238043047652504492756798613897699174630043989053376076915007282588367173839405932074354277294981356689230583553898253308866548054705473625800051057324120531071546856493191865434400927983237612767458820986519355359246278874877452054940968421608653944244931354611518807478313551805789943878231151054051455959262787628946891279519109422786031094891594462389997950321443472960598101688392745314979250850984420301418227094783963583790215596292133895253538157343657217055521370772404094407116743202045267338708338348603391509876484675183913232024850316103856245837965627501811331079497154921673736311562671362644662209783171720454842448458565603153628320356406414181076996290718292571799676094332154907289611693375686625594990870761834961753247546521941110944420027406109190958983798411158908694539908040540998191542372089678597966189635964774182437854918596334106661604741517591406818504515393075809010912340713132026479034640028752695787226194058285910914328106628564163283650520214714490899380666766002748915181069812087163510462905023570586465293059447032209401259148154698367582104023043018393031837086921818785767623666111362623687176372608737873212043392847839176870004760776241773805001064050633784186206947722897041641706679590096972677344434945325434073804001305496464394757639275173072602416410807220599050340687050564761887629273537000800075917056965230982746519104346792875964422816537788776817086405763023445070381858819006020034412671316933602027416411599378258157978682280933999304333366469518383114457957593007182870570039085109548521110451579790887605848502563703089709327932958015744249778806288428808224692586407726084403314476995171350457410457629464901951574279373468230555824155332557979347305315341692864725867710881060018299663018775347629276963767236411150583597197437272801463552876423679446420238414577286400714946063003855346040117325544219884013522191267122084979134026531461184626223366793970974202265010578151277200069175382454925061778624562989956854207112946435294777627724602842174068774820323381120906182761494576857317279824744634516480079562565158004904445705419249560162637555131029389016317010709169407469476802201824221569609178902095101235167506800110594698568465566320108312626648498722016886720015557072608761795243318170103891424518699056141786275680077083265896199749064782786102559516068545921241788493282976986225655560308649510696766874496234169670784347465703569117578549513152723523789696424291143541487807520038763195291197016454820887098719710781027377663438049029609149445907614085634509820275675011388040440481957204065993548474233229545431416197459580736133021058178177107716772703355265780026712113463010736758604322045809864789598997732251022587141449747874209265067343974998837601979857417737650843938645020895518525171554051957115553297173233871388171391661459154316858733910351352990659769513368418373404107245147707790270205536420286589436786614769674206432022188827925226563044465383667395694684839758064471970061649767569437230940601738874354706292516655983850613527704563911661400043038749146354489518077137604024137718943812630213323712917999950225606854794602026354045088064103601386508901677326372636828420882423494934702682899283456922997743562947904033646354660456028573290363694160359715529212181902622971551438461295841365555605940834795587423326361324760695073486509719796852456260678173409337947730300787336136469463209262039473589409366555562233453652516111137444491132098725422319367123265445441375738699968652186498286030737672804675719205975186713828854992014042771551325831282178327022086124267961421141227492303507581333556997833880757145165298269399076693644751793062540570238659929362217684069690196952332806398423075958831949693756028040815589939860662016712241815791522115185464088891567174249325865643104252075629771353595810465446393693536675840340274358473284136935386012500462672289712266912178948688977835892259155016946415562155416464899594035287928885773817092524212448786268313823401136065746854678511226511476455328309559992793640467706840771612966477558776133779800092573825163277911839927430097088330439517186401420218512379930661754325112946743523966919552587065234246427013026463198864956233485994641220435668254606721913345716460301010938869916216855294188056956555125617223252199206661931912858988654262230029258083513914943256668261333628510468898833418867128553973798426857992601526735459646444652204611920918814674380085543453429547316773483463640465910539212463418477565670825056158177357979161549436740959465568462088280072045875289288100328749856619948252833155687594357409934561667899879452636541742955435806701677152577091871784216360635837158059764886025624396540971240405394314625025
  column := 3437282303617030529031105541729282775061645225853329747348519076652146240770003893839234341384026233805106502275259140157682924577017776222236065627198419869477906267858917393034707237421266935261698454583163115182661609908600829802208761688647248401996723408989762168808433394155589388676460653811719953518677971413737166790916446798687806974548414254390774273808782939830992047634807969527988453148940642468680481250491358139041410033491856991888883107835506959597176673454299080497475952066206609064252311585258350425887354814119469235601012954784946747015310731261619073712787976456855503051870789305163863861998250061764913771929196963308763701300079566622123606726942758039000005136883545150585567108892818582280855161594327815596637538309748691299408199446819685898955699040632592452340943529762497934149520859523926270274708257921953674459056836736349371748149093231163395265293201179662857742429984981681351083130764532656858635991827071186313680220762370987451208583676371862311933072804659098266110805519628874579931400865076492223331256813105874470354614819005841809397564126168763316011973514682992525360869072682824711151894040597998284426252605895354573775653362572186484910770116136211124393628160843354489508559961100908832283105160342369356171364868377491460145670529745057479153470662412501588100041109363833672047282781463843005192253752778851706232945007334513437896278936910263938140809666454798360303899064111848970964701122837086793109609035877850761899550230734034065906453778540540128579392501226500443765690832401815046146279247822942977995431221852700297243175395063168324086843126593242153401811368464053587828097925308607804389407415580844392046225653687449316158143624944923010487586772795290258933229163110466119466179614343655307634676811504352256962358376048286927287578890765961447901235436018369172483055642001789856824118568410988866354381727399771169132086980595787142247325559536494508086374277607792136418645122220009381026824445790435803316066892872831952257024104131490624687605271223399829932807701113902001043212408644039983833926040168269228808017271416102558027392318012601767247976902010164308572721740305433362396525970166875755331265150380608920245370596630703766583224360787053015346195896649429150576719442773905155904790581346372812953977875717997000410737928061341950126266818724982908285742542752285166686584963099942938075431401036185490488851231406846851958824112108482553560702731652659799563896493201242927214395511590412263853608795946818629275224783783827635386122174589171972435092004750584918858021604437912425159995910538428549519912807180101800111914850631575037619122809753395041761943536777914877424531954099912875026156154330309753809892769682926619890409778932934478010657293316761135511097429252068355448348682142393324282420414930222593175409368167601937125268738123898853729348463164227792242933360201983655931061079931362105498224565449371864127612050880436080944839156859638004122347855574375993961333891833833514233241914308728873137403543644709470381443225138603867395037006013516458355894243742011777950647952814467338616628128571077873470550776942611969387077015855308803462096497875302815746659039431676869591021079469019039277755340565401403569472320823672847484499412617650123800302016564120811931155898597323951125321632510199864555808710949108676515310226679725579781370791928210262845918247994700072559565388567371169464329703483465616992576348017369133804811905067691245089186609523952108435906919834420932623345324837283339497057523646927285764530653382120983137930295726596057644546232683198874943438638216458338875483151212011823204244394676364710242533048385923750248150705375898334410472523534922507109357542179719438921693360949096405885979364959575910321161376956440367017399809184751896166851300685652673867999046541096914270599187467088411820167097228294880334220459675742545247801104505169029906383851818560976309408238125096297839518799901333311655919030393368132052643444514340271197243556210987963490852941294517265288781633876466655352043407107891249075096872405345114738850104906549184115967660403905564362706013913390041333538517374134671247190859299486002541463436137441454625771278867801969939284509658686244947133415387946217009417425175614156023052679698213990645859140929586997578569015933533555137268813637778951391514349490465904783644090553609927272081738867712587023613487164918171835833136352009227198462554432911268126152102566011698937238715604589317676113680072465828910694178088264067032537811512555403820222561751471949027862151569660556178359347065612021201498121146462766315239100872234182468228028042434583334287509425368522974348513395112950052280489356196774006830633749852748822253026702160938093441287639261957428847389107953932774905975850828256044982374121663978864053497601760644167480901422317283374989061043069269730716398465373588941068236152019795463860784607754695184198955339233816383379600079976900893542450774847107380241695400173941685404592690858528828022532467108974361010511979619069556230911471824481153307596390133183881236890083100699047367443405021432030799949510005989240016575266853578472824088314959905062666463277649428986545816166929173291399994699069947426494360592532008109044335623687119209067302840243698744376474585732487664288839961715179732406152125826033329241639714236357887831583670999997968014326267268341722435676802373963535892436137564326838685650801628223181062504778584573064059000124301990260296947700004280546575499835217136634211730847318881474229416956432034123584958082155894307544273638675612515669444918648880519642849021076053385689087147532106055953810996496481612269429349153351088722436627165612751853653423140232940371480407416772515863300203617654220250572915162196867392229308866793067006479305854281443872752199953422686895462976106490562760289043614935064510833694892826818528021884025925230828817438025976860372150023374349621281360733188570178013607522917975862408235049849342263621361034821168121821617502560010285793192654372133987091820713645471785114352771862214667611171575207572200623123477422820124477616517969303073385255196762636992159506092877702513536460708891336783281828831161206134251728588539612478599192862040369579520887054839894335408370719788080749338795691517147477484503620688533932881076713759519801798056499916239624989527683606531681185358525235005360832458727603472261888406161006165405024993937625498111073929757140613319629199510338050818917233660334563431613520740165209705409162805231236315142449601287037330687258131464352104260784491244330045639774684888021134358745213578250510412390206479894238612276690294021181090646779097522679851967874330787329940686968308234893204316165829114401121137470251919365066188252946132929167275993383212261512032608237458977360731282819537962741826379824587436553148506826918133539298448130062905488923842144827511145302383365061492509599145547477277762406352781264938300080726593699485030892495309657296580543948478763075498000142805958509522390531447253348673969492137895657439781262241822348773348561063980457059071840740597443128144789557370944936106980155944311342597348264977542460581851841898888317927130582059054049021469185069480795132775472276917923737296903300752036080198339972387817345673168195394683517006227269389817716857108040496077469469334469729294794883805540668318088931633620920349956272345443949683564674762524606492436450986791922628031835126373119156732119843786928330620512337138963410167255478294799714137738492705864435372115752166158362006507956103099071223552249189715085310656090584308479373923666760813225014605231184480205958372502533169404331028646105035552790500819663047486691013965589162216957764445872753529010066300317936272384493220563386020707689386523559018774068689732926892144050234262051170260498494515702434327443620326083661552375015677980789932382380632866484713103698505152902229131427845195628807641162152495897217768503787655173647059021152808894923098973318002001070669694235145165021166203542739935657223816916284564063045148554559645092392916603746175963997578278088210195718345892930333511826742407108160168308455555202430047797042263640256277617244408531454899491060171370768404394837215190292929130024009458792234705911790018985047979728199912209155963986771811568831325416899224682531059249115506744807559007727542903662299530021463850501873532151272295024160748795072388329827908069812040158873113416092219745854288443325258087685983103041781943782827610524531477435259645631802412379674874944815342854341547788449983964306636656082822712535458644415781914852030267965134478169908452241693244199892646247995684293661566030570258212685811611794148289213849077768894059731814576391150082696169420951795591049127283347034642100847194316991818366314664561196546624958347575721946335470230309478299016244437052351979370072422902325432226059341900510617204686364851771236085063990402620819713300021258720151089996271932173890990951840476944745011028575609189488227961523852282575432287716242070104168032282889678735632516675600595411329005532159214148541737536812775426434346754802262350192174330852347902293128809965179628363427141507929789711242165013679604504434034881354701107628407205677579816368637127993326887895532495448059656204722823991527976230847817773706228295521603369757237412140037143693323525355114256744109845497495735821260160501458536253177667990622043177290129236014126987129730876293951269257312672852380756924951790126375512909918938251875677926357897168825977300761978495582440001262650641296997125197519579452995771444948685225965863561731886475885625354484664298549108963017989561153144023580828184377028285750332777119547369707631029669660343657175341833795386217765312191193164560338610087562898418807465620429890056971650287490011547778231011867513475015181193794306221922816187794958612176309797561668780361247603804183775107567248784078529628509945541193883202316877272143073413536645289669993604831008007215345300093411125844858794945981311175676555532208874411188285181815728120429078802197821521636503659285309475236919600206835460139488864271224766981070171943304878684993050002732810597744566612491737177316983562309705638756128518266819371706765033670086169637152180351084519424743419041214158850930656838158717525684618987053581149243350284343457791313068307443757870767923951057128842755931579118112106547803516220150533583008352685125488222337065827230961801393911425441530534450351286357897491631078533385234215437149940070346352008634398998262734149054151638979334700212897085924702584714034781553269910101211216807070062741264387561292462226079496948259521526497524495567831083468027931552498831075059220203885428444699672648969778149920372727063989625719506093304920208293146657545399538535542359571919934397615774021291427471513475321029120914803660801427225648393556941501445656850652802950435215072954413442380663772978421168254583947697705567832361927756431417004803169045723363842385726420120514516360265100119406419110081675752068393928450808336263450621030699788650878054589449921338409074624950395944458156214124870546166998579791153989636898703854133863250100467392663330098599748829254962052377431228675573446145798260908604977323830276541662505483872348719101135118809431265834118852689448023955899384610761918322384610567387118137629153272429554753876124281687315301107598129746660170914260333620403512109339520175935282776142739442065674929475688200167515694986403005450435112039921933426747032322065352126479870830261196033983536891449129672156538490338410547094902787700558010048230270153378742002436402360590920259846960114184194918535281029907417301113500381037734696536161297331900932006051198480897149905139449306271704698287587445962897573079960704088742856966093039244901981936821770267299888974714709343371356397344920709758874463149429579699451811772119080425558897815970208804700425059288924021864025456616527949385439009789385940988700763568207106504161771465688161676722480405432111309170886872732602269569886075416998193751397327629788137676199059210395610691766488177761806947769439388011297087581184450444248092917983859318502646355658526108215634852781901056971210444094205481002546017039199161155994474939043681633696490985492216733538836335738790452093516602366681217402684408567420469526750516551484697512054450708527366168650825971612611739255695148836614217843826521851526763574805168290780134765089552133014152157767372635274452236954425878309712016595465212621298075738101868341306430203667593671137931069875056302295281265488361830294420832103211338296935336036294772999525651153799426280377380007679144483543203352087943615313068777112973060302429811400233088863770377645604417533458707575057147365229332145381661760509919264838533349735593304735901838403398257193398633910492106071522243863441054577484796033798738561496562162075889657675966829059104669572191106170787110718471479760372395706171693313304915901302581105346848279032099459630719449138467689462325813755777560502482822975694034294097504778185456011607738759803362518438269363482084101981775124632369425216448452258231550127069738187557206530752090967915276390890039685607877756745492233012114430734302000615933366137190648507352128520111057903757052414650670713098954186774871189628484696799674586271708706526454317681096728902422605467637061747206914741256785884336005889493356230471456351301834570761330650357703719423494706754235577968346010586325393640952631842090841538304857277680971129382191072942611009056863145789307771628537390750011205318176449095388819364167753283582330666955654384271243891106995743347763074269337834517934739777714441198702748952246102693176998940892008565490120986714204803977179752606292037323772285671223953997038470399686069347465899527745174780196548987174356225211957289965110858933918054282882202041213196792632755921604312815577574971986118266966963242693930543002930743911218737283121382272695109620254186231030350800457731463460813823312326032209057503371912285274043485405991484193795583368049586050234335898635759823967384469363092154399980145133313921629038884922879469767410839069439852386696118196984243892592917890149919501878392302349280750354386787962746182462723586741499949590270403588595823744853673415823177962988701494345459287912038466530860317574682741414776041559578110718539181952198756914085836921955792964673729772108499665606487846311356767503256908350563563767077758250558088679752632104180403444488070814480262307655683283396786154369156402754869616354857270065839029525988604610144894044153720080812748138114376099103017139471943948728084463365732503418674915177074651374475582461402988882567887892929847028015983118521342681706090776002757345316756329751895481833137246205509200147641148777425536050708347318980606542628510942381853797347546888645422091891254911933237665430436737752709292579080255180764256116435344311400385400476283821223019409512485696242935384996576572672944264623873152621839201385215609667193800972798720103050885161635781777329611016038532846333239486681750153139424603290431014051657957507186728366646255627993739223766719490629181125958314599258469546436289751761800126350804031045907310329481406831341268186250665851072675951889373193978969045096652774653603079562841234056592290444570484665722632137323847687040723048965184481651104033240150577743513466953813318326711639812469674034825114657494309842350666244853714999044239395790765828220140178501398923230785127907225943591296331063571738095320809538852787889131989434937389163358897685738023064988234491620339912293510248793369800080472934459177860550558943916545529737877230782252100185944906399319284770488604833894094739846614304787859731301558207836610056920852625830930109014053614629047738919496995619598034804995769399881087378736577875059458220454137822031472803865663028377162449302075681279710364283009287306344693112783334747711151055986382491453978460609364863954978183183704907418080564201000346827749404983725051405941912509141649668069126803639381218220582273277837841472514081918938474312717104201945314216996629872983250538236142720890121186829760469155248937565659974259456646377038720081145575356892316686295574196427234403367501435354923026366829593960171734132095109583604359605708422510206251417976678533201159412030819805990974015335650816925569862065919635167477885653618716397312408714026873461791795543545360671389007168130554184526134051789205878912672958465813375259949408053569381831285602853716743260331351964378012623236863627495893408019041050045847218779778904563715683156782014749161077151597887793156086410655597224903772061225781612414221790791119081576507829673415590235996178052349952
  row := 37711740282363758751271673556021129962380195699896226200033076086474840664747603546318858109207441228348388104893479386010959149614041836628619895121820113930251133948172466140937255158766648785504101801349677316077799964555770600303583094866980409691920342516954539156144085066697880609911834676349806688004789977132041386093193352404087797873072481763496090965590534498132332304490954818643541526468733726821273043055017689795542973036203393871014986507999981005333684819247342542112209854378249943707022876974623149134910686941538347838065550019474718700453861165057344977636897934844916513049590395799454867828485563267641557350991123607880408236423123409562846783131099728709916170193293889086192513205330492970601042952469722182579757741956244860514696554126879756400211472007219037633852972321680014575266392324100000696014045417270868844282589496560261140069945736203186947992423545408601382381736444754000250547813231845704683493578158535765064296386757630755373390450068733210047225786537726103346561418327699713640454100887568810761618074870101268186130092843956571693002719221765239494255506624307099926817372546455045424029793221813793856601956522327233944994022791258965719191889241640702468817194452913080437374150739279235690427258123532402412933563820051667630170293949572171045168362155011820724784908519342625405657240893772125610816644615400652716712888663036991866384952233976476883644029615022543555870919305583608174722618470065103022376514224535359588412825504424516836222989866201992150613541031888579059963222745622060460877226820018157717471700208900183468187543634667939382125300658480121348897841922081164005263403403537138995310469570532857472149910514017735252422523529545798539244861999882179823633361219437311069633699852657097844106352699696257081663957942227484881119684005505012159593988208974464160723139202421321591872791858420423446891926348280483171603967004507096932864226126122398841267445322240474873734852954550898771526114542742298720408131212510857636046801425578775556304769421410877100389391452159395859800200602854893507423411733296029833310457399001457736850971489508883780216655718980257713126293780665995885637022227860175363728796672407039733515763842015562486303385402454824757292623910392094228933212073930047938083447450872954747642700106074965029427372010513263909344711394177496970831981869773184525722104686965817464412132355794909810421122973759614532786610740227082899534041110201854147712444227287248887978552539658420161401323775158786226208316829282695290661970031034380843272787673241323767682563603231409977946407063794956770733693431269095199641092770253933704904840179681918980295180165905629161320322310694989138253547157991202831527953564163218624497401996898723182863335483738260640455168855879312081186604990331886006225649905303321805997454758164580049543871988026726347624120922006236731294826731268711969359669400903435380469419797253723644053435420693386340716273043805949322797222914797386962183628870183063659376944820622201724248446114103537210548526870499630544692078290981783003763058005657059786942630291187782098976700178203100037367193775951485703461372274105157493168390454555440639374795391372814191055879537643581477835926801035290745295876459221418346548666984348959493467633400616474100989259835001373530690358859837674394443666173106045228667008614007922118768051002471902365237296328075715897983884163431999541776160013354092797572082946944484286264701806771630231025593489834348967099567353572939892646934828851137117417786292590104396188680205290519884171489207393308061618811778452459843222110975268368983638617376145358496420113430904711165319372613719005483167037360863046664423039751064044274478900235951221503929610631190690171436610347603967621569507940164491761740700454844800869648838823952163977430201577503363204426174166201363565069414619990935540994285074444147856953689038630054353937810180978973319321560767835281211928823591461789217162917716193002432712257720940028408242657463197247304058396863273814530156283551038019390916550663814166163888292887225506206854683794763396802804828439028200479382900011759286261164542249087996433756052584703599223396164785175036183277078295086076379720587683610795100629651910776500492702708355198895648933271785629614399804627122036365331050723111527012243482839728500869105202873352819243647863017581980899345779752525542449214499370982910639403375077219526510382107475165396324445769634032839035069063437243092822909996604620911813117061147014026849656496293424276465432975326377415722186338262925240391109023414988439368041527168420054041801394272612212991092708358311889439800162428272668254485149162227675410461849249074136932679313237543675282175438290374785323189590133348093048016646789241258542167132906001971480785051561269880328949672521184712452532980931816734105355159209096558350847519063230680203748069349050309258459292934807916676646031551684903677916173121331654170921515480502027275471267884708913215671750240611342235710529378157176182570677854555535353168612474642268546866968503009958598404587801006250492176708983994577328343433995929160452402977314577102774365164025443086012902180745614646181468815739350868254777833043587373092499380245600747651789710817273699740848777638067644220558878608962137465895481070462608828595488665239009234108746817471631216958985387905736642780147189056756656115832613014737515094472516599621330987849765412256844379619806063268089967671122512100536089550571973546524395792485404354910119212554368215773078714237476831401010375330426655542963272207019867338703288626276777669917416013048958942488988044236969047363375031531124135618503200334133522593248695603992690647562003465601235330192833718059788947424597675477688884401879069921165374193725126218064830914693280341029874770218004864971658159188481799953050176298497281863547121175705675022349194496052839762556487270250032518477703941377646450258686860384016743138156055822834487179437735013509640134909497973286996271348266883655379339137046396249839423977653185837149325511300558163755339446445619060437235064806597774016350541644602060616736429657353921698115024269778754667602521274930711927777666070921627012177905263037341253959731990769052062372392915399989007052025882378752096053017972796596531983154732574765948894840033720771830475700461406344613569225626583025254772462186687337096722783889657945826451732862376442474194196184000024376324371789348924527855660872144362758189184243726254091540105781263161002250105342596526284353601416363392793741860095913450406699960378310336536933168519432155183480779996520757653504708675600003086928142328530404629442558868458347680798170784557498313309383371175491676821880338865872753384735414314251514188133675895557979002262135645369547800726676876523574265443898586177008527313294339750663787094509244716743379176921454303141466351289605221879567054826459688839282716655825992850372113714043167146240377110658407786539033458269521639934054635410756993356148342123008718898667833065879912828290759699155810439899013786590123127085004091792256068925725064253490934821410432359212425447348415150993885086237558097316396049927316897049567174604823210854941639132591530577103449003915568645933303450066644738049148586752219285048331788348455074806856954156051619178586660483071363285018593560381863292343202085155708512946510165807064270761488880610452038682312860175589835146590712257016686805501857549439385578619509869104580957869008065159968416496351906724740303847524287169663562032994384787395353618621871375571426546989486186401262986455120712095823376588836524677286914202428266593620396716203359231997234085594860270037296135242638414657667305917016111777345599527528279324780819375028656901605779053141323029914496052785337748081454816535048006041599266018934891080714337216782894007624707390402628949240092069655944843582794617840560695883682810061829522749012101738001723403067554582766448647120811267284534658519242928907877066858837452774872759774984618460911227743829365318989292835945856891901917687066981934912945206602036700393413887913133403370690437693743137055715780021739775233091752643780065252895798673492731865218243350499774051898265753389720595056462007928650235017078197190191882543877855220087116152773740182035359157391540941668735593156986392946255635335807929185319581014487289257286396033199916596815142076809887872055876719114857092649146762237276831343131055816554408706812472508876216488555608897358814252017482222455079946475138510777032946730686486667894466897004635689676256075640396101087780327960268095966718766035399883764470282326997077415405577542188136092600353465058323020172043724530513784836004751037309751991459347835812638473127255474716312757540069685030265335716465626178359462131056992784853694668970843551322662243131897459064993206813024571504464777418988750572586309108313522165164137073660478947391681384801155823541519958846660901996996865529125975890639219316424546472075254486569634954129883783947957079346215064962492571887550028885444527561491206789266694652416746157102774905763864068656283317447172924515299822168762718254394934916678804445976950414771340069434957690757014167234882104664814383081656201446963146643654963061850526752594847662543402052379999445814931667102019132323815542551287793524064062296793837941799258953860870712683591825590938771867866576677589327364438547828329064763944333802794297332278005976929237957087549792492880411411506593857865856216326205853698508915457661149991737572269158065255952024769718070015655368348049993756397117891958533995656170469335674133289530670911666818609319967861917753272702966201057220287792836224742052803975224685145891355831639438304004826938477169536840384094352716222076839517456909181160212297267502832473596252368389284341252940826391278434535319130105421971092935008173872190373631644374830776088316041743629160690826622777226679980154915345094074185993863776599761393257283422005348310510280406029084604477780450818820192708432447880057384227573418157636854008102237113427321942838121700540263716641565181348615413650473819336974685962022688191372082182810520160140857715859252288433145929162794574798096055069377655702468072955054991934446905757819013169697566216995200193659030272013992563551812996320094024372228148942293333631626933083551451166070333335401070206815619740491282194049283815157897476956144287359253096655478961191972248737221130942842310966208089212304125500068976239460071931729683610202957632076255468935995802822207857127696091916543458668100934109111466910204887849230697192807085580864520097713189158559321419248973493649161661875276414195240538284092708644104366497928039744788859417954136949795770713131500650494673121795432859643201884010607415924961068300760168867712648604156110999093177398326524784836753349594325702851098923053568014692370031601641034287858869358295859367619491457623803038298113960654825741548700099765382442359958846468375032700712908055224827597130868819446805009541671753604956483862058541325147089848802355248536100556739509678029656160572355618885945856265296522331670175456231278076513913351411526226868079970166915998398579098354835148618835149044155354947804798337502761595712373168345348566933067368003256772195915751110404299838617107628142251721905664520760594500288712018310479953093036638912160040896776354589218172474233842398667361794767296666127649452832005947989748415029475924796523237556104440865581331306758310758367099259022912718973579310194479310217159458035828767378649581825718840710713431160182660143146463438699567942819991727815234699327896707536573399889574241598833142191995656809503425745705626198059083278436126862537101516144589325714575557154109549951640188653168885560389569442012006133428611654591227584625924777489233205276717256961255560333205374018311125493722312681849507532035498105450381165053734875474750594058889085308475287858654892739738586436933040241978265938224361715841552958847338431022805363740675110993181016534479314778796120682052026885865376302270313360021741627466330861241056463930220244538505760091243867608173394417886733496633666857934289600594153694767443441776019622232332229492452414221617668050284433336158707451660335055159070855263592551808279093250136141985144057858869986358051789603529165302136643470743329351146018220485692605830898275025974411739985618486384337204576048576121705264658564983265990630308473538338812378057143703632549004609216182087815415206805710783534574008537754911014779742768989043351485601501121452488567238346257307535914172735903208347399088657708986997763431588347554587494043899154083764061317559951611534397908058305072526220890840243884137227123162795800521007443927190605486547526178235022749467303626993049083095773538161874255540152331214574406653745959662013199490625216922315906153106381432362823054088703664471175534351994623418693516359658120382710486626324996320740846692818863665210961148624027422447663224479155191447777819555393182331663648388791215714039441717225592062529387349117743343624171841535041311142136023132208619569377678045626032058221657378951697343293507868935544555477604260360996787548261380458279080836085337501009619033537047642118026138058535335043423284315651033575651967945381779870189878266608129564805840113264941020874930026839385877275131116953309508916578940876535396664397770518395483140107799972660478652640337115075270242591977020969468980629469274308419082242341008038273165609484824810017674509858158831637904824095627641800508408729061351267761843460540713503939681185025468581541916949169245244323459434406477398003179021288833744193200599676170971154618256131798416524387107923945874020699261515546786820062389892673663115719961593578095843217562100156544218646181674228104771019329831467597220250995109193084761302110353453860239880421191159686007639967871837122486153996490078628785265235596298089539895572354335418974966681004212210875117774462160043915454387375146872039208101614381309550608462017922500007039120041872180960751699795572968008670812625858385369826600037814520602672574677752213374848030893432501985544515239553571675416400389435326390677815889559079770119823481036215932823351236947569110262387123051216816158165504393363795794806535059692966062112940459461612216142967695032251117848836187882240089913237544407141858133713988404605526516274840323566288922421708469131860925785713954776892765430166288151905224853139253843448303978883500604250215384298058564201125663371385577425887938305210646661936548436644957668319867938320700950212036507369572006382481378653721951511913018128133976976556310555278002510477574425303752498513297830747195382191935040702034930277450897900215379054462570059224842245216401511380471740568079834646328491925718615162326957339065850194565475705496934410243200255590502444910234600090016582812116744230831021374951784621243293420881138979339498516667796615948154698579044130365153348238361134311570366690233412128465431888714212472939864119746923532800537853603484045230392453719287939852854900411797009951776044363006744838560690571351932743565142440477961892664980072117658886198523682192718688545526645528826428753887650487691269892708880409922598781238330344923998425012583160881642763134245288109328954266104950609730511806484017656764191950421643097372402578916726630732350247781244134566228754273070403987754811588408273517113667432501161371567344214754408070702924774911603195121869791944581072054227995982244870996125400129673530473384645002987452520303051285235189402512468060502221830277381676403163768548259633156536274927498355959511652378093047431458287802913722523958432846736525760909088868465245662981858203905004392128586657385004534803787409474415185130637019633332122112314611203906713764429146535859187498169532645004999717604875647992809492303382758433229629194782060051657904398680856182902009228383293868613954812966689742154312687366036100041355403538512913079289463937155081260053835403211641531581343238068683748295227881308885703164140946595716467623100514751240722508663469882138811224525122146279532060830151079484421698714790931805700109604906432761271207748913723418962187290915647291826630313698288411845319769827631287388283469286381123568419940913477765312563462961897122389231714279612662959268451820992076691432083709034721586663542920359248279859065727574061089562034758602874313415831155308828416490879512253522600887123634756980970463622527109088003894661264757630071668203363682681319140217744026778614551105682251414504698710655202337122660960226395879588302158050974299423723803811658370609153121234201527401765317170169321338611971270053968685782425094349438499684620330157383261161064038400
  size := 2369834931542057763177948158339871482740432017396727054848904606970425949172229848896213162233061724580810956350160102990553078821340130524161272306622230026164979293405160750281090579969749136258101271796318981570625806979873364659761768086804843573915067537558389893849270171215518049834718846576492037246478983709720318894098872036046893447288622087026461713971040740788724083885692063783533834018566176947158456566349920384119574143740195830374236813658266742481913798344311235425065160398051066681688097541432029255534796631415399702884333735110096364514758326906458882661941798822832358342634085058071721851831372747951880876541874014993525158206837303512121608774068958608217541302348844810149502748789064506522979035076316989904628255035383715719117391894402258577040757863042364839521064925895166524971683479225059233388549754998510376002999557173972251841354366981416644003025822601976806246193454905597339438247137718447263937342125013071930456768597221255124105737849021849349950344698267901749096063107695715170912730723231143233070476432003879326244157421051688198132648985592068809840695645789348460048403559672323044491525321780619332616530186187897832616757147461284991288780146112117837712520508734207362948001462304432005764394729787883579962059586844039896307800496691327719324876450537379019206373120336990935700164162744941103005694222533135494541947708015348508998352533699337922041922094188238580178824599045734013350207917400322849639038808566128199474138475081027694575429343465263595520
  names := (.node none (.node none (.node none (.node none (.node none (.node none (.node none (.node none (.node none (.node none .nil (.node (some (3, 8, 8)) .nil .nil)) (.node none .nil (.node none (.node (some (7, 1, 3)) .nil .nil) .nil))) (.node none (.node none (.node none (.node (some (5, 5, 1)) .nil .nil) .nil) .nil) (.node (some (2, 3, 6)) .nil .nil))) (.node none (.node none (.node (some (1, 5, 5)) (.node none .nil (.node (some (7, 8, 4)) .nil .nil)) .nil) (.node none .nil (.node (some (4, 7, 0)) .nil .nil))) (.node none (.node none (.node (some (3, 1, 7)) .nil .nil) .nil) (.node none (.node none (.node (some (6, 3, 2)) .nil .nil) .nil) .nil)))) (.node none (.node none (.node none (.node none (.node (some (2, 7, 2)) .nil .nil) .nil) (.node none (.node none (.node (some (5, 8, 6)) .nil .nil) .nil) .nil)) (.node (some (1, 2, 0)) (.node none .nil (.node (some (4, 3, 4)) .nil .nil)) (.node none .nil (.node none (.node (some (7, 4, 8)) .nil .nil) .nil)))) (.node none (.node none (.node none .nil (.node none (.node (some (6, 6, 7)) .nil .nil) .nil)) (.node none (.node (some (3, 5, 3)) .nil .nil) .nil)) (.node none (.node (some (2, 0, 1)) (.node none .nil (.node (some (8, 3, 0)) .nil .nil)) .nil) (.node none .nil (.node (some (5, 1, 5)) .nil .nil)))))) (.node none (.node none (.node none (.node none (.node none .nil (.node none (.node (some (6, 5, 0)) .nil .nil) .nil)) (.node none (.node (some (3, 3, 5)) .nil .nil) .nil)) (.node none (.node (some (1, 7, 3)) (.node none .nil (.node (some (8, 1, 2)) .nil .nil)) .nil) (.node none .nil (.node (some (4, 8, 7)) .nil .nil)))) (.node none (.node (some (1, 0, 2)) (.node none .nil (.node (some (4, 1, 6)) .nil .nil)) (.node none .nil (.node none (.node (some (7, 3, 1)) .nil .nil) .nil))) (.node none (.node none (.node none (.node (some (5, 6, 8)) .nil .nil) .nil) .nil) (.node (some (2, 5, 4)) .nil .nil)))) (.node none (.node none (.node none (.node none (.node none (.node (some (5, 3, 3)) .nil .nil) .nil) .nil) (.node (some (2, 1, 8)) (.node none .nil (.node (some (8, 4, 7)) .nil .nil)) .nil)) (.node none (.node none .nil (.node none (.node (some (6, 8, 5)) .nil .nil) .nil)) (.node none (.node (some (3, 7, 1)) .nil .nil) .nil))) (.node none (.node none (.node none (.node (some (3, 0, 0)) .nil .nil) .nil) (.node none (.node none (.node (some (6, 1, 4)) .nil .nil) .nil) .nil)) (.node (some (1, 3, 7)) (.node none .nil (.node (some (4, 5, 2)) .nil .nil)) (.node none .nil (.node none (.node (some (7, 6, 6)) .nil .nil) .nil))))))) (.node none (.node none (.node none (.node none (.node none (.node none (.node none (.node (some (5, 2, 4)) .nil .nil) .nil) .nil) (.node (some (2, 1, 0)) (.node none .nil (.node (some (8, 3, 8)) .nil .nil)) .nil)) (.node none (.node none .nil (.node none (.node (some (6, 7, 6)) .nil .nil) .nil)) (.node none (.node (some (3, 6, 2)) .nil .nil) .nil))) (.node none (.node none (.node none (.node (some (2, 8, 1)) .nil .nil) .nil) (.node none (.node none (.node (some (6, 0, 5)) .nil .nil) .nil) .nil)) (.node (some (1, 2, 8)) (.node none .nil (.node (some (4, 4, 3)) .nil .nil)) (.node none .nil (.node none (.node (some (7, 5, 7)) .nil .nil) .nil))))) (.node none (.node none (.node none (.node none .nil (.node (some (4, 0, 7)) .nil .nil)) (.node none .nil (.node none (.node (some (7, 2, 2)) .nil .nil) .nil))) (.node none (.node none (.node none (.node (some (5, 6, 0)) .nil .nil) .nil) .nil) (.node (some (2, 4, 5)) .nil .nil))) (.node none (.node none (.node (some (1, 6, 4)) (.node none .nil (.node (some (8, 0, 3)) .nil .nil)) .nil) (.node none .nil (.node (some (4, 7, 8)) .nil .nil))) (.node none (.node none (.node (some (3, 2, 6)) .nil .nil) .nil) (.node none (.node none (.node (some (6, 4, 1)) .nil .nil) .nil) .nil))))) (.node none (.node none (.node none (.node none (.node (some (1, 4, 6)) (.node none .nil (.node (some (7, 7, 5)) .nil .nil)) .nil) (.node none .nil (.node (some (4, 6, 1)) .nil .nil))) (.node none (.node none (.node (some (3, 0, 8)) .nil .nil) .nil) (.node none (.node none (.node (some (6, 2, 3)) .nil .nil) .nil) .nil))) (.node none (.node none (.node none (.node none (.node (some (5, 4, 2)) .nil .nil) .nil) .nil) (.node (some (2, 2, 7)) (.node none .nil (.node (some (8, 5, 6)) .nil .nil)) .nil)) (.node none (.node none .nil (.node none (.node (some (7, 0, 4)) .nil .nil) .nil)) (.node none (.node (some (3, 8, 0)) .nil .nil) .nil)))) (.node none (.node none (.node none (.node none .nil (.node none (.node (some (6, 5, 8)) .nil .nil) .nil)) (.node none (.node (some (3, 4, 4)) .nil .nil) .nil)) (.node none (.node (some (1, 8, 2)) (.node none .nil (.node (some (8, 2, 1)) .nil .nil)) .nil) (.node none .nil (.node (some (5, 0, 6)) .nil .nil)))) (.node none (.node (some (1, 1, 1)) (.node none .nil (.node (some (4, 2, 5)) .nil .nil)) (.node none .nil (.node none (.node (some (7, 4, 0)) .nil .nil) .nil))) (.node none (.node none (.node none (.node (some (5, 7, 7)) .nil .nil) .nil) .nil) (.node (some (2, 6, 3)) .nil .nil))))))) (.node none (.node none (.node none (.node none (.node none (.node none (.node (some (1, 4, 2)) (.node none .nil (.node (some (7, 7, 1)) .nil .nil)) .nil) (.node none .nil (.node (some (4, 5, 6)) .nil .nil))) (.node none (.node none (.node (some (3, 0, 4)) .nil .nil) .nil) (.node none (.node none (.node (some (6, 1, 8)) .nil .nil) .nil) .nil))) (.node none (.node none (.node none (.node none (.node (some (5, 3, 7)) .nil .nil) .nil) .nil) (.node (some (2, 2, 3)) (.node none .nil (.node (some (8, 5, 2)) .nil .nil)) .nil)) (.node none (.node none .nil (.node none (.node (some (7, 0, 0)) .nil .nil) .nil)) (.node none (.node (some (3, 7, 5)) .nil .nil) .nil)))) (.node none (.node none (.node none (.node none .nil (.node none (.node (some (6, 5, 4)) .nil .nil) .nil)) (.node none (.node (some (3, 4, 0)) .nil .nil) .nil)) (.node none (.node (some (1, 7, 7)) (.node none .nil (.node (some (8, 1, 6)) .nil .nil)) .nil) (.node none .nil (.node (some (5, 0, 2)) .nil .nil)))) (.node none (.node (some (1, 0, 6)) (.node none .nil (.node (some (4, 2, 1)) .nil .nil)) (.node none .nil (.node none (.node (some (7, 3, 5)) .nil .nil) .nil))) (.node none (.node none (.node none (.node (some (5, 7, 3)) .nil .nil) .nil) .nil) (.node (some (2, 5, 8)) .nil .nil))))) (.node none (.node none (.node none (.node none (.node none .nil (.node (some (4, 0, 3)) .nil .nil)) (.node none .nil (.node none (.node (some (7, 1, 7)) .nil .nil) .nil))) (.node none (.node none (.node none (.node (some (5, 5, 5)) .nil .nil) .nil) .nil) (.node (some (2, 4, 1)) .nil .nil))) (.node none (.node none (.node (some (1, 6, 0)) (.node none .nil (.node (some (7, 8, 8)) .nil .nil)) .nil) (.node none .nil (.node (some (4, 7, 4)) .nil .nil))) (.node none (.node none (.node (some (3, 2, 2)) .nil .nil) .nil) (.node none (.node none (.node (some (6, 3, 6)) .nil .nil) .nil) .nil)))) (.node none (.node none (.node none (.node none (.node (some (2, 7, 6)) .nil .nil) .nil) (.node none (.node none (.node (some (6, 0, 1)) .nil .nil) .nil) .nil)) (.node (some (1, 2, 4)) (.node none .nil (.node (some (4, 3, 8)) .nil .nil)) (.node none .nil (.node none (.node (some (7, 5, 3)) .nil .nil) .nil)))) (.node none (.node none (.node none .nil (.node none (.node (some (6, 7, 2)) .nil .nil) .nil)) (.node none (.node (some (3, 5, 7)) .nil .nil) .nil)) (.node none (.node (some (2, 0, 5)) (.node none .nil (.node (some (8, 3, 4)) .nil .nil)) .nil) (.node none .nil (.node (some (5, 2, 0)) .nil .nil))))))) (.node none (.node none (.node none (.node none (.node none (.node none (.node (some (2, 6, 7)) .nil .nil) .nil) (.node none (.node none (.node (some (5, 8, 2)) .nil .nil) .nil) .nil)) (.node (some (1, 1, 5)) (.node none .nil (.node (some (4, 3, 0)) .nil .nil)) (.node none .nil (.node none (.node (some (7, 4, 4)) .nil .nil) .nil)))) (.node none (.node none (.node none .nil (.node none (.node (some (6, 6, 3)) .nil .nil) .nil)) (.node none (.node (some (3, 4, 8)) .nil .nil) .nil)) (.node none (.node (some (1, 8, 6)) (.node none .nil (.node (some (8, 2, 5)) .nil .nil)) .nil) (.node none .nil (.node (some (5, 1, 1)) .nil .nil))))) (.node none (.node none (.node none (.node (some (1, 5, 1)) (.node none .nil (.node (some (7, 8, 0)) .nil .nil)) .nil) (.node none .nil (.node (some (4, 6, 5)) .nil .nil))) (.node none (.node none (.node (some (3, 1, 3)) .nil .nil) .nil) (.node none (.node none (.node (some (6, 2, 7)) .nil .nil) .nil) .nil))) (.node none (.node none (.node none (.node none (.node (some (5, 4, 6)) .nil .nil) .nil) .nil) (.node (some (2, 3, 2)) (.node none .nil (.node (some (8, 6, 1)) .nil .nil)) .nil)) (.node none (.node none .nil (.node none (.node (some (7, 0, 8)) .nil .nil) .nil)) (.node none (.node (some (3, 8, 4)) .nil .nil) .nil))))) (.node none (.node none (.node none (.node none (.node none (.node none (.node (some (5, 2, 8)) .nil .nil) .nil) .nil) (.node (some (2, 1, 4)) (.node none .nil (.node (some (8, 4, 3)) .nil .nil)) .nil)) (.node none (.node none .nil (.node none (.node (some (6, 8, 1)) .nil .nil) .nil)) (.node none (.node (some (3, 6, 6)) .nil .nil) .nil))) (.node none (.node none (.node none (.node (some (2, 8, 5)) .nil .nil) .nil) (.node none (.node none (.node (some (6, 1, 0)) .nil .nil) .nil) .nil)) (.node (some (1, 3, 3)) (.node none .nil (.node (some (4, 4, 7)) .nil .nil)) (.node none .nil (.node none (.node (some (7, 6, 2)) .nil .nil) .nil))))) (.node none (.node none (.node none (.node none .nil (.node (some (4, 1, 2)) .nil .nil)) (.node none .nil (.node none (.node (some (7, 2, 6)) .nil .nil) .nil))) (.node none (.node none (.node none (.node (some (5, 6, 4)) .nil .nil) .nil) .nil) (.node (some (2, 5, 0)) .nil .nil))) (.node none (.node none (.node (some (1, 6, 8)) (.node none .nil (.node (some (8, 0, 7)) .nil .nil)) .nil) (.node none .nil (.node (some (4, 8, 3)) .nil .nil))) (.node none (.node none (.node (some (3, 3, 1)) .nil .nil) .nil) (.node none (.node none (.node (some (6, 4, 5)) .nil .nil) .nil) .nil)))))))) (.node none (.node none (.node none (.node none (.node none (.node none (.node none (.node none (.node (some (2, 6, 5)) .nil .nil) .nil) (.node none (.node none (.node (some (5, 8, 0)) .nil .nil) .nil) .nil)) (.node (some (1, 1, 3)) (.node none .nil (.node (some (4, 2, 7)) .nil .nil)) (.node none .nil (.node none (.node (some (7, 4, 2)) .nil .nil) .nil)))) (.node none (.node none (.node none .nil (.node none (.node (some (6, 6, 1)) .nil .nil) .nil)) (.node none (.node (some (3, 4, 6)) .nil .nil) .nil)) (.node none (.node (some (1, 8, 4)) (.node none .nil (.node (some (8, 2, 3)) .nil .nil)) .nil) (.node none .nil (.node (some (5, 0, 8)) .nil .nil))))) (.node none (.node none (.node none (.node (some (1, 4, 8)) (.node none .nil (.node (some (7, 7, 7)) .nil .nil)) .nil) (.node none .nil (.node (some (4, 6, 3)) .nil .nil))) (.node none (.node none (.node (some (3, 1, 1)) .nil .nil) .nil) (.node none (.node none (.node (some (6, 2, 5)) .nil .nil) .nil) .nil))) (.node none (.node none (.node none (.node none (.node (some (5, 4, 4)) .nil .nil) .nil) .nil) (.node (some (2, 3, 0)) (.node none .nil (.node (some (8, 5, 8)) .nil .nil)) .nil)) (.node none (.node none .nil (.node none (.node (some (7, 0, 6)) .nil .nil) .nil)) (.node none (.node (some (3, 8, 2)) .nil .nil) .nil))))) (.node none (.node none (.node none (.node none (.node none (.node none (.node (some (5, 2, 6)) .nil .nil) .nil) .nil) (.node (some (2, 1, 2)) (.node none .nil (.node (some (8, 4, 1)) .nil .nil)) .nil)) (.node none (.node none .nil (.node none (.node (some (6, 7, 8)) .nil .nil) .nil)) (.node none (.node (some (3, 6, 4)) .nil .nil) .nil))) (.node none (.node none (.node none (.node (some (2, 8, 3)) .nil .nil) .nil) (.node none (.node none (.node (some (6, 0, 7)) .nil .nil) .nil) .nil)) (.node (some (1, 3, 1)) (.node none .nil (.node (some (4, 4, 5)) .nil .nil)) (.node none .nil (.node none (.node (some (7, 6, 0)) .nil .nil) .nil))))) (.node none (.node none (.node none (.node none .nil (.node (some (4, 1, 0)) .nil .nil)) (.node none .nil (.node none (.node (some (7, 2, 4)) .nil .nil) .nil))) (.node none (.node none (.node none (.node (some (5, 6, 2)) .nil .nil) .nil) .nil) (.node (some (2, 4, 7)) .nil .nil))) (.node none (.node none (.node (some (1, 6, 6)) (.node none .nil (.node (some (8, 0, 5)) .nil .nil)) .nil) (.node none .nil (.node (some (4, 8, 1)) .nil .nil))) (.node none (.node none (.node (some (3, 2, 8)) .nil .nil) .nil) (.node none (.node none (.node (some (6, 4, 3)) .nil .nil) .nil) .nil)))))) (.node none (.node none (.node none (.node none (.node none (.node none .nil (.node (some (4, 0, 1)) .nil .nil)) (.node none .nil (.node none (.node (some (7, 1, 5)) .nil .nil) .nil))) (.node none (.node none (.node none (.node (some (5, 5, 3)) .nil .nil) .nil) .nil) (.node (some (2, 3, 8)) .nil .nil))) (.node none (.node none (.node (some (1, 5, 7)) (.node none .nil (.node (some (7, 8, 6)) .nil .nil)) .nil) (.node none .nil (.node (some (4, 7, 2)) .nil .nil))) (.node none (.node none (.node (some (3, 2, 0)) .nil .nil) .nil) (.node none (.node none (.node (some (6, 3, 4)) .nil .nil) .nil) .nil)))) (.node none (.node none (.node none (.node none (.node (some (2, 7, 4)) .nil .nil) .nil) (.node none (.node none (.node (some (5, 8, 8)) .nil .nil) .nil) .nil)) (.node (some (1, 2, 2)) (.node none .nil (.node (some (4, 3, 6)) .nil .nil)) (.node none .nil (.node none (.node (some (7, 5, 1)) .nil .nil) .nil)))) (.node none (.node none (.node none .nil (.node none (.node (some (6, 7, 0)) .nil .nil) .nil)) (.node none (.node (some (3, 5, 5)) .nil .nil) .nil)) (.node none (.node (some (2, 0, 3)) (.node none .nil (.node (some (8, 3, 2)) .nil .nil)) .nil) (.node none .nil (.node (some (5, 1, 7)) .nil .nil)))))) (.node none (.node none (.node none (.node none (.node none .nil (.node none (.node (some (6, 5, 2)) .nil .nil) .nil)) (.node none (.node (some (3, 3, 7)) .nil .nil) .nil)) (.node none (.node (some (1, 7, 5)) (.node none .nil (.node (some (8, 1, 4)) .nil .nil)) .nil) (.node none .nil (.node (some (5, 0, 0)) .nil .nil)))) (.node none (.node (some (1, 0, 4)) (.node none .nil (.node (some (4, 1, 8)) .nil .nil)) (.node none .nil (.node none (.node (some (7, 3, 3)) .nil .nil) .nil))) (.node none (.node none (.node none (.node (some (5, 7, 1)) .nil .nil) .nil) .nil) (.node (some (2, 5, 6)) .nil .nil)))) (.node none (.node none (.node none (.node none (.node none (.node (some (5, 3, 5)) .nil .nil) .nil) .nil) (.node (some (2, 2, 1)) (.node none .nil (.node (some (8, 5, 0)) .nil .nil)) .nil)) (.node none (.node none .nil (.node none (.node (some (6, 8, 7)) .nil .nil) .nil)) (.node none (.node (some (3, 7, 3)) .nil .nil) .nil))) (.node none (.node none (.node none (.node (some (3, 0, 2)) .nil .nil) .nil) (.node none (.node none (.node (some (6, 1, 6)) .nil .nil) .nil) .nil)) (.node (some (1, 4, 0)) (.node none .nil (.node (some (4, 5, 4)) .nil .nil)) (.node none .nil (.node none (.node (some (7, 6, 8)) .nil .nil) .nil)))))))) (.node none (.node none (.node none (.node none (.node none (.node none (.node none .nil (.node none (.node (some (6, 4, 7)) .nil .nil) .nil)) (.node none (.node (some (3, 3, 3)) .nil .nil) .nil)) (.node none (.node (some (1, 7, 1)) (.node none .nil (.node (some (8, 1, 0)) .nil .nil)) .nil) (.node none .nil (.node (some (4, 8, 5)) .nil .nil)))) (.node none (.node (some (1, 0, 0)) (.node none .nil (.node (some (4, 1, 4)) .nil .nil)) (.node none .nil (.node none (.node (some (7, 2, 8)) .nil .nil) .nil))) (.node none (.node none (.node none (.node (some (5, 6, 6)) .nil .nil) .nil) .nil) (.node (some (2, 5, 2)) .nil .nil)))) (.node none (.node none (.node none (.node none (.node none (.node (some (5, 3, 1)) .nil .nil) .nil) .nil) (.node (some (2, 1, 6)) (.node none .nil (.node (some (8, 4, 5)) .nil .nil)) .nil)) (.node none (.node none .nil (.node none (.node (some (6, 8, 3)) .nil .nil) .nil)) (.node none (.node (some (3, 6, 8)) .nil .nil) .nil))) (.node none (.node none (.node none (.node (some (2, 8, 7)) .nil .nil) .nil) (.node none (.node none (.node (some (6, 1, 2)) .nil .nil) .nil) .nil)) (.node (some (1, 3, 5)) (.node none .nil (.node (some (4, 5, 0)) .nil .nil)) (.node none .nil (.node none (.node (some (7, 6, 4)) .nil .nil) .nil)))))) (.node none (.node none (.node none (.node none (.node none (.node (some (2, 7, 0)) .nil .nil) .nil) (.node none (.node none (.node (some (5, 8, 4)) .nil .nil) .nil) .nil)) (.node (some (1, 1, 7)) (.node none .nil (.node (some (4, 3, 2)) .nil .nil)) (.node none .nil (.node none (.node (some (7, 4, 6)) .nil .nil) .nil)))) (.node none (.node none (.node none .nil (.node none (.node (some (6, 6, 5)) .nil .nil) .nil)) (.node none (.node (some (3, 5, 1)) .nil .nil) .nil)) (.node none (.node (some (1, 8, 8)) (.node none .nil (.node (some (8, 2, 7)) .nil .nil)) .nil) (.node none .nil (.node (some (5, 1, 3)) .nil .nil))))) (.node none (.node none (.node none (.node (some (1, 5, 3)) (.node none .nil (.node (some (7, 8, 2)) .nil .nil)) .nil) (.node none .nil (.node (some (4, 6, 7)) .nil .nil))) (.node none (.node none (.node (some (3, 1, 5)) .nil .nil) .nil) (.node none (.node none (.node (some (6, 3, 0)) .nil .nil) .nil) .nil))) (.node none (.node none (.node none (.node none (.node (some (5, 4, 8)) .nil .nil) .nil) .nil) (.node (some (2, 3, 4)) (.node none .nil (.node (some (8, 6, 3)) .nil .nil)) .nil)) (.node none (.node none .nil (.node none (.node (some (7, 1, 1)) .nil .nil) .nil)) (.node none (.node (some (3, 8, 6)) .nil .nil) .nil)))))) (.node none (.node none (.node none (.node none (.node none (.node (some (1, 4, 4)) (.node none .nil (.node (some (7, 7, 3)) .nil .nil)) .nil) (.node none .nil (.node (some (4, 5, 8)) .nil .nil))) (.node none (.node none (.node (some (3, 0, 6)) .nil .nil) .nil) (.node none (.node none (.node (some (6, 2, 1)) .nil .nil) .nil) .nil))) (.node none (.node none (.node none (.node none (.node (some (5, 4, 0)) .nil .nil) .nil) .nil) (.node (some (2, 2, 5)) (.node none .nil (.node (some (8, 5, 4)) .nil .nil)) .nil)) (.node none (.node none .nil (.node none (.node (some (7, 0, 2)) .nil .nil) .nil)) (.node none (.node (some (3, 7, 7)) .nil .nil) .nil)))) (.node none (.node none (.node none (.node none .nil (.node none (.node (some (6, 5, 6)) .nil .nil) .nil)) (.node none (.node (some (3, 4, 2)) .nil .nil) .nil)) (.node none (.node (some (1, 8, 0)) (.node none .nil (.node (some (8, 1, 8)) .nil .nil)) .nil) (.node none .nil (.node (some (5, 0, 4)) .nil .nil)))) (.node none (.node (some (1, 0, 8)) (.node none .nil (.node (some (4, 2, 3)) .nil .nil)) (.node none .nil (.node none (.node (some (7, 3, 7)) .nil .nil) .nil))) (.node none (.node none (.node none (.node (some (5, 7, 5)) .nil .nil) .nil) .nil) (.node (some (2, 6, 1)) .nil .nil))))) (.node none (.node none (.node none (.node none (.node none .nil (.node (some (4, 0, 5)) .nil .nil)) (.node none .nil (.node none (.node (some (7, 2, 0)) .nil .nil) .nil))) (.node none (.node none (.node none (.node (some (5, 5, 7)) .nil .nil) .nil) .nil) (.node (some (2, 4, 3)) .nil .nil))) (.node none (.node none (.node (some (1, 6, 2)) (.node none .nil (.node (some (8, 0, 1)) .nil .nil)) .nil) (.node none .nil (.node (some (4, 7, 6)) .nil .nil))) (.node none (.node none (.node (some (3, 2, 4)) .nil .nil) .nil) (.node none (.node none (.node (some (6, 3, 8)) .nil .nil) .nil) .nil)))) (.node none (.node none (.node none (.node none (.node (some (2, 7, 8)) .nil .nil) .nil) (.node none (.node none (.node (some (6, 0, 3)) .nil .nil) .nil) .nil)) (.node (some (1, 2, 6)) (.node none .nil (.node (some (4, 4, 1)) .nil .nil)) (.node none .nil (.node none (.node (some (7, 5, 5)) .nil .nil) .nil)))) (.node none (.node none (.node none .nil (.node none (.node (some (6, 7, 4)) .nil .nil) .nil)) (.node none (.node (some (3, 6, 0)) .nil .nil) .nil)) (.node none (.node (some (2, 0, 7)) (.node none .nil (.node (some (8, 3, 6)) .nil .nil)) .nil) (.node none .nil (.node (some (5, 2, 2)) .nil .nil)))))))))) (.node none (.node none (.node none (.node none (.node none (.node none (.node none (.node none (.node none .nil (.node none (.node (some (6, 4, 6)) .nil .nil) .nil)) (.node none (.node (some (3, 3, 2)) .nil .nil) .nil)) (.node none (.node (some (1, 7, 0)) (.node none .nil (.node (some (8, 0, 8)) .nil .nil)) .nil) (.node none .nil (.node (some (4, 8, 4)) .nil .nil)))) (.node none (.node none (.node none .nil (.node (some (4, 1, 3)) .nil .nil)) (.node none .nil (.node none (.node (some (7, 2, 7)) .nil .nil) .nil))) (.node none (.node none (.node none (.node (some (5, 6, 5)) .nil .nil) .nil) .nil) (.node (some (2, 5, 1)) .nil .nil)))) (.node none (.node none (.node none (.node none (.node none (.node (some (5, 3, 0)) .nil .nil) .nil) .nil) (.node (some (2, 1, 5)) (.node none .nil (.node (some (8, 4, 4)) .nil .nil)) .nil)) (.node none (.node none .nil (.node none (.node (some (6, 8, 2)) .nil .nil) .nil)) (.node none (.node (some (3, 6, 7)) .nil .nil) .nil))) (.node none (.node none (.node none (.node (some (2, 8, 6)) .nil .nil) .nil) (.node none (.node none (.node (some (6, 1, 1)) .nil .nil) .nil) .nil)) (.node (some (1, 3, 4)) (.node none .nil (.node (some (4, 4, 8)) .nil .nil)) (.node none .nil (.node none (.node (some (7, 6, 3)) .nil .nil) .nil)))))) (.node none (.node none (.node none (.node none (.node none (.node (some (2, 6, 8)) .nil .nil) .nil) (.node none (.node none (.node (some (5, 8, 3)) .nil .nil) .nil) .nil)) (.node (some (1, 1, 6)) (.node none .nil (.node (some (4, 3, 1)) .nil .nil)) (.node none .nil (.node none (.node (some (7, 4, 5)) .nil .nil) .nil)))) (.node none (.node none (.node none .nil (.node none (.node (some (6, 6, 4)) .nil .nil) .nil)) (.node none (.node (some (3, 5, 0)) .nil .nil) .nil)) (.node none (.node (some (1, 8, 7)) (.node none .nil (.node (some (8, 2, 6)) .nil .nil)) .nil) (.node none .nil (.node (some (5, 1, 2)) .nil .nil))))) (.node none (.node none (.node none (.node (some (1, 5, 2)) (.node none .nil (.node (some (7, 8, 1)) .nil .nil)) .nil) (.node none .nil (.node (some (4, 6, 6)) .nil .nil))) (.node none (.node none (.node (some (3, 1, 4)) .nil .nil) .nil) (.node none (.node none (.node (some (6, 2, 8)) .nil .nil) .nil) .nil))) (.node none (.node none (.node none (.node none (.node (some (5, 4, 7)) .nil .nil) .nil) .nil) (.node (some (2, 3, 3)) (.node none .nil (.node (some (8, 6, 2)) .nil .nil)) .nil)) (.node none (.node none .nil (.node none (.node (some (7, 1, 0)) .nil .nil) .nil)) (.node none (.node (some (3, 8, 5)) .nil .nil) .nil)))))) (.node none (.node none (.node none (.node none (.node none (.node (some (1, 4, 3)) (.node none .nil (.node (some (7, 7, 2)) .nil .nil)) .nil) (.node none .nil (.node (some (4, 5, 7)) .nil .nil))) (.node none (.node none (.node (some (3, 0, 5)) .nil .nil) .nil) (.node none (.node none (.node (some (6, 2, 0)) .nil .nil) .nil) .nil))) (.node none (.node none (.node none (.node none (.node (some (5, 3, 8)) .nil .nil) .nil) .nil) (.node (some (2, 2, 4)) (.node none .nil (.node (some (8, 5, 3)) .nil .nil)) .nil)) (.node none (.node none .nil (.node none (.node (some (7, 0, 1)) .nil .nil) .nil)) (.node none (.node (some (3, 7, 6)) .nil .nil) .nil)))) (.node none (.node none (.node none (.node none .nil (.node none (.node (some (6, 5, 5)) .nil .nil) .nil)) (.node none (.node (some (3, 4, 1)) .nil .nil) .nil)) (.node none (.node (some (1, 7, 8)) (.node none .nil (.node (some (8, 1, 7)) .nil .nil)) .nil) (.node none .nil (.node (some (5, 0, 3)) .nil .nil)))) (.node none (.node (some (1, 0, 7)) (.node none .nil (.node (some (4, 2, 2)) .nil .nil)) (.node none .nil (.node none (.node (some (7, 3, 6)) .nil .nil) .nil))) (.node none (.node none (.node none (.node (some (5, 7, 4)) .nil .nil) .nil) .nil) (.node (some (2, 6, 0)) .nil .nil))))) (.node none (.node none (.node none (.node none (.node none .nil (.node (some (4, 0, 4)) .nil .nil)) (.node none .nil (.node none (.node (some (7, 1, 8)) .nil .nil) .nil))) (.node none (.node none (.node none (.node (some (5, 5, 6)) .nil .nil) .nil) .nil) (.node (some (2, 4, 2)) .nil .nil))) (.node none (.node none (.node (some (1, 6, 1)) (.node none .nil (.node (some (8, 0, 0)) .nil .nil)) .nil) (.node none .nil (.node (some (4, 7, 5)) .nil .nil))) (.node none (.node none (.node (some (3, 2, 3)) .nil .nil) .nil) (.node none (.node none (.node (some (6, 3, 7)) .nil .nil) .nil) .nil)))) (.node none (.node none (.node none (.node none (.node (some (2, 7, 7)) .nil .nil) .nil) (.node none (.node none (.node (some (6, 0, 2)) .nil .nil) .nil) .nil)) (.node (some (1, 2, 5)) (.node none .nil (.node (some (4, 4, 0)) .nil .nil)) (.node none .nil (.node none (.node (some (7, 5, 4)) .nil .nil) .nil)))) (.node none (.node none (.node none .nil (.node none (.node (some (6, 7, 3)) .nil .nil) .nil)) (.node none (.node (some (3, 5, 8)) .nil .nil) .nil)) (.node none (.node (some (2, 0, 6)) (.node none .nil (.node (some (8, 3, 5)) .nil .nil)) .nil) (.node none .nil (.node (some (5, 2, 1)) .nil .nil)))))))) (.node none (.node none (.node none (.node none (.node none (.node none (.node none .nil (.node (some (4, 0, 0)) .nil .nil)) (.node none .nil (.node none (.node (some (7, 1, 4)) .nil .nil) .nil))) (.node none (.node none (.node none (.node (some (5, 5, 2)) .nil .nil) .nil) .nil) (.node (some (2, 3, 7)) .nil .nil))) (.node none (.node none (.node (some (1, 5, 6)) (.node none .nil (.node (some (7, 8, 5)) .nil .nil)) .nil) (.node none .nil (.node (some (4, 7, 1)) .nil .nil))) (.node none (.node none (.node (some (3, 1, 8)) .nil .nil) .nil) (.node none (.node none (.node (some (6, 3, 3)) .nil .nil) .nil) .nil)))) (.node none (.node none (.node none (.node none (.node (some (2, 7, 3)) .nil .nil) .nil) (.node none (.node none (.node (some (5, 8, 7)) .nil .nil) .nil) .nil)) (.node (some (1, 2, 1)) (.node none .nil (.node (some (4, 3, 5)) .nil .nil)) (.node none .nil (.node none (.node (some (7, 5, 0)) .nil .nil) .nil)))) (.node none (.node none (.node none .nil (.node none (.node (some (6, 6, 8)) .nil .nil) .nil)) (.node none (.node (some (3, 5, 4)) .nil .nil) .nil)) (.node none (.node (some (2, 0, 2)) (.node none .nil (.node (some (8, 3, 1)) .nil .nil)) .nil) (.node none .nil (.node (some (5, 1, 6)) .nil .nil)))))) (.node none (.node none (.node none (.node none (.node none .nil (.node none (.node (some (6, 5, 1)) .nil .nil) .nil)) (.node none (.node (some (3, 3, 6)) .nil .nil) .nil)) (.node none (.node (some (1, 7, 4)) (.node none .nil (.node (some (8, 1, 3)) .nil .nil)) .nil) (.node none .nil (.node (some (4, 8, 8)) .nil .nil)))) (.node none (.node (some (1, 0, 3)) (.node none .nil (.node (some (4, 1, 7)) .nil .nil)) (.node none .nil (.node none (.node (some (7, 3, 2)) .nil .nil) .nil))) (.node none (.node none (.node none (.node (some (5, 7, 0)) .nil .nil) .nil) .nil) (.node (some (2, 5, 5)) .nil .nil)))) (.node none (.node none (.node none (.node none (.node none (.node (some (5, 3, 4)) .nil .nil) .nil) .nil) (.node (some (2, 2, 0)) (.node none .nil (.node (some (8, 4, 8)) .nil .nil)) .nil)) (.node none (.node none .nil (.node none (.node (some (6, 8, 6)) .nil .nil) .nil)) (.node none (.node (some (3, 7, 2)) .nil .nil) .nil))) (.node none (.node none (.node none (.node (some (3, 0, 1)) .nil .nil) .nil) (.node none (.node none (.node (some (6, 1, 5)) .nil .nil) .nil) .nil)) (.node (some (1, 3, 8)) (.node none .nil (.node (some (4, 5, 3)) .nil .nil)) (.node none .nil (.node none (.node (some (7, 6, 7)) .nil .nil) .nil))))))) (.node none (.node none (.node none (.node none (.node none (.node none (.node none (.node (some (5, 2, 5)) .nil .nil) .nil) .nil) (.node (some (2, 1, 1)) (.node none .nil (.node (some (8, 4, 0)) .nil .nil)) .nil)) (.node none (.node none .nil (.node none (.node (some (6, 7, 7)) .nil .nil) .nil)) (.node none (.node (some (3, 6, 3)) .nil .nil) .nil))) (.node none (.node none (.node none (.node (some (2, 8, 2)) .nil .nil) .nil) (.node none (.node none (.node (some (6, 0, 6)) .nil .nil) .nil) .nil)) (.node (some (1, 3, 0)) (.node none .nil (.node (some (4, 4, 4)) .nil .nil)) (.node none .nil (.node none (.node (some (7, 5, 8)) .nil .nil) .nil))))) (.node none (.node none (.node none (.node none .nil (.node (some (4, 0, 8)) .nil .nil)) (.node none .nil (.node none (.node (some (7, 2, 3)) .nil .nil) .nil))) (.node none (.node none (.node none (.node (some (5, 6, 1)) .nil .nil) .nil) .nil) (.node (some (2, 4, 6)) .nil .nil))) (.node none (.node none (.node (some (1, 6, 5)) (.node none .nil (.node (some (8, 0, 4)) .nil .nil)) .nil) (.node none .nil (.node (some (4, 8, 0)) .nil .nil))) (.node none (.node none (.node (some (3, 2, 7)) .nil .nil) .nil) (.node none (.node none (.node (some (6, 4, 2)) .nil .nil) .nil) .nil))))) (.node none (.node none (.node none (.node none (.node (some (1, 4, 7)) (.node none .nil (.node (some (7, 7, 6)) .nil .nil)) .nil) (.node none .nil (.node (some (4, 6, 2)) .nil .nil))) (.node none (.node none (.node (some (3, 1, 0)) .nil .nil) .nil) (.node none (.node none (.node (some (6, 2, 4)) .nil .nil) .nil) .nil))) (.node none (.node none (.node none (.node none (.node (some (5, 4, 3)) .nil .nil) .nil) .nil) (.node (some (2, 2, 8)) (.node none .nil (.node (some (8, 5, 7)) .nil .nil)) .nil)) (.node none (.node none .nil (.node none (.node (some (7, 0, 5)) .nil .nil) .nil)) (.node none (.node (some (3, 8, 1)) .nil .nil) .nil)))) (.node none (.node none (.node none (.node none .nil (.node none (.node (some (6, 6, 0)) .nil .nil) .nil)) (.node none (.node (some (3, 4, 5)) .nil .nil) .nil)) (.node none (.node (some (1, 8, 3)) (.node none .nil (.node (some (8, 2, 2)) .nil .nil)) .nil) (.node none .nil (.node (some (5, 0, 7)) .nil .nil)))) (.node none (.node (some (1, 1, 2)) (.node none .nil (.node (some (4, 2, 6)) .nil .nil)) (.node none .nil (.node none (.node (some (7, 4, 1)) .nil .nil) .nil))) (.node none (.node none (.node none (.node (some (5, 7, 8)) .nil .nil) .nil) .nil) (.node (some (2, 6, 4)) .nil .nil)))))))) (.node none (.node none (.node none (.node none (.node none (.node none (.node none (.node none (.node none (.node (some (5, 2, 3)) .nil .nil) .nil) .nil) (.node (some (2, 0, 8)) (.node none .nil (.node (some (8, 3, 7)) .nil .nil)) .nil)) (.node none (.node none .nil (.node none (.node (some (6, 7, 5)) .nil .nil) .nil)) (.node none (.node (some (3, 6, 1)) .nil .nil) .nil))) (.node none (.node none (.node none (.node (some (2, 8, 0)) .nil .nil) .nil) (.node none (.node none (.node (some (6, 0, 4)) .nil .nil) .nil) .nil)) (.node (some (1, 2, 7)) (.node none .nil (.node (some (4, 4, 2)) .nil .nil)) (.node none .nil (.node none (.node (some (7, 5, 6)) .nil .nil) .nil))))) (.node none (.node none (.node none (.node none .nil (.node (some (4, 0, 6)) .nil .nil)) (.node none .nil (.node none (.node (some (7, 2, 1)) .nil .nil) .nil))) (.node none (.node none (.node none (.node (some (5, 5, 8)) .nil .nil) .nil) .nil) (.node (some (2, 4, 4)) .nil .nil))) (.node none (.node none (.node (some (1, 6, 3)) (.node none .nil (.node (some (8, 0, 2)) .nil .nil)) .nil) (.node none .nil (.node (some (4, 7, 7)) .nil .nil))) (.node none (.node none (.node (some (3, 2, 5)) .nil .nil) .nil) (.node none (.node none (.node (some (6, 4, 0)) .nil .nil) .nil) .nil))))) (.node none (.node none (.node none (.node none (.node (some (1, 4, 5)) (.node none .nil (.node (some (7, 7, 4)) .nil .nil)) .nil) (.node none .nil (.node (some (4, 6, 0)) .nil .nil))) (.node none (.node none (.node (some (3, 0, 7)) .nil .nil) .nil) (.node none (.node none (.node (some (6, 2, 2)) .nil .nil) .nil) .nil))) (.node none (.node none (.node none (.node none (.node (some (5, 4, 1)) .nil .nil) .nil) .nil) (.node (some (2, 2, 6)) (.node none .nil (.node (some (8, 5, 5)) .nil .nil)) .nil)) (.node none (.node none .nil (.node none (.node (some (7, 0, 3)) .nil .nil) .nil)) (.node none (.node (some (3, 7, 8)) .nil .nil) .nil)))) (.node none (.node none (.node none (.node none .nil (.node none (.node (some (6, 5, 7)) .nil .nil) .nil)) (.node none (.node (some (3, 4, 3)) .nil .nil) .nil)) (.node none (.node (some (1, 8, 1)) (.node none .nil (.node (some (8, 2, 0)) .nil .nil)) .nil) (.node none .nil (.node (some (5, 0, 5)) .nil .nil)))) (.node none (.node (some (1, 1, 0)) (.node none .nil (.node (some (4, 2, 4)) .nil .nil)) (.node none .nil (.node none (.node (some (7, 3, 8)) .nil .nil) .nil))) (.node none (.node none (.node none (.node (some (5, 7, 6)) .nil .nil) .nil) .nil) (.node (some (2, 6, 2)) .nil .nil)))))) (.node none (.node none (.node none (.node none (.node none (.node none .nil (.node none (.node (some (6, 4, 8)) .nil .nil) .nil)) (.node none (.node (some (3, 3, 4)) .nil .nil) .nil)) (.node none (.node (some (1, 7, 2)) (.node none .nil (.node (some (8, 1, 1)) .nil .nil)) .nil) (.node none .nil (.node (some (4, 8, 6)) .nil .nil)))) (.node none (.node (some (1, 0, 1)) (.node none .nil (.node (some (4, 1, 5)) .nil .nil)) (.node none .nil (.node none (.node (some (7, 3, 0)) .nil .nil) .nil))) (.node none (.node none (.node none (.node (some (5, 6, 7)) .nil .nil) .nil) .nil) (.node (some (2, 5, 3)) .nil .nil)))) (.node none (.node none (.node none (.node none (.node none (.node (some (5, 3, 2)) .nil .nil) .nil) .nil) (.node (some (2, 1, 7)) (.node none .nil (.node (some (8, 4, 6)) .nil .nil)) .nil)) (.node none (.node none .nil (.node none (.node (some (6, 8, 4)) .nil .nil) .nil)) (.node none (.node (some (3, 7, 0)) .nil .nil) .nil))) (.node none (.node none (.node none (.node (some (2, 8, 8)) .nil .nil) .nil) (.node none (.node none (.node (some (6, 1, 3)) .nil .nil) .nil) .nil)) (.node (some (1, 3, 6)) (.node none .nil (.node (some (4, 5, 1)) .nil .nil)) (.node none .nil (.node none (.node (some (7, 6, 5)) .nil .nil) .nil)))))) (.node none (.node none (.node none (.node none (.node none (.node (some (2, 7, 1)) .nil .nil) .nil) (.node none (.node none (.node (some (5, 8, 5)) .nil .nil) .nil) .nil)) (.node (some (1, 1, 8)) (.node none .nil (.node (some (4, 3, 3)) .nil .nil)) (.node none .nil (.node none (.node (some (7, 4, 7)) .nil .nil) .nil)))) (.node none (.node none (.node none .nil (.node none (.node (some (6, 6, 6)) .nil .nil) .nil)) (.node none (.node (some (3, 5, 2)) .nil .nil) .nil)) (.node none (.node (some (2, 0, 0)) (.node none .nil (.node (some (8, 2, 8)) .nil .nil)) .nil) (.node none .nil (.node (some (5, 1, 4)) .nil .nil))))) (.node none (.node none (.node none (.node (some (1, 5, 4)) (.node none .nil (.node (some (7, 8, 3)) .nil .nil)) .nil) (.node none .nil (.node (some (4, 6, 8)) .nil .nil))) (.node none (.node none (.node (some (3, 1, 6)) .nil .nil) .nil) (.node none (.node none (.node (some (6, 3, 1)) .nil .nil) .nil) .nil))) (.node none (.node none (.node none (.node none (.node (some (5, 5, 0)) .nil .nil) .nil) .nil) (.node (some (2, 3, 5)) .nil .nil)) (.node none (.node none .nil (.node none (.node (some (7, 1, 2)) .nil .nil) .nil)) (.node none (.node (some (3, 8, 7)) .nil .nil) .nil))))))) (.node none (.node none (.node none (.node none (.node none (.node none (.node none (.node (some (2, 6, 6)) .nil .nil) .nil) (.node none (.node none (.node (some (5, 8, 1)) .nil .nil) .nil) .nil)) (.node (some (1, 1, 4)) (.node none .nil (.node (some (4, 2, 8)) .nil .nil)) (.node none .nil (.node none (.node (some (7, 4, 3)) .nil .nil) .nil)))) (.node none (.node none (.node none .nil (.node none (.node (some (6, 6, 2)) .nil .nil) .nil)) (.node none (.node (some (3, 4, 7)) .nil .nil) .nil)) (.node none (.node (some (1, 8, 5)) (.node none .nil (.node (some (8, 2, 4)) .nil .nil)) .nil) (.node none .nil (.node (some (5, 1, 0)) .nil .nil))))) (.node none (.node none (.node none (.node (some (1, 5, 0)) (.node none .nil (.node (some (7, 7, 8)) .nil .nil)) .nil) (.node none .nil (.node (some (4, 6, 4)) .nil .nil))) (.node none (.node none (.node (some (3, 1, 2)) .nil .nil) .nil) (.node none (.node none (.node (some (6, 2, 6)) .nil .nil) .nil) .nil))) (.node none (.node none (.node none (.node none (.node (some (5, 4, 5)) .nil .nil) .nil) .nil) (.node (some (2, 3, 1)) (.node none .nil (.node (some (8, 6, 0)) .nil .nil)) .nil)) (.node none (.node none .nil (.node none (.node (some (7, 0, 7)) .nil .nil) .nil)) (.node none (.node (some (3, 8, 3)) .nil .nil) .nil))))) (.node none (.node none (.node none (.node none (.node none (.node none (.node (some (5, 2, 7)) .nil .nil) .nil) .nil) (.node (some (2, 1, 3)) (.node none .nil (.node (some (8, 4, 2)) .nil .nil)) .nil)) (.node none (.node none .nil (.node none (.node (some (6, 8, 0)) .nil .nil) .nil)) (.node none (.node (some (3, 6, 5)) .nil .nil) .nil))) (.node none (.node none (.node none (.node (some (2, 8, 4)) .nil .nil) .nil) (.node none (.node none (.node (some (6, 0, 8)) .nil .nil) .nil) .nil)) (.node (some (1, 3, 2)) (.node none .nil (.node (some (4, 4, 6)) .nil .nil)) (.node none .nil (.node none (.node (some (7, 6, 1)) .nil .nil) .nil))))) (.node none (.node none (.node none (.node none .nil (.node (some (4, 1, 1)) .nil .nil)) (.node none .nil (.node none (.node (some (7, 2, 5)) .nil .nil) .nil))) (.node none (.node none (.node none (.node (some (5, 6, 3)) .nil .nil) .nil) .nil) (.node (some (2, 4, 8)) .nil .nil))) (.node none (.node none (.node (some (1, 6, 7)) (.node none .nil (.node (some (8, 0, 6)) .nil .nil)) .nil) (.node none .nil (.node (some (4, 8, 2)) .nil .nil))) (.node none (.node none (.node (some (3, 3, 0)) .nil .nil) .nil) (.node none (.node none (.node (some (6, 4, 4)) .nil .nil) .nil) .nil)))))) (.node none (.node none (.node none (.node none (.node none (.node none .nil (.node (some (4, 0, 2)) .nil .nil)) (.node none .nil (.node none (.node (some (7, 1, 6)) .nil .nil) .nil))) (.node none (.node none (.node none (.node (some (5, 5, 4)) .nil .nil) .nil) .nil) (.node (some (2, 4, 0)) .nil .nil))) (.node none (.node none (.node (some (1, 5, 8)) (.node none .nil (.node (some (7, 8, 7)) .nil .nil)) .nil) (.node none .nil (.node (some (4, 7, 3)) .nil .nil))) (.node none (.node none (.node (some (3, 2, 1)) .nil .nil) .nil) (.node none (.node none (.node (some (6, 3, 5)) .nil .nil) .nil) .nil)))) (.node none (.node none (.node none (.node none (.node (some (2, 7, 5)) .nil .nil) .nil) (.node none (.node none (.node (some (6, 0, 0)) .nil .nil) .nil) .nil)) (.node (some (1, 2, 3)) (.node none .nil (.node (some (4, 3, 7)) .nil .nil)) (.node none .nil (.node none (.node (some (7, 5, 2)) .nil .nil) .nil)))) (.node none (.node none (.node none .nil (.node none (.node (some (6, 7, 1)) .nil .nil) .nil)) (.node none (.node (some (3, 5, 6)) .nil .nil) .nil)) (.node none (.node (some (2, 0, 4)) (.node none .nil (.node (some (8, 3, 3)) .nil .nil)) .nil) (.node none .nil (.node (some (5, 1, 8)) .nil .nil)))))) (.node none (.node none (.node none (.node none (.node none .nil (.node none (.node (some (6, 5, 3)) .nil .nil) .nil)) (.node none (.node (some (3, 3, 8)) .nil .nil) .nil)) (.node none (.node (some (1, 7, 6)) (.node none .nil (.node (some (8, 1, 5)) .nil .nil)) .nil) (.node none .nil (.node (some (5, 0, 1)) .nil .nil)))) (.node none (.node (some (1, 0, 5)) (.node none .nil (.node (some (4, 2, 0)) .nil .nil)) (.node none .nil (.node none (.node (some (7, 3, 4)) .nil .nil) .nil))) (.node none (.node none (.node none (.node (some (5, 7, 2)) .nil .nil) .nil) .nil) (.node (some (2, 5, 7)) .nil .nil)))) (.node none (.node none (.node none (.node none (.node none (.node (some (5, 3, 6)) .nil .nil) .nil) .nil) (.node (some (2, 2, 2)) (.node none .nil (.node (some (8, 5, 1)) .nil .nil)) .nil)) (.node none (.node none .nil (.node none (.node (some (6, 8, 8)) .nil .nil) .nil)) (.node none (.node (some (3, 7, 4)) .nil .nil) .nil))) (.node none (.node none (.node none (.node (some (3, 0, 3)) .nil .nil) .nil) (.node none (.node none (.node (some (6, 1, 7)) .nil .nil) .nil) .nil)) (.node (some (1, 4, 1)) (.node none .nil (.node (some (4, 5, 5)) .nil .nil)) (.node none .nil (.node none (.node (some (7, 7, 0)) .nil .nil) .nil)))))))))))
  rows := 729
  cols := 324
  nextId := 3450

/-- The fully constructed `sudokuDLX` state (equality proved in `sudokuDLX_eq` via the six checkpoints). -/
def sudokuS6 : DLX (Nat × Nat × Nat) where
  up := 16105894486215658221307742796470094967018762600561861977290751733713955097349193392778603853154659661341070006760987936226838326674739713318640469989661901451304862290268806317496976833248421324341543289379115584473665597024347941491556852453086415169796147388827961052406347450756166987847807251787813251083230233360555090744329008434816744714580863145972134452819294804841928316632521419733547311196703912752653679565396756296589092028922976420128942573671057027142510980350850906882247301225701663472253847062812715211644522612103849838207004545563520805542921588578434646476346469070158565313822839898412685637705369613585658178643836727797204308433305022561511031692839363781339015220823027733624561171693842112402249359248917696642296899925649154857237497787463793405704308500307591511941671481101026151884712521856650115630784542498613972539715036617846587580656463696518905991599348122559449751188659576468634237726334544074260094671385806960632058816687819918750758494787967456123474406274104106974983728297995539675131272246790275089150642008289310120740961759996993636596109157368505376485287255570261813975534633149695324031963728869423818411288219183881712960076863132702927108844409861360392257425863720565486481482820282348234629936428573907829664339488525472707820341659530596234364681099374276835957779221383212443907754060719207869130155706830491602398027996533617492012624518672408278595961376855201762096135742007459701262706930663920856258133645581758465971944391436339310618519386747345877008070045261985149024308155535137442970039471622025062408103780198037979889796771565630292896331577287816955210628702494704955453781915303821965539023798578442976855851579342657474444868792663104907056155887031672091606293152324992298838792786772471135741498283294487382802139960550205797448464735409923694280912898585899448085362782316972506013831088523882055860691136031278066389855217468339812646064164650808089513904510070383408844270585785773097926423673883183057238979235612224556554114305618021851973806759674895305032272173277317489672276903749488859187116731357471667143732857196622173943092498178219919753327390449117340080319866589714020695116991618418281597347060284074189757216643147187173947869383280178346439907523720575173949018390394967738367188386442455821732550254368465693688334309502343862906338950317050982849388242212696428738731996751174031225664973826567907189877241152805171255640651235794758099778852320655794720808738540366068031087546623389530071908874538353247226796662261711770070128552739002812488452360413945952699521309461364346297314495554725416644986390744114631906350408858199323041495800526843538943484904197563831626410306302268938645177488600205730058794246090405120716425952653546090684323149446536929014509281757380593699581295524597690538094181058503818288002346984709600413697083442707478550578047841822394257740406914811405173369814339573539329528437166563602995332942403852058626672532399412698830799603127255837313307404236427881856460391787088341897963322169281351417822908711005054448776147167723506434643088960308828686565293237559709883823562057917683823418642512395321604847165203845519670682354044999929186766106125415041273585044151053126878682926716918092473346649068428701633419327669176850749905028790421982102903252891841343711831027739708249912380889072187400085766111111438868029750370058544240687353806580114448844131024393896868849595427894831216080372640133871687515812868284978496092815996224483295132863376345243069756530689804722424666124953747062112156563725345757746761689452161563412978050755627274706834191074334845211798272649459331871171339580288267245169711537134816390948911584268624070266434203433621320514293025083480764296894167259190509710529020331454586785505524401556979668453546525776334941882587036424677354666197944893277400265872853735860783572211589413170307433979390914973113269229488838666844154868371844996060667793986374434599489814378317266582468589272287475773116678043165416200831844430812879425238541449312471491570887283332952596162301616565884962938657753598474298735083271453470259902107347513792111793501945394520604426095369739387436783980976266212488538970842070444293488392420708571745160287259691454974366917215284240359075354369472005027047990148652448388569843866119889515848651891567679142325048191950912163410922872439949257802303588199800948277953032947355063450425586747298645442829807210005568295283739325009606508125853795258426644287611142969913975799048868200220342985565237523804894404810398752866065038866390831860776981098288733439000830300200732112996874534160326106931117933522287096353949837275312505038450804822689291668108022387513915703560558179492850670305936239239611954681598277408148608583745741961647634992714199537586610948295663606896043855107686752885973394376323540090802868204934058579429287937756882588725008489493543841293039002737443194780036822929217213235938202735388737175973837460778269493135528192987635766647129210158317128106741391796577376797264420287729102311662650219297499331742461824624200285077317519850538050109161392572734088376720450533680625710455095386643828744250393463133388944589601903858038968485140432407788939231491021500637539739582746741274456005509177225340097844707417495931910460375806387597655824469342239873342599668261268569337449332230511270659213204422976684104534373331283310322300643343175807563950640564433552668364397357957554449802703605378543846864699802052760273084095975949646703864739119716392358996756469319863185055732954092238316071363458135502494547294257004739564582215462034327750761822473365635577029382442792764100634865938459142894607149611234153361398499397145584181737376724029667718354192536288163248065026240067422228779170424950350969681203712583559531669270640501007935909350764151286025653092536524553738751942115880445182469527428004770887632904547492822034815930570330665678471191609500814614224551470854140210745135142575709057165414411031180521639380236516331871427576735991606665134888510146770267176839734912045005125576509690709168883220047529548981183953526357764664884599648132183228350664881169910756521444545466876683508301492378204347240550778822859361958925889059571436695636749822063515327363719152912262425564649204109454519290356923773632450810240728862912877991331465728265877415919828049938612525813024402353465187999345926656158522137525971186146117999590346322711448737065919991051904655422925632448663004393910183436114447327879673065013953757155320349287386727601619132237344142300209606292334652014108481856414233900158687751795566777487386068443333535802810895938592610073193275850647048721602206047537827460361254758707855929546819063763817112760189638907850411416182713365180722933584176002086853454781591039578913195054747673505612261425260416664852591284573550240138638053796279639117855212871138584040254432026942783245007207091265222729856820125808426011548838531450681211587611585888553190677750380056354806568235655531165241978740311456814090964661197210936778134863904011772322057545635385792980801750979972198635337654666653172420019088616958819996891102364700087007586706619719075778902594648279994202051604630679929261923676634651699538461239057366369218586355846475809964136395811029227226821860848789009318274706181580937812472546951842629508239222739128342696257385074779698101196366330597776659748635751054745742385594619152882282031813716675247218866064786708264489359172465364814411296967327266592524500635054867214290154675158333897176852906647114835419774299020533810265975545299172218361205290047481437942865422362745568314085093049206211035518045958485799045746845611560179496506671744288355761655528612614256226256605987723066865716839926223535882343641477150884499627329474021943788638138478818538792439792980301305735567420404821342987184629997642112842141432939760484475671538824931073317472256628962440738117199546643926586860030654976255023411437969571774726886286073690432335070614865248868085141323271278432307173726607858555022351284993460433474865794587261354068678570566840139440714988209531890021240805299552100255974962810731555235555550938370398103284190544265102065386953221422611979499285761036040028937300642679401243072036557988769500226655378371256629735356645040856825802072151493473181160174696114758561934268160965976460424664477224986700134520838124552533947048007703600631220780175829178329872573207282928515332241970671190144961361754050341918901690330953069026852141172564128283478584395350943224498796478689880143795519358022998391934228622693089130518889737511241669272549960713643975538843089281132224379708976210390650365771945744499817648777006130912902578665829475551175337495985670765287115509929597419266962387018612482437941447000444356841279986593561214938489199757168081683686259308577954983754490865805500679461827691461039934438955675897443815808446711589324750387425335870247511504794236277850887058883398815110398002480312855582438235995151249195361442276701588456045061481691034055153092020089426395676129237051375193609702866994644237167738728325410413670258936451230281924558968922364314167652277808089609397169059856553329046126996015889766530697088066313000850175565704974194531951123652483500531875200159493301779416410409732126486463165350561520352821138595027480756035930527163278108388429207489954820543800581186147416928700031216916409316480851036884252304026506324228336450155273546793169172289808629156414091462456940838169682651655930178354448592608260773768497532129852479935839388106442487270509884419646497808356774630450373543350901975685795594743704607291959361989430640558839621699926357789021922391112720737508655025264358281626736715840800656688371857585621541894702572435418182110272722160865541245785738842576343327495166394519755521525674679681864428232492370242556645319618729689467903190147040268368330943610931325852253001879733100756618896138566373880414108329214318010743776808429205206224993388224448252981313376026872661292160593966718261940907304869451607363182752931644362013035875619260154552274217951912171378320468089053915055518903905146447620682300632374101501296054973479352213187236954007538878809824887060898795012349624370700165786769703864863861779779136464420681059066688120681752657622684676004874994516286605828681100019354789731252396382401753050522365803318007012762584549978615563999033901061545195632347349387545191850667775708644482378779170467778454870626368310664081311787832832350838559413043891114472156645201302514192378725315423620118440872631107081679112169253683567861023674415633133290836863946301735931801776598598563269238417709767082679985206454043190968558106295589809579523334851724176707735436980686088953899114954020170469805878414173229589936945727622979981103634480942058511271834588273772616838489153456808643402560239341348096686238406617556675171234873717801020202937380072005401713630156474919135965504497112786175132946229334132799020195207706009060171996033586443206179028501799464008367568363342988411255879292226696400524314134804902560942118637218206288363574349262705017097106857657265266273848799071059279514468002208618765508944206433785903698334625817147044346375798594684590734149622586616824058690494128826375804464822169264359902862281891897627907154240389940596388996431933378390014599280010568017165317053801903869266777416878673667963337143919174726367033892590579870815044485518187184859053002979906539060910225815311600361939060193919637618086075892706624690140641623005894753980916477754194407629201500723170228398198853205128744138795766544126250395621896380160369136221550756434109199552436721636629168199695941426549301934738307883668763707177632832521394573035952596570695414233930404394179545387035087282093932524871681382609480882194184460564865527875992144518825463840272599210108763607401432286781206035775997820699441121637758098306813511930935752992392422394640304925818286843970080808641997157147696018648129490553504773851483632947826403679545725883502232628206436826437604539949990722643942889742259413532269437393685640717000564787000397217573107676747051023696856989644196391350425328754876008268629818212886590906774214983001518087397356814866492572839346241177316770057524811111007963564874594037026414505801700517987433908016944660264878798123361247348671414371368702215486446519114291633275649957124707899884913131135754905840195567443532270384281556887368798329745749517358765178599021942928877770673109094923779271574862181635851494267168438473887495050457001871187992121803364529334828827438457326006277727225250450271649125138155572463387038312026478746262654402567899511229227775889084290491959424398954426116140984703681328051659089564775953094654049138281138626122296312850028287891365128412010052555876002975190413267011049169090540779363884614561405591499243358444078612430598923015273687305078256292502583296900154669088156442403219707793443210113761369192152642945588534968732789336998150444057569755794676754752608923495447138388862625632367281248278397083048483912803034803060869536825078850168212002111941510623335816556036410568404614448076824556302814142511375326333466419371809229827985069948984140728381892388781597895576709315091516385129165731446066547680497393215534746924985369151181681790392013106641519817040282442779008748148949242288494572157259674836083616467555025758904726661609477187939021776721152475881593933694016097865972494717499150281426155243281287147301187893295531812329480569611828032302756280238308466468691385420864263444720446807651947277457858226794978772171267503390357219116966026928814390318809089816949211396770971978998045971610964810486299201537854761286023945768322814773824687091202842408272210647453288298798490663562701293464237241247329744173378265860420926584338040021308890495373594377965733469470491998613284987012956058113346833361003817717799179821993639276407676564847863329972514285780530889352437830121369691921676972838900795970260210143469409367562136586526351684013344376129088978277306455196808675847116825343039636913552020996453161710130068621797182103100985147287529218915597496049875052142099045717522402359830197027972116665590383720555501013746455516648425678910291435909700747797655898195354297545425440705134900972875349284767406463039283991111690606056647168373093603051778490910628785512681612511153445453870399766551717221867506392679354052963962340917552851256007796299941094609564689246213756417424129956835575745811334650460695440212937919954987115097554500443348392725692485571142323596662250730182195135172083210289744156512716129299561969334998123437519594898479901637747571280824102472551791978636377729189469190755796538682772792798657157222107747064031557003809275398724975620524777560985328247164885727894617096794431248055118919677618374267803783203178316909538910565048968742780079745814204465327192243938609039544901170227293672156554293140867598730880939504086568310449604438492165657124445211955488143805299139356899709148753679616222207199548970177319845576650567179311694787951619915129064056365684630929575920123854830632789889171680999220391578656892873144798999012133662466697906576770999029104555049403663230596884451496877491904974371391368208635713250922753537770259196108834705050585949279501861048065158422651173209634760175961760095147520764735570742714944768792851741223156590406989761441342016599982489998352210575111254560583630259755590374708044873173138951428842292637584422912312322500760914454814329010849987325368434655705691143890762588213142850788641524243180862612333725166546755044930331576619176536771722291270471282615701105571137140652446720739175720565272231989528052395523475564858440489819274677662362203620039760916766986011477687268998709504659128615723313615999334046466590954880920804971112305758042046095116233932504594549632973342861955679974526206581236504953517561021341798445589961363292718055606739998497626701494750906616695193810947934827235062263535438041106226811791452964916529300516114563107623422858463681010462221190989544846027732763599308598498596069120867923695522592723996603271819256619023115253721555794494283158827116806952713496804750745359256135047168991844789555283326025969635987129201159364620652448254337709558308882554153617217940758534731304994630311460107461416526286676399141668357856696435120756519169224743674740569661819803661296383616842307716506753838898348194689652862111680023663047480618409233364130929278322091561978456441654049437174465043587088752077133090732309118621006870780086444675287321367479266929879362285882763804300183137304701092210858691110044647955393247322223350912103693386274151035855374640238112420159565780141759864514897804337537597478731430872347665262506595424376841513728243595242194649171355793456130740260942682645085152138940245046800016526382265656573217526956173130700140198787950885944500014452440754299266441104712205606149244850904875359200919979632666374235029440664242367223599524155434130648834521638170528497186626856623874282615005869343119494030040911289812437708391128500561750280586493940654333833748073225037250101922591271749486260463858565400372308943689622506470338506234842469958746515447837039059344715225686281820222555406855482010007400467986048665122809760868038032427007054681549037804494509571763417381815095236319962833439480785167450321803373507853235531375392693931589597363833828582824436142597609552724516690895613643664400186632857243383766673072749961882672750809654481809829941870118440918789037294962328114512263675211117608284421191909372777233372004122906339659985837230708773117873100726366969934471363733430250894447089598869618687909379736852623899303875951182764900740397950334340829328846888180246739758652914355783838617615092745062301753975436263149093781474952341968084320109730946619707356005820291266191444915463125933034071519114690590229317357934248522667974505964581547031267171110727833170495518426209685431931112849958453122489905945869787008023893686484573637714078475818478866915904170276721960342068498428132497975400406050584264315862018827683531382472878508985404645555747102207946181280221255335698323560431481538409369228195235946201273053599536042735239378816573426542717992868290628251868354414644119514177496271452796354264497643264635016126925943552930878289384425099710963665964809092619989916540722581840054956170962159731457024700985246307733203655974890245724133370728964715044129980628495779960108786278734254316730222606024626919591664003150191956968662018738325345584499121090094521953947846921446789216130083588365655262230701403278342765095926200360161009111868956737051935915346465538377285009911176166320294833470039575243054964374619775100563710760756419598869500458223940023277132126998513248159905579224876402339426538946731863737004971257831295692138660464271652064777526676546465411512815984117979612896630864771774328257587013201864744887701790185168657675714229464366529213201069289140170494687511695519923513172593659904018976181241131345955678749924824510677927447513231523829781316039830920342751555408073861658556788080150478960567634190830233905064427719774562486988988196633180728650187261904627509156201187573217165385292783014517956827549565
  down := 1316420466829532155306221399176872348996031226512095383460153944689210059164715920788401633471094034020277371432194423779268457357522794873047035345471958592466603803182513179105015946639596074262862962994058131833255394218826042354956088362139950398499075445756184131642083422986650827675434543798584000811409501879554343633760556201356119364745073739368543028928098282916316401098950470663740726893141355810234150446285088862571938243616877961562871097667876856826485748710402262736116106045626355442651120137200324681755578684326877650525975505664804264060742126098029317104019226330233792216387910982358149127226340198340827163188004549949188249459427496151613639857334502197074977862963976512486578759891272734228413583776615643841885594026866973884509593488564331989227355216951812093576685925547676132023374414325150893282228102478433141983860377206351847895569918157599407312752225319979151989738958887670231093253832472354887745135595401420843363502343468638357431959313082370363544880373204808251835611146608680835364764501488995954247015369711001469501069207292298288082796110511364188687693584104556063564276953399853610303533606381054991307343672471555894934882101942196761012258362127479120808890015697591970104102819459273399300563258159553774434576887401334926448421553118373302809992423553237870969251588727519378357203018964639126395191097787878272786961606275855294573175654600494120843427535807024399046258793200979128169513220503798300132083036747357867996488827694622776778163672181934139177495735192131437336923878875895717201323531865473683804131529939007163536664129451926395682635625113008266984753438515881547571415328384186705179519720625718698000580913316853981197861117601865344781592595370812750758970234894107664349830990585076913208821094132129156839317023812214220032829350514138766877941360603410573158732025625217308006333567448992843948195004344563628417269970868361737822856171397331345991593600691939211749853114432413894512240627812615848443512032620851700306914598213651907128192879851377258128916065679204001710608863633851743874733554289561575620220283159640218152273853848161306570026307049511077375221869086872600127906414666269588673652888435549019243157159110400809751896334842030864502801980756515732802328533744655953602789163846987004396648829651504608877157495298112299735917768521070318860705192541167012884877020449998912704799863680458764128537011219639521259580796023441560784394174331412314635107647587767994482716328389317558460441094001731835045385082326263258143228555311005320908583731946188961452627551063334648505052183554830318360787945872909183656551650344274072469951622864108590181791678153375010332386035254599026361361388953421413508447991104968512648747073443865207026636012934927380160374945479774939133038228802224337438919792206110206932618319726411586678810869145380415572540153285947326676686983890334027396160335168345500387586827591210153853653802682693763168407834665740043165138716516743178721929208298778852004265589010967865388541350474161890035038203488150030193349194006956553920098646779380584630851977575941689415538780032972077881003613983189968020708104832983413712031817156625359601057540156155638716863273121437482851948653533251452551241912947268467833267283505336396622662816884976115111776442407648872309903142780041209937785336842695223149697422619967997320999203900160212952036290624411566583747828452370046110762087699869569158370731139714693771562387834070983266036312253576614775045121926980051519451692262944761313379276447970949317453991288696256949227055482403778426460101727873172885783537342099935282167809678228336431603564263967247278564324156386942777497739103574962198244408502706703099900102074569122125151652263765347461206656917224390896022106530170127576881219336712779822641210030543352020566428222131873757329401053960020429593338693123184365792681132557984033675429013478621315346474707835677120907845858937153674792540651274903376852843597884733525711180395623923658929624213712060473863202184497699162335339762183995765715099434562814092434339971902726882709048928128032609328663397571571080634216196717644257067475891204240818570256586621567698843174547371307226653792270947588361805510331307385706602776325220330598913007141658611112215636546042855688548041250359534168089264604819667710693878174620976180425616625623935542990928432003433878582209389312954759454586637552557040818298952245337939902112536942117201146999844055421646627296563455702040206092688410340455197722454382292708434118997404371947542315160064516488316360613726868901656216458283234924042373017640546681980585023826988073643441014907563788723925181305622373905417415062700194814243963456629937642243557960892887810806262172728539189641773557371780187133730841781731232826736584671032439086108400434607134450027945225050499185437168878170024343430836271599205840484076616461624458911925177675382518547406881900724865923513460353569652720669658620380810413021859388187416566203750293766284980168689818366354054663037582633910414928983089594219176892261397740747822340032288012319402335728848024381263471990795048319668086930060148459780019085516504360912385580263176702530562507265072167110990544598515359874146187300195568537537528796780684798021718504956716596544017863135579555442734196104164591550377244444807770664185658188560056979701932410251289811754129848778731675892549877681305924807031857446891233227429990892164220231806719292799364208681362035143740388910719577573595483226055211012734728369258490286285262031852680435028031618659083368522875235734543180774700213125872925133116477336035832541720537821634657712354459806057136303134550542055575630660508058506612232569009777702095918030930552266083843845474087450155652864412344827587570290481517723968400953613273246114377586079658938248116513625924361064995164259723916720188924071105223490179501935301818630917746398611617752122740247548164332956241128195320015095773541038979893541323876565391344095201142690839454780531831254841822626663407073710758901940104158214789450083307927094422253309934356805077349974588820306388020016366472096006328473985473560336774270005809523295331761329023406793536520255655704885122590617935775566709985335416240574448056720057854724674870217364664858312910326909578870410283318145507730013020207038894168006237288297156955248712916943796396045740031852342393858888058924324986343895929691946223983289977822217171944269147251124179171184727175775842100322944444950275804017525329346054994551788396204447742535550702341974244207646608001937388729105915699082735840150395985384596689544021790126786727824420330110670232275135423180232778440115271205656676640603074011155934835543062107969960239863827163699258737534591063593182934300957939787616721692638386827896695610054628409914922813326570964525087958813357717226147718056885977389025613087774467210927199774284795916558701851533380345409451311927687023805954764077618714791413744001362917644934197297280269863294935378379397834711359200376171401947125390912719235858772249367089736141271664078667049831540813972971416835595573945957935987203176579122827184829653570500598218129778448728487809043927875317521971375925355110596129096535433079478287103008128681685984325833712023108525575422540338236204699319336897747289995416209168312507989231302417815209328130074077071451849610526947545070270146180730391422183770949447181646178626123225790038558272261546352898424231240592458463541271883142447200686732967690134641353438357542976087342067956530325377088454341211010883196244978528690284692764326344279708251466994813208223953378439962833761473372423977902079661650187122784932559542167698610954721446928085954734993626709324649268504210376740833458206805666726062211962402146330786053940728506164000245290005877665055864624442596262300973824214164169544480275620781363307330616789531557822480773552945640857378142709259981192043687819908520255171248499311415365683937214551018624727216079725568497312108237173922512629192907724189069529648799319577492139673773545423202554957768449959222081683233053687367683255385881186456860097883974181579559497588196930251851104869943571607422894942507388808804867617107630593594915249616463068015070698604552404960092667770493951969424447961225669358517564787279883444599108028933792696677380767957212283275399894698011704192868410811588681781066586652804267146474494152690311670998003099819218140140658521000132598886758697274703497536792831167347425137790356568803756064948779739113500846245349475704744891237881472714507455089374361506922125524279746393247595372698285864085843374208233155482149292713663659514478231271890407229427708077127579978750895001096430642025334971285639930491617242983573711586879676174035587781057975596953733235554611165704018218470974773640373866250786923726865360570555943911615365272105211717939128625348015067393858196847014074068118064015618693844983899878634667825908134487130231685951350173622252076307675108924609201286299116313580773998097057766040169624494140164853096013044001917897109050085869433716851819824812865417389162079605485569003443337191225708842996609231530025400942215634358968489584618444466224493873092823649003373958719593403609000355672056062429585106788956663207593988725081783707792140924122290232427415838572657960495944133870590863641283593859150837178863213202044014330241128702007074365215063610141993393559157857656033374071707038053664522440346980479784276343354906592588884027986680139275021111151168565886364737606013164495852504024319005765272125123352836039345894952012615757947539458145495649490261513428462957365418309183809497640647967824967329942250910180103532422670511486393063221275029730056658488013988228028699617486493451435096675716032307226121403436604658935726561299415755829399567384914919034961268539229119630004532017708699070102375362071527245379862618721421718176728606541539979545109508057146250117182913836873798942270916783922532163658018604841621209742337577405642325216223278973723360231496615567801355217176231716383442850207103096973601443557586241045788254877310640235281278170443672455159042946034991977493063767787236000217599501448848025817997136827576183345979250378157686564020765246343510741077309674456053601083605209105292348949467003115979054812910797973381478897022931865066762578907043632000609289261496426085964057694060134560145227723290129020844901613464579925177423739138674316541057422857563301177820585060162123550783462671805235125209865140177171567492838499230618587887141140370871919309218055706126012324395654228032281820509237055269836250006228516865189221808935730020976222567861305742250558871302140252595517366952813330951266864146871471482543470124084244521409923143869658453576533719216304168598839772523650942197416786656541807127564556031224392470831559586466358154782955423805188609046577511024144615688548830437679156900959461732018603864564804293543408166422940417451234889595491627422238579759005241846227404180213510317869091810891311257289912404182028699847258956687588399562993669182579355328304469050286942720507911199746415992310734849546974931574925040110808059887180144110439490369507534764424426594626274351017933302136787155270479737931228187518896158054729066324651826127115868241223894617797541014988318974505620131995228350760929002043426383981000773628085251716433570492537386197551534536886963848225784840515289242248606704193822037195505700846019551205282881867156307412445360521098616448501586473093839676476846971065991816526054588272542700572907052727906473723412611527024452593302925973573293270368675625826761576359000165655782663192079983883734377689742319636615092719298963566293426424924207986165099559309767049678420376218152096127489509105756975138978371850414981978741105327563495257478659698337546414307119169985419911974707653271263573376863406161378741686628685157314285998851610412020710344149006888337995692182169157883333557817360718672621261447964200904492516511064918369769464713230822278448007637844912301921178426715703226725870195402909214906399383331136094839089534167572633833340597105901127560797833191045310030049724625274452276349717012548799551869601493702240035340935494309709308604708045616756068596424136447417248782569267356398381920759254227724447559619627401783240952260573206162971809412110537615982167593628577512695551939051326865568270094169560333007500965424184829877778668457194772202926184848850143268964983651492497968191548538527743253706589171074685654427063227494309612533918526274604161769486974833666369111943208969138296311188017481954747262186130705479856932886952131272948543588142519194160778959080674037919478370578193694159382310975363737509647438215288799527237834826388184472003187404033729495267496834542898202545511503922114166595235263892111226589211478463925888400766719328319171465899297511504366579902583511946630700438167893955815428551704733695161885644819856754279683689363059717348906387868300534167402166683876682653068479710070986207945905126927522317128099964681523139736944863234806711955455965308265128262222589480161748195414571561749562469595151878139785758781594952119514400070931384964492946483012542667209952655752899862246697943602686196106673255642363464628523201086958732771253010506565631085357094749128776764579194133092540275873435797701040804231021130847126470398077027421047990139813160927086712722138677660942809158475964627782520849381009410623952039607522213011913079917673105021700045558612009729655926288665164568465766769625976460291755049341307411227581866225881082830086159249110264338886748410482801273538923739783899522946728337866580466419694663296723221123936029022015547127258401761332124865475592847668851877358970673440061625078694187361825116856403008200471480614618049938103254681294020266705692253339230481715762038648957840257740499293991916016241813641418698210130903658055466916773729420173679374076703253834592572319755395376567902130761254621608831200458541529506443154593593922016426001768112846093426902247005310906337551845556738750760462845258350337666485706607022008526797620229827645293081759688250166956526990914251284924774629779648115629211388749950476569079592596942011384008061317546915087014707723893537031160984910253054467875857471508224479960402808869954717871172394899314411033182095933190924700295129242428667358260368812782338549840707682460687769669310808834198413500977473828868377921237346979937857367152190014539936626335548329938526459526477577271404719046342648011229570333248757332967702395542529693116539488980896713592089112779873476575297734458162603282899019070251961132556341416964977313534148937970547689252017683383512936799610619088597060303137888695301072085260462492500386808299420618854502995405603170881669965053191612935412089469419683642919634177393435233821949161749776341382771533190835044347168567468693605425819128715274212330739247575138226784228365392813637163687630804812633646984546715352611418667045359497239280966152042346057678220967156620298167406014565238733637163409197068400617912743557456717159955839700368200187641259939265103278476278603963429239745470889679462327974019370178265203507379456740646785228960560915088653385945164936208830780755253835344262032011389307473802141520911213319085283494427707141049756877161683659421502201181366730943359402719351081704922024599662044321965328901024468955076106554947892080380490168071270877807456881043565323459118548669379646964687259907432399270945455460209346780723390073317519153540487376019554768967639084817897929359824004994023383889970206184551701173570447422583401244110970151606801557831557517755341731264634100130432240879831760991266201974870873186756626953414879571134360004399113959623590127494733388401695602428850870875369730871313339958141369949060933508697861803157906996466086316805217805611317956127381311746234375112581690875347554425665112063523404302259145715668318484176654274714587947681454034574470975150953701208846452616838239320076719049691985962721085372400382073120870261295750823121503778071621522623257185480236807044598664091037441900389137232943549476154377651986318144527212646847066531391817651871409435580939379185998763077012382627407503941649331257320049059212201848713221214091946442206642375893212703050915593565576953108256962797552655537213631523972661005648666562734768310316291854870647549127785205480470130638859192229158861621742145886954800122359629761813919871449381084090513385088807248447047268737577819729781858172823735977787729060667169833805784659054653623354893735559339116866614985305478370840966531744060494538273930896838617795462208338622626892669512011485901548808630950514430503195003723178201392767541761527121420136881335526041219425367443159143729544998492084237538850635240495835161985124198146801180202635588805084008586399619845772866627619863160938044792643614103814211675385989068166597270459775466230736090155574201640989014285833758087054012422262599058186608525663586374105612602181398323707974025841913133692168913379213188529199094791632498808528521733407056953062748631426938684866104005840536947520363286111404775559331494700188564049447236038464517248294206452141034988181595502551915797802729146158826955489564662367124900487884502982406447564297973571448634877070871091117770012028932630790582651218089479443517688487254291629491848376646642386158362277313108873836119200399247467482460047857217808414895958765410080612898022400330222623239202141879950345189915820705168311126260638260717897021835234134995780315393567845145886253226915494929669123698044735524435926176166430565443202224110856320211289927627385566477649503952245145948174200805532311568780813166522099030822430538923389311604678632999563870665723966350661194441309388927512278950114600993394318560789077280789921827725181126310450180888505957915740797360119198153259501682353485723246506113163657052959594154303775091313057662563621038115787549261794495537839050890928060931013291231678724342459092231441289599648378024568318427780658313928803686455499388260081715005430437539775081727381298875394203281140727241731106351750623488532777388232109059760347227641241202180908114248862732819909916606032714997711051321898286793505021280662912237089710499446292504021065335139098787277129021657788490519875440098551033282567687968942973452860440054064486302323677222015019742018188275339092666653185960267992149983227818509231608624065459435616661012402004845621615459337063964326670120038678561853415814626372706532025616812045161126186276455314243773175957929559918659897730854623803412072758038841173406657118354373858737110286928739643784177582069105000050539812051979858741560222302517428617713093225914156454781807329456249401230352426542516878135449196610696957046421180813681246715295096971876669019914990588210110616157068767331420290853186457972875742187647832127100197848994922304675418288806206630735153638115967241432331132070814606768450872278144493265019767152328072934822682224264154836537004605605248549511430584947975453855434050664252432748960805550384708751214944162342029766766277320223546782365053973865619015288672237578304497291652234338160688220556227986890906213316570041436974247325419735433119201838336896561551114565
  left := 16122149132588433263538337818719606677584834288456370871203423920637037745659053514437456121154823417309443644545047385359059745942637303330545703495239120678818298662804077757643663423677186230924721510950298681010526150163563060139606246971105616290636506195448277739764471965720921211154632375685919844359814736379244424038157371310270362590549798058504425483217522694250711602706368238155864583373817275269425831447802801038126506982821277370502619742698595255480755808544179203617516560228753997769534549928546975957622628503442491091531269384256080195857783023810890266041575548789754119334393014748334324392979882665921783731291485299644175591366968192574764261635489432981681560023801135089032540062605655402156334079790024429854616079593979751654942149827040312451046668142050941679441846795999968846452585760597235552244031663840644363563654111100121557522910236754824852011891861788379516273206301161373611442740167353247238564826348529210461450501068005635358070999960804017098184184067943307982448429411226840432607248166292221266465909170943755258133256210176409773835097872576699148395280187452506286855861396798578017206078194752762237637861734010587405096496748523365730301482575194854249920294040262924890941667670908532236483311858589573287268832181783499721947568700461814155940615888278216793837991170255791473416835426089206886084077605116599666646075281043190451564401012287361003920203091061795024644793068367658186388873943693056500488032102896324100417558187430521184076304736599241388218414925754914773925059332879917736952082571407737708783360188425268697259527343198156213434543066298954021926001168092306985054276648972543475038841112435406339390195991597690294211928830441964730408933478095610191608035711714706795900058429950379603008730735980833835511406498811210388250905870601512169715809883518170128106433516006620064176103949373830418500614909007730503337830260455369950508246966380472729137985398355374251850810070803689825408930307003099631172805150079899862262024712751110382476591651864587898088527459140289642327890525492093511513450581954446449209408396235915132442890313082099597170862871776282337063045775105637026692748523540503027736500380705736337734804175683299282087855493053568020397511542534660564650647037196217626231782761238751732409637439695688535876626593813095359755932519882118042595796585521407662105697374500378147161315767012700689713634828292799948094068815651135548978715496549678116790036130870935630176401673308692288955292881695329205182910339607899384867062795972992420988235270212805750083572558853884877767502196742957950799089764296871184389657489601178723729377740538249126523348127030535006949253672937118202654807587186582877513724968314643953264550284893515571487360508525796747158272744130836041685966000762375537048962367801873231383089533059012503768137050803104152455416497942645127376293582746332200039252143633190592548087093711830272857084159028592504427032254923486847814006963008461910797328981458119480563294958388397342480438790794224312943725799349369084126378461617685599659849459399832285055228908801720553035633163211641420924952495389679906981942718846522631025091819736436421160468535343632307441491448154504576908033101497549793985517512080660524154880441089922313257048690893147014360096213097808692640151917888721678066504069078954556776918417641348342620347455218591534767994309600613703791959768279474938374996182264215240777157351955270570196875202921809558410412164879835163400673502223099689048654673602816618572824063673292869156487952316947145540569192651045604572233923932119844878274399595563170468020680726567293005885390546016436827417224556484868437294113707508559570767605477011722715627537265489291908125656578807241268823385368935296845468635211302703579429043343704399180182639769774359155247567231871999246174728951021685041523029734469567786958226313917108109004890864261286651340476565034393313933024498607045783439287620792469031121440268206301329743314121340249956526943463267671496383862592222126523472022572228501940920007731280411995996153529479838038341017384691055357325203218549046012608375544680938849398012318598162121982278481433352433135878219620305951591464336566907691593160534223340767341565620871916471328739580043469040580173771903194514182791010585713136274020161040581882286346326307758294943094569628533079034385419607420329125090944438342665415863845895242702434911918830213493633973766754063710753736193104659601113525494199449281833761928241616674085190638609255377290780352683735196122690876378197262569055728456971102630191950191724540639840289198001487315394789874940568655719897965444774218115022225285656454789450307817151976835560850556961431808075711791753912979118849631784019196872836210206697697777402004107257566846287057568921521492983107312448334907316100958456764441662023349064441588962347005291433925661002201033479295641281187421183733444063080890751633108004779140252632412970801369565947736026654366399435299034423750163808746508880639280098774899000222445861555940913175986796436342412553492703680149430641835134213301856474536241943456717338496166915317915377630889788342572721902232949370319519489901009548876354387805946952564318255111196722070869006294172746355302480142719211089489964528603177887354386576756627540266544785220265725701739985618171287914985348985696526997182238631069753907726725553046524111711573256242245105270303094211450267370729814603606451981702167259037070328197099590008517324792087709364342811372002400868154823586926072321024762084302958103180010716743778665081609599281302571586841997053837820907360794546819620047922523779842550739595973284835275007252349940959717725586624868823092457297801953744101036817038836477048276249736157259697771637919831120979850370308762236605960835920254671968776527773158381292598764915538084321968983743213934020216693386768739419461795259216936654508675602062553028005164183054683395267639675543185251737279793090551487937068822725221962420524340357330332544809429570249992854954527644780011228250111859722854018087348984677499406657342956587768211555401620833438341668896016067838852915665628592976462712828030223415896421054598682555539588841355760867280072581415236585520809200477900883910027873843768856075466343350569039961884536008802107217610384657761924075089927399605728461193849282349590431251858611780770806237124974490252736139171810034495362724541476283227506192380113042662486013559497027705173510369045398505045129248935973037814342954220042039502638691559440470151943641269028885952570945409449348835995464109511808785674354393372403252859526042931715429331572654151507725762311443882833817306476581543060868380881745782657215083188240803521643577247490529296055368214128228682567315020924487065830798907455092537035557932907683426934180541408277864808332762879739347699479050698364407564245379927691767146176764187941916430900838763569897558371244436584889472894134067574266533499159235320871422690519167118768774563474047355077625075902720152261952193207357785054199022508692852172782958433047800098019239749049457040644452948210602104132273125257347109670191903054883526712351248075842639679039488275289848631206078333292406106497500037596651893965891788190777850773512004491372737709972573524414636254801234629263261987084330636638458989970140773059658196661647136383588031431336657078929933792379739092359454040317168997538125451286794573382737287767153082460776921039621354692047669178143220366605781611967992219211180771055398186480923689068404037457392071970830131293954872260375112870195345574550910517552254324028091865560975552650475367603167390530557070519462727315712046982154335591927877232454002968605791127970413846220515499153429249550422542597412818433315076137357505530482205988878681330527779912136496577245569070002577878184820234046302301982468055574016261871813429553991734470293235887440037729777824619638151734015963515469694134249244320674239662017370992070283432797658006318133505401036442347159404381113725821763782494056711817013679420145909954186953203583288870111487978546022703452812467327334661408677075415194075292904694207466416070115532859812365025014812943967030281392885230213805371720141553531643941726346530936384386198812095581158380367999141002657502862167775419310186883667386624230100744580760502344415611007600931935044688347951598383250991785160297795168844634400943207995897962036477354495526460839552457867592007241624689118843290870508891896264261967041874080829480599420146224698251082940412466257604445016009740882831495240839313191308190564148878542486100980960556623113104852010446677639123085916460440614317254712451981475405722576928452413551331287980525492908640254166526368027966416231907370237344555790591440997996272296309388625996281982941007795174347869289925324066912444211529089080970226215120824312720226234228553046579160836931870031833459736953874974131962698100125561600380018623178129995884903944376039228814118630205946364018176310151924213786139615487825975681789157824567069316790238316676114152085967477722512056223674096747632256896606208741476229940139183408604914456855776362806032721016269917199008195132891727111511026603198664743484724985242166602236584899785084662455188682440258446340013553390627557646257879628536451368156437090525307997608395428155699066391944534828756689108818125535684689888458808224684835875317637897556463116933884476556649409066444689418171796351235652840150929290031553057744417309729979439589002478854259367601364333874670725034195978981724170547078942772078584521029945898001532714786838188555743964688922973314101590407864837961292034893384074494777251747016784630183568492379966641635890193429051671939072069229187226991415185126609917099486830077048697702656173019655460470236458903103070241896489114300618326195935464607514324129028075944069280866494936321449927695385301847622498536669562985905620466788556353802531705881437616332047102524809835688432169641292954511277453310804615576964084978410764003064933558826032880724895103521635115271099389069395093285903298859647126327015860361722109824448131034056483837303811661658748167982246520863584102281872192148531402808432115824337252978005140450345831421371479021994179287859294617529472033653534368382792900989468662572317083759828957847611158117944443375372174907396729858978036833434392626238417861465447140000869715382189985284172884187684801364154937110493159051285458336083690808007977416109176978558178561561908754244892503741079188150181410842129977071069333514112086249323663895079682048436295451462240051818994527078816066749386273588164029447395044944166675494060101082400654402129994238875496518207205752625156842640935869137621403448905742564014393544221044556349057329010583936997716480399635008659870419750043119479080268259442673645031319879797737420746565232534111109687068375567269254239256812179013867208480283942354839696878069520151814798932958930705313327146854269077996206420561816859484769093988794684483887943004483088637363519299215722008922527281021451822924131856987463313945922294945487310821950916669692892596914739513468548958190629402508577209995497318195883893397475134749147395589407630765794557575788538476865925736824858412455839294070255363718917727554576177410489594594206012561913941234588298620375240159881336184342093341567313939941687561460238350766940030379927898051504835544002098557332901616470310517907627431588438005340313648537368934162695717468346443998148427884001481989329065728475341191333212116831452179010742793191380558411690047821777388456829346077089960924902634792766422693300038202033320979029054167038937155791271613628435241348765464896825191604423095930701197814604267819805841466542274288575789613704741258396010764735829853512795790330866506274915357437086924342544971782014709920944593716590554942147331622289984523410277906091075373268148647751905953164496758831297727562305515299411407625395815838247912258933682881836616687749772781500678610036647942235819608592872638167159683462048836002337035154687838402772687596427503484218744323040241735234288898084336808603358149092990282902626842848147454888300139726752130505092923968674992071191961500093633714169693278310968746758423314655906223326399984861079657248012207688976467494527032935979531176939426886905328390537874065886980799931825658763124347634549124441357950972211562523212383170885082908099662116961378788873676169398479756114738367533386509756928221126065044286072516369633036960284827923145134012122326908943553930472600059419533561327752502845502591981111985474746153917817169150096269368837536312967169064935057256417595829214937812407049677743938516021246353700939665928425598886904579627532944888952308728937861413008595827513880027847263820004563423917098886805463928032539253130302483202765302761842331827849730524123072611987266395346582842943393740979716323378456411087157278571473028069368078523031653734124970537920518412825765076039902001184198152616946007298873781724296673518048271122362819543567353645066244739120613629434743629862491678268389293393259991521502310575055821694148290476526421511065648909444882918227163678797306764380675175880164523847494570579216676075156785716037580551703854925534406518781174333631869915462535701164400270518485528223212663584422217837342491208801848632510717057861732963674444786834280841336349378671500849334011559293406598288438109490844650031359477592095161807744200880927349790030572445778694843348320200908255507027120147787213217064045106163604722086849153449494618003703238777223681275196779988116609845500523497474621251354921409216130935075169519614780552735460306061734704944957282067808981840495151293556558501666441940713667869158282575739235551566918803765090875434113039436529447877005647248931304499697540435885370272316510045820801892072429783639819936412647559298113905546635373666908570198825319445598444285166261485348051631231595569941080997779800288429268206584961211329537752734599931784635796342733723996204430500272465577167060475246611580619590040882437191114599715464688867588549971269527975517494051622808567529692081878290963683646776588056749155608858017038398800876455247392514330490701015103102353801261576739094809213797109616441765903032213056662935775734443508750107451561088131848271056110636996748890125296252547094515148690737614086736563221616067998406752116733873407972911774873448552378507094204609122683634584363643856782741455142319919419595274687963313124404834794953087138256963504858680098139732311158040778267956985185350072020515213215722256772137360345841755741522020146403611796262010906192797399277668923060493631684181860453429031752515283876293287634933230556522302664415023973943265249740201400219009988335911407538877145508235356059197883649872050078988296669042110522677249788751910775877227182276408284552616874906844972872378388249931188520967181171181554336780206569790844123265856571960842048344713001671800881030815435698439564526436906172375549654885846656241400611032718628837391363080697291420799670437673597747732042088763778553903584481117727473276907664080894404727990642250540503350622764760438379619683397865621441034861865882218279898033097940428116177383513662956637477629754736831106449671430576758887187172936992515638528459315426604449958191451254941204063377568254174102034941546948502320718418832822697061231148766976983922714393245953273913078128685317498095277626073436701153616391094597223563397698370238132087751330473628239230280828464769251297344777283517757705595588654266843718030443244716817567812219140051944753221121786804285921010226485536127458384601023291066584367385870422053113395648553897921720273363721895987855730499861930062213145584480240129403260344618590081144052843780911617926852745339452693333237996532317127546681297202064851340646757826963907466256137606559648248991770140162721013622969034203937712703394014631207877996583496524013802387926420898357243569402416525090599205113104464236611709289846594191070770744004556747108506333597973736744222948599498900034487049967136867909872473074682995112621249875708171430979841188318864058816881374428523447213849708981430602799002480773554964988817379949694729745651300697888669519115484152378318326997404971560980327542465971109366196494413961570692174069651687764447239927736712332576785397153853531299080085314413307992346918036688780444802652569031954184058988271134416990467591092996466852755435097295356682745852030747666458287516590317401687475818007255482815294158160765862892164201985901619351752155724834205216777656649137681933178514852077311803973597010449466190125037831540999042043755855493778126352843078949894443285110436200081962358697468536037245427759128153432287502811768952676009188937074881849274806619663063014376393442667249471389551509803947116245872440830950799680372611467554332901816558993500082413777112415190435940573843993918200451068985389487670272509712677333557103299947067365225032608370893585416371793377942677280014416867165492920669884098196461385861345213382853434106443000462858428265519781843422082827534493502620492367516057397088782813164125853297546386451277852495014949943348358112936867043336874902118794781659125481762302755454938057543321408301902850461554750611784565931229838566596185651649239461444472764339507220672836218066746540013934999614126006187459892462985313216967580784962931245160671321072792213738575015616104797951424066468004011664135952160379202041372512940590886970439228487670873734901569965672843220388152930673801683020912911120195469006333584917143362270006194566254495731903599756067908212532393770282700947954648444129583875531902688052750323480835224059555853343570711517003326787556863096309598164951855793237704344704680175530507024569287819450546563174574882967014498529487972200252446761597395965239202550733266515796642323795826952312776765798115846797389757484505428883548524788652301007389629830193118058605677058264949323820589337940908510660626527018140371178812208829241279867801079318250426119994861547227053815513008833793239060968880772465220462790218542159453969309376587458917350971094879299694708229432267615811845764862188643122127977860468814956431995681782104306385248466778605066100820199062606482513468385096199511167985494413726088429403253708441972932177821900084912411056923952177910555617257456831198071158889974184919402416258538287384704987814830315066358371078082746819164646778388275031554284370361121169374371618154509253009391252401111790343072006677334645342107233398828056061447855235908455740960784340272810237093838694008682258075861801391590519288550013227197434079891961592365309936959662553052255051231858279721256629860984772316219422209830867015344556339888340397831591541740466428057838110426169799852555922899453362908111487238089743235451954360719263864853858614295096345183903194333989034619624118151214128699876758632624312395264905211155829234697589556210874726281019707128985975530902020363187658137100528819124122340203957750222759933877511689372486455067170642861716348037965396486584010311209890107005944087310956872525183551529299830834937489340913470997553265380980300833001171394220998482240161969973066606939420347638197354264394366255365196601575903714083140
  right := 16109960317678808653728739939007276464368241705399174830551776104758483444218893822524909238836362729315713432340121080792730501909708644343993921889599352081123975706772299677779862638941926701432161822261797926623761008197513062449381826501225215757309495899640101180708892358631056103389298131109303480796785857408446327873623352024504614927769951446150951303096727903713135372151028764672889005179933269059148286448538119031529400519035432345594041066842867894310405577939349366641751796985604032714389534275007410308153775804922468446547332832226103118213579340868899932700597773673148184136240947958828581703835822379159503891364839077953989147294899005500757558096573558466941113800790211535162140473317849813114342193197079541314036526319628218603863867794417832506953312279287036029763463303875268727860293364319484042522334268614614952069106962119165799833366733978990551506798429760292317302253130610445449463761362076281433238319659206541632542260550757220143394316093240894428742873454261323756800785481267316059577849786772266112277387361666161802022883582885679577620729718072357809381243758869318091674515670150840418744337911059878249334939143766421298544672254462195162598539766197449432977463747720775130497050671923202963842554953112198151348424157465166080730293121726903680376763599488545185372967733718987475281038994741907432956366109843197303007792876693337951383965487669274119574538675854874328853125140403132811004509393762417380740727384482432648056338498334706535901095092410039065472990008284652629671965102206426807149156375498034739761656248846862912545301310802260499346460219224996581831813377969628313966691099706571635240715124696058232791802078144007743488295788815490808840124363929956391380829846665066883216980221190666414105913814071742548758271867786570776112379368920017678688184210503076537046542696324220529852669564856187136418973396324984274825637794486275184325174755334209371671893454630641570967031940050082498817619584618133271196260224847750908376288243627373086635138848840835034969786932606737168513677084004407947501172164133748486396723826984387415669452601084594979272032386841163296941816999278544072417941426645151929933280923366675366601362297125156381919798229012673371164654468834884718929184651076899199981256751039051267548681915993739518753522472941108803728358262159517372629953114221588026434363208224339343027091769490793494485706281848125369155926557599049521769425526363574035652393734989614309788075554761929466637241067818046116238746455198090021908975090814143187141101493405074570787081813067759454170955459223430020564313911151346536338831991729812252157506875732475711715479597905666229438210570632622256562957895332410481162545263047350838815413719444622594890858556579476417932697982177467364608429899972818069114026646895447688087761491486415192821812995576891249935739317248253283846294255305118292317108380049242260956217666135661898024090568356976242696832746577228508407370201316590219686881539351124473894107885572677785960689659893511066885738380390434205905098379128379195581578357787281141648409579611133400007765374682028084117461877546946681775474561863098991272921068707980870606367448661969952365139346492026692005203339992020893908331072808984143849515455187849695759303120252513219207167234601564163957552842276304291587342995835009100910873976397698889956915407947397746782340723298060477897901697800482130291556046596457863530271334806495770929471924055186461206735569208354637036892266355763294825065449515354778289178719266640264308297466575335169992375322635270102113323660723278357414520884547831076059344753276940641308984284616797229883156394339713073313104393922934157188703916897635028966089879754014694509538985235998547925631923458955325570865976436651521188804599528576721558539854204894034841393508209492296249978375857855125731470838869184310375719217870933928230510715383370047017154622013592309709640713943926200924780803216385593169616166557395958640810686010584076938261256012121076551605890026736618942775001567184638868289836264455935609608936345512794482495775295523535233533254634112938855512219541757919909511900252029177264890641141355966136422141899165912248902147301966910251257371692135416448155870366829760827111517898306713921123542435986507926267169166670070875700207695050008299869306026262063433499843711819468732817857522683999894424199562767779775973544667022361381859172839368629616403049903789487437335567702374299880197832720396689397991063363984548226662014670861517525143736977124505509643674255547403869422086729934459078066337898905877829995637066938593001946286752113734660907499611633274895215649471904123203656701212051576309920987579218859179823156129228666639350787107298127998820428073154178841678634311648170621185993328622888363309044197831447799357608231373739983160271568812569885165622876265698697299422053445854481894227761557236455346059344962723563149313461902239082191583784406177734845417705721696905226045817170767942932575884836043649494280447823755437016737042710202798133299764707640584753416446200053412644632274839666757467439465026963699070581305744366070175527103919760236042326713246340194933894808783397196362776374472231054839919257843588512903904979388878284366306906902391234220312482711477247303385787953239589113399768416991455242954497330057835860033426132995955553289315583652233166222530159431741348136365118948802891490126830368501182328936112559360742419831441665467646116963779962949312807245338037519739891414711091234342467934800295187970390781759480656044388978610473141342085193894361014331859017702601367669595378838277834771117127062371799784995450306579572667921946505247114632285156129313847104656016332809807443016513239412734846200365418500697347003252974350591886480567215501594172810667563859954582551727548606919472890615042401571726405173052900015038465088568114799041868611446746912051318223666076538906773734325836390611785410807240827487251351234179824813541472711730885316443109109322173184185359623873540722783010313587776343070898028562119495569030950641916657510696017804663398470102203240247510091899344535392015786995219965269283899012510433853934079666216174501690301778814009744571479363092224834634292450477310958314268120670254694307808741211414963575133903272292641972173312825545262311588852279769080995923328166445619121438506844114997472696900633682025133836084218739059300615602023709610902685104967768844407427944689661884631446646002838066044941309041183519251772401287618021450179223150080295824281974345136139070430982833227956167745793091185607921427478898033470802115707959463586994700616428692615666162658771509589406456581022274777311762060309034689098840849198572131843813671434698473620416010609717496846312924305844210036462524007075264210591708160527672103263416042370430177085252969863268654056139637021744903138571109763257284903246317167434033706651490299329303712286236571129470510444993823996394135008143834377435488847181594481330842516705911252696562402148262994407050771645287017343583649403145778204801534230627469128940351201823423929239496471042242987578529632573749497632129146908664216533895792293926250140262712290576312982506684372886016250642285036074812712137308092674994459714663726232780430796823573556626209838008255677712693009323246823824792316259504444557568484247695061800730481720083589441794103462050659068415724541590853241983001135956887841404690860891081692992398140403348906444470666679471559850644887528876868829413697606295153124800680068243780360597445852602412775165803173713377346175206156546427095543438831331844911385745047450054166973506861592339620679036174089631547005354171210880992958618182734677050525409418475769102989910139206484388481664695925904160468237370163322745801813039873325259895520596246618374776302225942771743832965360897576767769353852403089503563409753274595452605975050899309382104508122291743746721911718304488612232035555538695410724697499311152574000958150702628736816238332913395616345681645294225703651279356638183478216808859456583355485921557629239829472471727768147300645360363129521296386956716781212505666220376097178772861911152004823263394150550126067236084597120359678516853447419818604740742038139466964977490564255084167587032951850709055709649996466689661532413668020945818386296627767986646975882129257662388758952893480361605994319678661973095068796542177682795191267860276280754424057507976597907868882160845177950864459340320998166895814384120734883710190136614090948463988424748796739724454147326308722594749358191026229212622854733046126343205089140193701622597559394059209766070089801192421575353830918812290393718944346627347695519616565687656271742372039733450661249656760488385561145759836251135003285198563580801126349876254122352000871658079842537621355927541695817931241672370025686990577100372120582558120769894256785243729315199531507706617545783283179291041146959261230919430571112003339571047153667117055884170083162475591096020611169714447972025140398142839997527883338654953787166078316553087976752691345744093412918358400868512797275063664896098763380864320807482094654685531679322709019802552307599226526898886655099381916391456712680578386802702880506711627664241223011824026425059584618955011969103098407110069897011956451327879609858341526490906284803224075407352316203768969671321683072360882932141883546636516996834142032936361133532948426802629864682326922035682602966316361262182995166492533777428962326786922366885539225280116557509502605355014216007944337424346723387462286091475910682475107700998990503308017879587377570041665557783078534957885910151817876922095777553108036076002083799339650350538310396069481007132128666746585102929736217855269544744338640708607304463322726039254625257311482421036370185853812974275844984997684046203514915655436405051511427686411689466811475597358166967034107144710584073487442744390894731958871584843198070716166605405108669721257109850588349932245552438796061265517744554345606927714756042280092574502875652988697063472616219311303400682989648583138315195830618222288011663266701128524137743216025392275041726352011029766909364591893811590917841841160457154215670245456788216361804090867880710533823820569527325763201179861451755871874180489595756597235251048460151044404324829935460629708431953678122273542055563256239315259928526444300710588117044980618593219153185858240959776127035686759706442132542776613709412162853571539877496831864528460407319541505891815181110447799596446184839489344723756828688968387221437017708879775052180310008896982529386050492635245911988044572784484717584504040769318055152454583588195587849681146718836295926809771767147362251655012552694519641059406303532514339838678385699730275139795112244366055716282483453338011533737416325609483347520769308630997247108368730660069034342630824890647722977228947233462675474724123722546248743887977059296046861294339568637271024466107838309089812407644745333463977099978046686445085859697974915029303376555316711951049801584404166482565238367083217681775909249301787648688235864698798996056390290314797200243649195133367261647525214102521590223195994821171229157110779178168980832240703269783140148292505838327366650228221242908615202816147574953678350974862364003317212847113135005839791582874127742349590269566671228635091290661774118316412450019735107625102608896713886432744938104667479260303058551886165627254424330919132165113612876741243632075206281703877135130667989474927159315451633173965984237908291265139410842070697732127981062481898005288133071631093671491667709982970855584788328894424499968623417509141272047547706516578408136352375691230387272658766727851271049077762911420729448445714815873798322225316624949002153464540620535555239241975892887041697793512069155174803452709228256283088353457944781658231164651799350501117787777408165010177383253399481629937541754048982806249311692309735776236191886347727363384692102432008672854241495778431671870813754723860101750707620252469152410632713029627165436089822760666964256290984511922331188352456522150998211403097061633783611940819833411422800278449200594345522224385166877543184216499634610765916414092171013330664510482220401208369287820642542698496653691426667749494359525498850028937174345181863862352986411762728324315408016983092553008759377756436731085741657258220796643762400155473833861394325404722910321887867167997343982595810425002097615495179386350522132281429389190815273389062344887576849893479725315485477203005869417351730047042782016513849312971331804974129204588593079202050993665896621986459561963898952794979947171379524358382538171974203693763166077671255194580002881804443040787636937409593314965612051875009084735144375354645436161959245654989749097881072660008729868101245510103213340041510656910034702926568549504305069425445107775571989515748088339852190094484271190706769230456022441648665674156148837044363013276103980997074086927163491802052148378032415855733671587407754305744306041922839076243603682910356282827343190664573331809450051267178076202575244221504841315212212178830688742766100215587476629829777504987287861988262076391350333880866996043951487037217910487388818940859122333119446013944605099094226352621427920118346268863678399164915729046998308149515959277817430903729709412996713025800588518141937406979711714325061589161342992142949906262240609197139782830979489697359347794547410068090406168777368244582588340803396296078454754628791519896061288053993062567658369667452644467632750534367666641332991939374046635056045385023547038912895475917722837844440727788642989878921046741820251145213419616671064233333470271802688031889482669190747723542611429511667214166552693350845712717955560482465247739862620021387681274182681526661472180808190424814405432703692029630865761117619193788312274727469712079802975901691448606488686225251611255213956694180353181437081778223726330691178691115868613978926263301348762415591247837864893031732364247913188068054565134067059933012496425718363742665798542861559428371237458552837472944925790547571634763846385449500008406933734426899267216890819974989410773706008182861279677214356397412424696368034405581516663236402332116313791645547191394476773240100353087802161354461320905460232730443281369992179307151683430524894870986149554690665090001260559250303141910043707791114315727399487347363972651061259274891443612989435824615305697431895942540226540402110326998915645653580516580693621582759496643795006195075626541372398610308493512958980530538437987682723388386108524893135572664698044094951847008205132063157673497651883472601243082586836971525541011821665848539186172102919765180806343854536503341817202469988003591814963178417762349397834841844408685794601900917419274040510884461501738547130893238576920105309313088731341588203022414683517865846650597441621028903763761352480235450610012156377299615375871663051958422368120851694298038988090609194546289712170368171949497782398231288792766209630556322982620098258042409572165723565070368828279480583253682695040634259379003961814749561844373951055632795383163362891210280621440051551052234152441015284716869451508906596465512036613131921741405113485810667930730570454374768261450475917451084089314451426131456688894579631798000977598452031330189511111045680438730753024126415955023883827747384652478555741478274033436143141722765669386056271642446609533558768722340929029934359283003007320164209806969690665070444604019161782863765794701225051721213163942667397891581510197247123527582632369261235700484990574998581309524324812914489890461994354754759477874339860364436046668362841178567554341616592771796126018653115504172416011009432712982685740245955276211046374947783895288042077559728543275787061015059477922688933471736592528457061615939063416486120879450237056626482279846871169615265361832743410090814413823197632687965046941074921627833466385732168154492763416536320989060118957213462424410929508443612650730388949050787055392918727661726092514315461687854014770649616282315140440326540589599627318865574524414961733277741674781314066618591993547324195465324779166861446763792533758622113684653736357342887015400615902580047882469345866596861604650676081397160877859670969819567263724059036578553373728850543389571205924807773400311791623226006755499583213499338232160762968224285687873836552756031918238806509125565783546534222968029074825961134297597104124065421782876889809864248292371935612303351417689700305741954289704802323271839815553068677011152266620719784687385479307575410727441939189724635090935235453514861636507642475139853102745608762760145268780395740308146033793517246018399716222749223394915479301880407040165796720893065353095592751723645505813395557963449569921052222239012641613136488984918464349854151936120930799322664914874376816797112859850650059046677298485797887165448895471721757583036113298587283036248074261942169798746972056391016138657568261577968985659208291773879661859057633708787071028573724765433341347383121267101806688645254940147395810004261724910274918880328408690060006097241433279215783447588626990834314441304927555534906141371770946782734840221116281291581694026217027223380780552385473120582050714313167787019903441355770531813457176332121200707240395128407525309859212164292567743376705432592471919035861355369897437218255517265399291820013693175628300717630092775410107150627799257127918963194840442792657352707442843994759200683092749808554700489961923822172858092995085923015169811651787156022981694229971937828434860374283501699406683675815455464614180992019345461325268133236458253529624676860933889433018832363223671000152076242617648812812316195927897815615933835100458963357352114096770044909615698069821298372963021406026033875013305036115362841534608197949415957357597231820362638733481689189645330926175147982706353403093989746979098819753607592586842713328354379908758571248741016101789360537619487107980214418445934396384267062354368940523885656916560199282250017278094293636708137318866978354531371684933506827908966947795558129609353446038108916601391305007739695518820894064890846101319548123419713389944188309809610919998095181355961601099879441033623989813997326542259994158416956030994663381289171270200978132763909761663880669938497925403549072888122809143300583346373655987093123345304223155569250818169872514241777575320588306767394791829170408701900375958766732120643495076765936119794145175282413222517743479774759752942368648516859887106579617572937571902787267330720541398028407238586690469163343603893620357443270278824037053973598227334305308795064712648323386832336391373917780147725198512671320666813145299317421414004740640253099815023004943508257861350775977719863655015259093665220807650454501522002769334322712431537108478949551286438117274469701210158999144682062890793138709180077218325301182583672128963272950348080419623581342626695370331971686114876355854187984198080429774215052492201563263378704284334389794616846085370851577629329904633237886815391274301539549594240972448161647853403360007005008897918283931158345918737565298467430378712530331774106272162599351853628709910397958885416664975168302471499818551266935185147358435074256672794100344070221208653120439278414987265
  column := 1316420466829532155306209148995321544165177924963843713411063583241437589533444677779071298388736820072097096860497739768872385474849400798206306019421537591153207038637828087129969358459786674068719114800711806734383605536508036692361381439638780460696580478629091780711676041025653945102228433330684453532607772526848112855301700609391812444830204933092621441547637947839515341324044582463915460024292243353609506301659818076496680789419304446934219103870554783548131166378526452396911598587862522753338893385683386306323782294315024877305232094804814889473218507202595633672335823601391436430540031560215548164292905248116131819655604528985539878049662957434029339760271918752857950030822677850250907251486384402401234458595616695188995363150072072502469823408186040674113663806843595751429838801981962835886312008650472388590837513716266021001046538541978061769237445679975223278592418606945091900205888388485056957726542132965966192415489034690361689278668307614403162160779383176518203592012900609260081882838000410562879755449621209996807977796840972949489639474756727608053591489597622590836037918159293233147038186638562175194920670634923201281927893889540522120633848018134307210287097362679181103249705059439583481266775150535811839556553512799036198806648265345372651330934686645838147307364321050206931873805000779612910336473468314345976776767509138612475086811112566032216321303525583779531954170408188313653914047289470957626360023619860256017404279838058215305404735773415816032128359665433301684529130008716676405015991144022495747206880105046546247902329152077421058125505823281804658693848427414415742056071553903196888941575001519479077775703236946156037631573981737317932916454138490007881315173434718426808790620442334519501822542071847800386584139088924244658949061483228865690262936510265554600639405898377802351301179892813842461854144734742526276142843451280542517958847726011147957733349484563593175011005763368031693902237966779064189611786177784347996034603971528988101817565521381624028939658414245757418716097379333303837548968629309479306674269888211777192872626159711594499154081449698570209603382326024158437326595581052588106745787003345073649073978341589310726673983546265410487293835119177497295919158007292200905261318571568266420964090373074961053897300366750889738712692261019841537039349745617768537827197089314555496521005369197635069606844062525564916082525018867099652527649570409473645449888515144868835013888426413419217745996358613924097811431184121564738943325020966412653278159914136143849389696328258402286216469697234575484923980933743648212091934813514463956305320953618660117320080601942944472645339171780310375342943169370313866326097445999610791195786157705888347834577307747595976188229589177254287456615086993508199805274266437278236067521503707881744387381449433331714046824309399457227900339889868434515220238680678476627853469391372768521883936787188003457286485363950859167663925444419843103366901928401883409928297674471093171565820789699249662301795085221962459722516957883692321164173309131804860022381143779827256113352464173413003618728400930697855250456781470722722410879272641757754818363963325473324444667867708606910220599431500530717881887202970301421209493427512286169000929895046121449374360094719175327129884959789572802065303659444457408495377895102027583863900291030564696194455507017252769824171507077510304090184268749919583112433211201244310593590923043352454285106444407664471223466734989777477684445076737447741198800298952481946734267879438671855407746726270253023610417017046125604709208229334578846003417812638106626024604962741160440456417485864423922692673506349742182386112985969429794978967433314355168841403500503011798559745131958015135298395836833281577826608005595946545158143998499112855335128054130264537648538464397936749422427279642583442900960691488940585908978470199581612003344990554445005897293703729555272611613434394358316860919583491333434971003250485307109666264192970971277898165696111935118862492235154135262794754604253202973991566669417652119837034110795003613933452710486641956642642800063649413676083125805434459909393298847494548208116822727775501205076994537097432425058963776859586948556760951705708713671052340936203599891153175289893533031318013991524954696697978914101339551372472702217727618152505198950123029887273352948217456046766062191891080046483386211725882799349846548161959470507230569560217757043033721781534907449047862142780157558879629810997945763588996588617788911843036949289975599868321912600060486399721292206939473308834785507242191955884483792107459179082419251522786127746889256215478735920621154940077544483079448532160743991568292195188283056632651372603137717826212199903577231550409883839354899363460038290965500578334135318556073637119163637240830726729501770182391862098222936166708414857677652477247365828313150914040758792597401112850211178184621130837271316817391214416652513532907529346297283498689086191928046838620162746450053687737091704147372399848170179065870201266595775685244755734698939558135594569686630724457378988857921913020698044269914136695022930043851440693364041168463658043429986770031541646046113239672983234615214686560414736566033132502994500666612690094707485583713987052626085260440185185839136186538011891745626402989334707436856356024977129081618698064182349915268587803849781642073932550784114612435909851069496145816181047044551118373243321894682074511602440160642210537351707203296694041358382495337832812442847786343557918592701780899902769860571048918210089366627103615710963868657847076031003890312079852646916357480330395417626272751446927254219649455777176206764746473456999104769312213960631048113277365576176199997539658231804432615237372820842061562776255982571389531834100125009151960676227033349625391288651184647106003810681867315314587144938264554594751029089167940326742130628228919907088493513654965763948927026132735178260735165178866595445322641255125736675856918951931840818296065021901939833010598607448072579297893617860664140873062982022030320960764477841462825257293551776491439602087587403268944318211078698829047507930093920966481550051684650967117810991462362175261589688865805757141099361880101825375929551827771177626156315162388027560415419363189885262320868969746245628743534541690908198322569225946340934135442777354103030661750494917259757353153078176272671708705811841424084098829938146444440186968120297376810457052911859407388330113810916209343907038477049064869166059416414990732814298059906732868449762943716191067701545245528107233344432868943926811180509354237282157541414753102210145089147832777900424047932739211014673913287817495578483079381369975376825334949637600592191231235741380478933961657651978407967759969364554492565717150334837238184359390914076227296098496164305209757353933955149623342664150426868619131273280016624498137450777827433843548926305337353331496998923439415969287511352223015206310776077991286528067455874923811561991756131463258862933210228034712910338787436790466020623415760670902067464709272210621339482623215991566315889865804957049054862512507346489285087174724186865174898930545498590029363681683542526363677534498879475911801886008581314164836534454459153545169293186727031528549063953171609888509791301357608467980600322849862711471963710545684366396496066494739372409801033845127527914421588587937854178768402542194540291495127856267093678687697341627884821094768707325594772120564208976703478722390153929033749872261729469152474814573023017588464995412250769249590468892121400186463925035376752539229030038109693612669859560318752942916468618461799220172333636836418157345837995702755847347863621646831455106596694971653674646162258447358089529180128248140673245967320860602307133643161409001522016765452955640356296648446593169980758889905511023702610344936781359407069105881320593317752685449895059479334887843316386558275355227893413410013183797656392905660808562139498241253894711846032869604296692845582885854751939013559734561326422706664214586434662594233558995451074232285786740190897254499499333024585374358012894257648772230375889768328742863276504299619965349108180368925474482218604941607889257148056730677127440764510470826446632683385079742668133587566680627746350639118513648206042399919796183014380273946503215557652343480878371111154670917635178359559341994474189353533254921281929769169155531108413118347997103607732671725035214552486581464552349887047604861905782439472000557624798231492647104457300160014770793997134995358047045617276169765210205308969971500096941618397723136050944992577929413983951898509698928422267098775834853151287288085669511174506142557281670915291079915409294333145173508380624675902912635364962472199454194143241083256680352262629391203027212724281469938430727929621558552889761718471465948245988658759280267915056027203660518798597418350611920297636039495052268208902599829380058492549683828518029618807320929117480501057559219272911435839730256510761912376818648323329595199718479732971127564209471941792496570648415580625680866416387919055513801029641361865772532168271057039828544799149325530634451182487256928407296886228047527244478809009646026028992345805459032736147515710383007282315701542249964167510947721000322990509927486858849407915241016497666913134459327364195080683298629924294428470832795112111381244427029553622507063937580689026431739775883147756394732187337800912153967297380149177741145350984042477102374987013548844079984442043431994571329826778488574410911492053468171521838933949230251072019887509866759680100394992248641939058641242085339516304492222819875292809625373075556035942277209529628322566855379765388858853301470626583378544571778676342638107218034325255448781325341503057917042196338247313892802989815928945494587133025384959905777549771198787393342086543982978343646480752820423282694811281767210502747291802274865732233734011290297103447393923913944182399380598159157884443430337271355790669448566979964979682030701218944426486826911977057101324046928686378027042057742546882162276071060054253251058163186824973705230819625903462616217079180462296390459092987238854753618135869715389693208787786051155028892073574114916357496558987306530388924706467622121669228641007562579238773811561434483570894204597870758151317706242973537597158197942789642222776766892973865108878296170872538009493092149943604657084779070541595797514917512788066845113050521230146446146188820027348412659566382836641713287330665858059878132392787896574211393956230367194171664700010145164308158628277929252033124418144354368054226895619529799164402424779378413489345919715495774400397273824448118107726852329324143938434071021775356220854480776154503156970442620114529748851809381966740582974540816350313820143221847024549231806043652160535656013488645560034762060617528287404936398450663074221722504197307272640865260389390818069508555796572680309075382520857704578065390434466833872055596233733962103114493000457579990460082254063550330912071320022000100172555338274236048172050932150957395799474112251491507173185527102480736699207061358288627980342039541648859156842659918114707072874621169857537178424552187311855065613644278386789053854970242126621308551679726453705471955237726334809645716506322968648274041415533854628589050707996395352124184767486435768637871471837492347843226634989525658630360828524846035366682763212737629470751474411481770538756470297058429978205228161221584854900129659304382926693194173147075517036519856211763308380007999683409495441124077243277430663336112501694694979658689945617501422371901672302654409613041736029570812173500407492681166135252621325666844621125765290922913124110472986703384470809308836941403133691671253447421809170427530115234554245378426130271478600919436300956246129025167619931837392565726486832589553958842693290277943206017706234180181615217316805981446024021845077435627102231931325943144125910129539312829427224050118263247736232702880143381693384308187617794626531350471292287360159341383415936444453951062191339029919169145035319614983355911290646559916948031834014253668503594700861605838051536437893666904918776893140201639469645999876460066720517118344108998865398425882773612176772609007833618733160227562554810066908882485252533754484843565685442345217488254696168025506795696907810706843045432940914181843715488850814213784745455026064230094096321955144300732456340080014645260010813008284834091248579584695217710811955125558623037690614504157070553738090602959947247372734940071705756462034737120834958076107557721308103424129440311051672974810296723144704439823492674238304209464350539408620597218252978018681530255883723250794891873528181457170802383285432092343917301986414981338528943637660730888720272929777157898669083676309106127696047522855191823711649196405250630241381817896061326905375700891184706288904691048374561669407968667772357745880229429382054115356717824426881655726767630936125443341819205853256201602714977748272654963358545829828158704056147246280828624017711052719943460070443233724119513011953462305771562896563844967292066232942813119872626481643383028088051145075100290479811516565699102789507625260160619050574545054068518066818240826523349935687752181072385531513647985045841074015630931668130509938224742082502912510785768640545226947224075300822594303352849730544621287682147693714395098770506904783752833640504015767282302590289508791257945898389909300231263813632670579605633965102925810055528246211862114842065405598273333666647178810709054454255502168542336200468391160596901736039180825524762470951388018520042098678533202083303605094432987227260230146782562364645224999469251912623514839210759329145251100656347001202783174491487253405898280535599722126562652463772354419116002040163641626762908315909086108027863098691009338437562023223852786890295163772623554156520496358389512293937170844716989898409413966989151623234902107718186441544118490279299608840159262722441642366853089109040364415643514677058666970222341180292132648289057183039708193867648095920914885852546624663665115643398308895063617023840704844204312442783503637319456367465466539322514344592800030527206370491367279867515436034851492945344123589123704997846221108275039822518590561734073925697328358969967982406549208677678363670963006725791685718122890111887026048748785442465902209683331383605043887579537645944554982606630542393499150280765351992767803895278728570618293076990468338120171775664832000603240500787581365855176848275724021349748910760881417129857675723659912212098261647659292964527602395062592304788196263551998199446962469276093699573434674608898631989127761003561357332808236372166069217162015505389131580122940224697757963065000785309756297764487075595427450401760906131977120281407137945396325292784090209771964123572232373523093039457426507478263621978270920712371791953950926836100783056732061771059786646157334331253147331631161239486278746436326049575202265605809948721658105110397746763282379044108769084743751765735583582782744915201176997875908128195640360710490590352326252118958852361070692028884600386311659968854187547078044200238161547441033347764982613151150949114580193804876033160022662726220327829853730844690504634317921228259953998406000103168730367000632469703260373942563864669069240634514980042933969310700073560603455988420730065418292657954548067787980127027491106258901365755775372190296392367606252860435630350010490628451220500084489807615290739296838893960136571039532526912985055268402868876791240252315559532482282580242021043190393688105152138428176840180713414284359168769296515740270049465838281088193582061146646867738970210597699215207110614496816686718364236091931266622921506361275628481629680325605199506415207600927750727598852904287586648286075265621870344159222565170460309335513580503424567035425891600681214454502524926965121696284599168257549364660895347504284211459525040904088499790538247234417406827363018007477009888157680079496916064173124585156387911873498130900125303080018463244664274878058453837698501717433229937473822550382684013537988695775900866712111176664953219599127867904744999647637931614231506972689880042267926207891824265749745577291722801429606026917630475459872126170961168034706745272638616151330382150888728959415479865515274846625459923108795459423018443839837113273165754925675147900731785048342834654536511089937863614706050999002471479605849791766803126131518777449204195713094222666733499122348108628823769752970514965319033745138174360341352149487431680628152885824970180021093679059079654913349038669056913492799225302425846742551136684119419336261908134638144405451480094769635203537440943819710838732960893737906455446020362586931066465651641648830420178266521989030252319361202620914203136724457534579359286505618797849359492699750873101951169855479213031547017879912176626979269504744446606181013440212914568721782170155763185450224511443901126362953294109275156898662261134569463498333677045472342585982534951886010566902329955115420811670829318755382778903453796106154269066811679621802243567466814127999921064807653510143717083543204899309048271750468573667974684916868100497150200364619295396998065843673223099315716762562731561852889892082538795919396804289210527226226832840361932593978030133969922189667793765881776362047748988223861771899765594431718814438747358955040864339630789236420549340684834251558648495997560493696502007021209344484305934340986918474230442984981896222700640721396334442359830928872147277237350327033086181634424474214184476773062082780747565890628760074097754358032355132797301662078268918056376625368175081293872452853228657200528757398384953172729024976736122498834797480413388760951759207287135443928849270884088582420341909098941984169472034124778841415603121044068475114714762049247262133384661586098444840394906407797923121779494234921090214051379155683644452464052144752727435178918359363547556748286018187805434497626387214466025298166698282147710243448688580505716166947216816546211229524530924735918401873564987454589244529493611839563693463700610702247232119025892791779712486359111672354108940544346333091920620306633808803194189337145434426573195358671795459290281032726138139713188362635448102813065097554922124195180077053081756628283629479762729946433776875027992637192518317155506120527291212208425083884687307265404421753233566042467096936364248592458198339760030320605934193713019587647093044628500941945075983372535876890832884646892201595614466574799972954950989501018033082047904478053528782000529901708092113608353339853888494393181431937422459028658285057794989523136966509927679678886761515983431810108468677665174280787041577022323875317505218524098034951762066647211926608296636874643487129358887935725957954514644714526028273798946920868363934719797521847921352660163759741001950415004582438775722431181295112397798732736738861516425671681061765998776489955971922839374282437311247268835906608699663916161354174893019758553329095406024282450355043720281662010951253753041948273702660809700393075302144483752703648409462768339484501329708864063144025261688096182336823302783406170623684207573499282384662525481656862245082075134341090624586300596841487040281002926736998400
  row := 16109960069691373827684180638038936945503701665984583040297593369896895882217269622129388771330645457750559232842609771395630038235929398353675160432442827233001485113771846018268895469561024509249456486896370226915257321085923128706126935007653355687674431104220993542780100768677644112990932711991959823746626149611755101191768214521797683119426616874235218527690991151404141670980962355866379869697363993618765312003550483179815313758353256363793043079125505346716100001250632437925913756049110342743842488728686248463042144329849568213831733372290250955278199502565483351410311459545048629257765514405691772714540551564942612744326283768044997464941986083883845069504048436058697662234086704307124762890620651595802780010805807419523556909314125680207476683985508758447508800659271364510048123624918580022628792869310264334803992956326967020209151124297277327222127058627225923303313898130136870101960849218089293193875630547475090401388140340444951805200688504898189586864830858856867304087095812975811203564293665701096014599167459119821455016464510302513695289183614232761019461755672660279294184078994446180720443354312504391352994109538078968872635293403570866314571386030450321670863906938703639031605857359784616349783560699940033896268565695081364130003654476048060316710051415132799646233777641306569158477083720450529307875536750628122129979762986663177042892238594019656844404474880470406019641703041410804686627634662723025075670239662635220850723587494106566256804281984840846924126854336615101379482777525366690431286977175091618944451684977716048001695179397630018469390220388919898136871771857272037474493575849414407519346331441516079540408298338020317980343144337641158684701423750866324353763968705138263415977657076105351034773054124572135690917211252850692028516303943545003567097699035570472044889737205282876822910165415703279925271363891493074932178783613205820346272969418721528189019202741212973194275459169657644435423002778213129804067053414001428989514715335030024457742690721822498694131572549667114472013300620634300691580591487800798813678151381602426300128705991974732408326602982530108556763061053207736655503132835781723101284581903632213779184988968633740137800784144169974141782158591455416824362851325415287547148628893157714218183509561385381677534284157411551501651928728212570956389240082938465843349558429435007726839237624111368183134199302867154793306620553451401737662921507545599048170770749226437083302318044583249640657553467174970051117249853851437010223722593522524471318484500876088870410269900632632579836780968328126695442948069222183770175708257514856984670688440493544942760026066059725141972782982147992109933844215419467194618847118943706210036582269798264211013526185702430335432612793269097351613716200084657067753860258570485106190993502782784367371545718894107051601811559662348706012708970534240195642223092450234206261361251032008720976790122413475737866905919600539621933921718455060086300651437141096083686444393529885770069082729249880030457916627231732115816291189521993544285439685844766079804788213604784308447709478518666320378207025243416845992595573468116012356174092073383914877512157787032427796517963168668771430470166320398747339787005114783687616773732643006299975123866524186527557386116181038223109034769979928037509648257997890588498827704619823865913895348962976149183123820055388369509383878982444197543918347096014790839198680146263449269945430726824095957822710030279619699968618294515213825791888118686975172049335182670414908199450577288452446870350744155970270963105652085957759414486509417165745102262349185148605921133850315550215528455510410565821185337562466308065109493534001237716620840391201705587676953798221290188917892797216322848901931862982298174798637352330663083365463602779347360041625691384982845140752315115815106701603341623219847572841525618715525517045870280934449606542087480726442022839698047252518464735876667306182298699723366052289689446518482301861431915213536361371228477881169428036845710940017777299039767017851900550595372361971496393138770137571585624109265606979476158373963804614257313632881086386662394062332595359190131313479434839203050867687771745245987428521171321571666292062207056245864462141130988041730313206151458855893486803307463249525939497949646052920458568665709361274928531164443433845896372226463909042227853413447727443315404491976870233251271129443998584174429148038202438317447148947850269019753429046966714132612987433932735085909817695889175473831760203308490637553761159888629455763257057135380257130374699281297460825319981269895740223751228701844030480972290075482736458479406337653838774080921784654967924167153252455956323996849123408744336534923186427706246596469473808018250963116272050920373304492915130109541430760623262138353849826349463672035047691106660795612832285647011336301847088010216241533943732897545001545297693675696903236639942469446053886688971780853816558381418935511120757708809182591780282426401074148884416308572275030990575983680833381864493444086735247498669396691846457383783090778431432290970167363854432392695057279453563194909879824123501217873030590788656463977347547607421690718422419796074727750159284707208926216458481123538317048433194752005024459848807625756831745385885277362824119021120673272515618421949999031196395958458995509757002671028935503956276876045680328864447583976824920092273834209726424222297909932897412753426846865967759579378017294100621825811833220488408721749446119756889354430300952685778540544088930848386352666277512626572491053104883510497665519666528767373315915385512169631201391018168070810995019649052156677631860357488330796485057241611448379605575466980783788545823120941039197959883735071745958523989491620104182906563385759156564785895849254958232964634793597937043671406948220524814640320274288253592086266110713100818343591522003839834298405891032851075673732022253204499114285613685198908342061976508017575595442891452364004498321374414514210342215083374734941398506248622453214931750385842802908889979594728515656026021188496475488324488116504280312316639353142635473228706090435772805636315566818108904747567151209524685285398823751463946328383194575142526602165791153059141171906085243988643361194547262611969287030102063331818233768261880936562926024656159145036164815727588914881021097879307800649772852898629789960322236478789261927485795247599222885635311837801345431389699273230423802203905205385441984137940342709811024354529446905093742914905994938018860757347914260583679400435806727939357280168244332201596474423691412195492225515614250970639098956025359218474835138923171710610008850433494359812803072217810767520487600145812949021827874772903283897830268356219739714043671001762098588276403138081753908593890283486063937315635672901862829390877346073717065417006946152392715447525646768237800352773681574123651708072867534696578475448976683897974662677773104179879427988679430063260718497388034564333849581486545747810012472646044722259460775443877893516255450505142365115388873816411154920422320844449097683106827197084241422218626210441988253308227249632282761925652964244679678521639584535228133064575838493167514812520686587062446904906780949345941859621878537925631179359373267163714835005434634926866465079838170775639559553584664605165877115547079362097816829290329565381981252950748172082925260053255129544430773477153537216965416386355543919097847822484339892364452541752633320667679900866022421735838965623352126495731995508667608785956330963191950067318863597678017281619892291991471109875943507274711498190989650404393546543004331145054111779752753162376216444781503622904625559094116015126834664447096447034745749314329591418483279162218505712115742641910580527613876412915007596190438821135507274646773841400298878052998009566969180976685536229740386986001651054486106723804963861725225713697980255397737377578928387418113823752079304609035594724048216882267787578173551486923164809820792836210096312579742558980957433120362900374460751105398799524487277433293330144776503946798435475331556123518800153747065583506944474672139405516634847328743773207524788319700571173295169368663073451019295617590542752285258524273261328638904130525194259483480312600000187262820106463813056088746080577204845154669431606433691534038194545492560353672071187469405389167262455294282806080345890216904555077121799069286757139274887138905362325476875069507797067929730584869422559741970647147063403886632347355172593747385621890730815303701335128292983788547043448195244751407581143659587157539583655457351582168307746847942758360875554730461414309549023770083905209026906436058568614015917135934877598417949709573951265891055072934337082350998861573212068547514949320707042564411692430005304436095863105148412865365550457001464103997364185464115203686229464304937185518732861308793624384317418523350734188962480564944853018782166328885861275846273636470138067567186135131515634489925973624381689939158392569486150571482969760356359917412074164422921567152159293568845527974018835935550860517279703422844345547155951705647993023158109913891493507354912048644041522873420488710369990730737679187739632144130509412811297536583514564362963639746957735399966417981480225892416130176371579948672342500672160695090756887355497940382083770892604941261632203399122190305164085677255429824084249559208665710400509486145766265045413254053553231009799159796636267714159499140401958445518287761294249265555822218098649461700704486122431850299591983747505434512028552838379218573221484521752728953933226301018447117994564808526370680726413322510793851373525804772558832188366164796995808680174699750305999088606965932119441576425831850124305833879761488759516144652507383767624222450373534498308915806211870124355016569995701902716689540529315882755443945525889616833858932652526478526853062417954448756067670647802457151255502931254334135855967400811725055001764594723933810316999033981677781115724127893661560759510663446958063141627883330861420529551820418731290250830772903803663538111348136735193251078820616092299212059242316883229823572636134406340982330397291256336766623281400309992988953461412251480210356769070672720311493572773897773446718055061072730557368079593254906921393457346087330555619910042592233204264199286546457330678349621656813595947987913363256038496364452869728066028987033899796538440405192167154190582986917887473065858896336535483827602344841858086762115744967357527666818439489614952331248536653912109562577164425685696694834520505182543896242025339043382314653314792747683948401935029401544819940387306789497735316781783920077061127969054950359997843138235545951156214981891996839990332820481678767260392966241154503417967298621927675959132605360216840361191387997175054999624212565058417515621759594563854357757791039465204971828394814876052908489962633701624963913825352154418535252134490882342087238127820928614003312982277040337407823345403231644617559756954111371931886410461425288835664532102135876477603085580673716815820999753744224576556142216344593508413287837531138111510210920034923317724140129903503787458937064006338701916671271922273035161562649496601781326280208367164284029669373458868285011839977815559128787556378919804008085192190617694112376179460710558098700951076751796856232079212067109777927492790674554722312211355132126592688626704338886232126992302142762065028751939140708591729023530578365074212760231941655898540404629745831215397366775694712235808003397109827202511843148571675929803012278527022694648505524871691204261735861744704290425475766408109705600893109452832963113403758943664107701428943365893147666280204388554426059169381172829742372263465036137790399491876240806852781575689484717752512781767264824551075046315478055142965189588933156574457905577695451789918547420667296518371006032025516655353981387276545955891088868141467161550334251450326432162812373899648583343383116078092717621680214304565261729852141200143709543976796426751272436570613721705051969946356150796891664347423946998146568300468057777312467382485658418681120749813715539069815415780645601723363442382188317644794301340484866319195789002465533166102112469806170512456037232596023807762309068747036611597918145411104878376161932225225535971019506816398583938211758094787325160539561289834106277276149322077061464246508207260841055237810967725099019107427550766973514111536794516908836717042319447056032675487424840003131481668583945196847699299851221396697923145730439726219405415028990089051956781673550624145860933792838212745498684120256348884209706846457822071210981642374291805709253678887539449560288819288022895796776475999530606103307819434952135360296969836559425706798815018979458572998685069744275319605330409142652481945332695590924226909712663000380938620377860920512470514857628732826468640949943194207462335111711416115636954532135890936492582131617911308286507106182513231030424888948680877711831508736708280158672612182617482678547788424750910353497769406453368448960138447669930608792968773782586650503352834966758130625406400709257606090903171083519792570321211498967863071499114489611063705019770927640381394695866905477344441127375238613411276717503314481676702559395127266717768493447135593145047332470108613319554470148180118369710402971206381444347357192626874098737554688160802350834319249698505040934918057837030179933267470003311078844873718136431747286505964328606710700367169225809396824623018371721876207227504810049997894015430002154831400723935418136484739589922616203575690739825011370265015719034602285346371852295865661561103275591878672799766682263369717073720534331267543814049848475892996833391842213840219928342761079260833175863985219091455607804224824983345556180009975982628425446777281711906657982262509649258844985686287775780935849666734178044749134670214074350197306147769751778261737367524529105491130500312517469565508087214527731447600059679123131350304790342031089371107467925383393202448053611678637165131220454656683910540285715189611181719764145716970080287098785518144874590921928411669323315411202838234105917348056194925306404259058966264209245091810433089439074241431233064171789446959579772740446234625205568976102217947430142110026682014142195545683920470215620866784397748244173115194759656837444222397826156376654741239430858590179566784674097667723839759337212671656911857828648453173700012776647478259993888419360067917299344017894173051657150751363083944197298616350405398409086584718610599185489344195976180593098332378451200299493565368178486668310209391420515652092281641283060153909926539156459440384088640120210991081033730255918059364568172018411392702876001750896417829478897997028331198707038494548806201081100176094611925220655952519835785639098712572873604848635033615801987095085132058225986070342713147773536840598621896803323186658462767265927665250091660431219926599168805719384003161209433677268340592463068608178108838505629859393326207937418629412536686561282101457607739280273689012651573849586470587497615886480004430285115833610353594544445275785521450219486257084161056493804446934013204735745611450220348376451537005100503801394054086693987140260263514707674453585833182940641115538816974033546502212591183325454953600118933968082348347278230882081384873877291024160855470505626198189814906748312154044970860377757052706944065166244020363607495189938691156710506433157477996308720725220022013752217863236337024619615449036921744835216245809126590544267121924379359947290468991071342036632580034296416962499713347794181853204941946756748849718078325869644351902898522212872087090458474630405979870551543020263004454412065120266304721236248381338835658084427500784047855371242990345224290051195616267195032338719141749389262422110082258699139381500110118354227214140821552527330555963449458104250436508413458748679301395334765526070538184220085621370714512670724649474150847238840396141110974136721156183870727250546198848975664116602675862840543221989753541750170629351646565695215396733744588301769787569955918472964610649085295969728103583894393857494375500959921702455534236648424580708716302602627826600181731348207002696161379740792722226153157116795049109702217855731907440281986639970821223214074680120422988089816218044990942403580206309635180386378810868773112412365635476924807847006379048313522487393690050477765098195094734406320698881647955894078014044352081803111817002985362924129033426479721406433301668549419703130070327938063994351975188465523129217222837560057271417315430077816106636726836369740497898835352822827009958541331247947287989262943730486416391180067879687602971574734476425388629105858349308744430488313876507217992567474466302316784485129583411922101520132881791491905329785190751741424868583824827453571544848321089039193347634048443655757269476489149252957921774213407488655159055887178636319372362750906939236041409266322522750011535970322556262696991345639543292160533877800932973824361622614292157965275663762331804377905760890605867203176486142147077155865267562892493412704222703052517422195834181020903632006382486351897440690363905723595945346970573732458036008641858949317406920929623427793541448877318068792016159694066922403921835100242921555181215610585653630243144779072843541517624661913761274466333798199444239534358416403086773060282161140520864841813078834935912543363956686118120658937597634186994650406824559154830085526927360544513965696373622394228038686214401305799476239503627108943831879777523099429423020149413553373139340529327115735701658818309006946318646007452479082175757987112216969402324083457056921791974375567394964704382933329712305588773725314728808952633284668369549728507660073499623157378310385152460759049656436177787357148431738136225422056776587249650657730153415949667604382781901680811837378157099839652965844282730240512676338282224904296845886039321698505421787680595099898296675871992166992320963911888270665833831619721441550760273587728890492741574447814558175877659274456100226138189264433584902085194317495496728071596340040316661234205173696270099555796076893910988223980887325588844187396164047359266712301642924020121511422606239772160148994394127841130270738496842233767312723574999210370353473618744134017573561790298490252721608942260437446965674472928604297396383313829387182419782415524978326623048134913249410662700383766821446092033430762097586693382128186943989675010377036671304771056815998787272311730810361170226829625166707010464658389597352402011760121625332410317741285483492736267475245132496034379268896758873216350353096042858668251211846802833557081500716254467714700972303094857407091153797807265130731010975477361852357655140717415073675417988016412408214888822999811854805338046928078292304288114327633917214949830827101587755778449563479952631287814157458762140426246889888583345888299462255278554458894301500623292525443506244169035487878128691476627670237377621845074984280739238338898015062897689101539681362608099528632445142684746681343292204817573486621688880451284865865699749125286274859795826953831178671789065311276039734546514345248641341538274092432671845503843901198395922317540800982963010981482089011760680899898720789680315495389825263219469516800
  size := 31170707395831031862152041405833724331272965998922396134494911709766715492023605236511533455341374616577821430384059479840982146452152604765147196749903628955906827476777171877018157113345894524212241975831649872155744365805081205372549610391161167311963430814483153900337534887486988248985402492879372134672453429647539734590803826645010335570770866021378484793974897888891697029161516944406294071067333232113712449370025462334744770144973121650449286937370272067431289459751168179622828545780302081409493061491516514830270315611477166712046907213513927782454617358584920616893373354530493649652238352380521472701394928792556831030773188187545509913052242183609836884968808929804314474505715750226724686471777919785269094852569301429080263593565364422399003695186898879996008154526272246916865110410473717775187616286149044573254700525729246250565293165596832999437828667682821066465769783404790872816595122203061513281827839266575479192152927250935077010672805246585168333603136727839670713712557888501445642967626975692419733015177045418556690840844593936568918832989814483058095055186484615524247071054120376747914177840275092621080744377463736649732270654410969525535748169319668722217649343572601947226335910726855910914641588130292120896048485212369028640116206285795802289491320692445541376951884766354438100054931527078464027837273558355945870067159818128816054362003301159271328080110379126783384001053399419646745126220464042778534891046605595223220951040873437909669074267856579210086644817908904946795403851499851878455790336381075888023588246716416
  names := (.node none (.node none (.node none (.node none (.node none (.node none (.node none (.node none (.node none (.node none .nil (.node (some (3, 8, 8)) .nil .nil)) (.node none .nil (.node none (.node (some (7, 1, 3)) .nil .nil) .nil))) (.node none (.node none (.node none (.node (some (5, 5, 1)) .nil .nil) .nil) .nil) (.node (some (2, 3, 6)) (.node none .nil (.node (some (8, 6, 5)) .nil .nil)) .nil))) (.node none (.node none (.node (some (1, 5, 5)) (.node none .nil (.node (some (7, 8, 4)) .nil .nil)) .nil) (.node none .nil (.node (some (4, 7, 0)) .nil .nil))) (.node none (.node none (.node (some (3, 1, 7)) .nil .nil) (.node none .nil (.node (some (9, 4, 6)) .nil .nil))) (.node none (.node none (.node (some (6, 3, 2)) .nil .nil) .nil) .nil)))) (.node none (.node none (.node none (.node none (.node (some (2, 7, 2)) .nil .nil) (.node none .nil (.node (some (9, 1, 1)) .nil .nil))) (.node none (.node none (.node (some (5, 8, 6)) .nil .nil) .nil) .nil)) (.node (some (1, 2, 0)) (.node none .nil (.node (some (4, 3, 4)) .nil .nil)) (.node none .nil (.node none (.node (some (7, 4, 8)) .nil .nil) .nil)))) (.node none (.node none (.node none .nil (.node none (.node (some (6, 6, 7)) .nil .nil) .nil)) (.node none (.node (some (3, 5, 3)) .nil .nil) (.node none .nil (.node (some (9, 8, 2)) .nil .nil)))) (.node none (.node (some (2, 0, 1)) (.node none .nil (.node (some (8, 3, 0)) .nil .nil)) .nil) (.node none .nil (.node (some (5, 1, 5)) .nil .nil)))))) (.node none (.node none (.node none (.node none (.node none .nil (.node none (.node (some (6, 5, 0)) .nil .nil) .nil)) (.node none (.node (some (3, 3, 5)) .nil .nil) (.node none .nil (.node (some (9, 6, 4)) .nil .nil)))) (.node none (.node (some (1, 7, 3)) (.node none .nil (.node (some (8, 1, 2)) .nil .nil)) .nil) (.node none .nil (.node (some (4, 8, 7)) .nil .nil)))) (.node none (.node (some (1, 0, 2)) (.node none .nil (.node (some (4, 1, 6)) .nil .nil)) (.node none .nil (.node none (.node (some (7, 3, 1)) .nil .nil) .nil))) (.node none (.node none (.node none (.node (some (5, 6, 8)) .nil .nil) .nil) .nil) (.node (some (2, 5, 4)) (.node none .nil (.node (some (8, 8, 3)) .nil .nil)) .nil)))) (.node none (.node none (.node none (.node none (.node none (.node (some (5, 3, 3)) .nil .nil) .nil) .nil) (.node (some (2, 1, 8)) (.node none .nil (.node (some (8, 4, 7)) .nil .nil)) .nil)) (.node none (.node none .nil (.node none (.node (some (6, 8, 5)) .nil .nil) .nil)) (.node none (.node (some (3, 7, 1)) .nil .nil) .nil))) (.node none (.node none (.node none (.node (some (3, 0, 0)) .nil .nil) (.node none .nil (.node (some (9, 2, 8)) .nil .nil))) (.node none (.node none (.node (some (6, 1, 4)) .nil .nil) .nil) .nil)) (.node (some (1, 3, 7)) (.node none .nil (.node (some (4, 5, 2)) .nil .nil)) (.node none .nil (.node none (.node (some (7, 6, 6)) .nil .nil) .nil))))))) (.node none (.node none (.node none (.node none (.node none (.node none (.node none (.node (some (5, 2, 4)) .nil .nil) .nil) .nil) (.node (some (2, 1, 0)) (.node none .nil (.node (some (8, 3, 8)) .nil .nil)) .nil)) (.node none (.node none .nil (.node none (.node (some (6, 7, 6)) .nil .nil) .nil)) (.node none (.node (some (3, 6, 2)) .nil .nil) .nil))) (.node none (.node none (.node none (.node (some (2, 8, 1)) .nil .nil) (.node none .nil (.node (some (9, 2, 0)) .nil .nil))) (.node none (.node none (.node (some (6, 0, 5)) .nil .nil) .nil) .nil)) (.node (some (1, 2, 8)) (.node none .nil (.node (some (4, 4, 3)) .nil .nil)) (.node none .nil (.node none (.node (some (7, 5, 7)) .nil .nil) .nil))))) (.node none (.node none (.node none (.node none .nil (.node (some (4, 0, 7)) .nil .nil)) (.node none .nil (.node none (.node (some (7, 2, 2)) .nil .nil) .nil))) (.node none (.node none (.node none (.node (some (5, 6, 0)) .nil .nil) .nil) .nil) (.node (some (2, 4, 5)) (.node none .nil (.node (some (8, 7, 4)) .nil .nil)) .nil))) (.node none (.node none (.node (some (1, 6, 4)) (.node none .nil (.node (some (8, 0, 3)) .nil .nil)) .nil) (.node none .nil (.node (some (4, 7, 8)) .nil .nil))) (.node none (.node none (.node (some (3, 2, 6)) .nil .nil) (.node none .nil (.node (some (9, 5, 5)) .nil .nil))) (.node none (.node none (.node (some (6, 4, 1)) .nil .nil) .nil) .nil))))) (.node none (.node none (.node none (.node none (.node (some (1, 4, 6)) (.node none .nil (.node (some (7, 7, 5)) .nil .nil)) .nil) (.node none .nil (.node (some (4, 6, 1)) .nil .nil))) (.node none (.node none (.node (some (3, 0, 8)) .nil .nil) (.node none .nil (.node (some (9, 3, 7)) .nil .nil))) (.node none (.node none (.node (some (6, 2, 3)) .nil .nil) .nil) .nil))) (.node none (.node none (.node none (.node none (.node (some (5, 4, 2)) .nil .nil) .nil) .nil) (.node (some (2, 2, 7)) (.node none .nil (.node (some (8, 5, 6)) .nil .nil)) .nil)) (.node none (.node none .nil (.node none (.node (some (7, 0, 4)) .nil .nil) .nil)) (.node none (.node (some (3, 8, 0)) .nil .nil) .nil)))) (.node none (.node none (.node none (.node none .nil (.node none (.node (some (6, 5, 8)) .nil .nil) .nil)) (.node none (.node (some (3, 4, 4)) .nil .nil) (.node none .nil (.node (some (9, 7, 3)) .nil .nil)))) (.node none (.node (some (1, 8, 2)) (.node none .nil (.node (some (8, 2, 1)) .nil .nil)) .nil) (.node none .nil (.node (some (5, 0, 6)) .nil .nil)))) (.node none (.node (some (1, 1, 1)) (.node none .nil (.node (some (4, 2, 5)) .nil .nil)) (.node none .nil (.node none (.node (some (7, 4, 0)) .nil .nil) .nil))) (.node none (.node none (.node none (.node (some (5, 7, 7)) .nil .nil) .nil) .nil) (.node (some (2, 6, 3)) (.node none .nil (.node (some (9, 0, 2)) .nil .nil)) .nil))))))) (.node none (.node none (.node none (.node none (.node none (.node none (.node (some (1, 4, 2)) (.node none .nil (.node (some (7, 7, 1)) .nil .nil)) .nil) (.node none .nil (.node (some (4, 5, 6)) .nil .nil))) (.node none (.node none (.node (some (3, 0, 4)) .nil .nil) (.node none .nil (.node (some (9, 3, 3)) .nil .nil))) (.node none (.node none (.node (some (6, 1, 8)) .nil .nil) .nil) .nil))) (.node none (.node none (.node none (.node none (.node (some (5, 3, 7)) .nil .nil) .nil) .nil) (.node (some (2, 2, 3)) (.node none .nil (.node (some (8, 5, 2)) .nil .nil)) .nil)) (.node none (.node none .nil (.node none (.node (some (7, 0, 0)) .nil .nil) .nil)) (.node none (.node (some (3, 7, 5)) .nil .nil) .nil)))) (.node none (.node none (.node none (.node none .nil (.node none (.node (some (6, 5, 4)) .nil .nil) .nil)) (.node none (.node (some (3, 4, 0)) .nil .nil) (.node none .nil (.node (some (9, 6, 8)) .nil .nil)))) (.node none (.node (some (1, 7, 7)) (.node none .nil (.node (some (8, 1, 6)) .nil .nil)) .nil) (.node none .nil (.node (some (5, 0, 2)) .nil .nil)))) (.node none (.node (some (1, 0, 6)) (.node none .nil (.node (some (4, 2, 1)) .nil .nil)) (.node none .nil (.node none (.node (some (7, 3, 5)) .nil .nil) .nil))) (.node none (.node none (.node none (.node (some (5, 7, 3)) .nil .nil) .nil) .nil) (.node (some (2, 5, 8)) (.node none .nil (.node (some (8, 8, 7)) .nil .nil)) .nil))))) (.node none (.node none (.node none (.node none (.node none .nil (.node (some (4, 0, 3)) .nil .nil)) (.node none .nil (.node none (.node (some (7, 1, 7)) .nil .nil) .nil))) (.node none (.node none (.node none (.node (some (5, 5, 5)) .nil .nil) .nil) .nil) (.node (some (2, 4, 1)) (.node none .nil (.node (some (8, 7, 0)) .nil .nil)) .nil))) (.node none (.node none (.node (some (1, 6, 0)) (.node none .nil (.node (some (7, 8, 8)) .nil .nil)) .nil) (.node none .nil (.node (some (4, 7, 4)) .nil .nil))) (.node none (.node none (.node (some (3, 2, 2)) .nil .nil) (.node none .nil (.node (some (9, 5, 1)) .nil .nil))) (.node none (.node none (.node (some (6, 3, 6)) .nil .nil) .nil) .nil)))) (.node none (.node none (.node none (.node none (.node (some (2, 7, 6)) .nil .nil) (.node none .nil (.node (some (9, 1, 5)) .nil .nil))) (.node none (.node none (.node (some (6, 0, 1)) .nil .nil) .nil) .nil)) (.node (some (1, 2, 4)) (.node none .nil (.node (some (4, 3, 8)) .nil .nil)) (.node none .nil (.node none (.node (some (7, 5, 3)) .nil .nil) .nil)))) (.node none (.node none (.node none .nil (.node none (.node (some (6, 7, 2)) .nil .nil) .nil)) (.node none (.node (some (3, 5, 7)) .nil .nil) (.node none .nil (.node (some (9, 8, 6)) .nil .nil)))) (.node none (.node (some (2, 0, 5)) (.node none .nil (.node (some (8, 3, 4)) .nil .nil)) .nil) (.node none .nil (.node (some (5, 2, 0)) .nil .nil))))))) (.node none (.node none (.node none (.node none (.node none (.node none (.node (some (2, 6, 7)) .nil .nil) (.node none .nil (.node (some (9, 0, 6)) .nil .nil))) (.node none (.node none (.node (some (5, 8, 2)) .nil .nil) .nil) .nil)) (.node (some (1, 1, 5)) (.node none .nil (.node (some (4, 3, 0)) .nil .nil)) (.node none .nil (.node none (.node (some (7, 4, 4)) .nil .nil) .nil)))) (.node none (.node none (.node none .nil (.node none (.node (some (6, 6, 3)) .nil .nil) .nil)) (.node none (.node (some (3, 4, 8)) .nil .nil) (.node none .nil (.node (some (9, 7, 7)) .nil .nil)))) (.node none (.node (some (1, 8, 6)) (.node none .nil (.node (some (8, 2, 5)) .nil .nil)) .nil) (.node none .nil (.node (some (5, 1, 1)) .nil .nil))))) (.node none (.node none (.node none (.node (some (1, 5, 1)) (.node none .nil (.node (some (7, 8, 0)) .nil .nil)) .nil) (.node none .nil (.node (some (4, 6, 5)) .nil .nil))) (.node none (.node none (.node (some (3, 1, 3)) .nil .nil) (.node none .nil (.node (some (9, 4, 2)) .nil .nil))) (.node none (.node none (.node (some (6, 2, 7)) .nil .nil) .nil) .nil))) (.node none (.node none (.node none (.node none (.node (some (5, 4, 6)) .nil .nil) .nil) .nil) (.node (some (2, 3, 2)) (.node none .nil (.node (some (8, 6, 1)) .nil .nil)) .nil)) (.node none (.node none .nil (.node none (.node (some (7, 0, 8)) .nil .nil) .nil)) (.node none (.node (some (3, 8, 4)) .nil .nil) .nil))))) (.node none (.node none (.node none (.node none (.node none (.node none (.node (some (5, 2, 8)) .nil .nil) .nil) .nil) (.node (some (2, 1, 4)) (.node none .nil (.node (some (8, 4, 3)) .nil .nil)) .nil)) (.node none (.node none .nil (.node none (.node (some (6, 8, 1)) .nil .nil) .nil)) (.node none (.node (some (3, 6, 6)) .nil .nil) .nil))) (.node none (.node none (.node none (.node (some (2, 8, 5)) .nil .nil) (.node none .nil (.node (some (9, 2, 4)) .nil .nil))) (.node none (.node none (.node (some (6, 1, 0)) .nil .nil) .nil) .nil)) (.node (some (1, 3, 3)) (.node none .nil (.node (some (4, 4, 7)) .nil .nil)) (.node none .nil (.node none (.node (some (7, 6, 2)) .nil .nil) .nil))))) (.node none (.node none (.node none (.node none .nil (.node (some (4, 1, 2)) .nil .nil)) (.node none .nil (.node none (.node (some (7, 2, 6)) .nil .nil) .nil))) (.node none (.node none (.node none (.node (some (5, 6, 4)) .nil .nil) .nil) .nil) (.node (some (2, 5, 0)) (.node none .nil (.node (some (8, 7, 8)) .nil .nil)) .nil))) (.node none (.node none (.node (some (1, 6, 8)) (.node none .nil (.node (some (8, 0, 7)) .nil .nil)) .nil) (.node none .nil (.node (some (4, 8, 3)) .nil .nil))) (.node none (.node none (.node (some (3, 3, 1)) .nil .nil) (.node none .nil (.node (some (9, 6, 0)) .nil .nil))) (.node none (.node none (.node (some (6, 4, 5)) .nil .nil) .nil) .nil)))))))) (.node none (.node none (.node none (.node none (.node none (.node none (.node none (.node none (.node (some (2, 6, 5)) .nil .nil) (.node none .nil (.node (some (9, 0, 4)) .nil .nil))) (.node none (.node none (.node (some (5, 8, 0)) .nil .nil) .nil) .nil)) (.node (some (1, 1, 3)) (.node none .nil (.node (some (4, 2, 7)) .nil .nil)) (.node none .nil (.node none (.node (some (7, 4, 2)) .nil .nil) .nil)))) (.node none (.node none (.node none .nil (.node none (.node (some (6, 6, 1)) .nil .nil) .nil)) (.node none (.node (some (3, 4, 6)) .nil .nil) (.node none .nil (.node (some (9, 7, 5)) .nil .nil)))) (.node none (.node (some (1, 8, 4)) (.node none .nil (.node (some (8, 2, 3)) .nil .nil)) .nil) (.node none .nil (.node (some (5, 0, 8)) .nil .nil))))) (.node none (.node none (.node none (.node (some (1, 4, 8)) (.node none .nil (.node (some (7, 7, 7)) .nil .nil)) .nil) (.node none .nil (.node (some (4, 6, 3)) .nil .nil))) (.node none (.node none (.node (some (3, 1, 1)) .nil .nil) (.node none .nil (.node (some (9, 4, 0)) .nil .nil))) (.node none (.node none (.node (some (6, 2, 5)) .nil .nil) .nil) .nil))) (.node none (.node none (.node none (.node none (.node (some (5, 4, 4)) .nil .nil) .nil) .nil) (.node (some (2, 3, 0)) (.node none .nil (.node (some (8, 5, 8)) .nil .nil)) .nil)) (.node none (.node none .nil (.node none (.node (some (7, 0, 6)) .nil .nil) .nil)) (.node none (.node (some (3, 8, 2)) .nil .nil) .nil))))) (.node none (.node none (.node none (.node none (.node none (.node none (.node (some (5, 2, 6)) .nil .nil) .nil) .nil) (.node (some (2, 1, 2)) (.node none .nil (.node (some (8, 4, 1)) .nil .nil)) .nil)) (.node none (.node none .nil (.node none (.node (some (6, 7, 8)) .nil .nil) .nil)) (.node none (.node (some (3, 6, 4)) .nil .nil) .nil))) (.node none (.node none (.node none (.node (some (2, 8, 3)) .nil .nil) (.node none .nil (.node (some (9, 2, 2)) .nil .nil))) (.node none (.node none (.node (some (6, 0, 7)) .nil .nil) .nil) .nil)) (.node (some (1, 3, 1)) (.node none .nil (.node (some (4, 4, 5)) .nil .nil)) (.node none .nil (.node none (.node (some (7, 6, 0)) .nil .nil) .nil))))) (.node none (.node none (.node none (.node none .nil (.node (some (4, 1, 0)) .nil .nil)) (.node none .nil (.node none (.node (some (7, 2, 4)) .nil .nil) .nil))) (.node none (.node none (.node none (.node (some (5, 6, 2)) .nil .nil) .nil) .nil) (.node (some (2, 4, 7)) (.node none .nil (.node (some (8, 7, 6)) .nil .nil)) .nil))) (.node none (.node none (.node (some (1, 6, 6)) (.node none .nil (.node (some (8, 0, 5)) .nil .nil)) .nil) (.node none .nil (.node (some (4, 8, 1)) .nil .nil))) (.node none (.node none (.node (some (3, 2, 8)) .nil .nil) (.node none .nil (.node (some (9, 5, 7)) .nil .nil))) (.node none (.node none (.node (some (6, 4, 3)) .nil .nil) .nil) .nil)))))) (.node none (.node none (.node none (.node none (.node none (.node none .nil (.node (some (4, 0, 1)) .nil .nil)) (.node none .nil (.node none (.node (some (7, 1, 5)) .nil .nil) .nil))) (.node none (.node none (.node none (.node (some (5, 5, 3)) .nil .nil) .nil) .nil) (.node (some (2, 3, 8)) (.node none .nil (.node (some (8, 6, 7)) .nil .nil)) .nil))) (.node none (.node none (.node (some (1, 5, 7)) (.node none .nil (.node (some (7, 8, 6)) .nil .nil)) .nil) (.node none .nil (.node (some (4, 7, 2)) .nil .nil))) (.node none (.node none (.node (some (3, 2, 0)) .nil .nil) (.node none .nil (.node (some (9, 4, 8)) .nil .nil))) (.node none (.node none (.node (some (6, 3, 4)) .nil .nil) .nil) .nil)))) (.node none (.node none (.node none (.node none (.node (some (2, 7, 4)) .nil .nil) (.node none .nil (.node (some (9, 1, 3)) .nil .nil))) (.node none (.node none (.node (some (5, 8, 8)) .nil .nil) .nil) .nil)) (.node (some (1, 2, 2)) (.node none .nil (.node (some (4, 3, 6)) .nil .nil)) (.node none .nil (.node none (.node (some (7, 5, 1)) .nil .nil) .nil)))) (.node none (.node none (.node none .nil (.node none (.node (some (6, 7, 0)) .nil .nil) .nil)) (.node none (.node (some (3, 5, 5)) .nil .nil) (.node none .nil (.node (some (9, 8, 4)) .nil .nil)))) (.node none (.node (some (2, 0, 3)) (.node none .nil (.node (some (8, 3, 2)) .nil .nil)) .nil) (.node none .nil (.node (some (5, 1, 7)) .nil .nil)))))) (.node none (.node none (.node none (.node none (.node none .nil (.node none (.node (some (6, 5, 2)) .nil .nil) .nil)) (.node none (.node (some (3, 3, 7)) .nil .nil) (.node none .nil (.node (some (9, 6, 6)) .nil .nil)))) (.node none (.node (some (1, 7, 5)) (.node none .nil (.node (some (8, 1, 4)) .nil .nil)) .nil) (.node none .nil (.node (some (5, 0, 0)) .nil .nil)))) (.node none (.node (some (1, 0, 4)) (.node none .nil (.node (some (4, 1, 8)) .nil .nil)) (.node none .nil (.node none (.node (some (7, 3, 3)) .nil .nil) .nil))) (.node none (.node none (.node none (.node (some (5, 7, 1)) .nil .nil) .nil) .nil) (.node (some (2, 5, 6)) (.node none .nil (.node (some (8, 8, 5)) .nil .nil)) .nil)))) (.node none (.node none (.node none (.node none (.node none (.node (some (5, 3, 5)) .nil .nil) .nil) .nil) (.node (some (2, 2, 1)) (.node none .nil (.node (some (8, 5, 0)) .nil .nil)) .nil)) (.node none (.node none .nil (.node none (.node (some (6, 8, 7)) .nil .nil) .nil)) (.node none (.node (some (3, 7, 3)) .nil .nil) .nil))) (.node none (.node none (.node none (.node (some (3, 0, 2)) .nil .nil) (.node none .nil (.node (some (9, 3, 1)) .nil .nil))) (.node none (.node none (.node (some (6, 1, 6)) .nil .nil) .nil) .nil)) (.node (some (1, 4, 0)) (.node none .nil (.node (some (4, 5, 4)) .nil .nil)) (.node none .nil (.node none (.node (some (7, 6, 8)) .nil .nil) .nil)))))))) (.node none (.node none (.node none (.node none (.node none (.node none (.node none .nil (.node none (.node (some (6, 4, 7)) .nil .nil) .nil)) (.node none (.node (some (3, 3, 3)) .nil .nil) (.node none .nil (.node (some (9, 6, 2)) .nil .nil)))) (.node none (.node (some (1, 7, 1)) (.node none .nil (.node (some (8, 1, 0)) .nil .nil)) .nil) (.node none .nil (.node (some (4, 8, 5)) .nil .nil)))) (.node none (.node (some (1, 0, 0)) (.node none .nil (.node (some (4, 1, 4)) .nil .nil)) (.node none .nil (.node none (.node (some (7, 2, 8)) .nil .nil) .nil))) (.node none (.node none (.node none (.node (some (5, 6, 6)) .nil .nil) .nil) .nil) (.node (some (2, 5, 2)) (.node none .nil (.node (some (8, 8, 1)) .nil .nil)) .nil)))) (.node none (.node none (.node none (.node none (.node none (.node (some (5, 3, 1)) .nil .nil) .nil) .nil) (.node (some (2, 1, 6)) (.node none .nil (.node (some (8, 4, 5)) .nil .nil)) .nil)) (.node none (.node none .nil (.node none (.node (some (6, 8, 3)) .nil .nil) .nil)) (.node none (.node (some (3, 6, 8)) .nil .nil) .nil))) (.node none (.node none (.node none (.node (some (2, 8, 7)) .nil .nil) (.node none .nil (.node (some (9, 2, 6)) .nil .nil))) (.node none (.node none (.node (some (6, 1, 2)) .nil .nil) .nil) .nil)) (.node (some (1, 3, 5)) (.node none .nil (.node (some (4, 5, 0)) .nil .nil)) (.node none .nil (.node none (.node (some (7, 6, 4)) .nil .nil) .nil)))))) (.node none (.node none (.node none (.node none (.node none (.node (some (2, 7, 0)) .nil .nil) (.node none .nil (.node (some (9, 0, 8)) .nil .nil))) (.node none (.node none (.node (some (5, 8, 4)) .nil .nil) .nil) .nil)) (.node (some (1, 1, 7)) (.node none .nil (.node (some (4, 3, 2)) .nil .nil)) (.node none .nil (.node none (.node (some (7, 4, 6)) .nil .nil) .nil)))) (.node none (.node none (.node none .nil (.node none (.node (some (6, 6, 5)) .nil .nil) .nil)) (.node none (.node (some (3, 5, 1)) .nil .nil) (.node none .nil (.node (some (9, 8, 0)) .nil .nil)))) (.node none (.node (some (1, 8, 8)) (.node none .nil (.node (some (8, 2, 7)) .nil .nil)) .nil) (.node none .nil (.node (some (5, 1, 3)) .nil .nil))))) (.node none (.node none (.node none (.node (some (1, 5, 3)) (.node none .nil (.node (some (7, 8, 2)) .nil .nil)) .nil) (.node none .nil (.node (some (4, 6, 7)) .nil .nil))) (.node none (.node none (.node (some (3, 1, 5)) .nil .nil) (.node none .nil (.node (some (9, 4, 4)) .nil .nil))) (.node none (.node none (.node (some (6, 3, 0)) .nil .nil) .nil) .nil))) (.node none (.node none (.node none (.node none (.node (some (5, 4, 8)) .nil .nil) .nil) .nil) (.node (some (2, 3, 4)) (.node none .nil (.node (some (8, 6, 3)) .nil .nil)) .nil)) (.node none (.node none .nil (.node none (.node (some (7, 1, 1)) .nil .nil) .nil)) (.node none (.node (some (3, 8, 6)) .nil .nil) .nil)))))) (.node none (.node none (.node none (.node none (.node none (.node (some (1, 4, 4)) (.node none .nil (.node (some (7, 7, 3)) .nil .nil)) .nil) (.node none .nil (.node (some (4, 5, 8)) .nil .nil))) (.node none (.node none (.node (some (3, 0, 6)) .nil .nil) (.node none .nil (.node (some (9, 3, 5)) .nil .nil))) (.node none (.node none (.node (some (6, 2, 1)) .nil .nil) .nil) .nil))) (.node none (.node none (.node none (.node none (.node (some (5, 4, 0)) .nil .nil) .nil) .nil) (.node (some (2, 2, 5)) (.node none .nil (.node (some (8, 5, 4)) .nil .nil)) .nil)) (.node none (.node none .nil (.node none (.node (some (7, 0, 2)) .nil .nil) .nil)) (.node none (.node (some (3, 7, 7)) .nil .nil) .nil)))) (.node none (.node none (.node none (.node none .nil (.node none (.node (some (6, 5, 6)) .nil .nil) .nil)) (.node none (.node (some (3, 4, 2)) .nil .nil) (.node none .nil (.node (some (9, 7, 1)) .nil .nil)))) (.node none (.node (some (1, 8, 0)) (.node none .nil (.node (some (8, 1, 8)) .nil .nil)) .nil) (.node none .nil (.node (some (5, 0, 4)) .nil .nil)))) (.node none (.node (some (1, 0, 8)) (.node none .nil (.node (some (4, 2, 3)) .nil .nil)) (.node none .nil (.node none (.node (some (7, 3, 7)) .nil .nil) .nil))) (.node none (.node none (.node none (.node (some (5, 7, 5)) .nil .nil) .nil) .nil) (.node (some (2, 6, 1)) (.node none .nil (.node (some (9, 0, 0)) .nil .nil)) .nil))))) (.node none (.node none (.node none (.node none (.node none .nil (.node (some (4, 0, 5)) .nil .nil)) (.node none .nil (.node none (.node (some (7, 2, 0)) .nil .nil) .nil))) (.node none (.node none (.node none (.node (some (5, 5, 7)) .nil .nil) .nil) .nil) (.node (some (2, 4, 3)) (.node none .nil (.node (some (8, 7, 2)) .nil .nil)) .nil))) (.node none (.node none (.node (some (1, 6, 2)) (.node none .nil (.node (some (8, 0, 1)) .nil .nil)) .nil) (.node none .nil (.node (some (4, 7, 6)) .nil .nil))) (.node none (.node none (.node (some (3, 2, 4)) .nil .nil) (.node none .nil (.node (some (9, 5, 3)) .nil .nil))) (.node none (.node none (.node (some (6, 3, 8)) .nil .nil) .nil) .nil)))) (.node none (.node none (.node none (.node none (.node (some (2, 7, 8)) .nil .nil) (.node none .nil (.node (some (9, 1, 7)) .nil .nil))) (.node none (.node none (.node (some (6, 0, 3)) .nil .nil) .nil) .nil)) (.node (some (1, 2, 6)) (.node none .nil (.node (some (4, 4, 1)) .nil .nil)) (.node none .nil (.node none (.node (some (7, 5, 5)) .nil .nil) .nil)))) (.node none (.node none (.node none .nil (.node none (.node (some (6, 7, 4)) .nil .nil) .nil)) (.node none (.node (some (3, 6, 0)) .nil .nil) (.node none .nil (.node (some (9, 8, 8)) .nil .nil)))) (.node none (.node (some (2, 0, 7)) (.node none .nil (.node (some (8, 3, 6)) .nil .nil)) .nil) (.node none .nil (.node (some (5, 2, 2)) .nil .nil)))))))))) (.node none (.node none (.node none (.node none (.node none (.node none (.node none (.node none (.node none .nil (.node none (.node (some (6, 4, 6)) .nil .nil) .nil)) (.node none (.node (some (3, 3, 2)) .nil .nil) (.node none .nil (.node (some (9, 6, 1)) .nil .nil)))) (.node none (.node (some (1, 7, 0)) (.node none .nil (.node (some (8, 0, 8)) .nil .nil)) .nil) (.node none .nil (.node (some (4, 8, 4)) .nil .nil)))) (.node none (.node none (.node none .nil (.node (some (4, 1, 3)) .nil .nil)) (.node none .nil (.node none (.node (some (7, 2, 7)) .nil .nil) .nil))) (.node none (.node none (.node none (.node (some (5, 6, 5)) .nil .nil) .nil) .nil) (.node (some (2, 5, 1)) (.node none .nil (.node (some (8, 8, 0)) .nil .nil)) .nil)))) (.node none (.node none (.node none (.node none (.node none (.node (some (5, 3, 0)) .nil .nil) .nil) .nil) (.node (some (2, 1, 5)) (.node none .nil (.node (some (8, 4, 4)) .nil .nil)) .nil)) (.node none (.node none .nil (.node none (.node (some (6, 8, 2)) .nil .nil) .nil)) (.node none (.node (some (3, 6, 7)) .nil .nil) .nil))) (.node none (.node none (.node none (.node (some (2, 8, 6)) .nil .nil) (.node none .nil (.node (some (9, 2, 5)) .nil .nil))) (.node none (.node none (.node (some (6, 1, 1)) .nil .nil) .nil) .nil)) (.node (some (1, 3, 4)) (.node none .nil (.node (some (4, 4, 8)) .nil .nil)) (.node none .nil (.node none (.node (some (7, 6, 3)) .nil .nil) .nil)))))) (.node none (.node none (.node none (.node none (.node none (.node (some (2, 6, 8)) .nil .nil) (.node none .nil (.node (some (9, 0, 7)) .nil .nil))) (.node none (.node none (.node (some (5, 8, 3)) .nil .nil) .nil) .nil)) (.node (some (1, 1, 6)) (.node none .nil (.node (some (4, 3, 1)) .nil .nil)) (.node none .nil (.node none (.node (some (7, 4, 5)) .nil .nil) .nil)))) (.node none (.node none (.node none .nil (.node none (.node (some (6, 6, 4)) .nil .nil) .nil)) (.node none (.node (some (3, 5, 0)) .nil .nil) (.node none .nil (.node (some (9, 7, 8)) .nil .nil)))) (.node none (.node (some (1, 8, 7)) (.node none .nil (.node (some (8, 2, 6)) .nil .nil)) .nil) (.node none .nil (.node (some (5, 1, 2)) .nil .nil))))) (.node none (.node none (.node none (.node (some (1, 5, 2)) (.node none .nil (.node (some (7, 8, 1)) .nil .nil)) .nil) (.node none .nil (.node (some (4, 6, 6)) .nil .nil))) (.node none (.node none (.node (some (3, 1, 4)) .nil .nil) (.node none .nil (.node (some (9, 4, 3)) .nil .nil))) (.node none (.node none (.node (some (6, 2, 8)) .nil .nil) .nil) .nil))) (.node none (.node none (.node none (.node none (.node (some (5, 4, 7)) .nil .nil) .nil) .nil) (.node (some (2, 3, 3)) (.node none .nil (.node (some (8, 6, 2)) .nil .nil)) .nil)) (.node none (.node none .nil (.node none (.node (some (7, 1, 0)) .nil .nil) .nil)) (.node none (.node (some (3, 8, 5)) .nil .nil) .nil)))))) (.node none (.node none (.node none (.node none (.node none (.node (some (1, 4, 3)) (.node none .nil (.node (some (7, 7, 2)) .nil .nil)) .nil) (.node none .nil (.node (some (4, 5, 7)) .nil .nil))) (.node none (.node none (.node (some (3, 0, 5)) .nil .nil) (.node none .nil (.node (some (9, 3, 4)) .nil .nil))) (.node none (.node none (.node (some (6, 2, 0)) .nil .nil) .nil) .nil))) (.node none (.node none (.node none (.node none (.node (some (5, 3, 8)) .nil .nil) .nil) .nil) (.node (some (2, 2, 4)) (.node none .nil (.node (some (8, 5, 3)) .nil .nil)) .nil)) (.node none (.node none .nil (.node none (.node (some (7, 0, 1)) .nil .nil) .nil)) (.node none (.node (some (3, 7, 6)) .nil .nil) .nil)))) (.node none (.node none (.node none (.node none .nil (.node none (.node (some (6, 5, 5)) .nil .nil) .nil)) (.node none (.node (some (3, 4, 1)) .nil .nil) (.node none .nil (.node (some (9, 7, 0)) .nil .nil)))) (.node none (.node (some (1, 7, 8)) (.node none .nil (.node (some (8, 1, 7)) .nil .nil)) .nil) (.node none .nil (.node (some (5, 0, 3)) .nil .nil)))) (.node none (.node (some (1, 0, 7)) (.node none .nil (.node (some (4, 2, 2)) .nil .nil)) (.node none .nil (.node none (.node (some (7, 3, 6)) .nil .nil) .nil))) (.node none (.node none (.node none (.node (some (5, 7, 4)) .nil .nil) .nil) .nil) (.node (some (2, 6, 0)) (.node none .nil (.node (some (8, 8, 8)) .nil .nil)) .nil))))) (.node none (.node none (.node none (.node none (.node none .nil (.node (some (4, 0, 4)) .nil .nil)) (.node none .nil (.node none (.node (some (7, 1, 8)) .nil .nil) .nil))) (.node none (.node none (.node none (.node (some (5, 5, 6)) .nil .nil) .nil) .nil) (.node (some (2, 4, 2)) (.node none .nil (.node (some (8, 7, 1)) .nil .nil)) .nil))) (.node none (.node none (.node (some (1, 6, 1)) (.node none .nil (.node (some (8, 0, 0)) .nil .nil)) .nil) (.node none .nil (.node (some (4, 7, 5)) .nil .nil))) (.node none (.node none (.node (some (3, 2, 3)) .nil .nil) (.node none .nil (.node (some (9, 5, 2)) .nil .nil))) (.node none (.node none (.node (some (6, 3, 7)) .nil .nil) .nil) .nil)))) (.node none (.node none (.node none (.node none (.node (some (2, 7, 7)) .nil .nil) (.node none .nil (.node (some (9, 1, 6)) .nil .nil))) (.node none (.node none (.node (some (6, 0, 2)) .nil .nil) .nil) .nil)) (.node (some (1, 2, 5)) (.node none .nil (.node (some (4, 4, 0)) .nil .nil)) (.node none .nil (.node none (.node (some (7, 5, 4)) .nil .nil) .nil)))) (.node none (.node none (.node none .nil (.node none (.node (some (6, 7, 3)) .nil .nil) .nil)) (.node none (.node (some (3, 5, 8)) .nil .nil) (.node none .nil (.node (some (9, 8, 7)) .nil .nil)))) (.node none (.node (some (2, 0, 6)) (.node none .nil (.node (some (8, 3, 5)) .nil .nil)) .nil) (.node none .nil (.node (some (5, 2, 1)) .nil .nil)))))))) (.node none (.node none (.node none (.node none (.node none (.node none (.node none .nil (.node (some (4, 0, 0)) .nil .nil)) (.node none .nil (.node none (.node (some (7, 1, 4)) .nil .nil) .nil))) (.node none (.node none (.node none (.node (some (5, 5, 2)) .nil .nil) .nil) .nil) (.node (some (2, 3, 7)) (.node none .nil (.node (some (8, 6, 6)) .nil .nil)) .nil))) (.node none (.node none (.node (some (1, 5, 6)) (.node none .nil (.node (some (7, 8, 5)) .nil .nil)) .nil) (.node none .nil (.node (some (4, 7, 1)) .nil .nil))) (.node none (.node none (.node (some (3, 1, 8)) .nil .nil) (.node none .nil (.node (some (9, 4, 7)) .nil .nil))) (.node none (.node none (.node (some (6, 3, 3)) .nil .nil) .nil) .nil)))) (.node none (.node none (.node none (.node none (.node (some (2, 7, 3)) .nil .nil) (.node none .nil (.node (some (9, 1, 2)) .nil .nil))) (.node none (.node none (.node (some (5, 8, 7)) .nil .nil) .nil) .nil)) (.node (some (1, 2, 1)) (.node none .nil (.node (some (4, 3, 5)) .nil .nil)) (.node none .nil (.node none (.node (some (7, 5, 0)) .nil .nil) .nil)))) (.node none (.node none (.node none .nil (.node none (.node (some (6, 6, 8)) .nil .nil) .nil)) (.node none (.node (some (3, 5, 4)) .nil .nil) (.node none .nil (.node (some (9, 8, 3)) .nil .nil)))) (.node none (.node (some (2, 0, 2)) (.node none .nil (.node (some (8, 3, 1)) .nil .nil)) .nil) (.node none .nil (.node (some (5, 1, 6)) .nil .nil)))))) (.node none (.node none (.node none (.node none (.node none .nil (.node none (.node (some (6, 5, 1)) .nil .nil) .nil)) (.node none (.node (some (3, 3, 6)) .nil .nil) (.node none .nil (.node (some (9, 6, 5)) .nil .nil)))) (.node none (.node (some (1, 7, 4)) (.node none .nil (.node (some (8, 1, 3)) .nil .nil)) .nil) (.node none .nil (.node (some (4, 8, 8)) .nil .nil)))) (.node none (.node (some (1, 0, 3)) (.node none .nil (.node (some (4, 1, 7)) .nil .nil)) (.node none .nil (.node none (.node (some (7, 3, 2)) .nil .nil) .nil))) (.node none (.node none (.node none (.node (some (5, 7, 0)) .nil .nil) .nil) .nil) (.node (some (2, 5, 5)) (.node none .nil (.node (some (8, 8, 4)) .nil .nil)) .nil)))) (.node none (.node none (.node none (.node none (.node none (.node (some (5, 3, 4)) .nil .nil) .nil) .nil) (.node (some (2, 2, 0)) (.node none .nil (.node (some (8, 4, 8)) .nil .nil)) .nil)) (.node none (.node none .nil (.node none (.node (some (6, 8, 6)) .nil .nil) .nil)) (.node none (.node (some (3, 7, 2)) .nil .nil) .nil))) (.node none (.node none (.node none (.node (some (3, 0, 1)) .nil .nil) (.node none .nil (.node (some (9, 3, 0)) .nil .nil))) (.node none (.node none (.node (some (6, 1, 5)) .nil .nil) .nil) .nil)) (.node (some (1, 3, 8)) (.node none .nil (.node (some (4, 5, 3)) .nil .nil)) (.node none .nil (.node none (.node (some (7, 6, 7)) .nil .nil) .nil))))))) (.node none (.node none (.node none (.node none (.node none (.node none (.node none (.node (some (5, 2, 5)) .nil .nil) .nil) .nil) (.node (some (2, 1, 1)) (.node none .nil (.node (some (8, 4, 0)) .nil .nil)) .nil)) (.node none (.node none .nil (.node none (.node (some (6, 7, 7)) .nil .nil) .nil)) (.node none (.node (some (3, 6, 3)) .nil .nil) .nil))) (.node none (.node none (.node none (.node (some (2, 8, 2)) .nil .nil) (.node none .nil (.node (some (9, 2, 1)) .nil .nil))) (.node none (.node none (.node (some (6, 0, 6)) .nil .nil) .nil) .nil)) (.node (some (1, 3, 0)) (.node none .nil (.node (some (4, 4, 4)) .nil .nil)) (.node none .nil (.node none (.node (some (7, 5, 8)) .nil .nil) .nil))))) (.node none (.node none (.node none (.node none .nil (.node (some (4, 0, 8)) .nil .nil)) (.node none .nil (.node none (.node (some (7, 2, 3)) .nil .nil) .nil))) (.node none (.node none (.node none (.node (some (5, 6, 1)) .nil .nil) .nil) .nil) (.node (some (2, 4, 6)) (.node none .nil (.node (some (8, 7, 5)) .nil .nil)) .nil))) (.node none (.node none (.node (some (1, 6, 5)) (.node none .nil (.node (some (8, 0, 4)) .nil .nil)) .nil) (.node none .nil (.node (some (4, 8, 0)) .nil .nil))) (.node none (.node none (.node (some (3, 2, 7)) .nil .nil) (.node none .nil (.node (some (9, 5, 6)) .nil .nil))) (.node none (.node none (.node (some (6, 4, 2)) .nil .nil) .nil) .nil))))) (.node none (.node none (.node none (.node none (.node (some (1, 4, 7)) (.node none .nil (.node (some (7, 7, 6)) .nil .nil)) .nil) (.node none .nil (.node (some (4, 6, 2)) .nil .nil))) (.node none (.node none (.node (some (3, 1, 0)) .nil .nil) (.node none .nil (.node (some (9, 3, 8)) .nil .nil))) (.node none (.node none (.node (some (6, 2, 4)) .nil .nil) .nil) .nil))) (.node none (.node none (.node none (.node none (.node (some (5, 4, 3)) .nil .nil) .nil) .nil) (.node (some (2, 2, 8)) (.node none .nil (.node (some (8, 5, 7)) .nil .nil)) .nil)) (.node none (.node none .nil (.node none (.node (some (7, 0, 5)) .nil .nil) .nil)) (.node none (.node (some (3, 8, 1)) .nil .nil) .nil)))) (.node none (.node none (.node none (.node none .nil (.node none (.node (some (6, 6, 0)) .nil .nil) .nil)) (.node none (.node (some (3, 4, 5)) .nil .nil) (.node none .nil (.node (some (9, 7, 4)) .nil .nil)))) (.node none (.node (some (1, 8, 3)) (.node none .nil (.node (some (8, 2, 2)) .nil .nil)) .nil) (.node none .nil (.node (some (5, 0, 7)) .nil .nil)))) (.node none (.node (some (1, 1, 2)) (.node none .nil (.node (some (4, 2, 6)) .nil .nil)) (.node none .nil (.node none (.node (some (7, 4, 1)) .nil .nil) .nil))) (.node none (.node none (.node none (.node (some (5, 7, 8)) .nil .nil) .nil) .nil) (.node (some (2, 6, 4)) (.node none .nil (.node (some (9, 0, 3)) .nil .nil)) .nil)))))))) (.node none (.node none (.node none (.node none (.node none (.node none (.node none (.node none (.node none (.node (some (5, 2, 3)) .nil .nil) .nil) .nil) (.node (some (2, 0, 8)) (.node none .nil (.node (some (8, 3, 7)) .nil .nil)) .nil)) (.node none (.node none .nil (.node none (.node (some (6, 7, 5)) .nil .nil) .nil)) (.node none (.node (some (3, 6, 1)) .nil .nil) .nil))) (.node none (.node none (.node none (.node (some (2, 8, 0)) .nil .nil) (.node none .nil (.node (some (9, 1, 8)) .nil .nil))) (.node none (.node none (.node (some (6, 0, 4)) .nil .nil) .nil) .nil)) (.node (some (1, 2, 7)) (.node none .nil (.node (some (4, 4, 2)) .nil .nil)) (.node none .nil (.node none (.node (some (7, 5, 6)) .nil .nil) .nil))))) (.node none (.node none (.node none (.node none .nil (.node (some (4, 0, 6)) .nil .nil)) (.node none .nil (.node none (.node (some (7, 2, 1)) .nil .nil) .nil))) (.node none (.node none (.node none (.node (some (5, 5, 8)) .nil .nil) .nil) .nil) (.node (some (2, 4, 4)) (.node none .nil (.node (some (8, 7, 3)) .nil .nil)) .nil))) (.node none (.node none (.node (some (1, 6, 3)) (.node none .nil (.node (some (8, 0, 2)) .nil .nil)) .nil) (.node none .nil (.node (some (4, 7, 7)) .nil .nil))) (.node none (.node none (.node (some (3, 2, 5)) .nil .nil) (.node none .nil (.node (some (9, 5, 4)) .nil .nil))) (.node none (.node none (.node (some (6, 4, 0)) .nil .nil) .nil) .nil))))) (.node none (.node none (.node none (.node none (.node (some (1, 4, 5)) (.node none .nil (.node (some (7, 7, 4)) .nil .nil)) .nil) (.node none .nil (.node (some (4, 6, 0)) .nil .nil))) (.node none (.node none (.node (some (3, 0, 7)) .nil .nil) (.node none .nil (.node (some (9, 3, 6)) .nil .nil))) (.node none (.node none (.node (some (6, 2, 2)) .nil .nil) .nil) .nil))) (.node none (.node none (.node none (.node none (.node (some (5, 4, 1)) .nil .nil) .nil) .nil) (.node (some (2, 2, 6)) (.node none .nil (.node (some (8, 5, 5)) .nil .nil)) .nil)) (.node none (.node none .nil (.node none (.node (some (7, 0, 3)) .nil .nil) .nil)) (.node none (.node (some (3, 7, 8)) .nil .nil) .nil)))) (.node none (.node none (.node none (.node none .nil (.node none (.node (some (6, 5, 7)) .nil .nil) .nil)) (.node none (.node (some (3, 4, 3)) .nil .nil) (.node none .nil (.node (some (9, 7, 2)) .nil .nil)))) (.node none (.node (some (1, 8, 1)) (.node none .nil (.node (some (8, 2, 0)) .nil .nil)) .nil) (.node none .nil (.node (some (5, 0, 5)) .nil .nil)))) (.node none (.node (some (1, 1, 0)) (.node none .nil (.node (some (4, 2, 4)) .nil .nil)) (.node none .nil (.node none (.node (some (7, 3, 8)) .nil .nil) .nil))) (.node none (.node none (.node none (.node (some (5, 7, 6)) .nil .nil) .nil) .nil) (.node (some (2, 6, 2)) (.node none .nil (.node (some (9, 0, 1)) .nil .nil)) .nil)))))) (.node none (.node none (.node none (.node none (.node none (.node none .nil (.node none (.node (some (6, 4, 8)) .nil .nil) .nil)) (.node none (.node (some (3, 3, 4)) .nil .nil) (.node none .nil (.node (some (9, 6, 3)) .nil .nil)))) (.node none (.node (some (1, 7, 2)) (.node none .nil (.node (some (8, 1, 1)) .nil .nil)) .nil) (.node none .nil (.node (some (4, 8, 6)) .nil .nil)))) (.node none (.node (some (1, 0, 1)) (.node none .nil (.node (some (4, 1, 5)) .nil .nil)) (.node none .nil (.node none (.node (some (7, 3, 0)) .nil .nil) .nil))) (.node none (.node none (.node none (.node (some (5, 6, 7)) .nil .nil) .nil) .nil) (.node (some (2, 5, 3)) (.node none .nil (.node (some (8, 8, 2)) .nil .nil)) .nil)))) (.node none (.node none (.node none (.node none (.node none (.node (some (5, 3, 2)) .nil .nil) .nil) .nil) (.node (some (2, 1, 7)) (.node none .nil (.node (some (8, 4, 6)) .nil .nil)) .nil)) (.node none (.node none .nil (.node none (.node (some (6, 8, 4)) .nil .nil) .nil)) (.node none (.node (some (3, 7, 0)) .nil .nil) .nil))) (.node none (.node none (.node none (.node (some (2, 8, 8)) .nil .nil) (.node none .nil (.node (some (9, 2, 7)) .nil .nil))) (.node none (.node none (.node (some (6, 1, 3)) .nil .nil) .nil) .nil)) (.node (some (1, 3, 6)) (.node none .nil (.node (some (4, 5, 1)) .nil .nil)) (.node none .nil (.node none (.node (some (7, 6, 5)) .nil .nil) .nil)))))) (.node none (.node none (.node none (.node none (.node none (.node (some (2, 7, 1)) .nil .nil) (.node none .nil (.node (some (9, 1, 0)) .nil .nil))) (.node none (.node none (.node (some (5, 8, 5)) .nil .nil) .nil) .nil)) (.node (some (1, 1, 8)) (.node none .nil (.node (some (4, 3, 3)) .nil .nil)) (.node none .nil (.node none (.node (some (7, 4, 7)) .nil .nil) .nil)))) (.node none (.node none (.node none .nil (.node none (.node (some (6, 6, 6)) .nil .nil) .nil)) (.node none (.node (some (3, 5, 2)) .nil .nil) (.node none .nil (.node (some (9, 8, 1)) .nil .nil)))) (.node none (.node (some (2, 0, 0)) (.node none .nil (.node (some (8, 2, 8)) .nil .nil)) .nil) (.node none .nil (.node (some (5, 1, 4)) .nil .nil))))) (.node none (.node none (.node none (.node (some (1, 5, 4)) (.node none .nil (.node (some (7, 8, 3)) .nil .nil)) .nil) (.node none .nil (.node (some (4, 6, 8)) .nil .nil))) (.node none (.node none (.node (some (3, 1, 6)) .nil .nil) (.node none .nil (.node (some (9, 4, 5)) .nil .nil))) (.node none (.node none (.node (some (6, 3, 1)) .nil .nil) .nil) .nil))) (.node none (.node none (.node none (.node none (.node (some (5, 5, 0)) .nil .nil) .nil) .nil) (.node (some (2, 3, 5)) (.node none .nil (.node (some (8, 6, 4)) .nil .nil)) .nil)) (.node none (.node none .nil (.node none (.node (some (7, 1, 2)) .nil .nil) .nil)) (.node none (.node (some (3, 8, 7)) .nil .nil) .nil))))))) (.node none (.node none (.node none (.node none (.node none (.node none (.node none (.node (some (2, 6, 6)) .nil .nil) (.node none .nil (.node (some (9, 0, 5)) .nil .nil))) (.node none (.node none (.node (some (5, 8, 1)) .nil .nil) .nil) .nil)) (.node (some (1, 1, 4)) (.node none .nil (.node (some (4, 2, 8)) .nil .nil)) (.node none .nil (.node none (.node (some (7, 4, 3)) .nil .nil) .nil)))) (.node none (.node none (.node none .nil (.node none (.node (some (6, 6, 2)) .nil .nil) .nil)) (.node none (.node (some (3, 4, 7)) .nil .nil) (.node none .nil (.node (some (9, 7, 6)) .nil .nil)))) (.node none (.node (some (1, 8, 5)) (.node none .nil (.node (some (8, 2, 4)) .nil .nil)) .nil) (.node none .nil (.node (some (5, 1, 0)) .nil .nil))))) (.node none (.node none (.node none (.node (some (1, 5, 0)) (.node none .nil (.node (some (7, 7, 8)) .nil .nil)) .nil) (.node none .nil (.node (some (4, 6, 4)) .nil .nil))) (.node none (.node none (.node (some (3, 1, 2)) .nil .nil) (.node none .nil (.node (some (9, 4, 1)) .nil .nil))) (.node none (.node none (.node (some (6, 2, 6)) .nil .nil) .nil) .nil))) (.node none (.node none (.node none (.node none (.node (some (5, 4, 5)) .nil .nil) .nil) .nil) (.node (some (2, 3, 1)) (.node none .nil (.node (some (8, 6, 0)) .nil .nil)) .nil)) (.node none (.node none .nil (.node none (.node (some (7, 0, 7)) .nil .nil) .nil)) (.node none (.node (some (3, 8, 3)) .nil .nil) .nil))))) (.node none (.node none (.node none (.node none (.node none (.node none (.node (some (5, 2, 7)) .nil .nil) .nil) .nil) (.node (some (2, 1, 3)) (.node none .nil (.node (some (8, 4, 2)) .nil .nil)) .nil)) (.node none (.node none .nil (.node none (.node (some (6, 8, 0)) .nil .nil) .nil)) (.node none (.node (some (3, 6, 5)) .nil .nil) .nil))) (.node none (.node none (.node none (.node (some (2, 8, 4)) .nil .nil) (.node none .nil (.node (some (9, 2, 3)) .nil .nil))) (.node none (.node none (.node (some (6, 0, 8)) .nil .nil) .nil) .nil)) (.node (some (1, 3, 2)) (.node none .nil (.node (some (4, 4, 6)) .nil .nil)) (.node none .nil (.node none (.node (some (7, 6, 1)) .nil .nil) .nil))))) (.node none (.node none (.node none (.node none .nil (.node (some (4, 1, 1)) .nil .nil)) (.node none .nil (.node none (.node (some (7, 2, 5)) .nil .nil) .nil))) (.node none (.node none (.node none (.node (some (5, 6, 3)) .nil .nil) .nil) .nil) (.node (some (2, 4, 8)) (.node none .nil (.node (some (8, 7, 7)) .nil .nil)) .nil))) (.node none (.node none (.node (some (1, 6, 7)) (.node none .nil (.node (some (8, 0, 6)) .nil .nil)) .nil) (.node none .nil (.node (some (4, 8, 2)) .nil .nil))) (.node none (.node none (.node (some (3, 3, 0)) .nil .nil) (.node none .nil (.node (some (9, 5, 8)) .nil .nil))) (.node none (.node none (.node (some (6, 4, 4)) .nil .nil) .nil) .nil)))))) (.node none (.node none (.node none (.node none (.node none (.node none .nil (.node (some (4, 0, 2)) .nil .nil)) (.node none .nil (.node none (.node (some (7, 1, 6)) .nil .nil) .nil))) (.node none (.node none (.node none (.node (some (5, 5, 4)) .nil .nil) .nil) .nil) (.node (some (2, 4, 0)) (.node none .nil (.node (some (8, 6, 8)) .nil .nil)) .nil))) (.node none (.node none (.node (some (1, 5, 8)) (.node none .nil (.node (some (7, 8, 7)) .nil .nil)) .nil) (.node none .nil (.node (some (4, 7, 3)) .nil .nil))) (.node none (.node none (.node (some (3, 2, 1)) .nil .nil) (.node none .nil (.node (some (9, 5, 0)) .nil .nil))) (.node none (.node none (.node (some (6, 3, 5)) .nil .nil) .nil) .nil)))) (.node none (.node none (.node none (.node none (.node (some (2, 7, 5)) .nil .nil) (.node none .nil (.node (some (9, 1, 4)) .nil .nil))) (.node none (.node none (.node (some (6, 0, 0)) .nil .nil) .nil) .nil)) (.node (some (1, 2, 3)) (.node none .nil (.node (some (4, 3, 7)) .nil .nil)) (.node none .nil (.node none (.node (some (7, 5, 2)) .nil .nil) .nil)))) (.node none (.node none (.node none .nil (.node none (.node (some (6, 7, 1)) .nil .nil) .nil)) (.node none (.node (some (3, 5, 6)) .nil .nil) (.node none .nil (.node (some (9, 8, 5)) .nil .nil)))) (.node none (.node (some (2, 0, 4)) (.node none .nil (.node (some (8, 3, 3)) .nil .nil)) .nil) (.node none .nil (.node (some (5, 1, 8)) .nil .nil)))))) (.node none (.node none (.node none (.node none (.node none .nil (.node none (.node (some (6, 5, 3)) .nil .nil) .nil)) (.node none (.node (some (3, 3, 8)) .nil .nil) (.node none .nil (.node (some (9, 6, 7)) .nil .nil)))) (.node none (.node (some (1, 7, 6)) (.node none .nil (.node (some (8, 1, 5)) .nil .nil)) .nil) (.node none .nil (.node (some (5, 0, 1)) .nil .nil)))) (.node none (.node (some (1, 0, 5)) (.node none .nil (.node (some (4, 2, 0)) .nil .nil)) (.node none .nil (.node none (.node (some (7, 3, 4)) .nil .nil) .nil))) (.node none (.node none (.node none (.node (some (5, 7, 2)) .nil .nil) .nil) .nil) (.node (some (2, 5, 7)) (.node none .nil (.node (some (8, 8, 6)) .nil .nil)) .nil)))) (.node none (.node none (.node none (.node none (.node none (.node (some (5, 3, 6)) .nil .nil) .nil) .nil) (.node (some (2, 2, 2)) (.node none .nil (.node (some (8, 5, 1)) .nil .nil)) .nil)) (.node none (.node none .nil (.node none (.node (some (6, 8, 8)) .nil .nil) .nil)) (.node none (.node (some (3, 7, 4)) .nil .nil) .nil))) (.node none (.node none (.node none (.node (some (3, 0, 3)) .nil .nil) (.node none .nil (.node (some (9, 3, 2)) .nil .nil))) (.node none (.node none (.node (some (6, 1, 7)) .nil .nil) .nil) .nil)) (.node (some (1, 4, 1)) (.node none .nil (.node (some (4, 5, 5)) .nil .nil)) (.node none .nil (.node none (.node (some (7, 7, 0)) .nil .nil) .nil)))))))))))
  rows := 729
  cols := 324
  nextId := 3970

/-- The scan `node = self._dlx.root.down; while node != self._dlx.root: if
node.name == node_name: ... node = node.down` searching the row-header ring
for a name.  `some none` = not found, `some (some id)` = found at `id`. -/
def findRowLoop {α : Type} [DecidableEq α] :
    Nat → DLX α → α → Nat → Option (Option Nat)
  | 0, _, _, _ => none
  | f + 1, s, nm, v =>
    if v = 0 then some none
    else if (s.node v).name = some nm then some (some v)
    else findRowLoop f s nm ((s.node v).down)

/-- The user grid traversed in the order of `for i in range(9): for j in
range(9)`, keeping the truthy cells: the labels `(val, (i, j))` that
`TableModel.solve` will commit, in commitment order. -/
def givens (user : List (List Nat)) : List (Nat × Nat × Nat) :=
  user.enum.flatMap fun p =>
    p.2.enum.filterMap fun q => if q.2 ≠ 0 then some (q.2, p.1, q.1) else none

/-- Result of the pre-commitment phase: either all labels were found and
committed (`covers` lists the committed row headers in order), or some
label was absent from the live row ring (`InconsistentInputs` is raised
with the commits applied so far still in place). -/
inductive PrecommitRes (α : Type) where
  | ok (s : DLX α) (covers : List Nat) : PrecommitRes α
  | missing (s : DLX α) (covers : List Nat) (nm : α) : PrecommitRes α

def precommitLoop {α : Type} [DecidableEq α] :
    Nat → DLX α → List Nat → List α → Option (PrecommitRes α)
  | 0, _, _, _ => none
  | _ + 1, s, covers, [] => some (.ok s covers)
  | f + 1, s, covers, nm :: rest =>
    match findRowLoop (f + 1) s nm ((s.node 0).down) with
    | none => none
    | some none => some (.missing s covers nm)
    | some (some nodeId) =>
      match coverRowColsRows (f + 1) s nodeId with
      | none => none
      | some s1 => precommitLoop f s1 (covers ++ [nodeId]) rest

def precommit {α : Type} [DecidableEq α] (f : Nat) (s : DLX α) (gs : List α) :
    Option (PrecommitRes α) :=
  precommitLoop f s [] gs

/-- The `finally` block: `while covers: node = covers.pop();
self._dlx.uncover_row_cols_rows(node)` — argument already in pop order. -/
def uncoverStack {α : Type} : Nat → DLX α → List Nat → Option (DLX α)
  | 0, _, _ => none
  | _ + 1, s, [] => some s
  | f + 1, s, n :: rest =>
    match uncoverRowColsRows (f + 1) s n with
    | none => none
    | some s1 => uncoverStack f s1 rest

/-- Outcome of `TableModel.solve`: final DLX state, the value returned by
`DLX.solve` (when it ran), and the dialog text shown to the user (`none`
when no dialog was raised).  Both `InconsistentInputs` raises carry the
message `'Inconsistent!'`. -/
structure TableRes (α : Type) where
  state : DLX α
  sol : Option (List α)
  dialog : Option String
  deriving Repr

/-- `TableModel.solve`, after the `_solver_data` copy: pre-commit the
givens, run the search unless a label was missing, raise
`InconsistentInputs('Inconsistent!')` on a missing label or on a `None`
search result, and always run the `finally` uncover loop.  (A Python
`AttributeError` cannot occur here: every sudoku row name is truthy; the
embedding returns `none` for that unreachable case.) -/
def tableCore {α : Type} [DecidableEq α] (f : Nat) (s : DLX α) (gs : List α) :
    Option (TableRes α) :=
  match precommit f s gs with
  | none => none
  | some (.missing s1 covers _) =>
    match uncoverStack f s1 covers.reverse with
    | none => none
    | some s2 => some ⟨s2, none, some "Inconsistent!"⟩
  | some (.ok s1 covers) =>
    match solve f s1 with
    | none => none
    | some .attrError => none
    | some (.done s2 sol) =>
      match uncoverStack f s2 covers.reverse with
      | none => none
      | some s3 =>
        match sol with
        | none => some ⟨s3, none, some "Inconsistent!"⟩
        | some l => some ⟨s3, some l, none⟩

/-- Write `val` into cell `(i, j)` of the solver grid. -/
def setCell (g : List (List Nat)) (i j v : Nat) : List (List Nat) :=
  g.set i ((g.getD i []).set j v)

/-- `for val, (i, j) in sol: self._solver_data[i, j] = val`. -/
def applySol : List (List Nat) → List (Nat × Nat × Nat) → List (List Nat)
  | g, [] => g
  | g, (v, i, j) :: rest => applySol (setCell g i j v) rest

/-- `TableModel.solve` on a user grid, including the `_solver_data`
overlay, abstracted over the `_dlx` state field. -/
def tableSolveOn (s : DLX (Nat × Nat × Nat)) (f : Nat) (user : List (List Nat)) :
    Option (TableRes (Nat × Nat × Nat) × List (List Nat)) :=
  match tableCore f s (givens user) with
  | none => none
  | some r =>
    match r.sol with
    | none => some (r, user)
    | some l => some (r, applySol user l)

/-- `TableModel.solve` of the program: `tableSolveOn` at `self._dlx =
sudokuDLX`. -/
def tableSolve (f : Nat) (user : List (List Nat)) :
    Option (TableRes (Nat × Nat × Nat) × List (List Nat)) :=
  tableSolveOn sudokuDLX f user

end TableModel

/-! ## Concrete instances and result projections used in the theorems -/

namespace Inst

open DLX TableModel

/-- Count how many of the selected row indices have a one in column `j` of
the input matrix `m`. -/
def coverCount (m : List (List Bool)) (rows : List Nat) (j : Nat) : Nat :=
  rows.foldl (fun acc i => if (m.getD i []).getD j false then acc + 1 else acc) 0

/-- Do the selected row indices cover every column of `m` exactly once? -/
def exactCoverB (m : List (List Bool)) (rows : List Nat) : Bool :=
  (List.range (m.headD []).length).all fun j => coverCount m rows j = 1

/-- Does `m` admit any exact cover?  (Brute force over all row subsets.) -/
def hasExactCover (m : List (List Bool)) : Bool :=
  ((List.range m.length).sublists).any fun rows => exactCoverB m rows

/-- Keep only the returned value of a `solve` run. -/
def solOf {α : Type} (r : Option (SolveRes α)) : Option (Option (List α)) :=
  match r with
  | some (.done _ sol) => some sol
  | _ => none

/-- Keep only the final heap of a `solve` run. -/
def stateOf {α : Type} (r : Option (SolveRes α)) : Option (DLX α) :=
  match r with
  | some (.done s _) => some s
  | _ => none

/-- Keep only the returned value and the recorded branch trace of a
`solveT` run. -/
def traceOf {α : Type} (r : Option (SolveTRes α)) :
    Option (Option (List α) × List PickEvent) :=
  match r with
  | some (.done _ sol tr) => some (sol, tr)
  | _ => none

/-- Compare the four ring links of the first `n` nodes of two states. -/
def linksEqOn {α : Type} (s1 s2 : DLX α) (n : Nat) : Bool :=
  (List.range n).all fun i =>
    (s1.node i).up = (s2.node i).up ∧ (s1.node i).down = (s2.node i).down ∧
    (s1.node i).left = (s2.node i).left ∧ (s1.node i).right = (s2.node i).right

/-- The kind of a pre-commitment result: found-all flag, committed row
headers, first missing name. -/
def preKind {α : Type} (r : Option (PrecommitRes α)) :
    Option (Bool × List Nat × Option α) :=
  match r with
  | some (.ok _ covers) => some (true, covers, none)
  | some (.missing _ covers nm) => some (false, covers, some nm)
  | none => none

/-- Run the pre-commitment phase and, when it finds every label, the
search on the resulting state; expose only the search's returned value. -/
def solveAfterPre {α : Type} [DecidableEq α] (f : Nat) (s : DLX α) (gs : List α) :
    Option (Option (List α)) :=
  match precommit f s gs with
  | some (.ok s1 _) => solOf (solve f s1)
  | _ => none

/-- Keep only the `DLX.solve` value and the dialog of a `TableModel.solve`
run. -/
def outcomeOf (r : Option (TableRes (Nat × Nat × Nat) × List (List Nat))) :
    Option (Option (List (Nat × Nat × Nat)) × Option String) :=
  r.map fun p => (p.1.sol, p.1.dialog)

/-- The 1 x 1 matrix with a single one. -/
def M1 : List (List Bool) := [[true]]

/-- `DLX(M1, [1])` — truthy label. -/
def dlxM1 : DLX Nat := DLX.make (fun n => n ≠ 0) M1 [1]

/-- `DLX(M1, [0])` — falsy label `0`, so `Node.__init__` never sets
`name`. -/
def dlxM1z : DLX Nat := DLX.make (fun n => n ≠ 0) M1 [0]

/-- The 1 x 1 zero matrix (its single column can never be covered). -/
def M0 : List (List Bool) := [[false]]

def dlxM0 : DLX Nat := DLX.make (fun n => n ≠ 0) M0 [1]

/-- Columns `c0 c1 c2`; rows `1:{c1}`, `2:{c0,c1}`, `3:{c0,c1,c2}`,
`4:{c0,c2}`, `5:{c2}` (label = row index + 1).  `{2, 5}` is an exact
cover. -/
def M5 : List (List Bool) :=
  [[false, true,  false],
   [true,  true,  false],
   [true,  true,  true],
   [true,  false, true],
   [false, false, true]]

def dlxM5 : DLX Nat := DLX.make (fun n => n ≠ 0) M5 [1, 2, 3, 4, 5]

/-- Columns `c0..c4`; rows `1:{c1,c3}`, `2:{c0,c1}`, `3:{c0,c1,c2,c3}`,
`4:{c0,c2}`, `5:{c2,c3}`, `6:{c3,c4}`, `7:{c0,c4}`, `8:{c1,c4}`,
`9:{c2,c4}`.  This matrix admits no exact cover. -/
def M9 : List (List Bool) :=
  [[false, true,  false, true,  false],
   [true,  true,  false, false, false],
   [true,  true,  true,  true,  false],
   [true,  false, true,  false, false],
   [false, false, true,  true,  false],
   [false, false, false, true,  true],
   [true,  false, false, false, true],
   [false, true,  false, false, true],
   [false, false, true,  false, true]]

def dlxM9 : DLX Nat := DLX.make (fun n => n ≠ 0) M9 [1, 2, 3, 4, 5, 6, 7, 8, 9]

/-- Columns `c0 c1 c2 c3`; rows `1:{c0,c3}`, `2..5:{c1,c3}`, `6:{c1}`,
`7..9:{c2}`.  After committing row `1`, the ring holds `c1` (1 live row)
and `c2` (3 live rows) while their stored sizes are 5 and 3. -/
def M6 : List (List Bool) :=
  [[true,  false, false, true],
   [false, true,  false, true],
   [false, true,  false, true],
   [false, true,  false, true],
   [false, true,  false, true],
   [false, true,  false, false],
   [false, false, true,  false],
   [false, false, true,  false],
   [false, false, true,  false]]

def dlxM6 : DLX Nat := DLX.make (fun n => n ≠ 0) M6 [1, 2, 3, 4, 5, 6, 7, 8, 9]

/-- Pad a partial board row to the nine cells of a Sudoku row. -/
def rowOf (l : List Nat) : List Nat := l ++ List.replicate (9 - l.length) 0

/-- Board with the digit 5 entered twice in board row 0, at `(0,0)` and
`(0,1)` — scenario E of the specification. -/
def boardDup : List (List Nat) :=
  [rowOf [5, 5]] ++ List.replicate 8 (rowOf [])

/-- Board with `(0,1..8) = 1..8` and `(1,0) = 9`: all nine digits are
excluded from cell `(0,0)`, yet the nine givens are pairwise compatible,
so pre-commitment succeeds and the search itself returns `None`. -/
def boardDead : List (List Nat) :=
  [rowOf [0, 1, 2, 3, 4, 5, 6, 7, 8], rowOf [9]] ++ List.replicate 7 (rowOf [])

end Inst

/-! ## Theorems

First the trie lemmas, then framing and inverse lemmas for the cover and
uncover operations, then one theorem (plus witnesses or counterexamples)
per claim. -/

namespace NTree

theorem getP_congr {α : Type} :
    ∀ (f₁ f₂ : Nat) (t : NTree α) (p : Nat), 1 ≤ p → p < 2 ^ f₁ → p < 2 ^ f₂ →
      getP f₁ t p = getP f₂ t p := by
  intro f₁
  induction f₁ with
  | zero => intro f₂ t p h1 h2; omega
  | succ f ih =>
    intro f₂ t p h1 h2 h3
    cases f₂ with
    | zero => omega
    | succ f' =>
      cases t with
      | nil => rfl
      | node v l r =>
        by_cases hp : p ≤ 1
        · simp [getP, hp]
        · have hrec : p / 2 < 2 ^ f := by
            have : p < 2 * 2 ^ f := by simpa [pow_succ, Nat.mul_comm] using h2
            omega
          have hrec' : p / 2 < 2 ^ f' := by
            have : p < 2 * 2 ^ f' := by simpa [pow_succ, Nat.mul_comm] using h3
            omega
          have h1' : 1 ≤ p / 2 := by omega
          by_cases he : p % 2 = 0 <;> simp [getP, hp, he, ih f' _ _ h1' hrec hrec']

theorem setP_congr {α : Type} :
    ∀ (f₁ f₂ : Nat) (t : NTree α) (p : Nat) (x : α), 1 ≤ p → p < 2 ^ f₁ → p < 2 ^ f₂ →
      setP f₁ t p x = setP f₂ t p x := by
  intro f₁
  induction f₁ with
  | zero => intro f₂ t p x h1 h2; omega
  | succ f ih =>
    intro f₂ t p x h1 h2 h3
    cases f₂ with
    | zero => omega
    | succ f' =>
      have hrec : p / 2 < 2 ^ f := by
        have : p < 2 * 2 ^ f := by simpa [pow_succ, Nat.mul_comm] using h2
        omega
      have hrec' : p / 2 < 2 ^ f' := by
        have : p < 2 * 2 ^ f' := by simpa [pow_succ, Nat.mul_comm] using h3
        omega
      have h1' : p ≤ 1 ∨ 1 ≤ p / 2 := by omega
      cases t with
      | nil =>
        by_cases hp : p ≤ 1
        · simp [setP, hp]
        · have h1'' : 1 ≤ p / 2 := by omega
          by_cases he : p % 2 = 0 <;>
            simp [setP, hp, he, ih f' _ _ x h1'' hrec hrec']
      | node v l r =>
        by_cases hp : p ≤ 1
        · simp [setP, hp]
        · have h1'' : 1 ≤ p / 2 := by omega
          by_cases he : p % 2 = 0 <;>
            simp [setP, hp, he, ih f' _ _ x h1'' hrec hrec']

theorem getP_setP_same {α : Type} :
    ∀ (f : Nat) (t : NTree α) (p : Nat) (x : α), 1 ≤ p → p < 2 ^ f →
      getP f (setP f t p x) p = some x := by
  intro f
  induction f with
  | zero => intro t p x h1 h2; omega
  | succ f ih =>
    intro t p x h1 h2
    have hrec : p / 2 < 2 ^ f := by
      have : p < 2 * 2 ^ f := by simpa [pow_succ, Nat.mul_comm] using h2
      omega
    cases t with
    | nil =>
      by_cases hp : p ≤ 1
      · simp [setP, getP, hp]
      · have h1' : 1 ≤ p / 2 := by omega
        by_cases he : p % 2 = 0 <;> simp [setP, getP, hp, he, ih _ _ x h1' hrec]
    | node v l r =>
      by_cases hp : p ≤ 1
      · simp [setP, getP, hp]
      · have h1' : 1 ≤ p / 2 := by omega
        by_cases he : p % 2 = 0 <;> simp [setP, getP, hp, he, ih _ _ x h1' hrec]

theorem getP_setP_ne {α : Type} :
    ∀ (f : Nat) (t : NTree α) (p q : Nat) (x : α), 1 ≤ p → 1 ≤ q → p ≠ q →
      p < 2 ^ f → q < 2 ^ f →
      getP f (setP f t p x) q = getP f t q := by
  intro f
  induction f with
  | zero => intro t p q x h1 h2 h3 h4; omega
  | succ f ih =>
    intro t p q x h1 h2 hne h4 h5
    have hrp : p / 2 < 2 ^ f := by
      have : p < 2 * 2 ^ f := by simpa [pow_succ, Nat.mul_comm] using h4
      omega
    have hrq : q / 2 < 2 ^ f := by
      have : q < 2 * 2 ^ f := by simpa [pow_succ, Nat.mul_comm] using h5
      omega
    cases t with
    | nil =>
      by_cases hp : p ≤ 1
      · have hq : ¬ q ≤ 1 := by omega
        by_cases heq : q % 2 = 0 <;> simp [setP, getP, hp, hq, heq] <;>
          (cases f with
           | zero => omega
           | succ f' => simp [getP])
      · by_cases hq : q ≤ 1
        · by_cases hep : p % 2 = 0 <;> simp [setP, getP, hp, hq, hep]
        · have h1p : 1 ≤ p / 2 := by omega
          have h1q : 1 ≤ q / 2 := by omega
          by_cases hep : p % 2 = 0 <;> by_cases heq : q % 2 = 0 <;>
            simp [setP, getP, hp, hq, hep, heq]
          · have hqq : p / 2 ≠ q / 2 := by omega
            rw [ih _ _ _ x h1p h1q hqq hrp hrq]
            cases f with
            | zero => omega
            | succ f' => simp [getP]
          · cases f with
            | zero => omega
            | succ f' => simp [getP]
          · cases f with
            | zero => omega
            | succ f' => simp [getP]
          · have hqq : p / 2 ≠ q / 2 := by omega
            rw [ih _ _ _ x h1p h1q hqq hrp hrq]
            cases f with
            | zero => omega
            | succ f' => simp [getP]
    | node v l r =>
      by_cases hp : p ≤ 1
      · have hq : ¬ q ≤ 1 := by omega
        by_cases heq : q % 2 = 0 <;> simp [setP, getP, hp, hq, heq]
      · by_cases hq : q ≤ 1
        · by_cases hep : p % 2 = 0 <;> simp [setP, getP, hp, hq, hep]
        · have h1p : 1 ≤ p / 2 := by omega
          have h1q : 1 ≤ q / 2 := by omega
          by_cases hep : p % 2 = 0 <;> by_cases heq : q % 2 = 0 <;>
            simp [setP, getP, hp, hq, hep, heq]
          · have hqq : p / 2 ≠ q / 2 := by omega
            exact ih _ _ _ x h1p h1q hqq hrp hrq
          · have hqq : p / 2 ≠ q / 2 := by omega
            exact ih _ _ _ x h1p h1q hqq hrp hrq

theorem lt_pow_succ_succ (k : Nat) : k + 1 < 2 ^ (k + 2) := by
  induction k with
  | zero => decide
  | succ n ih =>
    have : 2 ^ (n + 2) * 2 = 2 ^ (n + 1 + 2) := by rw [← pow_succ]
    omega

theorem get_set_same {α : Type} (t : NTree α) (k : Nat) (x : α) :
    (t.set k x).get k = some x := by
  unfold get set
  rw [getP_setP_same]
  · omega
  · exact lt_pow_succ_succ k

theorem get_set_ne {α : Type} (t : NTree α) (k k' : Nat) (x : α) (h : k ≠ k') :
    (t.set k x).get k' = t.get k' := by
  unfold get set
  have hk : k + 1 < 2 ^ (k + 2) := lt_pow_succ_succ k
  have hk' : k' + 1 < 2 ^ (k' + 2) := lt_pow_succ_succ k'
  have hboth : k + 1 < 2 ^ (k + k' + 2) ∧ k' + 1 < 2 ^ (k + k' + 2) := by
    constructor
    · exact hk.trans_le (Nat.pow_le_pow_right (by omega) (by omega))
    · exact hk'.trans_le (Nat.pow_le_pow_right (by omega) (by omega))
  rw [setP_congr (k + 2) (k + k' + 2) t (k + 1) x (by omega) hk hboth.1,
    getP_congr (k' + 2) (k + k' + 2) _ (k' + 1) (by omega) hk' hboth.2,
    getP_setP_ne _ _ _ _ _ (by omega) (by omega) (by omega) hboth.1 hboth.2,
    getP_congr (k + k' + 2) (k' + 2) t (k' + 1) (by omega) hboth.2 hk']

end NTree

namespace TableModel

/-- `DLX.__init__`'s row loop over a split input list: the second segment
continues from the state the first segment produced (the branch condition
of `addRows` is true for every state, so the `if` is the identity). -/
theorem addRows_append {α : Type} (tr : α → Bool) (s : DLX α)
    (l1 l2 : List (α × List Bool)) :
    DLX.addRows tr s (l1 ++ l2) = DLX.addRows tr (DLX.addRows tr s l1) l2 := by
  induction l1 generalizing s with
  | nil => rfl
  | cons h t ih =>
    obtain ⟨nm, bits⟩ := h
    simp only [List.cons_append, DLX.addRows, ite_self]
    exact ih _

/-- Processing the first `n` input rows and then the rest is processing
them all. -/
theorem addRows_chunk {α : Type} (tr : α → Bool) (s s1 : DLX α)
    (l : List (α × List Bool)) (n : Nat)
    (h : DLX.addRows tr s (l.take n) = s1) :
    DLX.addRows tr s l = DLX.addRows tr s1 (l.drop n) := by
  rw [← h, ← addRows_append, List.take_append_drop]

/-- Checkpoint 1: input rows 0-124 from the column-phase state. -/
theorem sudokuChk1 :
    DLX.addRows (fun _ => true) (DLX.preRows sudokuMatrix)
      ((sudokuNames.zip sudokuMatrix).take 125) = sudokuS1 := by
  decide!

/-- Checkpoint 2: input rows 125-249. -/
theorem sudokuChk2 :
    DLX.addRows (fun _ => true) sudokuS1
      (((sudokuNames.zip sudokuMatrix).drop 125).take 125) = sudokuS2 := by
  decide!

/-- Checkpoint 3: input rows 250-374. -/
theorem sudokuChk3 :
    DLX.addRows (fun _ => true) sudokuS2
      ((((sudokuNames.zip sudokuMatrix).drop 125).drop 125).take 125) = sudokuS3 := by
  decide!

/-- Checkpoint 4: input rows 375-499. -/
theorem sudokuChk4 :
    DLX.addRows (fun _ => true) sudokuS3
      (((((sudokuNames.zip sudokuMatrix).drop 125).drop 125).drop 125).take 125) =
      sudokuS4 := by
  decide!

/-- Checkpoint 5: input rows 500-624. -/
theorem sudokuChk5 :
    DLX.addRows (fun _ => true) sudokuS4
      ((((((sudokuNames.zip sudokuMatrix).drop 125).drop 125).drop 125).drop 125).take 125) =
      sudokuS5 := by
  decide!

/-- Checkpoint 6: the remaining input rows 625-728. -/
theorem sudokuChk6 :
    DLX.addRows (fun _ => true) sudokuS5
      (((((((sudokuNames.zip sudokuMatrix).drop 125).drop 125).drop 125).drop 125).drop 125)) =
      sudokuS6 := by
  decide!

/-- The `_dlx` state built by `TableModel.__init__` is the checkpointed
literal `sudokuS6`. -/
theorem sudokuDLX_eq : sudokuDLX = sudokuS6 := by
  show DLX.addRows (fun _ => true) (DLX.preRows sudokuMatrix)
    (sudokuNames.zip sudokuMatrix) = sudokuS6
  rw [addRows_chunk _ _ _ _ _ sudokuChk1, addRows_chunk _ _ _ _ _ sudokuChk2,
    addRows_chunk _ _ _ _ _ sudokuChk3, addRows_chunk _ _ _ _ _ sudokuChk4,
    addRows_chunk _ _ _ _ _ sudokuChk5]
  exact sudokuChk6

end TableModel

namespace Claims

open DLX TableModel Inst

/-- C1 (counter-evidence): `DLX.solve` on `M5` (labels = row index + 1)
terminates and returns the labels `[2, 4]`, i.e. rows 1 and 3 of `M5`; but
those two rows both contain column 0, so the returned row set covers
column 0 twice and is not an exact cover — even though `M5` does admit an
exact cover.  This contradicts the claim that any returned list is an
exact cover of the input matrix. -/
theorem C1_solve_returns_non_cover :
    solOf (solve 100 dlxM5) = some (some [2, 4]) ∧
    coverCount M5 [1, 3] 0 = 2 ∧
    exactCoverB M5 [1, 3] = false ∧
    hasExactCover M5 = true := by
  refine ⟨by rfl, by rfl, by rfl, by rfl⟩

/-- C2 (counter-evidence): the matrix `M9` admits no exact cover at all
(checked over all 512 row subsets), yet `DLX.solve` on it does not return
`None` — it returns the label list `[2, 4, 6]`.  This contradicts the
claim that `solve` returns `None` exactly when no exact cover exists. -/
theorem C2_solve_not_none_without_cover :
    solOf (solve 10000 dlxM9) = some (some [2, 4, 6]) ∧
    hasExactCover M9 = false := by
  refine ⟨by rfl, by decide⟩

/-- C4 (counter-evidence): running `DLX.solve` on the freshly built `M5`
matrix does not restore the heap: the root's `down` link is 4 before the
call and 13 after it, and overall the four links of the 18 nodes do not
all match their pre-call values (nor does the `self.rows` counter, 5
before, 3 after). -/
theorem C4_solve_corrupts_links :
    (dlxM5.node 0).down = 4 ∧ dlxM5.rows = 5 ∧
    (stateOf (solve 100 dlxM5)).map
      (fun s5 => ((s5.node 0).down, s5.rows, linksEqOn dlxM5 s5 18)) =
      some (13, 3, false) := by
  refine ⟨by rfl, by rfl, by rfl⟩

/-- C5 (counter-evidence): in `DLX(M1, [1])` the single column header (id
1) has `size = 1`; after the top-level call `cover_row(row_header)` (id 2)
its vertical ring is empty (live count 0) but its `size` field still reads
1 — `cover_row` never updates `size`. -/
theorem C5_size_stale_after_cover_row :
    (dlxM1.node 1).size = 1 ∧ liveSize 10 dlxM1 1 = 1 ∧
    (coverRow 10 dlxM1 2).map (fun s1 => ((s1.node 1).size, liveSize 10 s1 1)) =
      some (1, 0) := by
  refine ⟨by rfl, by rfl, by rfl⟩

/-- C6 (counter-evidence): the instrumented run of `DLX.solve` on `M6`
records, at its second branch step, a ring holding column 2 (stored size
5, live count 1) and column 3 (stored size 3, live count 3); the code
selects column 3, whose number of remaining candidate rows (3) is not
minimal — column 2 has only 1 — because the selection compares the stale
`size` fields, not the remaining candidates. -/
theorem C6_pick_not_min_remaining :
    traceOf (solveT 200 dlxM6) =
      some (some [1, 7, 6],
        [⟨1, [(1, 1, 1), (2, 5, 5), (3, 3, 3), (4, 5, 5)]⟩,
         ⟨3, [(2, 5, 1), (3, 3, 3)]⟩,
         ⟨2, [(2, 5, 1)]⟩]) := by
  rfl

/-- C10 (counter-evidence): with the falsy label `0`, `Node.__init__` does
not set the `name` attribute, and `DLX.solve` on the matrix `[[1]]` ends
with an `AttributeError` when it reads `value_node.row.name`; with the
truthy label `1` the same run returns `[1]`. -/
theorem C10_falsy_label_attribute_error :
    solve 20 dlxM1z = some .attrError ∧
    solOf (solve 20 dlxM1) = some (some [1]) := by
  refine ⟨by rfl, by rfl⟩

/-- C7 (counterexample): two boards, one failing because a pre-commitment
label is absent (`boardDup`: the scan for the second given `(5, (0, 1))`
finds nothing), the other failing because the search itself returns `None`
(`boardDead`: pre-commitment finds and commits all nine givens and
`DLX.solve` then returns `None`) — and `TableModel.solve` reports exactly
the same condition for both: no solution value and the single
`InconsistentInputs` dialog `'Inconsistent!'`.  The two failure kinds are
therefore not distinguishable by the caller, contradicting the claim. -/
theorem C7_cex_failures_indistinguishable :
    outcomeOf (tableSolve 100000 boardDup) = some (none, some "Inconsistent!") ∧
    outcomeOf (tableSolve 100000 boardDead) = some (none, some "Inconsistent!") ∧
    preKind (precommit 100000 sudokuDLX (givens boardDup)) =
      some (false, [1945], some (5, 0, 1)) ∧
    preKind (precommit 100000 sudokuDLX (givens boardDead)) =
      some (true, [330, 740, 1150, 1560, 1970, 2380, 2790, 3200, 3610], none) ∧
    solveAfterPre 100000 sudokuDLX (givens boardDead) = some none := by
  show outcomeOf (tableSolveOn sudokuDLX 100000 boardDup) = _ ∧
    outcomeOf (tableSolveOn sudokuDLX 100000 boardDead) = _ ∧ _ ∧ _ ∧ _
  rw [sudokuDLX_eq]
  refine ⟨by decide!, by decide!, by decide!, by decide!, by decide!⟩

/-- C7 (amended): both failure kinds of `TableModel.solve` — a
pre-commitment label that cannot be found, and a search that exhausts all
branches — are reported identically, as the single exception
`InconsistentInputs` with message `'Inconsistent!'`; the caller cannot
distinguish them. -/
theorem C7_amended_same_report {α : Type} [DecidableEq α]
    (f : Nat) (s : DLX α) (gs : List α) :
    (∀ (s1 s2 : DLX α) (covers : List Nat) (nm : α),
      precommit f s gs = some (.missing s1 covers nm) →
      uncoverStack f s1 covers.reverse = some s2 →
      tableCore f s gs = some ⟨s2, none, some "Inconsistent!"⟩) ∧
    (∀ (s1 s2 s3 : DLX α) (covers : List Nat),
      precommit f s gs = some (.ok s1 covers) →
      solve f s1 = some (.done s2 none) →
      uncoverStack f s2 covers.reverse = some s3 →
      tableCore f s gs = some ⟨s3, none, some "Inconsistent!"⟩) := by
  constructor
  · intro s1 s2 covers nm hpre hun
    unfold tableCore
    rw [hpre]
    simp only [hun]
  · intro s1 s2 s3 covers hpre hsol hun
    unfold tableCore
    rw [hpre]
    simp only [hsol, hun]

/-- C7 (witness for the amended theorem): on `DLX(M1, [1])` the label `5`
is absent, and on the zero matrix `M0` pre-commitment of no labels
succeeds and the search returns `None`; in both cases `TableModel.solve`'s
core reports the identical `'Inconsistent!'` condition. -/
theorem C7_amended_witness :
    (precommit 10 dlxM1 [5] = some (.missing dlxM1 [] 5) ∧
      tableCore 10 dlxM1 [5] = some ⟨dlxM1, none, some "Inconsistent!"⟩) ∧
    (precommit 10 dlxM0 ([] : List Nat) = some (.ok dlxM0 []) ∧
      solve 10 dlxM0 = some (.done dlxM0 none) ∧
      tableCore 10 dlxM0 [] = some ⟨dlxM0, none, some "Inconsistent!"⟩) :=
  ⟨⟨by rfl,
    (C7_amended_same_report 10 dlxM1 [5]).1 dlxM1 dlxM1 [] 5 (by rfl) (by rfl)⟩,
   ⟨by rfl, by rfl,
    (C7_amended_same_report 10 dlxM0 []).2 dlxM0 dlxM0 dlxM0 [] (by rfl) (by rfl) (by rfl)⟩⟩

/-- C8 (counterexample): for the board with the digit 5 at both `(0,0)`
and `(0,1)` (same digit twice in board row 0), pre-commitment does NOT
succeed for both givens: it commits only the row header 1945 (the
candidate row of the first given) and then reports the second given
`(5, (0, 1))` as missing — contradicting the claim that both
pre-commitments succeed and that the subsequent search produces the
no-solution result. -/
theorem C8_cex_precommit_fails :
    givens boardDup = [(5, 0, 0), (5, 0, 1)] ∧
    preKind (precommit 100000 sudokuDLX (givens boardDup)) =
      some (false, [1945], some (5, 0, 1)) := by
  rw [sudokuDLX_eq]
  refine ⟨by decide!, by decide!⟩

/-- C8 (amended): both givens are individually valid candidate rows of the
fresh matrix (their row headers 1945 and 1950 are found by the scan), but
after the first given is committed the second one's candidate row has been
covered, the pre-commitment scan fails to find it, and
`InconsistentInputs` is raised by the pre-commitment phase itself — the
recursive search is never invoked; the user still sees the
`'Inconsistent!'` no-solution dialog. -/
theorem C8_amended_second_given_missing :
    (sudokuDLX.node 1945).name = some (5, 0, 0) ∧
    (sudokuDLX.node 1950).name = some (5, 0, 1) ∧
    findRowLoop 100000 sudokuDLX (5, 0, 0) ((sudokuDLX.node 0).down) =
      some (some 1945) ∧
    findRowLoop 100000 sudokuDLX (5, 0, 1) ((sudokuDLX.node 0).down) =
      some (some 1950) ∧
    outcomeOf (tableSolve 100000 boardDup) = some (none, some "Inconsistent!") := by
  show _ ∧ _ ∧ _ ∧ _ ∧
    outcomeOf (tableSolveOn sudokuDLX 100000 boardDup) = _
  rw [sudokuDLX_eq]
  refine ⟨by decide!, by decide!, by decide!, by decide!, by decide!⟩

end Claims

end Sudoku
